import Mathlib

/-!
psqlodbc `execute.c`: statement preparation, execution and data-at-execution

A shallow embedding of the entry points of `src/execute.c`
(`PGAPI_Prepare`, `PGAPI_ExecDirect`, `PGAPI_Execute`,
`Exec_with_parameters_resolved`, `PGAPI_Transact`, `PGAPI_Cancel`,
`PGAPI_NativeSql`, `PGAPI_ParamData`, `PGAPI_PutData`) as pure state-passing
functions, followed by theorems about them.

Conventions of the embedding

* C `int`, `SDWORD`, `RETCODE` are `Int`; signed overflow is undefined
  behaviour in C and is outside the model.
* A C pointer that may be `NULL` is an `Option`; an array is a `List`.
* A result of type `Option _` is `none` exactly where the C code would
  dereference `NULL`, access an array outside its bounds, or (for the two
  loops of `PGAPI_Execute`) where the supplied fuel is exhausted.
* Functions of the repository that are not part of `execute.c` are the fields
  of `Backend`; the wrappers below fix which fields of the statement and
  connection each of them may change.
* The statement handles are taken to be non-null: the entry points that check
  return `SQL_INVALID_HANDLE` for a null handle before they read anything.
* The code is read as compiled with `ODBCVER >= 0x0300` and without `WIN32`.
-/

namespace Psqlodbc

/-! ## Constants of `sql.h` / `sqlext.h` -/

abbrev RETCODE := Int

abbrev SQL_SUCCESS : RETCODE := 0

abbrev SQL_SUCCESS_WITH_INFO : RETCODE := 1

abbrev SQL_NEED_DATA : RETCODE := 99

abbrev SQL_NO_DATA : RETCODE := 100

abbrev SQL_ERROR : RETCODE := -1

abbrev SQL_INVALID_HANDLE : RETCODE := -2

abbrev SQL_NULL_DATA : Int := -1

abbrev SQL_DATA_AT_EXEC : Int := -2

abbrev SQL_NTS : Int := -3

abbrev SQL_LEN_DATA_AT_EXEC_OFFSET : Int := -100

abbrev SQL_PARAM_PROCEED : Int := 0

abbrev SQL_PARAM_IGNORE : Int := 1

abbrev SQL_PARAM_SUCCESS : Int := 0

abbrev SQL_PARAM_ERROR : Int := 5

abbrev SQL_PARAM_SUCCESS_WITH_INFO : Int := 6

abbrev SQL_PARAM_UNUSED : Int := 7

abbrev SQL_C_CHAR : Int := 1

abbrev SQL_C_BINARY : Int := -2

abbrev SQL_C_WCHAR : Int := -8

abbrev SQL_C_DEFAULT : Int := 99

abbrev SQL_CURSOR_KEYSET_DRIVEN : Int := 1

abbrev SQL_CONCUR_READ_ONLY : Int := 1

/-- Size of an `SQLWCHAR` in bytes. -/
abbrev WCLEN : Int := 2

/-! ## Data model -/

/-- Statement life-cycle states (`STMT_Status` of `statement.h`). -/
inductive STMT_Status
  | STMT_ALLOCATED
  | STMT_READY
  | STMT_PREMATURE
  | STMT_FINISHED
  | STMT_EXECUTING
  deriving DecidableEq, Repr

open STMT_Status

/-- Statement error numbers used by `execute.c`. -/
inductive StmtError
  | STMT_SEQUENCE_ERROR
  | STMT_INTERNAL_ERROR
  | STMT_NO_MEMORY_ERROR
  | STMT_EXEC_ERROR
  | STMT_NO_STMTSTRING
  | STMT_STATUS_ERROR
  | STMT_OPTION_VALUE_CHANGED
  | STMT_OTHER (n : Int)
  deriving DecidableEq, Repr

open StmtError

/-- One link of a result chain (`QResultClass`); the chain itself is a list,
the head being the link a `QResultClass *` points to and the tail its `next`. -/
structure QResultClass where
  /-- Field descriptors, `NULL` when detached. -/
  fields : Option (List String)
  num_fields : Int
  /-- Command tag, `QR_get_command`. -/
  command : Option String
  recent_processed_row_count : Int
  /-- Value of the macro `QR_command_maybe_successful`. -/
  command_maybe_successful : Bool
  deriving DecidableEq, Repr

/-- What `execute.c` itself asks of the connection, in call order. -/
inductive Request
  | CC_send_query (query : String)
  | CC_begin
  | CC_commit
  | CC_abort
  | CC_on_abort
  | CC_send_cancel_request
  | SC_execute (query : Option String)
  | lo_creat
  | lo_open (oid : Int)
  | lo_write (fd : Int) (data : List Nat)
  | lo_close (fd : Int)
  deriving DecidableEq, Repr

/-- Connection error numbers that `execute.c` passes to `CC_set_error`. -/
inductive ConnError
  | CONN_INVALID_ARGUMENT_NO
  | CONN_NO_MEMORY_ERROR
  | STMT_TRUNCATED
  deriving DecidableEq, Repr

open ConnError

/-- The part of `ConnectionClass` (and of its `ConnInfo`) that `execute.c` reads
or changes. `requests` is the trace of the calls `execute.c` made on it. -/
structure ConnectionClass where
  henv : Nat
  /-- `EN_is_odbc3 (conn->henv)`. -/
  odbc3 : Bool
  /-- `CC_is_in_trans`. -/
  in_trans : Bool
  /-- `CC_is_in_autocommit`. -/
  autocommit : Bool
  /-- `CC_is_onlyread`. -/
  onlyread : Bool
  use_server_side_prepare : Bool
  /-- `PG_VERSION_GE (conn, 7.3)`. -/
  pg_version_ge_7_3 : Bool
  disallow_premature : Bool
  use_declarefetch : Bool
  lobj_type : Int
  requests : List Request
  /-- Error number and message stored by `CC_set_error`. -/
  errornumber : Option ConnError := none
  errormsg : Option String := none
  deriving DecidableEq, Repr

/-- Application parameter binding (`ParameterInfoClass`). `used` is the
length/indicator array, addressed by row (the byte arithmetic with
`param_offset_ptr` and `param_bind_type` only selects the row's entry). -/
structure ParameterInfoClass where
  buflen : Int
  buffer : Int
  used : Option (List Int)
  CType : Int
  data_at_exec : Bool
  deriving DecidableEq, Repr

/-- Application parameter descriptor (`APDFields`); `allocated` is the length
of `parameters`. -/
structure APDFields where
  paramset_size : Int
  param_bind_type : Int
  param_offset_ptr : Option Int
  param_operation_ptr : Option (List Int)
  parameters : List ParameterInfoClass
  deriving DecidableEq, Repr

/-- Implementation side of a parameter (`ParameterImplClass`). -/
structure ParameterImplClass where
  SQLType : Int
  PGType : Int
  deriving DecidableEq, Repr

/-- Implementation parameter descriptor (`IPDFields`). The two pointers are
modelled by the memory they point to. -/
structure IPDFields where
  param_processed_ptr : Option Int
  param_status_ptr : Option (List Int)
  parameters : List ParameterImplClass
  deriving DecidableEq, Repr

/-- Put-data entry of one parameter (`PutDataClass`). -/
structure PutDataClass where
  EXEC_used : Option Int
  EXEC_buffer : Option (List Nat)
  lobj_oid : Int
  deriving DecidableEq, Repr

/-- The part of `StatementClass` that `execute.c` reads or changes. -/
structure StatementClass where
  status : STMT_Status
  statement : Option String
  stmt_with_params : Option String
  execute_statement : Option String
  statement_type : Int
  prepare : Bool
  prepared : Bool
  inaccurate_result : Bool
  pre_executing : Bool
  /-- `SC_is_prepare_before_exec`. -/
  prepare_before_exec : Bool
  exec_start_row : Int
  exec_end_row : Int
  exec_current_row : Int
  data_at_exec : Int
  current_exec_param : Int
  put_data : Bool
  lobj_fd : Int
  /-- `options.cursor_type`. -/
  cursor_type : Int
  /-- `options.scroll_concurrency`. -/
  scroll_concurrency : Int
  error_number : Option StmtError
  errormsg : Option String
  /-- `SC_get_Result`. -/
  result : List QResultClass
  /-- `SC_get_Curres`, the chain from the current link on. -/
  curres : List QResultClass
  diag_row_count : Int
  apd : APDFields
  ipd : IPDFields
  /-- `SC_get_PDTI (stmt)->pdata`. -/
  pdata : List PutDataClass
  deriving DecidableEq, Repr

/-- A statement handle as the streaming entry points see it: the statement,
its connection and the statement `execute_delegate` points to, if any. The
delegate is a statement of the same connection. -/
structure Handle where
  conn : ConnectionClass
  stmt : StatementClass
  execute_delegate : Option StatementClass
  deriving DecidableEq, Repr

/-! ## Collaborators outside `execute.c` -/

/-- What `copy_statement_with_parameters` (convert.c) may leave behind. -/
structure CopyOutcome where
  retval : RETCODE
  stmt_with_params : Option String
  execute_statement : Option String
  prepare_before_exec : Bool
  inaccurate_result : Bool
  cursor_type : Int
  scroll_concurrency : Int
  error_number : Option StmtError
  errormsg : Option String

/-- What `SC_execute` (statement.c) may leave behind. -/
structure ExecuteOutcome where
  retval : RETCODE
  status : STMT_Status
  result : List QResultClass
  cursor_type : Int
  scroll_concurrency : Int
  error_number : Option StmtError
  errormsg : Option String
  in_trans : Bool

/-- The functions and macros of the repository that `execute.c` uses and that
are defined in other files. Each is a parameter of the development; the
theorems hold for all of them unless a hypothesis says otherwise. The answers
may depend on the whole connection, its request trace included. -/
structure Backend where
  /-- `statement_type` (statement.c). -/
  statement_type : String → Int
  /-- Macro `STMT_UPDATE` applied to a statement type. -/
  STMT_UPDATE : Int → Bool
  /-- `make_string (s, len, NULL, 0)`, `none` when it returns `NULL`. -/
  make_string : String → Int → Option String
  /-- Whether `malloc` of the given size succeeds. -/
  malloc : Int → Bool
  /-- Whether `realloc` to the given size succeeds. -/
  realloc : Int → Bool
  SC_recycle_statement : ConnectionClass → StatementClass → StatementClass × Bool
  SC_initialize_stmts : StatementClass → Bool → StatementClass
  SC_is_pre_executable : StatementClass → Bool
  copy_statement_with_parameters : ConnectionClass → StatementClass → Bool → CopyOutcome
  SC_execute : ConnectionClass → StatementClass → ExecuteOutcome
  /-- `CC_send_query`: the result chain (`none` for `NULL`) and whether the
  connection is in a transaction afterwards. -/
  CC_send_query : ConnectionClass → String → Option (List QResultClass) × Bool
  /-- `CC_begin`, `CC_commit`, `CC_abort`: the answer and the transaction state. -/
  CC_begin : ConnectionClass → Bool × Bool
  CC_commit : ConnectionClass → Bool × Bool
  CC_abort : ConnectionClass → Bool × Bool
  lo_creat : ConnectionClass → Int
  lo_open : ConnectionClass → Int → Int
  lo_write : ConnectionClass → Int → List Nat → Int
  lo_close : ConnectionClass → Int → Int
  /-- `PGAPI_FreeStmt (hstmt, SQL_CLOSE)`. -/
  PGAPI_FreeStmt_CLOSE : ConnectionClass → StatementClass → Option StatementClass →
    RETCODE × StatementClass × Option StatementClass × Bool
  /-- `cancelNeedDataState`: the delegate link afterwards (the callback queue
  it empties is not part of the model). -/
  cancelNeedDataState : StatementClass → Option StatementClass → Option StatementClass
  dequeueNeedDataCallback : RETCODE → StatementClass → RETCODE
  sqltype_to_default_ctype : ConnectionClass → Int → Int
  ctype_length : Int → Int
  pg_hex2bin : List Nat → Int → List Nat
  /-- Whether the build defines `UNICODE_SUPPORT`. -/
  UNICODE_SUPPORT : Bool
  ucs2strlen : List Nat → Int
  /-- `CC_on_abort (conn, NO_TRANS)`: whether the connection is in a
  transaction afterwards. -/
  CC_on_abort : ConnectionClass → Bool
  /-- `SC_initialize_and_recycle`: the return code, the statement and the
  transaction state afterwards. -/
  SC_initialize_and_recycle : ConnectionClass → StatementClass → RETCODE × StatementClass × Bool
  /-- `strncpy_null (dst, src, len)`: the C string `dst` holds afterwards. -/
  strncpy_null : String → Int → String

/-- Modelled from the spec: `SC_set_error` (statement.c is not under src/)
records the number and message in the statement's "error/diagnostic state". -/
def SC_set_error (self : StatementClass) (number : StmtError) (message : String) :
    StatementClass :=
  { self with error_number := some number, errormsg := some message }

/-- Modelled from the spec: `SC_clear_error` (statement.c is not under src/)
empties the statement's "error/diagnostic state". -/
def SC_clear_error (self : StatementClass) : StatementClass :=
  { self with error_number := none, errormsg := none }

/-- Modelled from the spec: `SC_set_prepared` (statement.c is not under src/)
sets the "prepared-on-server flag". -/
def SC_set_prepared (self : StatementClass) (prepared : Bool) : StatementClass :=
  { self with prepared := prepared }

/-- Modelled from the spec: `SC_set_Result` (statement.h is not under src/)
makes a chain the statement's "result chain head"; its head is also the
current result. -/
def SC_set_Result (self : StatementClass) (res : List QResultClass) : StatementClass :=
  { self with result := res, curres := res }

/-- Modelled from the spec: `SC_recycle_statement` (statement.c is not under
src/). "recycle prior state (release bound result, keep parameter bindings)";
"`Finished`/`Premature` recyclable back to `Ready`". The statement text, the
prepare flags, the row window and row index, the bindings and the application
memory behind the descriptors are kept; the bound result is released; every
other field, and the transaction state, is whatever the absent code makes it. -/
def SC_recycle_statement (be : Backend) (conn : ConnectionClass) (self : StatementClass) :
    ConnectionClass × StatementClass :=
  let r := be.SC_recycle_statement conn self
  ({ conn with in_trans := r.2 },
   { r.1 with
      status := match self.status with
        | STMT_ALLOCATED => STMT_ALLOCATED
        | STMT_EXECUTING => STMT_EXECUTING
        | _ => STMT_READY
      statement := self.statement
      statement_type := self.statement_type
      prepare := self.prepare
      prepared := self.prepared
      pre_executing := self.pre_executing
      exec_start_row := self.exec_start_row
      exec_end_row := self.exec_end_row
      exec_current_row := self.exec_current_row
      result := []
      curres := []
      apd := self.apd
      ipd := self.ipd })

/-- `SC_initialize_stmts` (statement.c, not under src/) is the parameter
`be.SC_initialize_stmts`; it is taken to keep the status, the row window and
row index, the bindings, the result and the streaming state, and may change
every other field (the statement strings, the prepare flags, the category). -/
def SC_initialize_stmts (be : Backend) (self : StatementClass) (initializeOriginal : Bool) :
    StatementClass :=
  { be.SC_initialize_stmts self initializeOriginal with
      status := self.status
      pre_executing := self.pre_executing
      inaccurate_result := self.inaccurate_result
      exec_start_row := self.exec_start_row
      exec_end_row := self.exec_end_row
      exec_current_row := self.exec_current_row
      data_at_exec := self.data_at_exec
      current_exec_param := self.current_exec_param
      put_data := self.put_data
      lobj_fd := self.lobj_fd
      result := self.result
      curres := self.curres
      apd := self.apd
      ipd := self.ipd
      pdata := self.pdata }

/-! ## `PGAPI_Prepare` -/

/-- Lines 102-105: the copy of the text that `PGAPI_Prepare` stores, `none`
when `strdup` or `make_string` returns `NULL`. -/
def stored_copy (be : Backend) (szSqlStr : String) (cbSqlStr : Int) : Option String :=
  if szSqlStr = "" then (if be.malloc 1 then some "" else none)
  else be.make_string szSqlStr cbSqlStr

/-- `PGAPI_Prepare (hstmt, szSqlStr, cbSqlStr)` for a non-null handle. The
`default` case of the `switch` has no counterpart: `STMT_Status` has the five
states only. -/
def PGAPI_Prepare (be : Backend) (conn : ConnectionClass) (self : StatementClass)
    (szSqlStr : Option String) (cbSqlStr : Int) :
    RETCODE × ConnectionClass × StatementClass :=
  -- switch (self->status)
  let afterSwitch : Option (ConnectionClass × StatementClass) :=
    match self.status with
    | STMT_PREMATURE => some (SC_recycle_statement be conn self)
    | STMT_FINISHED => some (SC_recycle_statement be conn self)
    | STMT_ALLOCATED => some (conn, { self with status := STMT_READY })
    | STMT_READY => some (conn, self)
    | STMT_EXECUTING => none
  match afterSwitch with
  | none =>
    (SQL_ERROR, conn, SC_set_error self STMT_SEQUENCE_ERROR
      "PGAPI_Prepare(): The handle does not point to a statement that is ready to be executed")
  | some (conn, self) =>
    let self := SC_initialize_stmts be self true
    match szSqlStr with
    | none => (SQL_ERROR, conn, SC_set_error self STMT_NO_MEMORY_ERROR "the query is NULL")
    | some sz =>
      let copy : Option String := stored_copy be sz cbSqlStr
      let self : StatementClass := { self with statement := copy }
      match copy with
      | none =>
        (SQL_ERROR, conn,
          SC_set_error self STMT_NO_MEMORY_ERROR "No memory available to store statement")
      | some text =>
        let self : StatementClass := { self with prepare := true }
        let self := SC_set_prepared self false
        let self : StatementClass := { self with statement_type := be.statement_type text }
        if conn.onlyread && be.STMT_UPDATE self.statement_type then
          (SQL_ERROR, conn, SC_set_error self STMT_EXEC_ERROR
            "Connection is readonly, only select statements are allowed.")
        else
          (SQL_SUCCESS, conn, self)

/-! ## Connection and large-object calls -/

/-- `CC_begin` (connection.c, not under src/): the parameter `be.CC_begin`
answers; the call is recorded in the request trace. -/
def CC_begin (be : Backend) (conn : ConnectionClass) : Bool × ConnectionClass :=
  let r := be.CC_begin conn
  (r.1, { conn with in_trans := r.2, requests := conn.requests ++ [Request.CC_begin] })

/-- `CC_commit` (connection.c, not under src/): the parameter `be.CC_commit`
answers; the call is recorded in the request trace. -/
def CC_commit (be : Backend) (conn : ConnectionClass) : Bool × ConnectionClass :=
  let r := be.CC_commit conn
  (r.1, { conn with in_trans := r.2, requests := conn.requests ++ [Request.CC_commit] })

/-- `CC_abort` (connection.c, not under src/): the parameter `be.CC_abort`
answers; the call is recorded in the request trace. -/
def CC_abort (be : Backend) (conn : ConnectionClass) : Bool × ConnectionClass :=
  let r := be.CC_abort conn
  (r.1, { conn with in_trans := r.2, requests := conn.requests ++ [Request.CC_abort] })

/-- `CC_send_query (conn, query, NULL, CLEAR_RESULT_ON_ABORT)`. -/
def CC_send_query (be : Backend) (conn : ConnectionClass) (query : String) :
    Option (List QResultClass) × ConnectionClass :=
  let r := be.CC_send_query conn query
  (r.1, { conn with in_trans := r.2,
                    requests := conn.requests ++ [Request.CC_send_query query] })

/-- `CC_send_cancel_request` (connection.c, not under src/): the call is
recorded in the request trace. -/
def CC_send_cancel_request (conn : ConnectionClass) : ConnectionClass :=
  { conn with requests := conn.requests ++ [Request.CC_send_cancel_request] }

/-- `lo_creat (conn, INV_READ | INV_WRITE)`. -/
def lo_creat (be : Backend) (conn : ConnectionClass) : Int × ConnectionClass :=
  (be.lo_creat conn, { conn with requests := conn.requests ++ [Request.lo_creat] })

/-- `lo_open (conn, oid, INV_WRITE)`. -/
def lo_open (be : Backend) (conn : ConnectionClass) (oid : Int) : Int × ConnectionClass :=
  (be.lo_open conn oid, { conn with requests := conn.requests ++ [Request.lo_open oid] })

/-- `lo_write (conn, fd, buf, len)`. -/
def lo_write (be : Backend) (conn : ConnectionClass) (fd : Int) (buf : List Nat) (len : Int) :
    Int × ConnectionClass :=
  (be.lo_write conn fd (buf.take len.toNat),
   { conn with requests := conn.requests ++ [Request.lo_write fd (buf.take len.toNat)] })

/-- `lo_close (conn, fd)`. -/
def lo_close (be : Backend) (conn : ConnectionClass) (fd : Int) : Int × ConnectionClass :=
  (be.lo_close conn fd, { conn with requests := conn.requests ++ [Request.lo_close fd] })

/-- `copy_statement_with_parameters` (convert.c, not under src/) is the
parameter `be.copy_statement_with_parameters`: it builds `stmt_with_params`
and may flag the result as inaccurate, change the cursor options and set an
error; the other fields of the statement are kept. -/
def copy_statement_with_parameters (be : Backend) (conn : ConnectionClass)
    (stmt : StatementClass) (buildPrepareStatement : Bool) : RETCODE × StatementClass :=
  let o := be.copy_statement_with_parameters conn stmt buildPrepareStatement
  (o.retval,
   { stmt with
      stmt_with_params := o.stmt_with_params
      execute_statement := o.execute_statement
      prepare_before_exec := o.prepare_before_exec
      inaccurate_result := o.inaccurate_result
      cursor_type := o.cursor_type
      scroll_concurrency := o.scroll_concurrency
      error_number := o.error_number
      errormsg := o.errormsg })

/-- `SC_execute` (statement.c, not under src/) is the parameter
`be.SC_execute`: it sends the statement, attaches the result and may change
the status, the cursor options, the error and the transaction state; the other
fields of the statement are kept. The call is recorded in the request trace. -/
def SC_execute (be : Backend) (conn : ConnectionClass) (stmt : StatementClass) :
    RETCODE × ConnectionClass × StatementClass :=
  let o := be.SC_execute conn stmt
  (o.retval,
   { conn with in_trans := o.in_trans,
               requests := conn.requests ++ [Request.SC_execute stmt.stmt_with_params] },
   { stmt with
      status := o.status
      result := o.result
      curres := o.result
      cursor_type := o.cursor_type
      scroll_concurrency := o.scroll_concurrency
      error_number := o.error_number
      errormsg := o.errormsg })

/-! ## C library and array access -/

/-- Read `a[i]`. -/
def readAt {α : Type} (a : List α) (i : Int) : Option α :=
  if 0 ≤ i then a[i.toNat]? else none

/-- Write `a[i] = v`. -/
def writeAt {α : Type} (a : List α) (i : Int) (v : α) : Option (List α) :=
  if 0 ≤ i ∧ i.toNat < a.length then some (a.set i.toNat v) else none

/-- C `isspace`. -/
def isspace (c : Char) : Bool :=
  c.toNat = 32 || (9 ≤ c.toNat && c.toNat ≤ 13)

/-- Value of a non-empty run of decimal digits at the head of the input. -/
def scanDigits (cs : List Char) : Option Nat :=
  let ds := cs.takeWhile Char.isDigit
  if ds = [] then none else some (ds.foldl (fun a c => 10 * a + (c.toNat - 48)) 0)

/-- The value an `int` (32 bits, two's complement) holds when `v` is stored in
it: `v` modulo 2^32, between -2^31 and 2^31 - 1. -/
def to_int32 (v : Int) : Int :=
  (v + 2147483648) % 4294967296 - 2147483648

/-- The value a `UInt4` (32 bits, unsigned) holds when `v` is stored in it. -/
def to_uint32 (v : Int) : Int :=
  v % 4294967296

/-- The `%d` conversion of `sscanf` into an `int`: the digits are read without
bound and the value is stored in 32 bits, so that a count of 2^32 is stored
as 0. -/
def scanInt (cs : List Char) : Option Int :=
  match cs.dropWhile isspace with
  | '-' :: rest => (scanDigits rest).map fun n => to_int32 (- (n : Int))
  | '+' :: rest => (scanDigits rest).map fun n => to_int32 (n : Int)
  | rest => (scanDigits rest).map fun n => to_int32 (n : Int)

/-- `sscanf (cmd, "<keyword> %d", &count)`: `some count` when it returns 1. -/
def sscanf_count (keyword : String) (cmd : String) : Option Int :=
  if keyword.data.isPrefixOf cmd.data then scanInt (cmd.data.drop keyword.length) else none

/-- `strnicmp (s, "BEGIN;", 6) == 0`. -/
def begins_with_BEGIN (s : String) : Bool :=
  (s.data.take 6).map Char.toUpper == "BEGIN;".data

/-- C `strlen` on a byte buffer. -/
def strlen (buf : List Nat) : Int :=
  ((buf.takeWhile fun b => b ≠ 0).length : Int)

/-- The `len` bytes `memcpy` reads from `buf`. -/
def memRead (buf : List Nat) (len : Int) : Option (List Nat) :=
  if 0 ≤ len ∧ len.toNat ≤ buf.length then some (buf.take len.toNat) else none

/-! ## `Exec_with_parameters_resolved` -/

/-- Lines 227-270, the dummy execution that only fetches the column
information. It is entered after `exec_current_row = -1; *exec_end = TRUE`. -/
def dummy_execution (be : Backend) (conn : ConnectionClass) (stmt : StatementClass) :
    Option (RETCODE × ConnectionClass × StatementClass) :=
  let in_trans := conn.in_trans
  if !be.SC_is_pre_executable stmt then some (SQL_SUCCESS, conn, stmt)
  else
    match stmt.stmt_with_params with
    | none => none
    | some text =>
      -- issued_begin, and the connection after the optional CC_begin
      let begun : Option (Bool × ConnectionClass) :=
        if begins_with_BEGIN text then some (false, conn)
        else if !in_trans then
          let b := CC_begin be conn
          if b.1 then some (true, b.2) else none
        else some (false, conn)
      match begun with
      | none =>
        some (SQL_ERROR, (CC_begin be conn).2,
              SC_set_error stmt STMT_EXEC_ERROR "Handle prepare error")
      | some (issued_begin, conn) =>
        let q := CC_send_query be conn text
        match q.1 with
        | none =>
          some (SQL_ERROR, (CC_abort be q.2).2,
                SC_set_error stmt STMT_EXEC_ERROR "Handle prepare error")
        | some res =>
          let conn := q.2
          let stmt := SC_set_Result stmt res
          -- for (curres = res; !curres->num_fields; curres = curres->next) ;
          match res.dropWhile (fun r => r.num_fields = 0) with
          | [] => none
          | curres =>
            let stmt : StatementClass := { stmt with curres := curres }
            let conn :=
              if conn.autocommit then
                (if issued_begin then (CC_commit be conn).2 else conn)
              else conn
            some (SQL_SUCCESS, conn, { stmt with status := STMT_FINISHED })

/-- Lines 281-319: special handling of the result for keyset driven cursors
and for a statement prepared before execution. Gives the local `res`, the
statement and `retval`. -/
def reconcile_result (stmt : StatementClass) (retval : RETCODE) :
    Option (List QResultClass × StatementClass × RETCODE) :=
  let res := stmt.result
  if SQL_CURSOR_KEYSET_DRIVEN = stmt.cursor_type ∧
      SQL_CONCUR_READ_ONLY ≠ stmt.scroll_concurrency then
    match res with
    | [] => none
    | [_] => some (res, stmt, retval)
    | r :: k :: rest =>
      let kres := { k with fields := r.fields, num_fields := r.num_fields } :: rest
      some (kres, SC_set_Result stmt kres, retval)
  else if stmt.prepare_before_exec then
    match res with
    | r :: kres =>
      if r.command_maybe_successful then
        some (kres, SC_set_prepared (SC_set_Result stmt kres) true, retval)
      else some (res, { stmt with execute_statement := none }, SQL_ERROR)
    | [] => some (res, { stmt with execute_statement := none }, SQL_ERROR)
  else some (res, stmt, retval)

/-- Lines 320-337: the status of the current row. -/
def row_status (retval : RETCODE) : Int :=
  if retval = SQL_SUCCESS then SQL_PARAM_SUCCESS
  else if retval = SQL_SUCCESS_WITH_INFO then SQL_PARAM_SUCCESS_WITH_INFO
  else SQL_PARAM_ERROR

/-- Lines 357-369: an `UPDATE 0` or `DELETE 0` command tag gives `SQL_NO_DATA`. -/
def no_data_check (conn : ConnectionClass) (r : QResultClass) (retval : RETCODE) : RETCODE :=
  match r.command with
  | none => retval
  | some cmd =>
    if retval = SQL_SUCCESS ∧ conn.odbc3 = true then
      let count : Int :=
        match sscanf_count "UPDATE" cmd with
        | some n => n
        | none =>
          match sscanf_count "DELETE" cmd with
          | some n => n
          | none => -1
      if 0 = count then SQL_NO_DATA else retval
    else retval

/-- Store `v` in the slot of the current row of `param_status_ptr`, when the
application supplied the array. -/
def set_row_status (stmt : StatementClass) (v : Int) : Option StatementClass :=
  match stmt.ipd.param_status_ptr with
  | none => some stmt
  | some a =>
    match writeAt a stmt.exec_current_row v with
    | none => none
    | some a1 => some { stmt with ipd := { stmt.ipd with param_status_ptr := some a1 } }

/-- Lines 338-350: end the batch or step to the next row; the Boolean is
`*exec_end`. -/
def advance_row (stmt : StatementClass) : Bool × StatementClass :=
  let end_row : Int :=
    if stmt.exec_end_row < 0 then stmt.apd.paramset_size - 1 else stmt.exec_end_row
  if stmt.inaccurate_result = true ∨ stmt.exec_current_row ≥ end_row then
    (true, { stmt with exec_current_row := -1 })
  else (false, { stmt with exec_current_row := stmt.exec_current_row + 1 })

/-- Lines 351-372: the outcome reported for the local `res`. -/
def report_result (conn : ConnectionClass) (res : List QResultClass) (stmt : StatementClass)
    (retval : RETCODE) : RETCODE × StatementClass :=
  match res with
  | [] => (retval, stmt)
  | q :: _ =>
    (no_data_check conn q retval, { stmt with diag_row_count := q.recent_processed_row_count })

/-- Lines 373-383: was the cursor's info changed by the execution? -/
def cursor_changed (cursor_type scroll_concurrency : Int) (stmt : StatementClass)
    (retval : RETCODE) : RETCODE × StatementClass :=
  if retval = SQL_SUCCESS ∧
      (stmt.cursor_type ≠ cursor_type ∨ stmt.scroll_concurrency ≠ scroll_concurrency) then
    (SQL_SUCCESS_WITH_INFO,
     SC_set_error stmt STMT_OPTION_VALUE_CHANGED "cursor updatability changed")
  else (retval, stmt)

/-- Lines 281-383: what follows a real execution that did not return
`SQL_ERROR`; `cursor_type` and `scroll_concurrency` are the values saved
before the execution. The result is `(retval, *exec_end, statement)`. -/
def after_execute (conn : ConnectionClass) (cursor_type scroll_concurrency : Int)
    (stmt : StatementClass) (retval : RETCODE) : Option (RETCODE × Bool × StatementClass) :=
  match reconcile_result stmt retval with
  | none => none
  | some (res, stmt, retval) =>
    match set_row_status stmt (row_status retval) with
    | none => none
    | some stmt =>
      let a := advance_row stmt
      let r := report_result conn res a.2 retval
      let c := cursor_changed cursor_type scroll_concurrency r.2 r.1
      some (c.1, a.1, c.2)

/-- Lines 271-383, the real execution; `cursor_type` and `scroll_concurrency`
are the values saved before the execution. -/
def real_execution (be : Backend) (conn : ConnectionClass) (cursor_type scroll_concurrency : Int)
    (stmt : StatementClass) : Option (RETCODE × Bool × ConnectionClass × StatementClass) :=
  let e := SC_execute be conn stmt
  if e.1 = SQL_ERROR then
    some (e.1, true, e.2.1, { e.2.2 with exec_current_row := -1 })
  else
    match after_execute conn cursor_type scroll_concurrency e.2.2 e.1 with
    | none => none
    | some (retval, exec_end, stmt) => some (retval, exec_end, e.2.1, stmt)

/-- Lines 208-214: prepare the statement at the backend side if possible. -/
def prepare_before_exec (conn : ConnectionClass) (stmt : StatementClass) : Bool :=
  stmt.prepare && !stmt.prepared && !stmt.inaccurate_result &&
    conn.use_server_side_prepare && conn.pg_version_ge_7_3

/-- `Exec_with_parameters_resolved (stmt, &exec_end)`: the result is
`(retval, *exec_end, connection, statement)`. -/
def Exec_with_parameters_resolved (be : Backend) (conn : ConnectionClass)
    (stmt : StatementClass) : Option (RETCODE × Bool × ConnectionClass × StatementClass) :=
  -- save the cursor's info before the execution
  let cursor_type := stmt.cursor_type
  let scroll_concurrency := stmt.scroll_concurrency
  let c := copy_statement_with_parameters be conn stmt (prepare_before_exec conn stmt)
  let retval := c.1
  let stmt : StatementClass := { c.2 with current_exec_param := -1 }
  if retval ≠ SQL_SUCCESS then
    some (retval, true, conn, { stmt with exec_current_row := -1 })
  else if stmt.inaccurate_result && conn.disallow_premature then
    match dummy_execution be conn { stmt with exec_current_row := -1 } with
    | none => none
    | some (retval, conn, stmt) => some (retval, true, conn, stmt)
  else real_execution be conn cursor_type scroll_concurrency stmt

/-! ## `PGAPI_Execute` -/

/-- Outcome of the loop over rows marked `SQL_PARAM_IGNORE`. -/
inductive Skip
  | all_ignored
  | row (r : Int)
  deriving DecidableEq, Repr

/-- Lines 524-531, one test of
`while (param_operation_ptr[exec_current_row] == SQL_PARAM_IGNORE)` at row
`cur`; `next` is what the loop gives from row `cur + 1` on. -/
def skip_step (op : List Int) (end_row cur : Int) (next : Option Skip) : Option Skip :=
  match readAt op cur with
  | none => none
  | some v =>
    if v = SQL_PARAM_IGNORE then
      if cur ≥ end_row then some Skip.all_ignored else next
    else some (Skip.row cur)

/-- Lines 524-532, the loop over the rows marked `SQL_PARAM_IGNORE`. The first
argument is fuel. -/
def skip_ignored (op : List Int) (end_row : Int) : Nat → Int → Option Skip
  | 0, cur => skip_step op end_row cur none
  | n + 1, cur => skip_step op end_row cur (skip_ignored op end_row n (cur + 1))

/-- Lines 563-574: the `data_at_exec` flag of one parameter for row
`current_row`, read from its length/indicator array. -/
def data_at_exec_flag (current_row : Int) (p : ParameterInfoClass) : Option Bool :=
  match p.used with
  | none => some false
  | some u =>
    (readAt u current_row).map fun v =>
      decide (v = SQL_DATA_AT_EXEC ∨ v ≤ SQL_LEN_DATA_AT_EXEC_OFFSET)

/-- Lines 561-583: recompute the `data_at_exec` flag of every parameter for
row `current_row` and count them into `stmt->data_at_exec` (second argument). -/
def scan_data_at_exec (current_row : Int) :
    List ParameterInfoClass → Int → Option (List ParameterInfoClass × Int)
  | [], d => some ([], d)
  | p :: ps, d =>
    match data_at_exec_flag current_row p with
    | none => none
    | some f =>
      match scan_data_at_exec current_row ps (if f then (if d < 0 then 1 else d + 1) else d) with
      | none => none
      | some (ps, d) => some ({ p with data_at_exec := f } :: ps, d)

/-- Lines 544-597: the check for data-at-execution parameters of the current
row; `none` inside is the undefined read, the Boolean says whether
`SQL_NEED_DATA` is returned. -/
def check_data_at_exec (stmt : StatementClass) : Option (Bool × StatementClass) :=
  if !stmt.pre_executing then
    let current_row : Int := if stmt.exec_current_row < 0 then 0 else stmt.exec_current_row
    let processed := stmt.ipd.param_processed_ptr.map fun n => n + 1
    let stmt : StatementClass := { stmt with ipd := { stmt.ipd with param_processed_ptr := processed } }
    let stmt : StatementClass := { stmt with data_at_exec := -1 }
    match scan_data_at_exec current_row stmt.apd.parameters stmt.data_at_exec with
    | none => none
    | some (params, d) =>
      let stmt : StatementClass := { stmt with apd := { stmt.apd with parameters := params }, data_at_exec := d }
      some (decide (stmt.data_at_exec > 0), stmt)
  else some (false, stmt)

/-- Lines 520-602: the loop over `next_param_row`. The first `Nat` is fuel. -/
def next_param_row (be : Backend) (end_row : Int) :
    Nat → ConnectionClass → StatementClass →
      Option (RETCODE × ConnectionClass × StatementClass)
  | 0, _, _ => none
  | fuel + 1, conn, stmt =>
    let skipped : Option Skip :=
      match stmt.apd.param_operation_ptr with
      | none => some (Skip.row stmt.exec_current_row)
      | some op =>
        skip_ignored op end_row (end_row - stmt.exec_current_row).toNat stmt.exec_current_row
    match skipped with
    | none => none
    | some Skip.all_ignored => some (SQL_SUCCESS, conn, { stmt with exec_current_row := -1 })
    | some (Skip.row r) =>
      -- initialize the current row status
      match set_row_status { stmt with exec_current_row := r } SQL_PARAM_ERROR with
      | none => none
      | some stmt =>
        match check_data_at_exec stmt with
        | none => none
        | some (true, stmt) => some (SQL_NEED_DATA, conn, stmt)
        | some (false, stmt) =>
          match Exec_with_parameters_resolved be conn stmt with
          | none => none
          | some (retval, exec_end, conn, stmt) =>
            if !exec_end then next_param_row be end_row fuel conn stmt
            else some (retval, conn, stmt)

/-- Lines 512-513: `for (i = 0; i <= end_row; i++) param_status_ptr[i] = SQL_PARAM_UNUSED`. -/
def reset_param_status (a : List Int) (end_row : Int) : Option (List Int) :=
  if end_row < 0 then some a
  else if (end_row + 1).toNat ≤ a.length then
    some (List.replicate (end_row + 1).toNat SQL_PARAM_UNUSED ++ a.drop (end_row + 1).toNat)
  else none

/-- Lines 495-518: the row window, and the initialisation done when the
current row is the first one. `recycle` and `recycled` are the locals of
`PGAPI_Execute`. The row loop follows. -/
def execute_rows (be : Backend) (conn : ConnectionClass) (stmt : StatementClass)
    (recycle recycled : Bool) : Option (RETCODE × ConnectionClass × StatementClass) :=
  let apdopts := stmt.apd
  let start_row : Int := if stmt.exec_start_row < 0 then 0 else stmt.exec_start_row
  let end_row : Int :=
    if stmt.exec_end_row < 0 then apdopts.paramset_size - 1 else stmt.exec_end_row
  let stmt :=
    if stmt.exec_current_row < 0 then { stmt with exec_current_row := start_row } else stmt
  let init : Option (ConnectionClass × StatementClass) :=
    if stmt.exec_current_row = start_row then
      let processed := stmt.ipd.param_processed_ptr.map fun _ => (0 : Int)
      let stmt : StatementClass := { stmt with ipd := { stmt.ipd with param_processed_ptr := processed } }
      let status : Option (Option (List Int)) :=
        match stmt.ipd.param_status_ptr with
        | none => some none
        | some a => (reset_param_status a end_row).map some
      match status with
      | none => none
      | some param_status =>
        let stmt : StatementClass := { stmt with ipd := { stmt.ipd with param_status_ptr := param_status } }
        if recycle && !recycled then some (SC_recycle_statement be conn stmt)
        else some (conn, stmt)
    else some (conn, stmt)
  match init with
  | none => none
  | some (conn, stmt) =>
    next_param_row be end_row ((end_row - stmt.exec_current_row).toNat + 1) conn stmt

/-- `PGAPI_Execute (hstmt, flag)` for a non-null handle. -/
def PGAPI_Execute (be : Backend) (conn : ConnectionClass) (stmt : StatementClass)
    (_flag : Nat) : Option (RETCODE × ConnectionClass × StatementClass) :=
  -- a premature statement was already executed from SQLPrepare/SQLDescribeCol
  let early : (Option RETCODE) × ConnectionClass × StatementClass :=
    if stmt.prepare && decide (stmt.status = STMT_PREMATURE) then
      if stmt.inaccurate_result then
        let r := SC_recycle_statement be conn { stmt with exec_current_row := -1 }
        (none, r.1, r.2)
      else
        let stmt : StatementClass := { stmt with status := STMT_FINISHED }
        if stmt.errormsg = none then (some SQL_SUCCESS, conn, stmt)
        else (some SQL_ERROR, conn, stmt)
    else (none, conn, stmt)
  match early with
  | (some retval, conn, stmt) => some (retval, conn, stmt)
  | (none, conn, stmt) =>
    let stmt := SC_clear_error stmt
    match stmt.statement with
    | none =>
      some (SQL_ERROR, conn, SC_set_error stmt STMT_NO_STMTSTRING
        "This handle does not have a SQL statement stored in it")
    | some _ =>
      if stmt.exec_current_row > 0 then
        -- executing an array of parameters: do not recycle
        execute_rows be conn stmt false false
      else if stmt.prepared then
        -- re-executing a prepared statement: discard the old result
        execute_rows be conn (SC_set_Result stmt []) false false
      else if stmt.status = STMT_FINISHED then
        let r := SC_recycle_statement be conn stmt
        execute_rows be r.1 r.2 true true
      else if (stmt.prepare ∧ stmt.status ≠ STMT_READY) ∨
          (stmt.status ≠ STMT_ALLOCATED ∧ stmt.status ≠ STMT_READY) then
        some (SQL_ERROR, conn, SC_set_error stmt STMT_STATUS_ERROR
          "The handle does not point to a statement that is ready to be executed")
      else execute_rows be conn stmt true false

/-! ## `PGAPI_Cancel` -/

/-- `PGAPI_FreeStmt (hstmt, SQL_CLOSE)` (statement.c, not under src/) is the
parameter `be.PGAPI_FreeStmt_CLOSE`: it may change the statement, its delegate
link and the transaction state in any way. -/
def PGAPI_FreeStmt_CLOSE (be : Backend) (h : Handle) : RETCODE × Handle :=
  let r := be.PGAPI_FreeStmt_CLOSE h.conn h.stmt h.execute_delegate
  (r.1, { conn := { h.conn with in_trans := r.2.2.2 },
          stmt := r.2.1,
          execute_delegate := r.2.2.1 })

/-- `PGAPI_Cancel (hstmt)` for a non-null handle. -/
def PGAPI_Cancel (be : Backend) (h : Handle) : RETCODE × Handle :=
  let stmt := h.stmt
  if stmt.data_at_exec < 0 then
    -- not in the middle of SQLParamData/SQLPutData so cancel like a close
    let conn :=
      if stmt.status = STMT_EXECUTING then CC_send_cancel_request h.conn else h.conn
    let r := PGAPI_FreeStmt_CLOSE be { h with conn := conn }
    (SQL_SUCCESS, { r.2 with stmt := SC_clear_error r.2.stmt })
  else
    -- in the middle of SQLParamData/SQLPutData, so cancel that
    let stmt : StatementClass :=
      { stmt with data_at_exec := -1, current_exec_param := -1, put_data := false }
    (SQL_SUCCESS,
     { h with stmt := stmt,
              execute_delegate := be.cancelNeedDataState stmt h.execute_delegate })

/-! ## `PGAPI_ParamData` -/

/-- The statement the streaming calls work on:
`estmt = stmt->execute_delegate ? stmt->execute_delegate : stmt`. -/
def Handle.estmt (h : Handle) : StatementClass :=
  match h.execute_delegate with
  | some d => d
  | none => h.stmt

/-- Store `estmt` back where `Handle.estmt` read it. -/
def Handle.set_estmt (h : Handle) (estmt : StatementClass) : Handle :=
  match h.execute_delegate with
  | some _ => { h with execute_delegate := some estmt }
  | none => { h with stmt := estmt }

/-- The handle after the call changed the connection and `estmt`. -/
def Handle.store (h : Handle) (conn : ConnectionClass) (estmt : StatementClass) : Handle :=
  { h.set_estmt estmt with conn := conn }

/-- `SC_set_error (stmt, ...)` on the statement the handle names. -/
def Handle.set_error (h : Handle) (number : StmtError) (message : String) : Handle :=
  { h with stmt := SC_set_error h.stmt number message }

/-- What a call of `PGAPI_ParamData` leaves: the return code, the value stored
through `prgbValue` (if any), the handle, and `estmt`. -/
structure ParamDataResult where
  retval : RETCODE
  token : Option Int
  handle : Handle
  estmt : StatementClass
  deriving DecidableEq, Repr

/-- Lines 907-929, `for (; i < allocated; i++) if (parameters[i].data_at_exec) ... break`:
the scan of the parameters from index `i` on; the list is the part of the
array that starts at `i`. -/
def scan_from : List ParameterInfoClass → Nat → Option Nat
  | [], _ => none
  | p :: rest, i => if p.data_at_exec then some i else scan_from rest (i + 1)

/-- The first index `j` with `i ≤ j < allocated` whose parameter is flagged
data-at-exec. -/
def next_data_at_exec (parameters : List ParameterInfoClass) (i : Nat) : Option Nat :=
  scan_from (parameters.drop i) i

/-- Lines 900-931: fill in the token of the next data-at-exec parameter. -/
def next_token (h : Handle) (conn : ConnectionClass) (estmt : StatementClass)
    (prgbValue : Bool) : ParamDataResult :=
  let apdopts := estmt.apd
  let i : Int := if estmt.current_exec_param ≥ 0 then estmt.current_exec_param + 1 else 0
  match next_data_at_exec apdopts.parameters i.toNat with
  | none =>
    { retval := SQL_NEED_DATA, token := none,
      handle := h.store conn estmt, estmt := estmt }
  | some j =>
    let estmt : StatementClass :=
      { estmt with data_at_exec := estmt.data_at_exec - 1,
                   current_exec_param := (j : Int),
                   put_data := false }
    let buffer : Int := (apdopts.parameters[j]?.map fun p => p.buffer).getD 0
    let buflen : Int := (apdopts.parameters[j]?.map fun p => p.buflen).getD 0
    let token : Option Int :=
      if prgbValue then
        match h.execute_delegate with
        | some _ =>
          -- `offset` and `perrow` are `UInt4`, and so is the product with the row
          let offset : Int := to_uint32 (apdopts.param_offset_ptr.getD 0)
          let perrow : Int :=
            to_uint32 (if apdopts.param_bind_type > 0 then apdopts.param_bind_type else buflen)
          some (buffer + offset + to_uint32 (estmt.exec_current_row * perrow))
        | none => some buffer
      else none
    { retval := SQL_NEED_DATA, token := token,
      handle := h.store conn estmt, estmt := estmt }

/-- Line 893, `stmt->execute_delegate = NULL`: the handle once the row is
done; without a delegate `estmt` is the statement itself. -/
def detach_delegate (h : Handle) (conn : ConnectionClass) (estmt : StatementClass) : Handle :=
  match h.execute_delegate with
  | some _ => { h with conn := conn, execute_delegate := none }
  | none => { h with conn := conn, stmt := estmt }

/-- Lines 896-931: the batch has more rows; run them and, when one of them
needs data, hand out its first token. -/
def resume_rows (be : Backend) (h : Handle) (conn : ConnectionClass) (estmt : StatementClass)
    (prgbValue : Bool) : Option ParamDataResult :=
  match PGAPI_Execute be conn estmt 0 with
  | none => none
  | some (retval, conn, estmt) =>
    if SQL_NEED_DATA ≠ retval then
      some { retval := retval, token := none, handle := h.store conn estmt, estmt := estmt }
    else some (next_token h conn estmt prgbValue)

/-- Lines 866-882: close the large object. The first component is `none` when
the in-line commit failed (`lobj_fd` is then left as it was). -/
def close_large_object (be : Backend) (h : Handle) (estmt : StatementClass) :
    Option StatementClass × ConnectionClass :=
  if estmt.lobj_fd ≥ 0 then
    let conn := (lo_close be h.conn estmt.lobj_fd).2
    if !h.conn.use_declarefetch && conn.autocommit then
      let c := CC_commit be conn
      if !c.1 then (none, c.2)
      else (some { estmt with lobj_fd := -1 }, c.2)
    else (some { estmt with lobj_fd := -1 }, conn)
  else (some estmt, h.conn)

/-- `PGAPI_ParamData (hstmt, prgbValue)` for a non-null handle; `prgbValue`
says whether the pointer is non-null. -/
def PGAPI_ParamData (be : Backend) (h : Handle) (prgbValue : Bool) :
    Option ParamDataResult :=
  let estmt := h.estmt
  let apdopts := estmt.apd
  if estmt.data_at_exec < 0 then
    some { retval := SQL_ERROR, token := none,
           handle := h.set_error STMT_SEQUENCE_ERROR
             "No execution-time parameters for this statement",
           estmt := estmt }
  else if estmt.data_at_exec > (apdopts.parameters.length : Int) then
    some { retval := SQL_ERROR, token := none,
           handle := h.set_error STMT_SEQUENCE_ERROR
             "Too many execution-time parameters were present",
           estmt := estmt }
  else
    match close_large_object be h estmt with
    | (none, conn) =>
      some { retval := SQL_ERROR, token := none,
             handle := { h with conn := conn }.set_error STMT_EXEC_ERROR
               "Could not commit (in-line) a transaction",
             estmt := estmt }
    | (some estmt, conn) =>
      if estmt.data_at_exec = 0 then
        -- done, now copy the params and then execute the statement
        match Exec_with_parameters_resolved be conn estmt with
        | none => none
        | some (retval, exec_end, conn, estmt) =>
          if exec_end then
            some { retval := be.dequeueNeedDataCallback retval
                     (detach_delegate h conn estmt).stmt,
                   token := none,
                   handle := detach_delegate h conn estmt, estmt := estmt }
          else resume_rows be h conn estmt prgbValue
      else some (next_token h conn estmt prgbValue)

/-! ## `PGAPI_PutData` -/

/-- Lines 988-1017: the number of bytes to put. -/
def put_length (be : Backend) (ctype : Int) (rgbValue : List Nat) (cbValue : Int) : Int :=
  if SQL_NTS = cbValue ∧ be.UNICODE_SUPPORT = true ∧ SQL_C_WCHAR = ctype then
    WCLEN * be.ucs2strlen rgbValue
  else if SQL_NTS = cbValue ∧ SQL_C_CHAR = ctype then strlen rgbValue
  else if cbValue < 0 then cbValue
  else if ctype = SQL_C_CHAR ∨ ctype = SQL_C_BINARY ∨
      (be.UNICODE_SUPPORT = true ∧ ctype = SQL_C_WCHAR) then cbValue
  else be.ctype_length ctype

/-- `PGAPI_PutData (hstmt, rgbValue, cbValue)` for a non-null handle. -/
def PGAPI_PutData (be : Backend) (h : Handle) (rgbValue : List Nat) (cbValue : Int) :
    Option (RETCODE × Handle) :=
  let estmt := h.estmt
  if estmt.current_exec_param < 0 then
    some (SQL_ERROR, h.set_error STMT_SEQUENCE_ERROR
      "Previous call was not SQLPutData or SQLParamData")
  else
    let i := estmt.current_exec_param
    match readAt estmt.apd.parameters i, readAt estmt.ipd.parameters i, readAt estmt.pdata i with
    | some current_param, some current_iparam, some current_pdata =>
      let conn := h.conn
      let ctype : Int :=
        if current_param.CType = SQL_C_DEFAULT then
          be.sqltype_to_default_ctype conn current_iparam.SQLType
        else current_param.CType
      let putlen0 := put_length be ctype rgbValue cbValue
      -- hex-encoded input for a large object is decoded first
      let decoded : Bool :=
        decide (current_iparam.PGType = conn.lobj_type ∧ SQL_C_CHAR = ctype) &&
          be.malloc (Int.tdiv putlen0 2 + 1)
      let putbuf : List Nat := if decoded then be.pg_hex2bin rgbValue putlen0 else rgbValue
      let putlen : Int := if decoded then Int.tdiv putlen0 2 else putlen0
      -- store the put-data entry, then the statement, into the handle
      let store := fun (c : ConnectionClass) (e : StatementClass) (pd : PutDataClass) =>
        h.store c { e with pdata := e.pdata.set i.toNat pd }
      if !estmt.put_data then
        -- first call
        let estmt : StatementClass := { estmt with put_data := true }
        if !be.malloc 4 then
          some (SQL_ERROR,
            (store conn estmt { current_pdata with EXEC_used := none }).set_error
              STMT_NO_MEMORY_ERROR "Out of memory in PGAPI_PutData (1)")
        else
          let current_pdata : PutDataClass := { current_pdata with EXEC_used := some putlen }
          if cbValue = SQL_NULL_DATA then some (SQL_SUCCESS, store conn estmt current_pdata)
          else if current_iparam.PGType = conn.lobj_type then
            -- begin transaction if needed
            let b : Bool × ConnectionClass :=
              if !conn.in_trans then CC_begin be conn else (true, conn)
            if !b.1 then
              some (SQL_ERROR, (store b.2 estmt current_pdata).set_error STMT_EXEC_ERROR
                "Could not begin (in-line) a transaction")
            else
              let cr := lo_creat be b.2
              let current_pdata : PutDataClass := { current_pdata with lobj_oid := cr.1 }
              if current_pdata.lobj_oid = 0 then
                some (SQL_ERROR, (store cr.2 estmt current_pdata).set_error STMT_EXEC_ERROR
                  "Couldnt create large object.")
              else
                let op := lo_open be cr.2 current_pdata.lobj_oid
                let estmt : StatementClass := { estmt with lobj_fd := op.1 }
                if estmt.lobj_fd < 0 then
                  some (SQL_ERROR, (store op.2 estmt current_pdata).set_error STMT_EXEC_ERROR
                    "Couldnt open large object for writing.")
                else
                  let w := lo_write be op.2 estmt.lobj_fd putbuf putlen
                  some (SQL_SUCCESS, store w.2 estmt current_pdata)
          else if !be.malloc (putlen + 1) then
            some (SQL_ERROR,
              (store conn estmt { current_pdata with EXEC_buffer := none }).set_error
                STMT_NO_MEMORY_ERROR "Out of memory in PGAPI_PutData (2)")
          else
            match memRead putbuf putlen with
            | none => none
            | some data =>
              some (SQL_SUCCESS,
                store conn estmt { current_pdata with EXEC_buffer := some (data ++ [0]) })
      else
        -- calling SQLPutData more than once
        if current_iparam.PGType = conn.lobj_type then
          let w := lo_write be conn estmt.lobj_fd putbuf putlen
          match current_pdata.EXEC_used with
          | none => none
          | some used =>
            some (SQL_SUCCESS,
              store w.2 estmt { current_pdata with EXEC_used := some (used + putlen) })
        else
          match current_pdata.EXEC_used with
          | none => none
          | some old_pos =>
            if putlen > 0 then
              let current_pdata : PutDataClass :=
                { current_pdata with EXEC_used := some (old_pos + putlen) }
              -- dont lose the old pointer in case out of memory
              if !be.realloc (old_pos + putlen + 1) then
                some (SQL_ERROR, (store conn estmt current_pdata).set_error
                  STMT_NO_MEMORY_ERROR "Out of memory in PGAPI_PutData (3)")
              else
                match memRead (current_pdata.EXEC_buffer.getD []) old_pos,
                      memRead putbuf putlen with
                | some kept, some data =>
                  some (SQL_SUCCESS,
                    store conn estmt
                      { current_pdata with EXEC_buffer := some (kept ++ data ++ [0]) })
                | _, _ => none
            else some (SQL_ERROR, h)
    | _, _, _ => none

/-! ## `PGAPI_ExecDirect` -/

/-- `SC_initialize_and_recycle` (statement.c, not under src/) is the parameter
`be.SC_initialize_and_recycle`; it is taken to keep the parameter bindings and
may change every other field of the statement and the transaction state. -/
def SC_initialize_and_recycle (be : Backend) (conn : ConnectionClass) (self : StatementClass) :
    RETCODE × ConnectionClass × StatementClass :=
  let r := be.SC_initialize_and_recycle conn self
  (r.1, { conn with in_trans := r.2.2 }, { r.2.1 with apd := self.apd, ipd := self.ipd })

/-- `PGAPI_ExecDirect (hstmt, szSqlStr, cbSqlStr, flag)` for a non-null handle
and a non-null text. -/
def PGAPI_ExecDirect (be : Backend) (conn : ConnectionClass) (stmt : StatementClass)
    (szSqlStr : String) (cbSqlStr : Int) (flag : Nat) :
    Option (RETCODE × ConnectionClass × StatementClass) :=
  let r := SC_initialize_and_recycle be conn stmt
  if SQL_SUCCESS ≠ r.1 then some (r.1, r.2.1, r.2.2)
  else
    let conn := r.2.1
    -- keep a copy of the un-parametrized statement
    let copy : Option String := be.make_string szSqlStr cbSqlStr
    let stmt : StatementClass := { r.2.2 with statement := copy }
    match copy with
    | none =>
      some (SQL_ERROR, conn,
        SC_set_error stmt STMT_NO_MEMORY_ERROR "No memory available to store statement")
    | some text =>
      -- a statement left premature is set to finished so it can be recycled
      let stmt : StatementClass :=
        if stmt.status = STMT_PREMATURE then { stmt with status := STMT_FINISHED } else stmt
      let stmt : StatementClass := { stmt with statement_type := be.statement_type text }
      if conn.onlyread && be.STMT_UPDATE stmt.statement_type then
        some (SQL_ERROR, conn, SC_set_error stmt STMT_EXEC_ERROR
          "Connection is readonly, only select statements are allowed.")
      else PGAPI_Execute be conn stmt flag

/-! ## `PGAPI_Transact` -/

abbrev SQL_COMMIT : Nat := 0

abbrev SQL_ROLLBACK : Nat := 1

/-- The null environment handle. -/
abbrev SQL_NULL_HENV : Nat := 0

/-- `CC_set_error` (connection.c, not under src/): stores the number and the
message in the connection. -/
def CC_set_error (conn : ConnectionClass) (number : ConnError) (message : String) :
    ConnectionClass :=
  { conn with errornumber := some number, errormsg := some message }

/-- `CC_on_abort (conn, NO_TRANS)` (connection.c, not under src/): the
parameter `be.CC_on_abort` gives the transaction state; the call is recorded
in the request trace. -/
def CC_on_abort (be : Backend) (conn : ConnectionClass) : ConnectionClass :=
  { conn with in_trans := be.CC_on_abort conn,
              requests := conn.requests ++ [Request.CC_on_abort] }

/-- Lines 645-682: `PGAPI_Transact (henv, hdbc, fType)` with a non-null
`hdbc`, the connection `conn`. A chain without a link is read like `NULL`. -/
def transact_connection (be : Backend) (conn : ConnectionClass) (fType : Nat) :
    RETCODE × ConnectionClass :=
  let stmt_string : Option String :=
    if fType = SQL_COMMIT then some "COMMIT"
    else if fType = SQL_ROLLBACK then some "ROLLBACK"
    else none
  match stmt_string with
  | none =>
    (SQL_ERROR, CC_set_error conn CONN_INVALID_ARGUMENT_NO
      "PGAPI_Transact can only be called with SQL_COMMIT or SQL_ROLLBACK as parameter")
  | some stmt_string =>
    -- if manual commit and in transaction, then proceed
    if !conn.autocommit && conn.in_trans then
      let q := CC_send_query be conn stmt_string
      match q.1 with
      | none => (SQL_ERROR, CC_on_abort be q.2)
      | some [] => (SQL_ERROR, CC_on_abort be q.2)
      | some (res :: _) =>
        let ok := res.command_maybe_successful
        if !ok then (SQL_ERROR, CC_on_abort be q.2)
        else (SQL_SUCCESS, q.2)
    else (SQL_SUCCESS, conn)

/-- Lines 626-643: the loop over the registry `conns[]`, from the slot the
list starts with; an empty slot is `none`. -/
def transact_environment (be : Backend) (henv : Nat) (fType : Nat) :
    List (Option ConnectionClass) → RETCODE × List (Option ConnectionClass)
  | [] => (SQL_SUCCESS, [])
  | none :: rest =>
    let r := transact_environment be henv fType rest
    (r.1, none :: r.2)
  | some conn :: rest =>
    if conn.henv = henv then
      let t := transact_connection be conn fType
      if t.1 ≠ SQL_SUCCESS then (SQL_ERROR, some t.2 :: rest)
      else
        let r := transact_environment be henv fType rest
        (r.1, some t.2 :: r.2)
    else
      let r := transact_environment be henv fType rest
      (r.1, some conn :: r.2)

/-- `PGAPI_Transact (henv, hdbc, fType)`. `conns` is the registry `conns[]`,
`hdbc` the registry slot of the connection the handle points to (`none` for
`SQL_NULL_HDBC`); the result is `none` when that slot holds no connection. -/
def PGAPI_Transact (be : Backend) (conns : List (Option ConnectionClass)) (henv : Nat)
    (hdbc : Option Nat) (fType : Nat) : Option (RETCODE × List (Option ConnectionClass)) :=
  match hdbc with
  | none =>
    if henv = SQL_NULL_HENV then some (SQL_INVALID_HANDLE, conns)
    else some (transact_environment be henv fType conns)
  | some i =>
    match conns[i]? with
    | some (some conn) =>
      let t := transact_connection be conn fType
      some (t.1, conns.set i (some t.2))
    | _ => none

/-! ## `PGAPI_NativeSql` -/

/-- What `PGAPI_NativeSql` leaves: the return code, the C string it stored in
`szSqlStr` and the value it stored through `pcbSqlStr` (`none` when it stored
nothing there) and the connection. -/
structure NativeSqlResult where
  retval : RETCODE
  szSqlStr : Option String
  pcbSqlStr : Option Int
  conn : ConnectionClass
  deriving DecidableEq, Repr

/-- `PGAPI_NativeSql (hdbc, szSqlStrIn, cbSqlStrIn, szSqlStr, cbSqlStrMax,
pcbSqlStr)`; the two Booleans say whether `szSqlStr` and `pcbSqlStr` are
non-null. C strings are `String`s without their terminator. -/
def PGAPI_NativeSql (be : Backend) (conn : ConnectionClass) (szSqlStrIn : String)
    (cbSqlStrIn : Int) (szSqlStr : Bool) (cbSqlStrMax : Int) (pcbSqlStr : Bool) :
    NativeSqlResult :=
  let ptr : Option String :=
    if cbSqlStrIn = 0 then some "" else be.make_string szSqlStrIn cbSqlStrIn
  match ptr with
  | none =>
    { retval := SQL_ERROR, szSqlStr := none, pcbSqlStr := none,
      conn := CC_set_error conn CONN_NO_MEMORY_ERROR
        "No memory available to store native sql string" }
  | some ptr =>
    let len : Int := (ptr.length : Int)
    let truncated : Bool := szSqlStr && decide (len ≥ cbSqlStrMax)
    { retval := if truncated then SQL_SUCCESS_WITH_INFO else SQL_SUCCESS,
      szSqlStr := if szSqlStr then some (be.strncpy_null ptr cbSqlStrMax) else none,
      pcbSqlStr := if pcbSqlStr then some len else none,
      conn :=
        if truncated then
          CC_set_error conn STMT_TRUNCATED "The buffer was too small for the NativeSQL."
        else conn }

/-! ## Definitions used to state the theorems -/

/-- Indices, counted from `i`, of the parameters flagged data-at-exec, in
ascending order. -/
def flagged_from : List ParameterInfoClass → Nat → List Nat
  | [], _ => []
  | p :: rest, i =>
    if p.data_at_exec then i :: flagged_from rest (i + 1) else flagged_from rest (i + 1)

/-- Indices of the parameters flagged data-at-exec, in ascending order. -/
def flagged (parameters : List ParameterInfoClass) : List Nat :=
  flagged_from parameters 0

/-- The statement after `m` tokens were handed out for the suspended row of
`stmt`: the `m` smallest flagged parameters are done, the last of them is the
current one. -/
def streaming_state (stmt : StatementClass) : Nat → StatementClass
  | 0 => stmt
  | n + 1 =>
    { stmt with
      data_at_exec := stmt.data_at_exec - ((n + 1 : Nat) : Int)
      current_exec_param := ((((flagged stmt.apd.parameters)[n]?).getD 0 : Nat) : Int)
      put_data := false }

/-! ## Example objects -/

/-- A backend on which every request succeeds and no cursor option changes. -/
def okBackend : Backend where
  statement_type := fun s => if "SELECT".data.isPrefixOf s.data then 0 else 1
  STMT_UPDATE := fun t => decide (t > 0)
  make_string := fun s _ => some s
  malloc := fun _ => true
  realloc := fun _ => true
  SC_recycle_statement := fun c s => (s, c.in_trans)
  SC_initialize_stmts := fun s _ => s
  SC_is_pre_executable := fun _ => true
  copy_statement_with_parameters := fun _ s _ =>
    { retval := SQL_SUCCESS, stmt_with_params := s.statement, execute_statement := none,
      prepare_before_exec := false, inaccurate_result := false,
      cursor_type := s.cursor_type, scroll_concurrency := s.scroll_concurrency,
      error_number := none, errormsg := none }
  SC_execute := fun c s =>
    { retval := SQL_SUCCESS, status := STMT_FINISHED,
      result := [{ fields := none, num_fields := 0, command := some "INSERT 0 1",
                   recent_processed_row_count := 1, command_maybe_successful := true }],
      cursor_type := s.cursor_type, scroll_concurrency := s.scroll_concurrency,
      error_number := none, errormsg := none, in_trans := c.in_trans }
  CC_send_query := fun c _ => (some [], c.in_trans)
  CC_begin := fun _ => (true, true)
  CC_commit := fun _ => (true, false)
  CC_abort := fun _ => (true, false)
  lo_creat := fun _ => 1
  lo_open := fun _ _ => 3
  lo_write := fun _ _ d => d.length
  lo_close := fun _ _ => 0
  PGAPI_FreeStmt_CLOSE := fun c s d => (SQL_SUCCESS, s, d, c.in_trans)
  cancelNeedDataState := fun _ _ => none
  dequeueNeedDataCallback := fun r _ => r
  sqltype_to_default_ctype := fun _ _ => SQL_C_CHAR
  ctype_length := fun _ => 4
  pg_hex2bin := fun d _ => d
  UNICODE_SUPPORT := false
  ucs2strlen := fun _ => 0
  CC_on_abort := fun _ => false
  SC_initialize_and_recycle := fun c s =>
    if s.status = STMT_EXECUTING then (SQL_ERROR, s, c.in_trans)
    else
      (SQL_SUCCESS,
       { s with status := if s.status = STMT_ALLOCATED then STMT_ALLOCATED else STMT_READY,
                result := [], curres := [] },
       c.in_trans)
  strncpy_null := fun src len => String.mk (src.data.take (len - 1).toNat)

/-- A connection in autocommit mode, outside a transaction, nothing sent yet. -/
def idleConn : ConnectionClass where
  henv := 0
  odbc3 := true
  in_trans := false
  autocommit := true
  onlyread := false
  use_server_side_prepare := false
  pg_version_ge_7_3 := true
  disallow_premature := false
  use_declarefetch := false
  lobj_type := 26
  requests := []

/-- A freshly allocated statement: no text, no parameters, a single row. -/
def freshStmt : StatementClass where
  status := STMT_ALLOCATED
  statement := none
  stmt_with_params := none
  execute_statement := none
  statement_type := -2
  prepare := false
  prepared := false
  inaccurate_result := false
  pre_executing := false
  prepare_before_exec := false
  exec_start_row := -1
  exec_end_row := -1
  exec_current_row := -1
  data_at_exec := -1
  current_exec_param := -1
  put_data := false
  lobj_fd := -1
  cursor_type := 0
  scroll_concurrency := SQL_CONCUR_READ_ONLY
  error_number := none
  errormsg := none
  result := []
  curres := []
  diag_row_count := 0
  apd := { paramset_size := 1, param_bind_type := 0, param_offset_ptr := none,
           param_operation_ptr := none, parameters := [] }
  ipd := { param_processed_ptr := none, param_status_ptr := none, parameters := [] }
  pdata := []

/-- A finished statement that still holds an earlier text. -/
def finishedStmt : StatementClass :=
  { freshStmt with status := STMT_FINISHED, statement := some "DELETE FROM t", prepared := true }

/-- A handle whose delegate is streaming parameter 0 while the statement itself
is idle. -/
def delegatingHandle : Handle where
  conn := idleConn
  stmt := freshStmt
  execute_delegate := some { freshStmt with data_at_exec := 0, current_exec_param := -1 }

/-- A statement suspended on its second data-at-exec parameter. -/
def streamingStmt : StatementClass :=
  { freshStmt with status := STMT_READY, statement := some "INSERT INTO t VALUES (?, ?)",
                   exec_current_row := 0, data_at_exec := 0, current_exec_param := 1,
                   put_data := true }

/-- The handle of a statement on `idleConn`, without a delegate. -/
def idleHandle (stmt : StatementClass) : Handle :=
  { conn := idleConn, stmt := stmt, execute_delegate := none }

/-- A statement whose request is in flight. -/
def executingStmt : StatementClass :=
  { freshStmt with status := STMT_EXECUTING }

/-- A backend whose close step reports an error. -/
def failingCloseBackend : Backend :=
  { okBackend with
    PGAPI_FreeStmt_CLOSE := fun c s d => (SQL_ERROR, s, d, c.in_trans) }

/-- A statement left premature by an earlier describe, with the prepare flag. -/
def prematureStmt : StatementClass :=
  { freshStmt with status := STMT_PREMATURE, statement := some "SELECT 1", prepare := true }

/-- An executing statement positioned on row 1 of a two-row parameter array. -/
def midArrayStmt : StatementClass :=
  { freshStmt with
    status := STMT_EXECUTING, statement := some "SELECT 1", exec_current_row := 1,
    apd := { freshStmt.apd with paramset_size := 2 } }

/-- An executing statement that is prepared on the server. -/
def serverPreparedStmt : StatementClass :=
  { freshStmt with status := STMT_EXECUTING, statement := some "SELECT 1", prepared := true }

/-- Successive `PGAPI_PutData` calls on one handle, one per chunk, each with
`cbValue` the length of its chunk; the return codes are not looked at. -/
def put_chunks (be : Backend) : Handle → List (List Nat) → Option Handle
  | h, [] => some h
  | h, chunk :: rest =>
    match PGAPI_PutData be h chunk chunk.length with
    | none => none
    | some (_, h1) => put_chunks be h1 rest

/-- The driven statement of `h` is receiving parameter `i` (binding `p`,
implementation side `ip`) and its put-data entry holds the bytes `acc`. -/
def Staged (h : Handle) (i : Int) (p : ParameterInfoClass) (ip : ParameterImplClass)
    (oid : Int) (acc : List Nat) : Prop :=
  h.estmt.current_exec_param = i ∧ h.estmt.put_data = true ∧
  readAt h.estmt.apd.parameters i = some p ∧
  readAt h.estmt.ipd.parameters i = some ip ∧
  readAt h.estmt.pdata i =
    some { EXEC_used := some (acc.length : Int), EXEC_buffer := some (acc ++ [0]),
           lobj_oid := oid }

/-- A handle that was just given the token of parameter 0, a binary parameter
that is not a large object. -/
def binaryParamHandle : Handle :=
  idleHandle
    { freshStmt with
      status := STMT_READY, statement := some "INSERT INTO t VALUES (?)", exec_current_row := 0,
      data_at_exec := 0, current_exec_param := 0,
      apd := { freshStmt.apd with
        parameters := [{ buflen := 0, buffer := 4096, used := some [SQL_DATA_AT_EXEC],
                         CType := SQL_C_BINARY, data_at_exec := true }] },
      ipd := { freshStmt.ipd with parameters := [{ SQLType := -4, PGType := 17 }] },
      pdata := [{ EXEC_used := none, EXEC_buffer := none, lobj_oid := 0 }] }

/-- Index at which the scan for the token after the `m`-th one starts. -/
def scan_start (parameters : List ParameterInfoClass) : Nat → Nat
  | 0 => 0
  | n + 1 => ((flagged parameters)[n]?).getD 0 + 1

/-- The count kept in `stmt->data_at_exec`, a negative value standing for none. -/
def pending_count (d : Int) : Int := if d < 0 then 0 else d

/-- The last row of the batch as `PGAPI_Execute` and
`Exec_with_parameters_resolved` compute it. -/
def end_row_of (stmt : StatementClass) : Int :=
  if stmt.exec_end_row < 0 then stmt.apd.paramset_size - 1 else stmt.exec_end_row

/-- Statement `b` has the bindings, row window, counters and streaming state of
statement `a`; the per-row status array may differ in content, not in size. -/
def SameBatch (a b : StatementClass) : Prop :=
  b.apd = a.apd ∧
  b.ipd.param_processed_ptr = a.ipd.param_processed_ptr ∧
  b.ipd.parameters = a.ipd.parameters ∧
  b.ipd.param_status_ptr.map List.length = a.ipd.param_status_ptr.map List.length ∧
  b.exec_start_row = a.exec_start_row ∧
  b.exec_end_row = a.exec_end_row ∧
  b.pre_executing = a.pre_executing ∧
  b.statement = a.statement ∧
  b.data_at_exec = a.data_at_exec ∧
  b.put_data = a.put_data ∧
  b.lobj_fd = a.lobj_fd ∧
  b.pdata = a.pdata

/-- A statement suspended on row 1 with parameter 0 still marked as the
current one, as left by `PGAPI_Execute`, one `PGAPI_ParamData` and no cancel;
both parameters of row 1 are data-at-exec. -/
def staleStmt : StatementClass :=
  { freshStmt with
    status := STMT_READY, statement := some "INSERT INTO t VALUES (?, ?)",
    exec_current_row := 1, data_at_exec := 1, current_exec_param := 0,
    apd := { freshStmt.apd with
      paramset_size := 2,
      parameters :=
        [{ buflen := 4, buffer := 4096, used := some [SQL_DATA_AT_EXEC, SQL_DATA_AT_EXEC],
           CType := SQL_C_BINARY, data_at_exec := true },
         { buflen := 4, buffer := 8192, used := some [SQL_DATA_AT_EXEC, SQL_DATA_AT_EXEC],
           CType := SQL_C_BINARY, data_at_exec := true }] },
    ipd := { freshStmt.ipd with
      parameters := [{ SQLType := -4, PGType := 17 }, { SQLType := -4, PGType := 17 }] },
    pdata := [{ EXEC_used := none, EXEC_buffer := none, lobj_oid := 0 },
              { EXEC_used := none, EXEC_buffer := none, lobj_oid := 0 }] }

/-- The statement `PGAPI_Execute` leaves for `staleStmt`. -/
def staleStmt_suspended : StatementClass :=
  { staleStmt with data_at_exec := 2 }

/-- A statement on row 1 whose streaming was cancelled after a large object
had been opened for a parameter: no current parameter, `lobj_fd` still 3. -/
def openLobjStmt : StatementClass :=
  { staleStmt with data_at_exec := -1, current_exec_param := -1, lobj_fd := 3 }

/-- A backend whose commit fails. -/
def failingCommitBackend : Backend :=
  { okBackend with CC_commit := fun c => (false, c.in_trans) }

/-- A statement with two parameters of which the second is data-at-exec for
the single row. -/
def oneStreamedStmt : StatementClass :=
  { freshStmt with
    status := STMT_READY, statement := some "INSERT INTO t VALUES (?, ?)",
    apd := { freshStmt.apd with
      parameters :=
        [{ buflen := 4, buffer := 4096, used := some [4],
           CType := SQL_C_BINARY, data_at_exec := false },
         { buflen := 4, buffer := 8192, used := some [SQL_DATA_AT_EXEC],
           CType := SQL_C_BINARY, data_at_exec := false }] },
    ipd := { freshStmt.ipd with
      param_processed_ptr := some 0,
      parameters := [{ SQLType := -4, PGType := 17 }, { SQLType := -4, PGType := 17 }] },
    pdata := [{ EXEC_used := none, EXEC_buffer := none, lobj_oid := 0 },
              { EXEC_used := none, EXEC_buffer := none, lobj_oid := 0 }] }

/-- The statement `PGAPI_Execute` leaves for `oneStreamedStmt`. -/
def oneStreamedStmt_suspended : StatementClass :=
  { oneStreamedStmt with
    exec_current_row := 0, data_at_exec := 1,
    apd := { oneStreamedStmt.apd with
      parameters :=
        [{ buflen := 4, buffer := 4096, used := some [4],
           CType := SQL_C_BINARY, data_at_exec := false },
         { buflen := 4, buffer := 8192, used := some [SQL_DATA_AT_EXEC],
           CType := SQL_C_BINARY, data_at_exec := true }] },
    ipd := { oneStreamedStmt.ipd with param_processed_ptr := some 1 } }

/-- Every request of a row's execution succeeds: the parameters are
substituted (`SQL_SUCCESS`, result not flagged inaccurate) and `SC_execute`
does not return `SQL_ERROR`, delivering a result whenever the cursor it leaves
is an updatable keyset-driven one. -/
def RowsSucceed (be : Backend) : Prop :=
  (∀ c0 s0 b, (be.copy_statement_with_parameters c0 s0 b).retval = SQL_SUCCESS ∧
    (be.copy_statement_with_parameters c0 s0 b).inaccurate_result = false) ∧
  (∀ c0 s0, (be.SC_execute c0 s0).retval ≠ SQL_ERROR ∧
    (SQL_CURSOR_KEYSET_DRIVEN = (be.SC_execute c0 s0).cursor_type ∧
      SQL_CONCUR_READ_ONLY ≠ (be.SC_execute c0 s0).scroll_concurrency →
      (be.SC_execute c0 s0).result ≠ []))

/-- Row `r` is marked `SQL_PARAM_IGNORE` in the operation array. -/
def row_ignored (op : Option (List Int)) (r : Nat) : Bool :=
  match op with
  | none => false
  | some a => a[r]? == some SQL_PARAM_IGNORE

/-- Number of rows among the `n` rows from `r` on that are not marked
`SQL_PARAM_IGNORE`. -/
def live_rows (op : Option (List Int)) : Nat → Nat → Nat
  | 0, _ => 0
  | n + 1, r => (if row_ignored op r then 0 else 1) + live_rows op n (r + 1)

/-- No parameter of `ps` needs streamed data on a row of `[s, e]`, and every
length/indicator array covers those rows. -/
def NoDataAtExec (ps : List ParameterInfoClass) (s e : Int) : Prop :=
  ∀ p ∈ ps, ∀ r : Int, s ≤ r → r ≤ e → data_at_exec_flag r p = some false

/-- What the row loop relies on from one row to the next. -/
def LoopInv (st : StatementClass) (op : Option (List Int)) (s e : Int) : Prop :=
  st.apd.param_operation_ptr = op ∧ end_row_of st = e ∧ st.pre_executing = false ∧
  (∀ n, st.ipd.param_status_ptr.map List.length = some n → e.toNat < n) ∧
  NoDataAtExec st.apd.parameters s e

/-- First row of the batch as `PGAPI_Execute` computes it (lines 495-496). -/
def start_row_of (stmt : StatementClass) : Int :=
  if stmt.exec_start_row < 0 then 0 else stmt.exec_start_row

/-- A batch of rows 0..3 of an insert with one bound parameter; rows 1 and 3
are marked `SQL_PARAM_IGNORE`, the counter holds a stale 9. -/
def batchStmt : StatementClass :=
  { freshStmt with
    status := STMT_READY, statement := some "INSERT INTO t VALUES (?)",
    exec_start_row := 0, exec_end_row := 3,
    apd := { freshStmt.apd with
      paramset_size := 4,
      param_operation_ptr := some [SQL_PARAM_PROCEED, SQL_PARAM_IGNORE, SQL_PARAM_PROCEED,
        SQL_PARAM_IGNORE],
      parameters := [{ buflen := 4, buffer := 4096, used := some [4, 4, 4, 4],
                       CType := SQL_C_BINARY, data_at_exec := false }] },
    ipd := { freshStmt.ipd with
      param_processed_ptr := some 9,
      param_status_ptr := some [0, 0, 0, 0],
      parameters := [{ SQLType := -4, PGType := 17 }] },
    pdata := [{ EXEC_used := none, EXEC_buffer := none, lobj_oid := 0 }] }

/-- Slot `i` of the registry holds connection `c`, which belongs to `henv`. -/
def registered (conns : List (Option ConnectionClass)) (henv : Nat) (i : Nat)
    (c : ConnectionClass) : Prop :=
  conns[i]? = some (some c) ∧ c.henv = henv

/-- What the fan-out of `PGAPI_Transact` over the registry `conns` returns
(`ret`) and leaves in the registry (`out`): slots that hold no connection of
`henv` are as before; either every connection of `henv` was processed with
success, or the call reports `SQL_ERROR` for the first one (slot `k`) that did
not succeed, the connections of `henv` before it being processed and every
slot after it being as before. -/
def FanOut (be : Backend) (henv fType : Nat) (conns : List (Option ConnectionClass))
    (ret : RETCODE) (out : List (Option ConnectionClass)) : Prop :=
  out.length = conns.length ∧
  (∀ i, (∀ c, ¬ registered conns henv i c) → out[i]? = conns[i]?) ∧
  ((ret = SQL_SUCCESS ∧
      ∀ i c, registered conns henv i c →
        (transact_connection be c fType).1 = SQL_SUCCESS ∧
        out[i]? = some (some (transact_connection be c fType).2)) ∨
   (ret = SQL_ERROR ∧
      ∃ k c, registered conns henv k c ∧
        (transact_connection be c fType).1 ≠ SQL_SUCCESS ∧
        out[k]? = some (some (transact_connection be c fType).2) ∧
        (∀ i ci, i < k → registered conns henv i ci →
          (transact_connection be ci fType).1 = SQL_SUCCESS ∧
          out[i]? = some (some (transact_connection be ci fType).2)) ∧
        (∀ i, k < i → out[i]? = conns[i]?)))

/-- A connection of environment `henv` in manual-commit mode with an open
transaction; `lobj_type` tells the example connections apart. -/
def manualConn (henv : Nat) (lobj_type : Int) : ConnectionClass :=
  { idleConn with henv := henv, autocommit := false, in_trans := true, lobj_type := lobj_type }

/-- A backend on which the transaction command of the connection with
`lobj_type` 0 fails and every other one succeeds. -/
def transactBackend : Backend :=
  { okBackend with
    CC_send_query := fun c _ =>
      if c.lobj_type = 0 then (none, c.in_trans)
      else (some [{ fields := none, num_fields := 0, command := some "ROLLBACK",
                    recent_processed_row_count := 0, command_maybe_successful := true }],
            false) }

/-- A registry with three connections of environment 7, the second of which
fails, an empty slot, and a connection of environment 8 in front. -/
def exampleRegistry : List (Option ConnectionClass) :=
  [some (manualConn 8 1), some (manualConn 7 2), none, some (manualConn 7 0),
   some (manualConn 7 3)]

/-- The connection after the in-line `CC_begin` of the first `PGAPI_PutData` on
the large-object path (lines 1053-1061): unchanged when a transaction is open. -/
def begun (be : Backend) (conn : ConnectionClass) : ConnectionClass :=
  if conn.in_trans then conn else (CC_begin be conn).2

/-- A handle that was just given the token of parameter 0, the only
data-at-exec parameter of the row, a binary parameter bound to a large object. -/
def lobjParamHandle : Handle :=
  idleHandle
    { freshStmt with
      status := STMT_READY, statement := some "INSERT INTO t VALUES (?)", exec_current_row := 0,
      data_at_exec := 0, current_exec_param := 0,
      apd := { freshStmt.apd with
        parameters := [{ buflen := 0, buffer := 4096, used := some [SQL_DATA_AT_EXEC],
                         CType := SQL_C_BINARY, data_at_exec := true }] },
      ipd := { freshStmt.ipd with parameters := [{ SQLType := -4, PGType := 26 }] },
      pdata := [{ EXEC_used := none, EXEC_buffer := none, lobj_oid := 0 }] }

/-- A backend on which `realloc` fails and everything else succeeds. -/
def noReallocBackend : Backend :=
  { okBackend with realloc := fun _ => false }

/-- A connection that prepares statements on the server. -/
def preparingConn : ConnectionClass :=
  { idleConn with use_server_side_prepare := true }

/-- A result link that acknowledges a command; `ok` is
`QR_command_maybe_successful`. -/
def ackLink (command : String) (ok : Bool) : QResultClass :=
  { fields := none, num_fields := 0, command := some command,
    recent_processed_row_count := 0, command_maybe_successful := ok }

/-- A backend that uses the declare-and-execute wrapper when asked to; the
first request on a connection comes back without an error code but with a
failed declare acknowledgment, every later one succeeds. -/
def failingDeclareBackend : Backend :=
  { okBackend with
    copy_statement_with_parameters := fun _ s b =>
      { retval := SQL_SUCCESS, stmt_with_params := s.statement, execute_statement := none,
        prepare_before_exec := b, inaccurate_result := false,
        cursor_type := s.cursor_type, scroll_concurrency := s.scroll_concurrency,
        error_number := none, errormsg := none },
    SC_execute := fun c s =>
      { retval := SQL_SUCCESS, status := STMT_FINISHED,
        result :=
          if c.requests = [] then [ackLink "PREPARE" false]
          else [ackLink "PREPARE" true, ackLink "INSERT 0 1" true],
        cursor_type := s.cursor_type, scroll_concurrency := s.scroll_concurrency,
        error_number := none, errormsg := none, in_trans := c.in_trans } }

/-- A prepared (not yet on the server) insert over the rows 0 and 1, with
per-row status tracking. -/
def twoRowStmt : StatementClass :=
  { freshStmt with
    status := STMT_READY, statement := some "INSERT INTO t VALUES (?)", prepare := true,
    apd := { freshStmt.apd with
      paramset_size := 2,
      parameters := [{ buflen := 4, buffer := 4096, used := some [4, 4],
                       CType := SQL_C_BINARY, data_at_exec := false }] },
    ipd := { freshStmt.ipd with
      param_processed_ptr := some 0,
      param_status_ptr := some [SQL_PARAM_UNUSED, SQL_PARAM_UNUSED],
      parameters := [{ SQLType := -4, PGType := 17 }] },
    pdata := [{ EXEC_used := none, EXEC_buffer := none, lobj_oid := 0 }] }

/-- `PGAPI_Prepare` followed, when it returned `SQL_SUCCESS`, by
`PGAPI_Execute`. -/
def prepare_then_execute (be : Backend) (conn : ConnectionClass) (stmt : StatementClass)
    (szSqlStr : String) (cbSqlStr : Int) (flag : Nat) :
    Option (RETCODE × ConnectionClass × StatementClass) :=
  let p := PGAPI_Prepare be conn stmt (some szSqlStr) cbSqlStr
  if p.1 = SQL_SUCCESS then PGAPI_Execute be p.2.1 p.2.2 flag else some p

/-- A backend that wraps the text into a declare-and-execute request when it
is asked to, and whose answer then starts with the declare acknowledgment. -/
def wrappingBackend : Backend :=
  { okBackend with
    copy_statement_with_parameters := fun _ s b =>
      { retval := SQL_SUCCESS,
        stmt_with_params := if b then s.statement.map ("PREPARE;" ++ ·) else s.statement,
        execute_statement := none,
        prepare_before_exec := b, inaccurate_result := false,
        cursor_type := s.cursor_type, scroll_concurrency := s.scroll_concurrency,
        error_number := none, errormsg := none },
    SC_execute := fun c s =>
      { retval := SQL_SUCCESS, status := STMT_FINISHED,
        result :=
          if s.prepare_before_exec then [ackLink "PREPARE" true, ackLink "SELECT" true]
          else [ackLink "SELECT" true],
        cursor_type := s.cursor_type, scroll_concurrency := s.scroll_concurrency,
        error_number := none, errormsg := none, in_trans := c.in_trans } }

/-- The statement `PGAPI_ExecDirect` has built when it reaches the read-only
check (lines 146-165) from the statement `s0` that `SC_initialize_and_recycle`
left and the copy of the text. -/
def direct_statement (be : Backend) (s0 : StatementClass) (copy : String) : StatementClass :=
  let stmt : StatementClass := { s0 with statement := some copy }
  let stmt : StatementClass :=
    if stmt.status = STMT_PREMATURE then { stmt with status := STMT_FINISHED } else stmt
  { stmt with statement_type := be.statement_type copy }

/-- A read-only connection. -/
def readOnlyConn : ConnectionClass :=
  { idleConn with onlyread := true }

/-- The row index of the statement lies within its row window. -/
def in_window (stmt : StatementClass) : Prop :=
  start_row_of stmt ≤ stmt.exec_current_row ∧ stmt.exec_current_row ≤ end_row_of stmt

/-- The spec's invariant: "Row index is either -1 (idle) or within
`[start_row, end_row]`". -/
def idle_or_in_window (stmt : StatementClass) : Prop :=
  stmt.exec_current_row = -1 ∨ in_window stmt

/-- Statement `b` has the row window of statement `a`. -/
def SameWindow (a b : StatementClass) : Prop :=
  start_row_of b = start_row_of a ∧ end_row_of b = end_row_of a

/-- A prepared insert over the rows 1 and 2 of a three-row array; the only
parameter is data-at-exec on the rows 0 and 2. -/
def windowStmt : StatementClass :=
  { freshStmt with
    status := STMT_READY, statement := some "INSERT INTO t VALUES (?)",
    exec_start_row := 1, exec_end_row := 2,
    apd := { freshStmt.apd with
      paramset_size := 3,
      parameters := [{ buflen := 4, buffer := 4096,
                       used := some [SQL_DATA_AT_EXEC, 4, SQL_DATA_AT_EXEC],
                       CType := SQL_C_BINARY, data_at_exec := false }] },
    ipd := { freshStmt.ipd with
      param_processed_ptr := some 0,
      parameters := [{ SQLType := -4, PGType := 17 }] },
    pdata := [{ EXEC_used := none, EXEC_buffer := none, lobj_oid := 0 }] }

/-- The calls `PGAPI_Execute`, `PGAPI_ParamData`, `PGAPI_PutData` (4 bytes),
`PGAPI_ParamData` on `windowStmt`, which complete its batch, followed by one
more `PGAPI_ParamData`; for each call the return code and the row index it
leaves. -/
def window_run : Option (List (RETCODE × Int)) :=
  (PGAPI_Execute okBackend idleConn windowStmt 0).bind fun e =>
  (PGAPI_ParamData okBackend (idleHandle e.2.2) true).bind fun p1 =>
  (PGAPI_PutData okBackend p1.handle [1, 2, 3, 4] 4).bind fun d =>
  (PGAPI_ParamData okBackend d.2 true).bind fun p2 =>
  (PGAPI_ParamData okBackend p2.handle true).map fun p3 =>
    [(e.1, e.2.2.exec_current_row), (p1.retval, p1.estmt.exec_current_row),
     (d.1, d.2.estmt.exec_current_row), (p2.retval, p2.estmt.exec_current_row),
     (p3.retval, p3.estmt.exec_current_row)]

/-- A result link that describes one column. -/
def describedLink : QResultClass :=
  { fields := some ["a"], num_fields := 1, command := some "SELECT",
    recent_processed_row_count := 0, command_maybe_successful := true }

/-- A backend like `wrappingBackend` whose answer to the wrapper is the declare
acknowledgment followed by a described result. -/
def describingBackend : Backend :=
  { wrappingBackend with
    SC_execute := fun c s =>
      { retval := SQL_SUCCESS, status := STMT_FINISHED,
        result :=
          if s.prepare_before_exec then [ackLink "PREPARE" true, describedLink]
          else [describedLink],
        cursor_type := s.cursor_type, scroll_concurrency := s.scroll_concurrency,
        error_number := none, errormsg := none, in_trans := c.in_trans } }

/-- A prepared select positioned on its single row; `cursor_type` and
`scroll_concurrency` are the cursor options. -/
def preparedSelect (cursor_type scroll_concurrency : Int) : StatementClass :=
  { freshStmt with
    status := STMT_READY, statement := some "SELECT a FROM t", prepare := true,
    exec_current_row := 0, cursor_type := cursor_type,
    scroll_concurrency := scroll_concurrency }

/-- A backend on which the execution falls back to a forward-only cursor
(cursor type 0). -/
def cursorChangingBackend : Backend :=
  { okBackend with
    SC_execute := fun c s =>
      { retval := SQL_SUCCESS, status := STMT_FINISHED,
        result := [ackLink "SELECT" true],
        cursor_type := 0, scroll_concurrency := s.scroll_concurrency,
        error_number := none, errormsg := none, in_trans := c.in_trans } }

/-- A backend on which every update affects no row. -/
def zeroRowsBackend : Backend :=
  { okBackend with
    SC_execute := fun c s =>
      { retval := SQL_SUCCESS, status := STMT_FINISHED,
        result := [ackLink "UPDATE 0" true],
        cursor_type := s.cursor_type, scroll_concurrency := s.scroll_concurrency,
        error_number := none, errormsg := none, in_trans := c.in_trans } }

/-- A single-row statement with per-row status tracking and the given cursor
type. -/
def trackedStmt (cursor_type : Int) : StatementClass :=
  { freshStmt with
    status := STMT_READY, statement := some "UPDATE t SET a = 1", cursor_type := cursor_type,
    ipd := { freshStmt.ipd with
      param_processed_ptr := some 0, param_status_ptr := some [SQL_PARAM_UNUSED] } }

/-- Lines 495-518 of `PGAPI_Execute`: the row index is put on the first row
of the window if it was idle and, when it is on the first row, the processed
counter and the status slots 0..`end_row` are reset and the statement is
recycled if `PGAPI_Execute` asks for it. This is the part of `execute_rows`
that precedes the row loop. -/
def start_batch (be : Backend) (conn : ConnectionClass) (stmt : StatementClass)
    (recycle recycled : Bool) : Option (ConnectionClass × StatementClass) :=
  let start_row : Int := if stmt.exec_start_row < 0 then 0 else stmt.exec_start_row
  let end_row : Int :=
    if stmt.exec_end_row < 0 then stmt.apd.paramset_size - 1 else stmt.exec_end_row
  let stmt :=
    if stmt.exec_current_row < 0 then { stmt with exec_current_row := start_row } else stmt
  if stmt.exec_current_row = start_row then
    let processed := stmt.ipd.param_processed_ptr.map fun _ => (0 : Int)
    let stmt : StatementClass := { stmt with ipd := { stmt.ipd with param_processed_ptr := processed } }
    let status : Option (Option (List Int)) :=
      match stmt.ipd.param_status_ptr with
      | none => some none
      | some a => (reset_param_status a end_row).map some
    match status with
    | none => none
    | some param_status =>
      let stmt : StatementClass := { stmt with ipd := { stmt.ipd with param_status_ptr := param_status } }
      if recycle && !recycled then some (SC_recycle_statement be conn stmt)
      else some (conn, stmt)
  else some (conn, stmt)

/-- How the status array `arr1` left by the rows `lo..hi` relates to the array
`arr` before them: the slots outside `lo..hi` and the slots of the rows marked
`SQL_PARAM_IGNORE` are as before; the slot of every other row of `lo..hi`
holds a value other than `SQL_PARAM_UNUSED`. -/
def SlotsAfter (op : Option (List Int)) (lo hi : Nat) (arr arr1 : List Int) : Prop :=
  arr1.length = arr.length ∧
  (∀ j : Nat, (j < lo ∨ hi < j ∨ row_ignored op j = true) → arr1[j]? = arr[j]?) ∧
  (∀ j : Nat, lo ≤ j → j ≤ hi → row_ignored op j = false →
    ∃ v, arr1[j]? = some v ∧ v ≠ SQL_PARAM_UNUSED)

/-- The first link of a keyset answer: the result that describes the columns
of the query. -/
def primaryLink : QResultClass :=
  { fields := some ["id", "name"], num_fields := 2, command := some "SELECT",
    recent_processed_row_count := 10, command_maybe_successful := true }

/-- The second link of a keyset answer: the key-set result. -/
def keysetLink : QResultClass :=
  { fields := some ["ctid", "oid", "id"], num_fields := 3, command := some "FETCH",
    recent_processed_row_count := 20, command_maybe_successful := true }

/-- A backend whose answer to an execution is `primaryLink` followed by
`keysetLink`. -/
def keysetBackend : Backend :=
  { okBackend with
    SC_execute := fun c s =>
      { retval := SQL_SUCCESS, status := STMT_FINISHED,
        result := [primaryLink, keysetLink],
        cursor_type := s.cursor_type, scroll_concurrency := s.scroll_concurrency,
        error_number := none, errormsg := none, in_trans := c.in_trans } }

/-- A select positioned on its single row, with a keyset-driven cursor whose
concurrency is not read-only. -/
def keysetSelect : StatementClass :=
  { freshStmt with
    status := STMT_READY, statement := some "SELECT id, name FROM t",
    exec_current_row := 0, cursor_type := SQL_CURSOR_KEYSET_DRIVEN, scroll_concurrency := 2 }

/-- The statement `Exec_with_parameters_resolved` hands to the dummy execution
(lines 215-236): the parameters are substituted, there is no current
parameter and the row index is reset. -/
def probe_statement (be : Backend) (conn : ConnectionClass) (stmt : StatementClass) :
    StatementClass :=
  { { (copy_statement_with_parameters be conn stmt (prepare_before_exec conn stmt)).2 with
      current_exec_param := -1 } with exec_current_row := -1 }

/-- The dummy execution of the text `t` has to begin a transaction: the
connection is not in one and the text does not start with `BEGIN;`. -/
def probe_begins (conn : ConnectionClass) (t : String) : Bool :=
  !begins_with_BEGIN t && !conn.in_trans

/-- The connection on which the dummy execution sends the text `t`. -/
def probe_conn (be : Backend) (conn : ConnectionClass) (t : String) : ConnectionClass :=
  if probe_begins conn t then (CC_begin be conn).2 else conn

/-- The requests that send a statement to the server. -/
def is_send : Request → Bool
  | Request.CC_send_query _ => true
  | Request.SC_execute _ => true
  | _ => false

/-- A connection that disallows premature execution. -/
def probingConn : ConnectionClass :=
  { idleConn with disallow_premature := true }

/-- A backend that flags every result as inaccurate and answers a query with
a begin acknowledgment when the text starts with `BEGIN;`, followed by a
described result; a query that mentions `missing` fails. -/
def probingBackend : Backend :=
  { okBackend with
    copy_statement_with_parameters := fun _ s _ =>
      { retval := SQL_SUCCESS, stmt_with_params := s.statement, execute_statement := none,
        prepare_before_exec := false, inaccurate_result := true,
        cursor_type := s.cursor_type, scroll_concurrency := s.scroll_concurrency,
        error_number := none, errormsg := none },
    CC_send_query := fun c q =>
      if q = "SELECT a FROM missing" then (none, c.in_trans)
      else if begins_with_BEGIN q then (some [ackLink "BEGIN" true, describedLink], true)
      else (some [describedLink], c.in_trans) }

/-- A select over the rows 0..3 of a parameter array. -/
def probedSelect (text : String) : StatementClass :=
  { freshStmt with
    status := STMT_READY, statement := some text,
    exec_start_row := 0, exec_end_row := 3,
    apd := { freshStmt.apd with paramset_size := 4 } }

/-- A backend like `probingBackend` whose answer to a query is a single link
without columns. -/
def fieldlessBackend : Backend :=
  { probingBackend with
    CC_send_query := fun c _ => (some [ackLink "SELECT" true], c.in_trans) }

/-- The command `PGAPI_Transact` sends for `fType` (lines 647-650). -/
def transact_text (fType : Nat) : String :=
  if fType = SQL_COMMIT then "COMMIT" else "ROLLBACK"

/-- The send of the transaction command failed (no result) or the command was
unsuccessful. -/
def transact_fails (answer : Option (List QResultClass)) : Bool :=
  match answer with
  | some (res :: _) => !res.command_maybe_successful
  | _ => true

/-- A backend whose commit and rollback are answered with an unsuccessful
command. -/
def refusingBackend : Backend :=
  { okBackend with
    CC_send_query := fun c _ => (some [ackLink "ROLLBACK" false], c.in_trans) }

/-- The handle after the first `PGAPI_PutData` on `lobjParamHandle`: the large
object is open for writing. -/
def lobjWritten (be : Backend) : Option Handle :=
  (PGAPI_PutData be lobjParamHandle [1, 2, 3] 3).map fun r => r.2

/-- A backend like `probingBackend` on which no statement is pre-executable. -/
def notPreExecutableBackend : Backend :=
  { probingBackend with SC_is_pre_executable := fun _ => false }

/-- The in-line commit of `PGAPI_ParamData` (lines 872-879) is made and fails:
a large object is open, the connection neither uses declare/fetch nor is in
manual-commit mode, and `CC_commit` after the close reports failure. -/
def inline_commit_fails (be : Backend) (h : Handle) : Bool :=
  decide (h.estmt.lobj_fd ≥ 0) &&
    ((!h.conn.use_declarefetch && (lo_close be h.conn h.estmt.lobj_fd).2.autocommit) &&
      !(CC_commit be (lo_close be h.conn h.estmt.lobj_fd).2).1)

/-- The connection after lines 866-882 of `PGAPI_ParamData`: as it was when no
large object is open, else after `lo_close` and, if it is made, the in-line
commit. -/
def closed_conn (be : Backend) (h : Handle) : ConnectionClass :=
  if h.estmt.lobj_fd ≥ 0 then
    (if !h.conn.use_declarefetch && (lo_close be h.conn h.estmt.lobj_fd).2.autocommit then
      (CC_commit be (lo_close be h.conn h.estmt.lobj_fd).2).2
     else (lo_close be h.conn h.estmt.lobj_fd).2)
  else h.conn

/-- The statement after lines 866-882 of `PGAPI_ParamData` when the in-line
commit did not fail: `lobj_fd` is -1 if a large object was open. -/
def closed_stmt (st : StatementClass) : StatementClass :=
  if st.lobj_fd ≥ 0 then { st with lobj_fd := -1 } else st

/-- The statement `st` is in the streaming of the row `stmt1` was suspended on,
`m` tokens having been handed out: the bindings and the row are those of
`stmt1`, the current parameter and the pending count are those of
`streaming_state stmt1 m`. The data supplied so far, the large object and the
error state are left open. -/
def Streaming (stmt1 : StatementClass) (m : Nat) (st : StatementClass) : Prop :=
  st.apd = stmt1.apd ∧ st.exec_current_row = stmt1.exec_current_row ∧
  st.current_exec_param = (streaming_state stmt1 m).current_exec_param ∧
  st.data_at_exec = (streaming_state stmt1 m).data_at_exec

/-- An insert whose only parameter is streamed into a large object. -/
def lobjStreamStmt : StatementClass :=
  { freshStmt with
    status := STMT_READY, statement := some "INSERT INTO t VALUES (?)",
    apd := { freshStmt.apd with
      parameters := [{ buflen := 0, buffer := 4096, used := some [SQL_DATA_AT_EXEC],
                       CType := SQL_C_BINARY, data_at_exec := false }] },
    ipd := { freshStmt.ipd with parameters := [{ SQLType := -4, PGType := 26 }] },
    pdata := [{ EXEC_used := none, EXEC_buffer := none, lobj_oid := 0 }] }

/-- The calls `PGAPI_Execute`, `PGAPI_ParamData`, `PGAPI_PutData` (three
bytes), `PGAPI_ParamData` on `lobjStreamStmt`, each on the handle the call
before it left: the return codes, the requests made on the connection and the
`lobj_fd` left. -/
def lobj_protocol (be : Backend) : Option (List RETCODE × List Request × Int) :=
  match PGAPI_Execute be idleConn lobjStreamStmt 0 with
  | none => none
  | some e =>
    match PGAPI_ParamData be { conn := e.2.1, stmt := e.2.2, execute_delegate := none } true with
    | none => none
    | some p1 =>
      match PGAPI_PutData be p1.handle [1, 2, 3] 3 with
      | none => none
      | some d =>
        match PGAPI_ParamData be d.2 true with
        | none => none
        | some p2 =>
          some ([e.1, p1.retval, d.1, p2.retval], p2.handle.conn.requests, p2.estmt.lobj_fd)

/-- The handle `PGAPI_PutData` leaves after it opened a large object for the
parameter of `lobjParamHandle` and wrote three bytes to it. -/
def lobjOpenHandle : Handle :=
  (lobjWritten okBackend).getD lobjParamHandle

/-- Statement `b` has the bindings, the row, the current parameter and the
pending count of statement `a`. -/
def SameStream (a b : StatementClass) : Prop :=
  b.apd = a.apd ∧ b.exec_current_row = a.exec_current_row ∧
  b.current_exec_param = a.current_exec_param ∧ b.data_at_exec = a.data_at_exec

/-- The `PGAPI_PutData` calls of `puts`, one after the other; the return codes
are dropped. -/
def put_calls (be : Backend) : Handle → List (List Nat × Int) → Option Handle
  | h, [] => some h
  | h, put :: rest =>
    match PGAPI_PutData be h put.1 put.2 with
    | none => none
    | some r => put_calls be r.2 rest

/-- One `PGAPI_ParamData` call per element of the list, each followed by the
`PGAPI_PutData` calls of that element. Every result is paired with
`inline_commit_fails` of the handle the call was made on. -/
def token_calls (be : Backend) (prgbValue : Bool) :
    Handle → List (List (List Nat × Int)) → Option (List (Bool × ParamDataResult) × Handle)
  | h, [] => some ([], h)
  | h, puts :: rest =>
    match PGAPI_ParamData be h prgbValue with
    | none => none
    | some r =>
      match put_calls be r.handle puts with
      | none => none
      | some h1 =>
        match token_calls be prgbValue h1 rest with
        | none => none
        | some x => some ((inline_commit_fails be h, r) :: x.1, x.2)

/-- What the row loop relies on from one row to the next, whatever the rows
do: the operation array, the last row, the pre-execution flag, and a status
array that covers the window. -/
def RowInv (st : StatementClass) (op : Option (List Int)) (e : Int) (pre : Bool) : Prop :=
  st.apd.param_operation_ptr = op ∧ end_row_of st = e ∧ st.pre_executing = pre ∧
  (∀ n, st.ipd.param_status_ptr.map List.length = some n → e.toNat < n)

/-- A backend on which the execution of row 0 fails. -/
def failingRowBackend : Backend :=
  { okBackend with
    SC_execute := fun c s =>
      { retval := if s.exec_current_row = 0 then SQL_ERROR else SQL_SUCCESS,
        status := STMT_FINISHED,
        result := [{ fields := none, num_fields := 0, command := some "INSERT 0 1",
                     recent_processed_row_count := 1, command_maybe_successful := true }],
        cursor_type := s.cursor_type, scroll_concurrency := s.scroll_concurrency,
        error_number := none, errormsg := none, in_trans := c.in_trans } }

/-- Every row's execution is defined, whether it succeeds or fails: the
substituted statement is never flagged inaccurate, so that no dummy execution
is asked for, and `SC_execute` delivers a result whenever the cursor it leaves
is an updatable keyset-driven one (lines 283-297 dereference it). -/
def RowsDefined (be : Backend) : Prop :=
  (∀ c0 s0 b, (be.copy_statement_with_parameters c0 s0 b).inaccurate_result = false) ∧
  (∀ c0 s0, SQL_CURSOR_KEYSET_DRIVEN = (be.SC_execute c0 s0).cursor_type ∧
      SQL_CONCUR_READ_ONLY ≠ (be.SC_execute c0 s0).scroll_concurrency →
      (be.SC_execute c0 s0).result ≠ [])

/-- Every length/indicator array of `ps` covers the rows of `[s, e]`. -/
def UsedCover (ps : List ParameterInfoClass) (s e : Int) : Prop :=
  ∀ p ∈ ps, ∀ r : Int, s ≤ r → r ≤ e → ∃ f, data_at_exec_flag r p = some f

/-! ## Theorems: `PGAPI_Prepare` -/

/-- After the `switch` and `SC_initialize_stmts`, a statement that was not
executing is `STMT_READY`. -/
theorem PGAPI_Prepare_status (be : Backend) (conn : ConnectionClass) (self : StatementClass)
    (sz : Option String) (cb : Int) (h : self.status ≠ STMT_EXECUTING) :
    (PGAPI_Prepare be conn self sz cb).2.2.status = STMT_READY := by
  unfold PGAPI_Prepare
  cases hs : self.status <;> cases sz <;> simp only [] <;>
    first
    | exact absurd hs h
    | ((repeat' split) <;>
        simp [SC_set_error, SC_initialize_stmts, SC_recycle_statement, SC_set_prepared, hs])

/-- What `PGAPI_Prepare` stores when the text is given and its copy is made. -/
theorem PGAPI_Prepare_stored (be : Backend) (conn : ConnectionClass) (self : StatementClass)
    (t : String) (cb : Int) (c : String)
    (h : self.status ≠ STMT_EXECUTING) (hc : stored_copy be t cb = some c) :
    (PGAPI_Prepare be conn self (some t) cb).2.2.statement = some c ∧
    (PGAPI_Prepare be conn self (some t) cb).2.2.prepare = true ∧
    (PGAPI_Prepare be conn self (some t) cb).2.2.prepared = false ∧
    (PGAPI_Prepare be conn self (some t) cb).2.2.statement_type = be.statement_type c := by
  unfold PGAPI_Prepare
  cases hs : self.status <;> simp only [hc] <;>
    first
    | exact absurd hs h
    | (split <;> simp [SC_set_error, SC_set_prepared])

/-- C5: for a statement that is Allocated, Ready, Finished or Premature and a
non-null text, once `PGAPI_Prepare` has stored the text (its copy `c1`, the text
that `szSqlStr` and `cbSqlStr` designate, was made) the stored text is exactly
that copy, whatever text was stored before; the prepare flag is TRUE and the
prepared-on-server flag is FALSE. A second `PGAPI_Prepare` on the outcome
replaces the text again: after Prepare(t1), Prepare(t2) the stored text is the
copy of t2. -/
theorem PGAPI_Prepare_replaces_text (be : Backend) (conn : ConnectionClass)
    (self : StatementClass) (t1 t2 : String) (cb1 cb2 : Int) (c1 c2 : String)
    (hstatus : self.status = STMT_ALLOCATED ∨ self.status = STMT_READY ∨
      self.status = STMT_FINISHED ∨ self.status = STMT_PREMATURE)
    (h1 : stored_copy be t1 cb1 = some c1) (h2 : stored_copy be t2 cb2 = some c2) :
    ((PGAPI_Prepare be conn self (some t1) cb1).2.2.statement = some c1 ∧
      (PGAPI_Prepare be conn self (some t1) cb1).2.2.prepare = true ∧
      (PGAPI_Prepare be conn self (some t1) cb1).2.2.prepared = false) ∧
    ((PGAPI_Prepare be (PGAPI_Prepare be conn self (some t1) cb1).2.1
        (PGAPI_Prepare be conn self (some t1) cb1).2.2 (some t2) cb2).2.2.statement = some c2 ∧
      (PGAPI_Prepare be (PGAPI_Prepare be conn self (some t1) cb1).2.1
        (PGAPI_Prepare be conn self (some t1) cb1).2.2 (some t2) cb2).2.2.prepare = true ∧
      (PGAPI_Prepare be (PGAPI_Prepare be conn self (some t1) cb1).2.1
        (PGAPI_Prepare be conn self (some t1) cb1).2.2 (some t2) cb2).2.2.prepared = false) := by
  have hne : self.status ≠ STMT_EXECUTING := by
    rcases hstatus with h | h | h | h <;> simp [h]
  have hready := PGAPI_Prepare_status be conn self (some t1) cb1 hne
  have hne2 : (PGAPI_Prepare be conn self (some t1) cb1).2.2.status ≠ STMT_EXECUTING := by
    simp [hready]
  obtain ⟨a1, a2, a3, _⟩ := PGAPI_Prepare_stored be conn self t1 cb1 c1 hne h1
  obtain ⟨b1, b2, b3, _⟩ := PGAPI_Prepare_stored be _ _ t2 cb2 c2 hne2 h2
  exact ⟨⟨a1, a2, a3⟩, ⟨b1, b2, b3⟩⟩

/-- C5 at a concrete input: a finished, server-prepared statement holding
"DELETE FROM t" is prepared with "SELECT 1" and then with "SELECT 2". -/
theorem PGAPI_Prepare_replaces_text_witness :
    (PGAPI_Prepare okBackend
        (PGAPI_Prepare okBackend idleConn finishedStmt (some "SELECT 1") SQL_NTS).2.1
        (PGAPI_Prepare okBackend idleConn finishedStmt (some "SELECT 1") SQL_NTS).2.2
        (some "SELECT 2") SQL_NTS).2.2.statement = some "SELECT 2" ∧
    (PGAPI_Prepare okBackend idleConn finishedStmt (some "SELECT 1") SQL_NTS).2.2.prepared
      = false :=
  have h := PGAPI_Prepare_replaces_text okBackend idleConn finishedStmt "SELECT 1" "SELECT 2"
    SQL_NTS SQL_NTS "SELECT 1" "SELECT 2" (Or.inr (Or.inr (Or.inl rfl)))
    (by simp [stored_copy, okBackend]) (by simp [stored_copy, okBackend])
  ⟨h.2.1, h.1.2.2⟩

/-- C7: for a statement in an allowed state and a non-null text whose copy `c`
is made, `PGAPI_Prepare` returns `SQL_ERROR` if and only if the connection is
read-only and the stored text classifies as an update statement; otherwise it
returns `SQL_SUCCESS`. -/
theorem PGAPI_Prepare_error_iff_readonly_update (be : Backend) (conn : ConnectionClass)
    (self : StatementClass) (t : String) (cb : Int) (c : String)
    (hstatus : self.status = STMT_ALLOCATED ∨ self.status = STMT_READY ∨
      self.status = STMT_FINISHED ∨ self.status = STMT_PREMATURE)
    (hc : stored_copy be t cb = some c) :
    ((PGAPI_Prepare be conn self (some t) cb).1 = SQL_ERROR ↔
      (conn.onlyread = true ∧ be.STMT_UPDATE (be.statement_type c) = true)) ∧
    (¬ (conn.onlyread = true ∧ be.STMT_UPDATE (be.statement_type c) = true) →
      (PGAPI_Prepare be conn self (some t) cb).1 = SQL_SUCCESS) := by
  unfold PGAPI_Prepare
  rcases hstatus with hs | hs | hs | hs <;> simp only [hs, hc] <;>
    (split <;> simp_all [SC_set_prepared, SC_recycle_statement])

/-- C7 at a concrete input: on a read-only connection "DELETE FROM t" is
rejected. -/
theorem PGAPI_Prepare_error_iff_readonly_update_witness :
    (PGAPI_Prepare okBackend { idleConn with onlyread := true } freshStmt
      (some "DELETE FROM t") SQL_NTS).1 = SQL_ERROR :=
  (PGAPI_Prepare_error_iff_readonly_update okBackend { idleConn with onlyread := true }
    freshStmt "DELETE FROM t" SQL_NTS "DELETE FROM t" (Or.inl rfl)
    (by simp [stored_copy, okBackend])).1.2 ⟨rfl, by decide⟩

/-- C8: for a statement whose status is Executing, `PGAPI_Prepare` returns
`SQL_ERROR` with `STMT_SEQUENCE_ERROR`; only the error state of the statement
changes, so the stored text, the prepare flag, the prepared-on-server flag, the
statement category and the status are as before, and so is the connection. -/
theorem PGAPI_Prepare_rejects_executing (be : Backend) (conn : ConnectionClass)
    (self : StatementClass) (szSqlStr : Option String) (cbSqlStr : Int)
    (hstatus : self.status = STMT_EXECUTING) :
    (PGAPI_Prepare be conn self szSqlStr cbSqlStr).1 = SQL_ERROR ∧
    (PGAPI_Prepare be conn self szSqlStr cbSqlStr).2.1 = conn ∧
    (PGAPI_Prepare be conn self szSqlStr cbSqlStr).2.2 =
      SC_set_error self STMT_SEQUENCE_ERROR
        "PGAPI_Prepare(): The handle does not point to a statement that is ready to be executed" ∧
    (PGAPI_Prepare be conn self szSqlStr cbSqlStr).2.2.error_number =
      some STMT_SEQUENCE_ERROR ∧
    (PGAPI_Prepare be conn self szSqlStr cbSqlStr).2.2.statement = self.statement ∧
    (PGAPI_Prepare be conn self szSqlStr cbSqlStr).2.2.prepare = self.prepare ∧
    (PGAPI_Prepare be conn self szSqlStr cbSqlStr).2.2.prepared = self.prepared ∧
    (PGAPI_Prepare be conn self szSqlStr cbSqlStr).2.2.statement_type = self.statement_type ∧
    (PGAPI_Prepare be conn self szSqlStr cbSqlStr).2.2.status = STMT_EXECUTING := by
  unfold PGAPI_Prepare
  simp [hstatus, SC_set_error]

/-- C8 at a concrete input: an executing statement keeps its text. -/
theorem PGAPI_Prepare_rejects_executing_witness :
    (PGAPI_Prepare okBackend idleConn { finishedStmt with status := STMT_EXECUTING }
      (some "SELECT 2") SQL_NTS).1 = SQL_ERROR ∧
    (PGAPI_Prepare okBackend idleConn { finishedStmt with status := STMT_EXECUTING }
      (some "SELECT 2") SQL_NTS).2.2.statement = some "DELETE FROM t" :=
  have h := PGAPI_Prepare_rejects_executing okBackend idleConn
    { finishedStmt with status := STMT_EXECUTING } (some "SELECT 2") SQL_NTS rfl
  ⟨h.1, h.2.2.2.2.1⟩

/-! ## Theorems: sequence errors and `PGAPI_Cancel` -/

/-- `PGAPI_PutData` without a current parameter only records the sequence error. -/
theorem PGAPI_PutData_no_current_param (be : Backend) (h : Handle) (rgbValue : List Nat)
    (cbValue : Int) (hcur : h.estmt.current_exec_param < 0) :
    PGAPI_PutData be h rgbValue cbValue =
      some (SQL_ERROR, h.set_error STMT_SEQUENCE_ERROR
        "Previous call was not SQLPutData or SQLParamData") := by
  unfold PGAPI_PutData
  simp [hcur]

/-- `PGAPI_ParamData` on a statement that is not streaming only records the
sequence error. -/
theorem PGAPI_ParamData_not_streaming (be : Backend) (h : Handle) (prgbValue : Bool)
    (hneg : h.estmt.data_at_exec < 0) :
    PGAPI_ParamData be h prgbValue =
      some { retval := SQL_ERROR, token := none,
             handle := h.set_error STMT_SEQUENCE_ERROR
               "No execution-time parameters for this statement",
             estmt := h.estmt } := by
  unfold PGAPI_ParamData
  simp [hneg]

/-- C4: when no parameter is currently receiving streamed data
(`current_exec_param < 0` on the statement, or on its execute delegate when it
has one), `PGAPI_PutData` returns `SQL_ERROR` (it does not fail) for every data
buffer and length, sets `STMT_SEQUENCE_ERROR` on the statement, and leaves the
connection, the delegate and every put-data entry, `put_data` flag and
large-object handle as they were. -/
theorem PGAPI_PutData_sequence_error (be : Backend) (h : Handle) (rgbValue : List Nat)
    (cbValue : Int) (hcur : h.estmt.current_exec_param < 0) :
    ∃ h1 : Handle, PGAPI_PutData be h rgbValue cbValue = some (SQL_ERROR, h1) ∧
      h1.stmt.error_number = some STMT_SEQUENCE_ERROR ∧
      h1.conn = h.conn ∧
      h1.execute_delegate = h.execute_delegate ∧
      h1.stmt.pdata = h.stmt.pdata ∧ h1.stmt.put_data = h.stmt.put_data ∧
      h1.stmt.lobj_fd = h.stmt.lobj_fd ∧
      h1.estmt.pdata = h.estmt.pdata ∧ h1.estmt.put_data = h.estmt.put_data ∧
      h1.estmt.lobj_fd = h.estmt.lobj_fd := by
  refine ⟨_, PGAPI_PutData_no_current_param be h rgbValue cbValue hcur, ?_⟩
  cases hd : h.execute_delegate <;> simp [Handle.set_error, Handle.estmt, SC_set_error, hd]

/-- C4 at concrete inputs: a fresh statement, and a handle whose delegate has no
current parameter. -/
theorem PGAPI_PutData_sequence_error_witness :
    (∃ h1 : Handle, PGAPI_PutData okBackend
        { conn := idleConn, stmt := freshStmt, execute_delegate := none } [1, 2, 3] 3 =
          some (SQL_ERROR, h1) ∧ h1.stmt.error_number = some STMT_SEQUENCE_ERROR) ∧
    (∃ h1 : Handle, PGAPI_PutData okBackend delegatingHandle [] SQL_NULL_DATA =
          some (SQL_ERROR, h1) ∧ h1.estmt.pdata = delegatingHandle.estmt.pdata) :=
  ⟨(PGAPI_PutData_sequence_error okBackend
      { conn := idleConn, stmt := freshStmt, execute_delegate := none } [1, 2, 3] 3
      (by decide)).imp fun _ hh => ⟨hh.1, hh.2.1⟩,
   (PGAPI_PutData_sequence_error okBackend delegatingHandle [] SQL_NULL_DATA
      (by decide)).imp fun _ hh => ⟨hh.1, hh.2.2.2.2.2.2.2.1⟩⟩

/-- C9: for a statement that is mid-streaming (`data_at_exec >= 0`),
`PGAPI_Cancel` returns `SQL_SUCCESS`, sets `data_at_exec` to -1,
`current_exec_param` to -1 and `put_data` to FALSE, and leaves the connection as
it was, its request trace included: nothing is sent. When the delegate link is
clear afterwards (what `cancelNeedDataState` leaves), a following
`PGAPI_PutData` or `PGAPI_ParamData` returns `SQL_ERROR` with
`STMT_SEQUENCE_ERROR`. -/
theorem PGAPI_Cancel_streaming (be : Backend) (h : Handle)
    (hstreaming : 0 ≤ h.stmt.data_at_exec) :
    (PGAPI_Cancel be h).1 = SQL_SUCCESS ∧
    (PGAPI_Cancel be h).2.stmt.data_at_exec = -1 ∧
    (PGAPI_Cancel be h).2.stmt.current_exec_param = -1 ∧
    (PGAPI_Cancel be h).2.stmt.put_data = false ∧
    (PGAPI_Cancel be h).2.conn = h.conn ∧
    ((PGAPI_Cancel be h).2.execute_delegate = none →
      (∀ (rgbValue : List Nat) (cbValue : Int), ∃ h1 : Handle,
        PGAPI_PutData be (PGAPI_Cancel be h).2 rgbValue cbValue = some (SQL_ERROR, h1) ∧
        h1.stmt.error_number = some STMT_SEQUENCE_ERROR) ∧
      (∀ prgbValue : Bool, ∃ r : ParamDataResult,
        PGAPI_ParamData be (PGAPI_Cancel be h).2 prgbValue = some r ∧
        r.retval = SQL_ERROR ∧ r.handle.stmt.error_number = some STMT_SEQUENCE_ERROR)) := by
  have hnot : ¬ h.stmt.data_at_exec < 0 := not_lt.mpr hstreaming
  refine ⟨?_, ?_, ?_, ?_, ?_, ?_⟩
  · simp [PGAPI_Cancel, hnot]
  · simp [PGAPI_Cancel, hnot]
  · simp [PGAPI_Cancel, hnot]
  · simp [PGAPI_Cancel, hnot]
  · simp [PGAPI_Cancel, hnot]
  · intro hd
    have hcur : (PGAPI_Cancel be h).2.estmt.current_exec_param < 0 := by
      simp only [Handle.estmt, hd]
      simp [PGAPI_Cancel, hnot]
    have hdae : (PGAPI_Cancel be h).2.estmt.data_at_exec < 0 := by
      simp only [Handle.estmt, hd]
      simp [PGAPI_Cancel, hnot]
    refine ⟨fun rgbValue cbValue => ⟨_, PGAPI_PutData_no_current_param be _ rgbValue cbValue hcur,
      by simp [Handle.set_error, SC_set_error]⟩, fun prgbValue => ⟨_,
      PGAPI_ParamData_not_streaming be _ prgbValue hdae, rfl,
      by simp [Handle.set_error, SC_set_error]⟩⟩

/-- C9 at a concrete input: cancelling a suspended statement sends nothing and
the next `PGAPI_PutData` is a sequence error. -/
theorem PGAPI_Cancel_streaming_witness :
    (PGAPI_Cancel okBackend
      { conn := idleConn, stmt := streamingStmt, execute_delegate := none }).2.conn.requests = [] ∧
    (∃ h1 : Handle, PGAPI_PutData okBackend (PGAPI_Cancel okBackend
      { conn := idleConn, stmt := streamingStmt, execute_delegate := none }).2 [7] 1 =
        some (SQL_ERROR, h1) ∧ h1.stmt.error_number = some STMT_SEQUENCE_ERROR) :=
  have h := PGAPI_Cancel_streaming okBackend
    { conn := idleConn, stmt := streamingStmt, execute_delegate := none } (by decide)
  ⟨by rw [h.2.2.2.2.1]; rfl, (h.2.2.2.2.2 rfl).1 [7] 1⟩

/-- C10: for a statement that is not streaming (`data_at_exec < 0`),
`PGAPI_Cancel` returns `SQL_SUCCESS` whatever `PGAPI_FreeStmt (SQL_CLOSE)`
returned; the cancel request is sent if and only if the status is Executing, so
the request trace grows by exactly that request or by nothing; and the
statement is then closed: the handle left is the one `PGAPI_FreeStmt` made
(after the request, if any), with the error cleared. -/
theorem PGAPI_Cancel_not_streaming (be : Backend) (h : Handle)
    (hidle : h.stmt.data_at_exec < 0) :
    (PGAPI_Cancel be h).1 = SQL_SUCCESS ∧
    (PGAPI_Cancel be h).2.conn.requests =
      h.conn.requests ++
        (if h.stmt.status = STMT_EXECUTING then [Request.CC_send_cancel_request] else []) ∧
    (Request.CC_send_cancel_request ∈ (PGAPI_Cancel be h).2.conn.requests.drop
        h.conn.requests.length ↔ h.stmt.status = STMT_EXECUTING) ∧
    (PGAPI_Cancel be h).2 =
      { (PGAPI_FreeStmt_CLOSE be { h with conn :=
            if h.stmt.status = STMT_EXECUTING then CC_send_cancel_request h.conn
            else h.conn }).2 with
        stmt := SC_clear_error (PGAPI_FreeStmt_CLOSE be { h with conn :=
            if h.stmt.status = STMT_EXECUTING then CC_send_cancel_request h.conn
            else h.conn }).2.stmt } := by
  refine ⟨?_, ?_, ?_, ?_⟩
  · simp [PGAPI_Cancel, hidle]
  · by_cases hs : h.stmt.status = STMT_EXECUTING <;>
      simp [PGAPI_Cancel, hidle, hs, PGAPI_FreeStmt_CLOSE, CC_send_cancel_request]
  · by_cases hs : h.stmt.status = STMT_EXECUTING <;>
      simp [PGAPI_Cancel, hidle, hs, PGAPI_FreeStmt_CLOSE, CC_send_cancel_request]
  · simp [PGAPI_Cancel, hidle]

/-- C10 at concrete inputs: an executing statement gets the cancel request, an
idle one sends nothing, and a failing close still gives `SQL_SUCCESS`. -/
theorem PGAPI_Cancel_not_streaming_witness :
    (PGAPI_Cancel okBackend (idleHandle executingStmt)).2.conn.requests =
      [Request.CC_send_cancel_request] ∧
    (PGAPI_Cancel okBackend (idleHandle freshStmt)).2.conn.requests = [] ∧
    (PGAPI_Cancel failingCloseBackend (idleHandle freshStmt)).1 = SQL_SUCCESS :=
  ⟨(PGAPI_Cancel_not_streaming okBackend (idleHandle executingStmt) (by decide)).2.1,
   (PGAPI_Cancel_not_streaming okBackend (idleHandle freshStmt) (by decide)).2.1,
   (PGAPI_Cancel_not_streaming failingCloseBackend (idleHandle freshStmt) (by decide)).1⟩

/-! ## Theorems: the state check of `PGAPI_Execute` -/

/-- C6, as stated, fails in three ways, each with stored text, a status other
than Finished and a status that is not acceptable for execution. A statement
with the prepare flag and status Premature is not rejected: `PGAPI_Execute`
returns `SQL_SUCCESS`, sets no error and marks it Finished. A statement in
the middle of a parameter array (`exec_current_row` = 1) with status
Executing is executed, and so is a statement prepared on the server with
status Executing: the state check is not reached. -/
theorem PGAPI_Execute_unacceptable_not_rejected :
    (prematureStmt.statement = some "SELECT 1" ∧
      prematureStmt.status ≠ STMT_FINISHED ∧
      (prematureStmt.prepare = true ∧ prematureStmt.status ≠ STMT_READY) ∧
      PGAPI_Execute okBackend idleConn prematureStmt 0 =
        some (SQL_SUCCESS, idleConn, { prematureStmt with status := STMT_FINISHED })) ∧
    (midArrayStmt.statement = some "SELECT 1" ∧
      (midArrayStmt.status ≠ STMT_ALLOCATED ∧ midArrayStmt.status ≠ STMT_READY) ∧
      (PGAPI_Execute okBackend idleConn midArrayStmt 0).map (fun r => (r.1, r.2.1.requests)) =
        some (SQL_SUCCESS, [Request.SC_execute (some "SELECT 1")])) ∧
    (serverPreparedStmt.statement = some "SELECT 1" ∧
      (serverPreparedStmt.status ≠ STMT_ALLOCATED ∧ serverPreparedStmt.status ≠ STMT_READY) ∧
      (PGAPI_Execute okBackend idleConn serverPreparedStmt 0).map
        (fun r => (r.1, r.2.1.requests)) =
        some (SQL_SUCCESS, [Request.SC_execute (some "SELECT 1")])) := by
  refine ⟨⟨rfl, by decide, ⟨rfl, by decide⟩, rfl⟩, ⟨rfl, ⟨by decide, by decide⟩, rfl⟩,
    ⟨rfl, ⟨by decide, by decide⟩, rfl⟩⟩

/-- C6, amended: for a statement with stored text that is not in the middle of
a parameter array (`exec_current_row <= 0`), not prepared on the server and not
a prepare-flagged statement in the Premature state: if it is not Finished and
its status is not acceptable (prepare flag set and status other than Ready, or
status neither Allocated nor Ready), `PGAPI_Execute` returns `SQL_ERROR` with
`STMT_STATUS_ERROR`, changes nothing but the error state and sends nothing; if
it is Finished it is recycled and the row loop runs on the recycled statement. -/
theorem PGAPI_Execute_status_check (be : Backend) (conn : ConnectionClass)
    (stmt : StatementClass) (flag : Nat) (text : String)
    (htext : stmt.statement = some text)
    (hrow : stmt.exec_current_row ≤ 0)
    (hprepared : stmt.prepared = false)
    (hpremature : ¬ (stmt.prepare = true ∧ stmt.status = STMT_PREMATURE)) :
    (stmt.status ≠ STMT_FINISHED →
      ((stmt.prepare = true ∧ stmt.status ≠ STMT_READY) ∨
        (stmt.status ≠ STMT_ALLOCATED ∧ stmt.status ≠ STMT_READY)) →
      PGAPI_Execute be conn stmt flag =
        some (SQL_ERROR, conn, SC_set_error (SC_clear_error stmt) STMT_STATUS_ERROR
          "The handle does not point to a statement that is ready to be executed")) ∧
    (stmt.status = STMT_FINISHED →
      PGAPI_Execute be conn stmt flag =
        execute_rows be (SC_recycle_statement be conn (SC_clear_error stmt)).1
          (SC_recycle_statement be conn (SC_clear_error stmt)).2 true true) := by
  have hrow2 : ¬ stmt.exec_current_row > 0 := not_lt.mpr hrow
  have hearly : (stmt.prepare && decide (stmt.status = STMT_PREMATURE)) = false := by
    cases hp : stmt.prepare <;> simp_all
  constructor
  · intro hfin hbad
    unfold PGAPI_Execute
    simp only [hearly]
    simp [SC_clear_error, htext, hrow2, hprepared, hfin, hbad]
  · intro hfin
    unfold PGAPI_Execute
    simp only [hearly]
    simp [SC_clear_error, htext, hrow2, hprepared, hfin]

/-- C6 (amended) at concrete inputs: an executing statement is rejected with
`STMT_STATUS_ERROR`; nothing is sent. -/
theorem PGAPI_Execute_status_check_witness :
    PGAPI_Execute okBackend idleConn { executingStmt with statement := some "SELECT 1" } 0 =
      some (SQL_ERROR, idleConn,
        SC_set_error (SC_clear_error { executingStmt with statement := some "SELECT 1" })
          STMT_STATUS_ERROR
          "The handle does not point to a statement that is ready to be executed") :=
  (PGAPI_Execute_status_check okBackend idleConn
    { executingStmt with statement := some "SELECT 1" } 0 "SELECT 1" rfl (by decide) rfl
    (by decide)).1 (by decide) (Or.inr (by decide))

/-! ## Theorems: accumulation in `PGAPI_PutData` -/

theorem Handle.estmt_set_estmt (h : Handle) (e : StatementClass) :
    (h.set_estmt e).estmt = e := by
  cases hd : h.execute_delegate <;> simp [Handle.set_estmt, Handle.estmt, hd]

theorem Handle.estmt_store (h : Handle) (c : ConnectionClass) (e : StatementClass) :
    (h.store c e).estmt = e := by
  cases hd : h.execute_delegate <;> simp [Handle.store, Handle.set_estmt, Handle.estmt, hd]

theorem Handle.conn_store (h : Handle) (c : ConnectionClass) (e : StatementClass) :
    (h.store c e).conn = c := rfl

theorem readAt_set_self {α : Type} (l : List α) (i : Int) (v w : α)
    (h : readAt l i = some v) : readAt (l.set i.toNat w) i = some w := by
  unfold readAt at *
  split at h
  · rename_i h0
    simp only [h0, if_true]
    have hlt : i.toNat < l.length := by
      by_contra hge
      rw [List.getElem?_eq_none (not_lt.mp hge)] at h
      exact Option.noConfusion h
    simp [List.getElem?_set, hlt]
  · exact Option.noConfusion h

theorem memRead_full (c : List Nat) : memRead c (c.length : Int) = some c := by
  simp [memRead]

theorem memRead_prefix (acc rest : List Nat) :
    memRead (acc ++ rest) (acc.length : Int) = some acc := by
  simp [memRead]

theorem put_length_binary (be : Backend) (c : List Nat) :
    put_length be SQL_C_BINARY c (c.length : Int) = (c.length : Int) := by
  unfold put_length
  have h1 : ¬ ((-3 : Int) = (c.length : Int)) := by omega
  have h2 : ¬ ((c.length : Int) < 0) := by omega
  simp [h1, h2]

/-- The first `PGAPI_PutData` for a binary parameter that is not a large
object stages the chunk. -/
theorem PGAPI_PutData_first (be : Backend) (h : Handle) (p : ParameterInfoClass)
    (ip : ParameterImplClass) (pd : PutDataClass) (c : List Nat)
    (halloc : ∀ n, be.malloc n = true)
    (hcur : 0 ≤ h.estmt.current_exec_param)
    (hp : readAt h.estmt.apd.parameters h.estmt.current_exec_param = some p)
    (hip : readAt h.estmt.ipd.parameters h.estmt.current_exec_param = some ip)
    (hpd : readAt h.estmt.pdata h.estmt.current_exec_param = some pd)
    (hbin : p.CType = SQL_C_BINARY) (hnolo : ip.PGType ≠ h.conn.lobj_type)
    (hfirst : h.estmt.put_data = false) :
    ∃ h1 : Handle, PGAPI_PutData be h c (c.length : Int) = some (SQL_SUCCESS, h1) ∧
      h1.conn = h.conn ∧
      Staged h1 h.estmt.current_exec_param p ip pd.lobj_oid c := by
  have hnot : ¬ h.estmt.current_exec_param < 0 := not_lt.mpr hcur
  have hnull : ¬ ((c.length : Int) = -1) := by omega
  have hdef : ¬ ((-2 : Int) = 99) := by decide
  have heq : PGAPI_PutData be h c (c.length : Int) = some (SQL_SUCCESS,
      h.store h.conn { h.estmt with
          put_data := true
          pdata := h.estmt.pdata.set h.estmt.current_exec_param.toNat
            { pd with EXEC_used := some (c.length : Int),
                      EXEC_buffer := some (c ++ [0]) } }) := by
    unfold PGAPI_PutData
    simp [hnot, hp, hip, hpd, hbin, hdef, put_length_binary, hnolo, hfirst, halloc, hnull,
      memRead_full]
  refine ⟨_, heq, rfl, ?_⟩
  unfold Staged
  rw [Handle.estmt_store]
  exact ⟨rfl, rfl, hp, hip, readAt_set_self _ _ _ _ hpd⟩

/-- A later `PGAPI_PutData` appends its chunk; an empty chunk is refused and
changes nothing. -/
theorem PGAPI_PutData_later (be : Backend) (h : Handle) (i : Int) (p : ParameterInfoClass)
    (ip : ParameterImplClass) (oid : Int) (acc c : List Nat)
    (hrealloc : ∀ n, be.realloc n = true)
    (hcur : 0 ≤ i)
    (hbin : p.CType = SQL_C_BINARY) (hnolo : ip.PGType ≠ h.conn.lobj_type)
    (hst : Staged h i p ip oid acc) :
    ∃ (rc : RETCODE) (h1 : Handle), PGAPI_PutData be h c (c.length : Int) = some (rc, h1) ∧
      h1.conn = h.conn ∧ Staged h1 i p ip oid (acc ++ c) := by
  obtain ⟨hi, hput, hp, hip, hpd⟩ := hst
  have hnot : ¬ i < 0 := not_lt.mpr hcur
  have hdef : ¬ ((-2 : Int) = 99) := by decide
  by_cases hc : (c.length : Int) > 0
  · have heq : PGAPI_PutData be h c (c.length : Int) = some (SQL_SUCCESS,
        h.store h.conn { h.estmt with
            pdata := h.estmt.pdata.set i.toNat
              { EXEC_used := some ((acc.length : Int) + (c.length : Int)),
                EXEC_buffer := some (acc ++ c ++ [0]), lobj_oid := oid } }) := by
      unfold PGAPI_PutData
      simp [hnot, hi, hp, hip, hpd, hbin, hdef, put_length_binary, hnolo, hput, hrealloc, hc,
        memRead_full, memRead_prefix]
    refine ⟨_, _, heq, rfl, ?_⟩
    unfold Staged
    rw [Handle.estmt_store]
    refine ⟨hi, hput, hp, hip, ?_⟩
    have hlen : (((acc ++ c).length : Nat) : Int) = (acc.length : Int) + (c.length : Int) := by
      simp
    rw [hlen]
    exact readAt_set_self _ _ _ _ hpd
  · have hnil : c = [] := by
      cases c with
      | nil => rfl
      | cons a t => exact absurd (by simp) hc
    subst hnil
    have hzero : put_length be SQL_C_BINARY [] 0 = 0 := by
      simpa using put_length_binary be []
    have heq : PGAPI_PutData be h [] ((([] : List Nat).length : Nat) : Int) =
        some (SQL_ERROR, h) := by
      unfold PGAPI_PutData
      simp [hnot, hi, hp, hip, hpd, hbin, hdef, hzero, hnolo, hput]
    exact ⟨_, _, heq, rfl, by simpa [Staged] using ⟨hi, hput, hp, hip, hpd⟩⟩

/-- Later chunks are appended one after the other. -/
theorem put_chunks_staged (be : Backend) (i : Int) (p : ParameterInfoClass)
    (ip : ParameterImplClass) (oid : Int) (lobj_type : Int)
    (hrealloc : ∀ n, be.realloc n = true) (hcur : 0 ≤ i)
    (hbin : p.CType = SQL_C_BINARY) (hnolo : ip.PGType ≠ lobj_type) :
    ∀ (chunks : List (List Nat)) (h : Handle) (acc : List Nat),
      h.conn.lobj_type = lobj_type → Staged h i p ip oid acc →
      ∃ h1 : Handle, put_chunks be h chunks = some h1 ∧
        Staged h1 i p ip oid (acc ++ chunks.flatten) := by
  intro chunks
  induction chunks with
  | nil =>
    intro h acc _ hst
    exact ⟨h, rfl, by simpa using hst⟩
  | cons c rest ih =>
    intro h acc hl hst
    obtain ⟨rc, h1, heq, hconn, hst1⟩ :=
      PGAPI_PutData_later be h i p ip oid acc c hrealloc hcur hbin (by rw [hl]; exact hnolo) hst
    obtain ⟨h2, heq2, hst2⟩ := ih h1 (acc ++ c) (by rw [hconn]; exact hl) hst1
    refine ⟨h2, ?_, by simpa using hst2⟩
    simp only [put_chunks, heq]
    exact heq2

/-- C3: on the binary, non-large-object path, N >= 1 `PGAPI_PutData` calls on
the same current parameter, the first one made right after the token was handed
out (`put_data` FALSE), with chunks `chunk :: chunks` and `cbValue` the length
of each chunk, all return (allocation succeeding) and leave the put-data entry
with `*EXEC_used` equal to the sum of the chunk lengths and the staging buffer
holding the chunks concatenated in call order, followed by the terminating
zero byte. -/
theorem PGAPI_PutData_accumulates (be : Backend) (h : Handle) (p : ParameterInfoClass)
    (ip : ParameterImplClass) (pd : PutDataClass) (chunk : List Nat)
    (chunks : List (List Nat))
    (halloc : ∀ n, be.malloc n = true) (hrealloc : ∀ n, be.realloc n = true)
    (hcur : 0 ≤ h.estmt.current_exec_param)
    (hp : readAt h.estmt.apd.parameters h.estmt.current_exec_param = some p)
    (hip : readAt h.estmt.ipd.parameters h.estmt.current_exec_param = some ip)
    (hpd : readAt h.estmt.pdata h.estmt.current_exec_param = some pd)
    (hbin : p.CType = SQL_C_BINARY) (hnolo : ip.PGType ≠ h.conn.lobj_type)
    (hfirst : h.estmt.put_data = false) :
    ∃ h1 : Handle, put_chunks be h (chunk :: chunks) = some h1 ∧
      readAt h1.estmt.pdata h.estmt.current_exec_param =
        some { EXEC_used := some ((((chunk :: chunks).map List.length).sum : Nat) : Int),
               EXEC_buffer := some ((chunk :: chunks).flatten ++ [0]),
               lobj_oid := pd.lobj_oid } := by
  obtain ⟨h1, heq, hconn, hst⟩ :=
    PGAPI_PutData_first be h p ip pd chunk halloc hcur hp hip hpd hbin hnolo hfirst
  obtain ⟨h2, heq2, hst2⟩ :=
    put_chunks_staged be h.estmt.current_exec_param p ip pd.lobj_oid h.conn.lobj_type
      hrealloc hcur hbin hnolo chunks h1 chunk (by rw [hconn]) hst
  refine ⟨h2, ?_, ?_⟩
  · simp only [put_chunks, heq]
    exact heq2
  · have h5 := hst2.2.2.2.2
    rw [h5]
    simp [List.length_flatten]

/-- C3 at a concrete input: chunks of 2, 0 and 3 bytes accumulate to 5 bytes in
call order. -/
theorem PGAPI_PutData_accumulates_witness :
    ∃ h1 : Handle, put_chunks okBackend binaryParamHandle [[1, 2], [], [3, 4, 5]] = some h1 ∧
      readAt h1.estmt.pdata 0 =
        some { EXEC_used := some 5, EXEC_buffer := some [1, 2, 3, 4, 5, 0], lobj_oid := 0 } :=
  PGAPI_PutData_accumulates okBackend binaryParamHandle
    { buflen := 0, buffer := 4096, used := some [SQL_DATA_AT_EXEC], CType := SQL_C_BINARY,
      data_at_exec := true }
    { SQLType := -4, PGType := 17 } { EXEC_used := none, EXEC_buffer := none, lobj_oid := 0 }
    [1, 2] [[], [3, 4, 5]] (fun _ => rfl) (fun _ => rfl) (by decide) rfl rfl rfl rfl
    (by decide) rfl

/-! ## Theorems: the order of the tokens of `PGAPI_ParamData` -/

theorem scan_from_flagged :
    ∀ (l : List ParameterInfoClass) (i f : Nat) (rest : List Nat),
      flagged_from l i = f :: rest →
      scan_from l i = some f ∧ i ≤ f ∧ flagged_from (l.drop (f + 1 - i)) (f + 1) = rest := by
  intro l
  induction l with
  | nil => intro i f rest h; simp [flagged_from] at h
  | cons p t ih =>
    intro i f rest h
    by_cases hp : p.data_at_exec = true
    · simp only [flagged_from, hp, if_true, List.cons.injEq] at h
      obtain ⟨hf, hr⟩ := h
      subst hf
      refine ⟨by simp [scan_from, hp], le_refl _, ?_⟩
      have h1 : i + 1 - i = 1 := by omega
      rw [h1]
      simpa using hr
    · simp only [flagged_from, hp, if_false] at h
      obtain ⟨h1, h2, h3⟩ := ih (i + 1) f rest h
      refine ⟨by simp [scan_from, hp, h1], by omega, ?_⟩
      have h4 : f + 1 - i = (f + 1 - (i + 1)) + 1 := by omega
      rw [h4, List.drop_succ_cons]
      exact h3

theorem flagged_from_bounds :
    ∀ (l : List ParameterInfoClass) (i x : Nat), x ∈ flagged_from l i →
      i ≤ x ∧ x < i + l.length := by
  intro l
  induction l with
  | nil => intro i x h; simp [flagged_from] at h
  | cons p t ih =>
    intro i x h
    by_cases hp : p.data_at_exec = true
    · simp only [flagged_from, hp, if_true, List.mem_cons] at h
      rcases h with h | h
      · subst h; simp
      · have := ih (i + 1) x h
        simp only [List.length_cons]
        omega
    · simp only [flagged_from, hp, if_false] at h
      have := ih (i + 1) x h
      simp only [List.length_cons]
      omega

theorem flagged_from_ascending :
    ∀ (l : List ParameterInfoClass) (i : Nat), (flagged_from l i).Pairwise (· < ·) := by
  intro l
  induction l with
  | nil => intro i; simp [flagged_from]
  | cons p t ih =>
    intro i
    by_cases hp : p.data_at_exec = true
    · simp only [flagged_from, hp, if_true, List.pairwise_cons]
      exact ⟨fun x hx => by have := (flagged_from_bounds t (i + 1) x hx).1; omega, ih (i + 1)⟩
    · simp only [flagged_from, hp, if_false]
      exact ih (i + 1)

theorem flagged_from_length_le :
    ∀ (l : List ParameterInfoClass) (i : Nat), (flagged_from l i).length ≤ l.length := by
  intro l
  induction l with
  | nil => intro i; simp [flagged_from]
  | cons p t ih =>
    intro i
    by_cases hp : p.data_at_exec = true
    · simp only [flagged_from, hp, if_true, List.length_cons]
      have := ih (i + 1); omega
    · simp only [flagged_from, hp, if_false, List.length_cons, Bool.false_eq_true]
      have := ih (i + 1); omega

theorem flagged_drop (ps : List ParameterInfoClass) :
    ∀ m : Nat, m ≤ (flagged ps).length →
      flagged_from (ps.drop (scan_start ps m)) (scan_start ps m) = (flagged ps).drop m := by
  intro m
  induction m with
  | zero => intro _; simp [scan_start, flagged]
  | succ n ih =>
    intro hm
    have hn : n < (flagged ps).length := by omega
    have h1 := ih (by omega)
    rw [List.drop_eq_getElem_cons hn] at h1
    obtain ⟨_, h3, h4⟩ := scan_from_flagged _ _ _ _ h1
    have hget : ((flagged ps)[n]?).getD 0 = (flagged ps)[n] := by
      simp [List.getElem?_eq_getElem hn]
    simp only [scan_start, hget]
    rw [List.drop_drop] at h4
    have h5 : scan_start ps n + ((flagged ps)[n] + 1 - scan_start ps n) = (flagged ps)[n] + 1 := by
      omega
    rw [h5] at h4
    exact h4

theorem next_data_at_exec_flagged (ps : List ParameterInfoClass) (m : Nat)
    (hm : m < (flagged ps).length) :
    next_data_at_exec ps (scan_start ps m) = some (((flagged ps)[m]?).getD 0) := by
  have h1 := flagged_drop ps m (by omega)
  rw [List.drop_eq_getElem_cons hm] at h1
  have hget : ((flagged ps)[m]?).getD 0 = (flagged ps)[m] := by
    simp [List.getElem?_eq_getElem hm]
  rw [hget]
  exact (scan_from_flagged _ _ _ _ h1).1

theorem Handle.store_store (h : Handle) (c c1 : ConnectionClass) (e e1 : StatementClass) :
    (h.store c e).store c1 e1 = h.store c1 e1 := by
  cases hd : h.execute_delegate <;> simp [Handle.store, Handle.set_estmt, hd]

theorem Handle.execute_delegate_store_isSome (h : Handle) (c : ConnectionClass)
    (e : StatementClass) :
    (h.store c e).execute_delegate.isSome = h.execute_delegate.isSome := by
  cases hd : h.execute_delegate <;> simp [Handle.store, Handle.set_estmt, hd]

/-- One token: with `m` of the flagged parameters done and more pending,
`PGAPI_ParamData` hands out the next one and does nothing else. -/
theorem PGAPI_ParamData_step (be : Backend) (h : Handle) (conn1 : ConnectionClass)
    (stmt1 : StatementClass) (prgbValue : Bool) (m : Nat)
    (hk : stmt1.data_at_exec = ((flagged stmt1.apd.parameters).length : Int))
    (hfresh : stmt1.current_exec_param < 0) (hlo : stmt1.lobj_fd < 0)
    (hm : m < (flagged stmt1.apd.parameters).length) :
    ∃ token : Option Int,
      PGAPI_ParamData be (h.store conn1 (streaming_state stmt1 m)) prgbValue =
        some { retval := SQL_NEED_DATA, token := token,
               handle := h.store conn1 (streaming_state stmt1 (m + 1)),
               estmt := streaming_state stmt1 (m + 1) } := by
  have hlen : (flagged stmt1.apd.parameters).length ≤ stmt1.apd.parameters.length :=
    flagged_from_length_le stmt1.apd.parameters 0
  have hnext := next_data_at_exec_flagged stmt1.apd.parameters m hm
  have hlo2 : ¬ stmt1.lobj_fd ≥ 0 := not_le.mpr hlo
  unfold PGAPI_ParamData
  rw [Handle.estmt_store]
  cases m with
  | zero =>
    have h1 : ¬ stmt1.data_at_exec < 0 := by rw [hk]; omega
    have h2 : ¬ stmt1.data_at_exec > (stmt1.apd.parameters.length : Int) := by
      rw [hk]; omega
    have h3 : ¬ stmt1.data_at_exec = 0 := by rw [hk]; omega
    have h4 : ¬ stmt1.current_exec_param ≥ 0 := not_le.mpr hfresh
    simp only [scan_start] at hnext
    simp [streaming_state, h1, h2, h3, h4, hlo2, next_token, hnext, Handle.store_store,
      close_large_object, Handle.conn_store]
  | succ n =>
    have h1 : ¬ stmt1.data_at_exec - ((n + 1 : Nat) : Int) < 0 := by rw [hk]; omega
    have h2 : ¬ stmt1.data_at_exec - ((n + 1 : Nat) : Int) >
        (stmt1.apd.parameters.length : Int) := by
      rw [hk]; omega
    have h3 : ¬ stmt1.data_at_exec - ((n + 1 : Nat) : Int) = 0 := by rw [hk]; omega
    have h4 : (((((flagged stmt1.apd.parameters)[n]?).getD 0 : Nat) : Int) + 1).toNat =
        ((flagged stmt1.apd.parameters)[n]?).getD 0 + 1 := by omega
    simp only [scan_start] at hnext
    simp only [streaming_state, h1, h2, h3, hlo2, next_token, if_false, close_large_object,
      Handle.conn_store]
    simp [h4, hnext, Handle.store_store]
    have h5 : stmt1.data_at_exec - ((n : Int) + 1) - 1 = stmt1.data_at_exec - ((n : Int) + 1 + 1) := by
      omega
    rw [h5]
    exact ⟨rfl, rfl⟩

theorem scan_data_at_exec_count (row : Int) :
    ∀ (ps : List ParameterInfoClass) (d : Int) (ps1 : List ParameterInfoClass) (d1 : Int),
      scan_data_at_exec row ps d = some (ps1, d1) →
      ∀ i : Nat, pending_count d1 = pending_count d + ((flagged_from ps1 i).length : Int) := by
  intro ps
  induction ps with
  | nil =>
    intro d ps1 d1 h i
    simp only [scan_data_at_exec, Option.some.injEq, Prod.mk.injEq] at h
    obtain ⟨h1, h2⟩ := h
    subst h1 h2
    simp [flagged_from]
  | cons p t ih =>
    intro d ps1 d1 h i
    unfold scan_data_at_exec at h
    cases hf : data_at_exec_flag row p with
    | none => simp [hf] at h
    | some f =>
      simp only [hf] at h
      cases hrec : scan_data_at_exec row t (if f = true then (if d < 0 then 1 else d + 1) else d) with
      | none => simp [hrec] at h
      | some r =>
        obtain ⟨t1, d2⟩ := r
        simp only [hrec, Option.some.injEq, Prod.mk.injEq] at h
        obtain ⟨h1, h2⟩ := h
        subst h1 h2
        have := ih _ _ _ hrec (i + 1)
        rw [this]
        cases f <;> simp [flagged_from, pending_count]
        split <;> omega

/-- When the check of lines 544-597 asks for data, `data_at_exec` is the
number of flagged parameters and is positive. -/
theorem check_data_at_exec_need_data (stmt stmt1 : StatementClass)
    (h : check_data_at_exec stmt = some (true, stmt1)) :
    stmt1.data_at_exec = ((flagged stmt1.apd.parameters).length : Int) ∧
    1 ≤ (flagged stmt1.apd.parameters).length ∧
    stmt1.current_exec_param = stmt.current_exec_param ∧
    stmt1.lobj_fd = stmt.lobj_fd := by
  unfold check_data_at_exec at h
  cases hpre : stmt.pre_executing with
  | true => simp [hpre] at h
  | false =>
    simp only [hpre, Bool.not_false, if_true] at h
    cases hscan : scan_data_at_exec (if stmt.exec_current_row < 0 then 0 else stmt.exec_current_row)
        stmt.apd.parameters (-1) with
    | none => simp [hscan] at h
    | some r =>
      obtain ⟨ps, d⟩ := r
      simp only [hscan, Option.some.injEq, Prod.mk.injEq, decide_eq_true_eq] at h
      obtain ⟨hpos, hst⟩ := h
      subst hst
      have hc := scan_data_at_exec_count _ _ _ _ _ hscan 0
      simp only [pending_count] at hc
      simp only [flagged]
      have hd : ¬ d < 0 := by omega
      simp only [hd, if_false] at hc
      refine ⟨?_, ?_, trivial, trivial⟩
      · simpa using hc
      · have : (0 : Int) < ((flagged_from ps 0).length : Int) := by
          simp at hc; omega
        simpa using this

/-! ## What a row's execution leaves unchanged -/

theorem SameBatch.refl (a : StatementClass) : SameBatch a a := by
  simp [SameBatch]

theorem SameBatch.trans {a b c : StatementClass} (h1 : SameBatch a b) (h2 : SameBatch b c) :
    SameBatch a c := by
  unfold SameBatch at *
  obtain ⟨a1, a2, a3, a4, a5, a6, a7, a8, a9, a10, a11, a12⟩ := h1
  obtain ⟨b1, b2, b3, b4, b5, b6, b7, b8, b9, b10, b11, b12⟩ := h2
  exact ⟨b1.trans a1, b2.trans a2, b3.trans a3, b4.trans a4, b5.trans a5, b6.trans a6,
    b7.trans a7, b8.trans a8, b9.trans a9, b10.trans a10, b11.trans a11, b12.trans a12⟩

theorem SameBatch.end_row_of {a b : StatementClass} (h : SameBatch a b) :
    end_row_of b = end_row_of a := by
  unfold Psqlodbc.end_row_of
  rw [h.1, h.2.2.2.2.2.1]

theorem copy_statement_with_parameters_frame (be : Backend) (conn : ConnectionClass)
    (stmt : StatementClass) (b : Bool) :
    SameBatch stmt (copy_statement_with_parameters be conn stmt b).2 ∧
    (copy_statement_with_parameters be conn stmt b).2.exec_current_row =
      stmt.exec_current_row := by
  simp [copy_statement_with_parameters, SameBatch]

theorem SC_execute_frame (be : Backend) (conn : ConnectionClass) (stmt : StatementClass) :
    SameBatch stmt (SC_execute be conn stmt).2.2 ∧
    (SC_execute be conn stmt).2.2.exec_current_row = stmt.exec_current_row ∧
    (SC_execute be conn stmt).2.2.current_exec_param = stmt.current_exec_param ∧
    (SC_execute be conn stmt).2.2.inaccurate_result = stmt.inaccurate_result := by
  simp [SC_execute, SameBatch]

theorem reconcile_result_frame (stmt s : StatementClass) (retval rv : RETCODE)
    (res : List QResultClass) (h : reconcile_result stmt retval = some (res, s, rv)) :
    SameBatch stmt s ∧ s.exec_current_row = stmt.exec_current_row ∧
    s.current_exec_param = stmt.current_exec_param ∧
    s.inaccurate_result = stmt.inaccurate_result ∧
    (rv = retval ∨ rv = SQL_ERROR) := by
  simp only [reconcile_result] at h
  split at h
  · split at h
    · exact Option.noConfusion h
    · simp only [Option.some.injEq, Prod.mk.injEq] at h
      obtain ⟨-, h2, h3⟩ := h
      subst h2 h3
      simp [SameBatch]
    · simp only [Option.some.injEq, Prod.mk.injEq] at h
      obtain ⟨-, h2, h3⟩ := h
      subst h2 h3
      simp [SameBatch, SC_set_Result]
  · split at h
    · split at h
      · split at h
        · simp only [Option.some.injEq, Prod.mk.injEq] at h
          obtain ⟨-, h2, h3⟩ := h
          subst h2 h3
          simp [SameBatch, SC_set_Result, SC_set_prepared]
        · simp only [Option.some.injEq, Prod.mk.injEq] at h
          obtain ⟨-, h2, h3⟩ := h
          subst h2 h3
          simp [SameBatch]
      · simp only [Option.some.injEq, Prod.mk.injEq] at h
        obtain ⟨-, h2, h3⟩ := h
        subst h2 h3
        simp [SameBatch]
    · simp only [Option.some.injEq, Prod.mk.injEq] at h
      obtain ⟨-, h2, h3⟩ := h
      subst h2 h3
      simp [SameBatch]

theorem set_row_status_frame (stmt s : StatementClass) (v : Int)
    (h : set_row_status stmt v = some s) :
    SameBatch stmt s ∧ s.exec_current_row = stmt.exec_current_row ∧
    s.current_exec_param = stmt.current_exec_param ∧
    s.inaccurate_result = stmt.inaccurate_result ∧
    s.cursor_type = stmt.cursor_type ∧ s.scroll_concurrency = stmt.scroll_concurrency := by
  unfold set_row_status at h
  cases hp : stmt.ipd.param_status_ptr with
  | none =>
    simp only [hp, Option.some.injEq] at h
    subst h
    simp [SameBatch]
  | some a =>
    simp only [hp] at h
    cases hw : writeAt a stmt.exec_current_row v with
    | none => simp [hw] at h
    | some a1 =>
      simp only [hw, Option.some.injEq] at h
      subst h
      have hlen : a1.length = a.length := by
        unfold writeAt at hw
        split at hw
        · simp only [Option.some.injEq] at hw
          subst hw
          simp
        · exact Option.noConfusion hw
      simp [SameBatch, hp, hlen]

theorem advance_row_frame (stmt : StatementClass) :
    SameBatch stmt (advance_row stmt).2 ∧
    (advance_row stmt).2.current_exec_param = stmt.current_exec_param ∧
    (advance_row stmt).2.cursor_type = stmt.cursor_type ∧
    (advance_row stmt).2.scroll_concurrency = stmt.scroll_concurrency ∧
    ((advance_row stmt).1 = true → (advance_row stmt).2.exec_current_row = -1) ∧
    ((advance_row stmt).1 = false →
      (advance_row stmt).2.exec_current_row = stmt.exec_current_row + 1 ∧
      stmt.exec_current_row < end_row_of stmt ∧ stmt.inaccurate_result = false) := by
  unfold advance_row end_row_of
  by_cases hc : stmt.inaccurate_result = true ∨ stmt.exec_current_row ≥
      (if stmt.exec_end_row < 0 then stmt.apd.paramset_size - 1 else stmt.exec_end_row)
  · simp [hc, SameBatch]
  · rw [if_neg hc]
    push_neg at hc
    exact ⟨by simp [SameBatch], rfl, rfl, rfl, by simp,
      fun _ => ⟨rfl, hc.2, by simpa using hc.1⟩⟩

theorem report_result_frame (conn : ConnectionClass) (res : List QResultClass)
    (stmt : StatementClass) (retval : RETCODE) :
    SameBatch stmt (report_result conn res stmt retval).2 ∧
    (report_result conn res stmt retval).2.exec_current_row = stmt.exec_current_row ∧
    (report_result conn res stmt retval).2.current_exec_param = stmt.current_exec_param ∧
    ((report_result conn res stmt retval).1 = retval ∨
      (report_result conn res stmt retval).1 = SQL_NO_DATA) := by
  cases res with
  | nil => simp [report_result, SameBatch]
  | cons q t =>
    refine ⟨by simp [report_result, SameBatch], rfl, rfl, ?_⟩
    simp only [report_result]
    unfold no_data_check
    cases q.command with
    | none => exact Or.inl rfl
    | some cmd =>
      simp only []
      split_ifs
      · exact Or.inr rfl
      · exact Or.inl rfl
      · exact Or.inl rfl

theorem cursor_changed_frame (ct sc : Int) (stmt : StatementClass) (retval : RETCODE) :
    SameBatch stmt (cursor_changed ct sc stmt retval).2 ∧
    (cursor_changed ct sc stmt retval).2.exec_current_row = stmt.exec_current_row ∧
    (cursor_changed ct sc stmt retval).2.current_exec_param = stmt.current_exec_param ∧
    ((cursor_changed ct sc stmt retval).1 = retval ∨
      (cursor_changed ct sc stmt retval).1 = SQL_SUCCESS_WITH_INFO) := by
  unfold cursor_changed
  split_ifs <;> simp [SameBatch, SC_set_error]

/-- What lines 281-383 leave: the batch is as before, the row index moved to
the next row or to -1, and the return code is the one of `SC_execute` or one
of `SQL_ERROR`, `SQL_NO_DATA`, `SQL_SUCCESS_WITH_INFO`. -/
theorem after_execute_frame (conn : ConnectionClass) (ct sc : Int) (stmt s : StatementClass)
    (retval rv : RETCODE) (ee : Bool)
    (h : after_execute conn ct sc stmt retval = some (rv, ee, s)) :
    SameBatch stmt s ∧ s.current_exec_param = stmt.current_exec_param ∧
    (ee = true → s.exec_current_row = -1) ∧
    (ee = false → s.exec_current_row = stmt.exec_current_row + 1 ∧
      stmt.exec_current_row < end_row_of stmt ∧ stmt.inaccurate_result = false) ∧
    (rv = retval ∨ rv = SQL_ERROR ∨ rv = SQL_NO_DATA ∨ rv = SQL_SUCCESS_WITH_INFO) := by
  unfold after_execute at h
  cases hr : reconcile_result stmt retval with
  | none => simp [hr] at h
  | some r =>
    obtain ⟨res, s1, rv1⟩ := r
    simp only [hr] at h
    cases hs : set_row_status s1 (row_status rv1) with
    | none => simp [hs] at h
    | some s2 =>
      simp only [hs, Option.some.injEq, Prod.mk.injEq] at h
      obtain ⟨h1, h2, h3⟩ := h
      obtain ⟨f1, f2, f3, f4, f5⟩ := reconcile_result_frame _ _ _ _ _ hr
      obtain ⟨g1, g2, g3, g4, -, -⟩ := set_row_status_frame _ _ _ hs
      obtain ⟨a1, a2, -, -, a5, a6⟩ := advance_row_frame s2
      obtain ⟨r1, r2, r3, r4⟩ := report_result_frame conn res (advance_row s2).2 rv1
      obtain ⟨c1, c2, c3, c4⟩ := cursor_changed_frame ct sc
        (report_result conn res (advance_row s2).2 rv1).2
        (report_result conn res (advance_row s2).2 rv1).1
      subst h1 h2 h3
      have hsame : SameBatch stmt s2 := f1.trans g1
      refine ⟨((hsame.trans a1).trans r1).trans c1, ?_, ?_, ?_, ?_⟩
      · rw [c3, r3, a2, g3, f3]
      · intro he
        rw [c2, r2]
        exact a5 he
      · intro he
        obtain ⟨b1, b2, b3⟩ := a6 he
        refine ⟨?_, ?_, ?_⟩
        · rw [c2, r2, b1, g2, f2]
        · rw [← hsame.end_row_of, ← f2, ← g2]
          exact b2
        · rw [← f4, ← g4]
          exact b3
      · rcases c4 with c4 | c4 <;> rcases r4 with r4 | r4 <;> rcases f5 with f5 | f5 <;>
          simp_all

theorem dummy_execution_frame (be : Backend) (conn c : ConnectionClass)
    (stmt s : StatementClass) (rv : RETCODE)
    (h : dummy_execution be conn stmt = some (rv, c, s)) :
    SameBatch stmt s ∧ s.exec_current_row = stmt.exec_current_row ∧
    s.current_exec_param = stmt.current_exec_param ∧
    (rv = SQL_SUCCESS ∨ rv = SQL_ERROR) := by
  unfold dummy_execution at h
  split at h
  · simp only [Option.some.injEq, Prod.mk.injEq] at h
    obtain ⟨h1, -, h3⟩ := h
    subst h1 h3
    simp [SameBatch]
  · split at h
    · exact Option.noConfusion h
    · simp only [] at h
      split at h
      · simp only [Option.some.injEq, Prod.mk.injEq] at h
        obtain ⟨h1, -, h3⟩ := h
        subst h1 h3
        simp [SameBatch, SC_set_error]
      · split at h
        · simp only [Option.some.injEq, Prod.mk.injEq] at h
          obtain ⟨h1, -, h3⟩ := h
          subst h1 h3
          simp [SameBatch, SC_set_error]
        · split at h
          · exact Option.noConfusion h
          · simp only [Option.some.injEq, Prod.mk.injEq] at h
            obtain ⟨h1, -, h3⟩ := h
            subst h1 h3
            simp [SameBatch, SC_set_Result]

theorem real_execution_frame (be : Backend) (conn c : ConnectionClass) (ct sc : Int)
    (stmt s : StatementClass) (rv : RETCODE) (ee : Bool)
    (h : real_execution be conn ct sc stmt = some (rv, ee, c, s)) :
    SameBatch stmt s ∧ s.current_exec_param = stmt.current_exec_param ∧
    (ee = true → s.exec_current_row = -1) ∧
    (ee = false → s.exec_current_row = stmt.exec_current_row + 1 ∧
      stmt.exec_current_row < end_row_of stmt) ∧
    ((∀ c0 s0, (be.SC_execute c0 s0).retval ≠ SQL_NEED_DATA) → rv ≠ SQL_NEED_DATA) := by
  obtain ⟨e1, e2, e3, -⟩ := SC_execute_frame be conn stmt
  unfold real_execution at h
  simp only [] at h
  split at h
  · simp only [Option.some.injEq, Prod.mk.injEq] at h
    obtain ⟨h1, h2, -, h4⟩ := h
    subst h1 h2 h4
    refine ⟨e1.trans (by simp [SameBatch]), e3, fun _ => rfl, fun hf => by simp at hf,
      fun hs => ?_⟩
    simpa [SC_execute] using hs conn stmt
  · split at h
    · exact Option.noConfusion h
    · rename_i rv1 ee1 s1 ha
      simp only [Option.some.injEq, Prod.mk.injEq] at h
      obtain ⟨h1, h2, -, h4⟩ := h
      subst h1 h2 h4
      obtain ⟨a1, a2, a3, a4, a5⟩ := after_execute_frame _ _ _ _ _ _ _ _ ha
      refine ⟨e1.trans a1, by rw [a2, e3], a3, fun hf => ?_, fun hs => ?_⟩
      · obtain ⟨b1, b2, -⟩ := a4 hf
        refine ⟨by rw [b1, e2], ?_⟩
        rw [e1.end_row_of, e2] at b2
        exact b2
      · have hne := hs conn stmt
        rcases a5 with a5 | a5 | a5 | a5
        · rw [a5]; simpa [SC_execute] using hne
        · rw [a5]; decide
        · rw [a5]; decide
        · rw [a5]; decide

/-- What `Exec_with_parameters_resolved` leaves whenever it returns: the batch
(bindings, row window, counters, streaming state) is as before,
`current_exec_param` is -1, the row index is -1 when `*exec_end` is set and
otherwise the next row, which is still inside the window; and the return code
is `SQL_NEED_DATA` only if `copy_statement_with_parameters` or `SC_execute`
returned it. -/
theorem Exec_with_parameters_resolved_frame (be : Backend) (conn c : ConnectionClass)
    (stmt s : StatementClass) (rv : RETCODE) (ee : Bool)
    (h : Exec_with_parameters_resolved be conn stmt = some (rv, ee, c, s)) :
    SameBatch stmt s ∧ s.current_exec_param = -1 ∧
    (ee = true → s.exec_current_row = -1) ∧
    (ee = false → s.exec_current_row = stmt.exec_current_row + 1 ∧
      stmt.exec_current_row < end_row_of stmt) ∧
    ((∀ c0 s0 b, (be.copy_statement_with_parameters c0 s0 b).retval ≠ SQL_NEED_DATA) →
      (∀ c0 s0, (be.SC_execute c0 s0).retval ≠ SQL_NEED_DATA) → rv ≠ SQL_NEED_DATA) := by
  unfold Exec_with_parameters_resolved at h
  simp only [] at h
  have hcopy := copy_statement_with_parameters_frame be conn stmt (prepare_before_exec conn stmt)
  split at h
  · simp only [Option.some.injEq, Prod.mk.injEq] at h
    obtain ⟨h1, h2, -, h4⟩ := h
    subst h1 h2 h4
    refine ⟨?_, rfl, fun _ => rfl, fun hf => by simp at hf, fun hc _ => ?_⟩
    · exact hcopy.1.trans (by simp [SameBatch])
    · simpa [copy_statement_with_parameters] using hc conn stmt _
  · split at h
    · split at h
      · exact Option.noConfusion h
      · rename_i rv1 c1 s1 hd
        simp only [Option.some.injEq, Prod.mk.injEq] at h
        obtain ⟨h1, h2, -, h4⟩ := h
        subst h1 h2 h4
        obtain ⟨d1, d2, d3, d4⟩ := dummy_execution_frame _ _ _ _ _ _ hd
        refine ⟨?_, ?_, fun _ => ?_, fun hf => by simp at hf, fun _ _ => ?_⟩
        · exact (hcopy.1.trans (by simp [SameBatch])).trans d1
        · rw [d3]
        · rw [d2]
        · rcases d4 with d4 | d4 <;> (rw [d4]; decide)
    · obtain ⟨r1, r2, r3, r4, r5⟩ := real_execution_frame _ _ _ _ _ _ _ _ _ h
      refine ⟨(hcopy.1.trans (by simp [SameBatch])).trans r1, by rw [r2], r3, fun hf => ?_,
        fun _ hs => r5 hs⟩
      obtain ⟨b1, b2⟩ := r4 hf
      refine ⟨by rw [b1]; simpa using hcopy.2, ?_⟩
      have hend : end_row_of { (copy_statement_with_parameters be conn stmt
          (prepare_before_exec conn stmt)).2 with current_exec_param := -1 } =
          end_row_of stmt :=
        (hcopy.1.trans (by simp [SameBatch])).end_row_of
      rw [hend] at b2
      simpa [hcopy.2] using b2

/-- When the row loop returns `SQL_NEED_DATA` and neither
`copy_statement_with_parameters` nor `SC_execute` reports that code itself, the
return is the one of line 595: `data_at_exec` counts the flagged parameters. -/
theorem next_param_row_need_data (be : Backend) (end_row : Int)
    (hcopy : ∀ c0 s0 b, (be.copy_statement_with_parameters c0 s0 b).retval ≠ SQL_NEED_DATA)
    (hsc : ∀ c0 s0, (be.SC_execute c0 s0).retval ≠ SQL_NEED_DATA) :
    ∀ (fuel : Nat) (conn : ConnectionClass) (stmt : StatementClass) (c1 : ConnectionClass)
      (s1 : StatementClass),
      next_param_row be end_row fuel conn stmt = some (SQL_NEED_DATA, c1, s1) →
      s1.data_at_exec = ((flagged s1.apd.parameters).length : Int) ∧
      1 ≤ (flagged s1.apd.parameters).length := by
  intro fuel
  induction fuel with
  | zero => intro conn stmt c1 s1 h; simp [next_param_row] at h
  | succ n ih =>
    intro conn stmt c1 s1 h
    unfold next_param_row at h
    simp only [] at h
    split at h
    · exact Option.noConfusion h
    · simp at h
    · split at h
      · exact Option.noConfusion h
      · split at h
        · exact Option.noConfusion h
        · rename_i s2 hchk
          simp only [Option.some.injEq, Prod.mk.injEq, true_and] at h
          obtain ⟨-, h2⟩ := h
          subst h2
          obtain ⟨k1, k2, -, -⟩ := check_data_at_exec_need_data _ _ hchk
          exact ⟨k1, k2⟩
        · split at h
          · exact Option.noConfusion h
          · rename_i rv ee c2 s3 hex
            split at h
            · exact ih _ _ _ _ h
            · simp only [Option.some.injEq, Prod.mk.injEq] at h
              obtain ⟨h1, -, -⟩ := h
              exact absurd h1
                ((Exec_with_parameters_resolved_frame _ _ _ _ _ _ _ hex).2.2.2.2 hcopy hsc)

theorem execute_rows_need_data (be : Backend)
    (hcopy : ∀ c0 s0 b, (be.copy_statement_with_parameters c0 s0 b).retval ≠ SQL_NEED_DATA)
    (hsc : ∀ c0 s0, (be.SC_execute c0 s0).retval ≠ SQL_NEED_DATA)
    (conn c1 : ConnectionClass) (stmt s1 : StatementClass) (recycle recycled : Bool)
    (h : execute_rows be conn stmt recycle recycled = some (SQL_NEED_DATA, c1, s1)) :
    s1.data_at_exec = ((flagged s1.apd.parameters).length : Int) ∧
    1 ≤ (flagged s1.apd.parameters).length := by
  unfold execute_rows at h
  simp only [] at h
  split at h
  · exact Option.noConfusion h
  · exact next_param_row_need_data be _ hcopy hsc _ _ _ _ _ h

/-- When `PGAPI_Execute` returns `SQL_NEED_DATA` (and the two collaborators
never report that code themselves), the statement it leaves has
`data_at_exec` equal to the number of parameters flagged for the row, which is
at least one. -/
theorem PGAPI_Execute_need_data (be : Backend)
    (hcopy : ∀ c0 s0 b, (be.copy_statement_with_parameters c0 s0 b).retval ≠ SQL_NEED_DATA)
    (hsc : ∀ c0 s0, (be.SC_execute c0 s0).retval ≠ SQL_NEED_DATA)
    (conn c1 : ConnectionClass) (stmt s1 : StatementClass) (flag : Nat)
    (h : PGAPI_Execute be conn stmt flag = some (SQL_NEED_DATA, c1, s1)) :
    s1.data_at_exec = ((flagged s1.apd.parameters).length : Int) ∧
    1 ≤ (flagged s1.apd.parameters).length := by
  unfold PGAPI_Execute at h
  simp only [] at h
  split at h
  · rename_i rv c2 s2 hearly
    simp only [Option.some.injEq, Prod.mk.injEq] at h
    obtain ⟨h1, -, -⟩ := h
    subst h1
    split at hearly
    · split at hearly
      · simp at hearly
      · split at hearly
        · simp only [Prod.mk.injEq, Option.some.injEq] at hearly
          exact absurd hearly.1 (by decide)
        · simp only [Prod.mk.injEq, Option.some.injEq] at hearly
          exact absurd hearly.1 (by decide)
    · simp at hearly
  · split at h
    · simp only [Option.some.injEq, Prod.mk.injEq] at h
      exact absurd h.1 (by decide)
    · split at h
      · exact execute_rows_need_data be hcopy hsc _ _ _ _ _ _ h
      · split at h
        · exact execute_rows_need_data be hcopy hsc _ _ _ _ _ _ h
        · split at h
          · exact execute_rows_need_data be hcopy hsc _ _ _ _ _ _ h
          · split at h
            · simp only [Option.some.injEq, Prod.mk.injEq] at h
              exact absurd h.1 (by decide)
            · exact execute_rows_need_data be hcopy hsc _ _ _ _ _ _ h

/-- With nothing pending and no large object open, `PGAPI_ParamData` runs
`Exec_with_parameters_resolved` on the statement as it is. -/
theorem PGAPI_ParamData_executes (be : Backend) (h : Handle) (prgbValue : Bool)
    (hzero : h.estmt.data_at_exec = 0) (hlo : h.estmt.lobj_fd < 0) :
    PGAPI_ParamData be h prgbValue =
      match Exec_with_parameters_resolved be h.conn h.estmt with
      | none => none
      | some (retval, exec_end, conn, estmt) =>
        if exec_end then
          some { retval := be.dequeueNeedDataCallback retval (detach_delegate h conn estmt).stmt,
                 token := none, handle := detach_delegate h conn estmt, estmt := estmt }
        else resume_rows be h conn estmt prgbValue := by
  have hlo2 : ¬ h.estmt.lobj_fd ≥ 0 := not_le.mpr hlo
  unfold PGAPI_ParamData
  simp [hzero, hlo2, close_large_object]

/-- C2, as stated, fails: `PGAPI_Execute` on `staleStmt` returns
`SQL_NEED_DATA` with the two parameters 0 and 1 flagged for the row, but
`current_exec_param` is still 0, so the first `PGAPI_ParamData` hands out
parameter 1, not the smallest flagged index 0, and the second call returns
`SQL_NEED_DATA` without a token, leaving `data_at_exec` at 1: the real
execution is never reached. It also fails on `openLobjStmt`, which has no
current parameter but a large object left open: when the in-line commit fails,
the first `PGAPI_ParamData` returns `SQL_ERROR` and hands out no parameter.
And it fails on `lobjStreamStmt`, a statement in a clean state whose one
flagged parameter (k = 1) is streamed into a large object: the first
`PGAPI_ParamData` hands the parameter out, `PGAPI_PutData` opens the large
object, and the second `PGAPI_ParamData`, made with `data_at_exec` 0, returns
`SQL_ERROR` when its in-line commit fails, without having run the row (no
`SC_execute` among the requests). -/
theorem PGAPI_ParamData_stale_current_param :
    lobj_protocol failingCommitBackend =
      some ([SQL_NEED_DATA, SQL_NEED_DATA, SQL_SUCCESS, SQL_ERROR],
        [Request.CC_begin, Request.lo_creat, Request.lo_open 1, Request.lo_write 3 [1, 2, 3],
         Request.lo_close 3, Request.CC_commit], 3) ∧
    (PGAPI_Execute failingCommitBackend idleConn openLobjStmt 0 =
        some (SQL_NEED_DATA, idleConn, { openLobjStmt with data_at_exec := 2 }) ∧
      (PGAPI_ParamData failingCommitBackend
          (idleHandle { openLobjStmt with data_at_exec := 2 }) true).map
          (fun r => (r.retval, r.token, r.estmt.current_exec_param)) =
        some (SQL_ERROR, none, -1)) ∧
    PGAPI_Execute okBackend idleConn staleStmt 0 =
      some (SQL_NEED_DATA, idleConn, staleStmt_suspended) ∧
    flagged staleStmt_suspended.apd.parameters = [0, 1] ∧
    PGAPI_ParamData okBackend (idleHandle staleStmt_suspended) true =
      some { retval := SQL_NEED_DATA, token := some 8192,
             handle := idleHandle { staleStmt_suspended with
               data_at_exec := 1, current_exec_param := 1 },
             estmt := { staleStmt_suspended with data_at_exec := 1, current_exec_param := 1 } } ∧
    PGAPI_ParamData okBackend
        (idleHandle { staleStmt_suspended with data_at_exec := 1, current_exec_param := 1 }) true =
      some { retval := SQL_NEED_DATA, token := none,
             handle := idleHandle { staleStmt_suspended with
               data_at_exec := 1, current_exec_param := 1 },
             estmt := { staleStmt_suspended with data_at_exec := 1, current_exec_param := 1 } } := by
  refine ⟨rfl, ⟨rfl, rfl⟩, rfl, rfl, rfl, rfl⟩

/-! ## Theorems: the processed-row counter of a batch -/

theorem reconcile_result_defined (stmt : StatementClass) (retval : RETCODE)
    (hres : SQL_CURSOR_KEYSET_DRIVEN = stmt.cursor_type ∧
      SQL_CONCUR_READ_ONLY ≠ stmt.scroll_concurrency → stmt.result ≠ []) :
    ∃ r, reconcile_result stmt retval = some r := by
  simp only [reconcile_result]
  split
  · rename_i hk
    have := hres hk
    split
    · contradiction
    · exact ⟨_, rfl⟩
    · exact ⟨_, rfl⟩
  · split
    · split
      · split
        · exact ⟨_, rfl⟩
        · exact ⟨_, rfl⟩
      · exact ⟨_, rfl⟩
    · exact ⟨_, rfl⟩

theorem set_row_status_defined (stmt : StatementClass) (v : Int)
    (hrow : 0 ≤ stmt.exec_current_row)
    (hstat : ∀ n, stmt.ipd.param_status_ptr.map List.length = some n →
      stmt.exec_current_row.toNat < n) :
    ∃ s, set_row_status stmt v = some s := by
  unfold set_row_status
  cases hp : stmt.ipd.param_status_ptr with
  | none => exact ⟨_, rfl⟩
  | some a =>
    have hlt := hstat a.length (by simp [hp])
    simp only [writeAt, hrow, hlt, and_self, if_true]
    exact ⟨_, rfl⟩

theorem after_execute_defined (conn : ConnectionClass) (ct sc : Int) (stmt : StatementClass)
    (retval : RETCODE)
    (hres : SQL_CURSOR_KEYSET_DRIVEN = stmt.cursor_type ∧
      SQL_CONCUR_READ_ONLY ≠ stmt.scroll_concurrency → stmt.result ≠ [])
    (hrow : 0 ≤ stmt.exec_current_row)
    (hstat : ∀ n, stmt.ipd.param_status_ptr.map List.length = some n →
      stmt.exec_current_row.toNat < n) :
    ∃ r, after_execute conn ct sc stmt retval = some r := by
  obtain ⟨⟨res, s1, rv1⟩, hr⟩ := reconcile_result_defined stmt retval hres
  obtain ⟨f1, f2, -, -, -⟩ := reconcile_result_frame _ _ _ _ _ hr
  obtain ⟨s2, hs⟩ := set_row_status_defined s1 (row_status rv1) (by rw [f2]; exact hrow)
    (by rw [f2, f1.2.2.2.1]; exact hstat)
  unfold after_execute
  simp only [hr, hs]
  exact ⟨_, rfl⟩

theorem advance_row_end (stmt : StatementClass) (h : (advance_row stmt).1 = true) :
    stmt.inaccurate_result = true ∨ stmt.exec_current_row ≥ end_row_of stmt := by
  unfold advance_row end_row_of at *
  by_cases hc : stmt.inaccurate_result = true ∨ stmt.exec_current_row ≥
      (if stmt.exec_end_row < 0 then stmt.apd.paramset_size - 1 else stmt.exec_end_row)
  · exact hc
  · rw [if_neg hc] at h
    exact absurd h (by simp)

theorem after_execute_end (conn : ConnectionClass) (ct sc : Int) (stmt s : StatementClass)
    (retval rv : RETCODE)
    (h : after_execute conn ct sc stmt retval = some (rv, true, s)) :
    stmt.inaccurate_result = true ∨ stmt.exec_current_row ≥ end_row_of stmt := by
  unfold after_execute at h
  cases hr : reconcile_result stmt retval with
  | none => simp [hr] at h
  | some r =>
    obtain ⟨res, s1, rv1⟩ := r
    simp only [hr] at h
    cases hs : set_row_status s1 (row_status rv1) with
    | none => simp [hs] at h
    | some s2 =>
      simp only [hs, Option.some.injEq, Prod.mk.injEq] at h
      obtain ⟨-, h2, -⟩ := h
      obtain ⟨f1, f2, -, f4, -⟩ := reconcile_result_frame _ _ _ _ _ hr
      obtain ⟨g1, g2, -, g4, -, -⟩ := set_row_status_frame _ _ _ hs
      have := advance_row_end s2 h2
      rw [g4, f4, g2, f2, (f1.trans g1).end_row_of] at this
      exact this

theorem real_execution_defined (be : Backend) (hsucc : RowsSucceed be)
    (conn : ConnectionClass) (ct sc : Int) (stmt : StatementClass)
    (hinacc : stmt.inaccurate_result = false)
    (hrow : 0 ≤ stmt.exec_current_row)
    (hstat : ∀ n, stmt.ipd.param_status_ptr.map List.length = some n →
      stmt.exec_current_row.toNat < n) :
    ∃ rv ee c s, real_execution be conn ct sc stmt = some (rv, ee, c, s) ∧
      (ee = true ↔ stmt.exec_current_row ≥ end_row_of stmt) := by
  obtain ⟨e1, e2, e3, e4⟩ := SC_execute_frame be conn stmt
  have hex := hsucc.2 conn stmt
  obtain ⟨⟨rv, ee, s1⟩, ha⟩ := after_execute_defined conn ct sc (SC_execute be conn stmt).2.2
    (SC_execute be conn stmt).1 (by simpa [SC_execute] using hex.2) (by rw [e2]; exact hrow)
    (by rw [e2, e1.2.2.2.1]; exact hstat)
  have h3 : ¬ (SC_execute be conn stmt).1 = SQL_ERROR := by
    simpa [SC_execute] using hex.1
  refine ⟨rv, ee, (SC_execute be conn stmt).2.1, s1, ?_, ?_⟩
  · unfold real_execution
    simp only [h3, if_false, ha]
  · obtain ⟨-, -, -, a4, -⟩ := after_execute_frame _ _ _ _ _ _ _ _ ha
    constructor
    · intro hee
      subst hee
      have := after_execute_end _ _ _ _ _ _ _ ha
      rw [e4, hinacc, e2, e1.end_row_of] at this
      simpa using this
    · intro hge
      cases ee with
      | true => rfl
      | false =>
        obtain ⟨-, b2, -⟩ := a4 rfl
        rw [e2, e1.end_row_of] at b2
        omega

/-- Under `RowsSucceed`, a row whose status slot exists is executed: the call
returns, and `*exec_end` is set exactly on the last row of the window. -/
theorem Exec_with_parameters_resolved_defined (be : Backend) (hsucc : RowsSucceed be)
    (conn : ConnectionClass) (stmt : StatementClass)
    (hrow : 0 ≤ stmt.exec_current_row)
    (hstat : ∀ n, stmt.ipd.param_status_ptr.map List.length = some n →
      stmt.exec_current_row.toNat < n) :
    ∃ rv ee c s, Exec_with_parameters_resolved be conn stmt = some (rv, ee, c, s) ∧
      (ee = true ↔ stmt.exec_current_row ≥ end_row_of stmt) := by
  obtain ⟨hc1, hc2⟩ := hsucc.1 conn stmt (prepare_before_exec conn stmt)
  obtain ⟨f1, f2⟩ := copy_statement_with_parameters_frame be conn stmt
    (prepare_before_exec conn stmt)
  have hsame : SameBatch stmt { (copy_statement_with_parameters be conn stmt
      (prepare_before_exec conn stmt)).2 with current_exec_param := -1 } :=
    f1.trans (by simp [SameBatch])
  obtain ⟨rv, ee, c, s, hr, hiff⟩ := real_execution_defined be hsucc conn stmt.cursor_type
    stmt.scroll_concurrency { (copy_statement_with_parameters be conn stmt
      (prepare_before_exec conn stmt)).2 with current_exec_param := -1 }
    (by simpa [copy_statement_with_parameters] using hc2)
    (by simpa [f2] using hrow)
    (by
      intro n hn
      have := hstat n (by rw [← hsame.2.2.2.1]; exact hn)
      simpa [f2] using this)
  refine ⟨rv, ee, c, s, ?_, ?_⟩
  · unfold Exec_with_parameters_resolved
    have h1 : ¬ (copy_statement_with_parameters be conn stmt
        (prepare_before_exec conn stmt)).1 ≠ SQL_SUCCESS := by
      simpa [copy_statement_with_parameters] using hc1
    have h2 : (copy_statement_with_parameters be conn stmt
        (prepare_before_exec conn stmt)).2.inaccurate_result = false := by
      simpa [copy_statement_with_parameters] using hc2
    have hcond : ¬ (({ (copy_statement_with_parameters be conn stmt
        (prepare_before_exec conn stmt)).2 with
        current_exec_param := -1 } : StatementClass).inaccurate_result &&
        conn.disallow_premature) = true := by
      simp [h2]
    simp only []
    rw [if_neg h1, if_neg hcond]
    exact hr
  · rw [hiff, hsame.end_row_of]
    simp [f2]

theorem scan_data_at_exec_none (row : Int) :
    ∀ (ps : List ParameterInfoClass) (d : Int),
      (∀ p ∈ ps, data_at_exec_flag row p = some false) →
      scan_data_at_exec row ps d =
        some (ps.map (fun p => { p with data_at_exec := false }), d) := by
  intro ps
  induction ps with
  | nil => intro d _; rfl
  | cons p t ih =>
    intro d h
    have hp := h p (List.mem_cons_self _ _)
    have ht := ih d (fun q hq => h q (List.mem_cons_of_mem _ hq))
    simp [scan_data_at_exec, hp, ht]

theorem NoDataAtExec_map (ps : List ParameterInfoClass) (s e : Int)
    (h : NoDataAtExec ps s e) :
    NoDataAtExec (ps.map (fun p => { p with data_at_exec := false })) s e := by
  intro p hp r hs he
  simp only [List.mem_map] at hp
  obtain ⟨q, hq, hqp⟩ := hp
  subst hqp
  exact h q hq r hs he

theorem LoopInv.of_sameBatch {a b : StatementClass} {op : Option (List Int)} {s e : Int}
    (h : LoopInv a op s e) (hab : SameBatch a b) : LoopInv b op s e := by
  obtain ⟨h1, h2, h3, h4, h5⟩ := h
  refine ⟨?_, ?_, ?_, ?_, ?_⟩
  · rw [hab.1]; exact h1
  · rw [hab.end_row_of]; exact h2
  · rw [hab.2.2.2.2.2.2.1]; exact h3
  · rw [hab.2.2.2.1]; exact h4
  · rw [hab.1]; exact h5

theorem check_data_at_exec_none (st : StatementClass) (op : Option (List Int)) (s e : Int)
    (cnt : Int) (hinv : LoopInv st op s e) (hs : s ≤ st.exec_current_row)
    (he : st.exec_current_row ≤ e) (h0 : 0 ≤ s)
    (hcnt : st.ipd.param_processed_ptr = some cnt) :
    ∃ st1, check_data_at_exec st = some (false, st1) ∧ LoopInv st1 op s e ∧
      st1.exec_current_row = st.exec_current_row ∧
      st1.ipd.param_processed_ptr = some (cnt + 1) := by
  obtain ⟨h1, h2, h3, h4, h5⟩ := hinv
  have hrow : ¬ st.exec_current_row < 0 := by omega
  have hscan := scan_data_at_exec_none st.exec_current_row st.apd.parameters (-1)
    (fun p hp => h5 p hp _ hs he)
  have heq : check_data_at_exec st = some (false,
      { st with
        ipd := { st.ipd with param_processed_ptr := some (cnt + 1) }
        data_at_exec := -1
        apd := { st.apd with
          parameters := st.apd.parameters.map (fun p => { p with data_at_exec := false }) } }) := by
    unfold check_data_at_exec
    simp only [h3, Bool.not_false, if_true, hrow, if_false, hscan, hcnt]
    simp
  refine ⟨_, heq, ⟨h1, ?_, h3, h4, NoDataAtExec_map _ _ _ h5⟩, rfl, rfl⟩
  simpa [end_row_of] using h2

theorem live_rows_succ (op : Option (List Int)) (n r : Nat) :
    live_rows op (n + 1) r = (if row_ignored op r then 0 else 1) + live_rows op n (r + 1) := rfl

/-- The loop over ignored rows, started at row `r` with `n` rows after it:
either all of them are ignored, or it stops at the first row that is not. -/
theorem skip_ignored_spec (a : List Int) (e : Int) (hlen : e.toNat < a.length) :
    ∀ (n : Nat) (r : Int) (fuel : Nat), 0 ≤ r → r + n = e → n ≤ fuel →
      (skip_ignored a e fuel r = some Skip.all_ignored ∧
        live_rows (some a) (n + 1) r.toNat = 0) ∨
      (∃ r1 : Int, r ≤ r1 ∧ r1 ≤ e ∧ skip_ignored a e fuel r = some (Skip.row r1) ∧
        row_ignored (some a) r1.toNat = false ∧
        live_rows (some a) (n + 1) r.toNat =
          live_rows (some a) ((e - r1).toNat + 1) r1.toNat) := by
  intro n
  induction n with
  | zero =>
    intro r fuel h0 hr _
    have hre : r = e := by omega
    subst hre
    have hget : a[r.toNat]? = some a[r.toNat] := List.getElem?_eq_getElem hlen
    by_cases hv : a[r.toNat] = SQL_PARAM_IGNORE
    · left
      cases fuel <;> simp [skip_ignored, skip_step, readAt, h0, hget, hv, live_rows, row_ignored]
    · right
      refine ⟨r, le_refl _, le_refl _, ?_, ?_, ?_⟩
      · cases fuel <;> simp [skip_ignored, skip_step, readAt, h0, hget, hv]
      · simp [row_ignored, hget, hv]
      · simp
  | succ m ih =>
    intro r fuel h0 hr hfuel
    have hlt : r.toNat < a.length := by omega
    have hget : a[r.toNat]? = some a[r.toNat] := List.getElem?_eq_getElem hlt
    by_cases hv : a[r.toNat] = SQL_PARAM_IGNORE
    · have hnot : ¬ r ≥ e := by omega
      obtain ⟨f, hf⟩ : ∃ f, fuel = f + 1 := ⟨fuel - 1, by omega⟩
      subst hf
      have hstep : skip_ignored a e (f + 1) r = skip_ignored a e f (r + 1) := by
        simp [skip_ignored, skip_step, readAt, h0, hget, hv, hnot]
      have hnat : (r + 1).toNat = r.toNat + 1 := by omega
      have hign : row_ignored (some a) r.toNat = true := by
        simp [row_ignored, hget, hv]
      rcases ih (r + 1) f (by omega) (by push_cast at hr ⊢; omega) (by omega) with h | h
      · left
        refine ⟨by rw [hstep]; exact h.1, ?_⟩
        rw [live_rows_succ, hign, ← hnat]
        simpa using h.2
      · right
        obtain ⟨r1, h1, h2, h3, h4, h5⟩ := h
        refine ⟨r1, by omega, h2, by rw [hstep]; exact h3, h4, ?_⟩
        rw [live_rows_succ, hign, ← hnat]
        simpa using h5
    · right
      refine ⟨r, le_refl _, by omega, ?_, ?_, ?_⟩
      · cases fuel <;> simp [skip_ignored, skip_step, readAt, h0, hget, hv]
      · simp [row_ignored, hget, hv]
      · have : (e - r).toNat = m + 1 := by omega
        rw [this]

theorem SC_recycle_statement_frame (be : Backend) (conn : ConnectionClass)
    (stmt : StatementClass) :
    (SC_recycle_statement be conn stmt).2.apd = stmt.apd ∧
    (SC_recycle_statement be conn stmt).2.ipd = stmt.ipd ∧
    (SC_recycle_statement be conn stmt).2.exec_start_row = stmt.exec_start_row ∧
    (SC_recycle_statement be conn stmt).2.exec_end_row = stmt.exec_end_row ∧
    (SC_recycle_statement be conn stmt).2.exec_current_row = stmt.exec_current_row ∧
    (SC_recycle_statement be conn stmt).2.pre_executing = stmt.pre_executing ∧
    (SC_recycle_statement be conn stmt).2.statement = stmt.statement := by
  simp [SC_recycle_statement]

theorem LoopInv.of_recycle {st : StatementClass} {op : Option (List Int)} {s e : Int}
    (h : LoopInv st op s e) (be : Backend) (conn : ConnectionClass) :
    LoopInv (SC_recycle_statement be conn st).2 op s e := by
  obtain ⟨f1, f2, -, f4, -, f6, -⟩ := SC_recycle_statement_frame be conn st
  obtain ⟨h1, h2, h3, h4, h5⟩ := h
  refine ⟨by rw [f1]; exact h1, ?_, by rw [f6]; exact h3, by rw [f2]; exact h4,
    by rw [f1]; exact h5⟩
  unfold end_row_of at *
  rw [f4, f1]
  exact h2

theorem okBackend_rows_succeed : RowsSucceed okBackend :=
  ⟨fun _ _ _ => ⟨rfl, rfl⟩,
   fun _ _ => ⟨(by decide : (0 : Int) ≠ -1), fun _ => List.cons_ne_nil _ _⟩⟩

theorem batchStmt_no_data_at_exec : NoDataAtExec batchStmt.apd.parameters 0 3 := by
  intro p hp r h0 h3
  simp only [batchStmt, List.mem_singleton] at hp
  subst hp
  have : r = 0 ∨ r = 1 ∨ r = 2 ∨ r = 3 := by omega
  rcases this with h | h | h | h <;> subst h <;> rfl

theorem FanOut.cons_skip (be : Backend) (henv fType : Nat) (x : Option ConnectionClass)
    (hx : ∀ c, x = some c → c.henv ≠ henv)
    (conns : List (Option ConnectionClass)) (ret : RETCODE)
    (out : List (Option ConnectionClass)) (h : FanOut be henv fType conns ret out) :
    FanOut be henv fType (x :: conns) ret (x :: out) := by
  obtain ⟨hl, hu, hd⟩ := h
  refine ⟨by simp [hl], ?_, ?_⟩
  · intro i hi
    cases i with
    | zero => simp
    | succ j =>
      simp only [List.getElem?_cons_succ]
      exact hu j (fun c hc => hi c (by simpa [registered] using hc))
  · rcases hd with ⟨hr, hall⟩ | ⟨hr, k, c, hk, hf, ho, hb, ha⟩
    · left
      refine ⟨hr, ?_⟩
      intro i c hc
      cases i with
      | zero =>
        exact absurd hc.2 (hx c (by simpa [registered] using hc.1))
      | succ j =>
        simp only [List.getElem?_cons_succ]
        exact hall j c (by simpa [registered] using hc)
    · right
      refine ⟨hr, k + 1, c, by simpa [registered] using hk, hf, by simpa using ho, ?_, ?_⟩
      · intro i ci hi hc
        cases i with
        | zero => exact absurd hc.2 (hx ci (by simpa [registered] using hc.1))
        | succ j =>
          simp only [List.getElem?_cons_succ]
          exact hb j ci (by omega) (by simpa [registered] using hc)
      · intro i hi
        cases i with
        | zero => omega
        | succ j =>
          simp only [List.getElem?_cons_succ]
          exact ha j (by omega)

theorem FanOut.cons_success (be : Backend) (henv fType : Nat) (conn : ConnectionClass)
    (he : conn.henv = henv) (ht : (transact_connection be conn fType).1 = SQL_SUCCESS)
    (conns : List (Option ConnectionClass)) (ret : RETCODE)
    (out : List (Option ConnectionClass)) (h : FanOut be henv fType conns ret out) :
    FanOut be henv fType (some conn :: conns) ret
      (some (transact_connection be conn fType).2 :: out) := by
  obtain ⟨hl, hu, hd⟩ := h
  have hzero : ∀ c, registered (some conn :: conns) henv 0 c → c = conn := by
    intro c hc
    have := hc.1
    simp at this
    exact this.symm
  refine ⟨by simp [hl], ?_, ?_⟩
  · intro i hi
    cases i with
    | zero => exact absurd ⟨by simp, he⟩ (hi conn)
    | succ j =>
      simp only [List.getElem?_cons_succ]
      exact hu j (fun c hc => hi c (by simpa [registered] using hc))
  · rcases hd with ⟨hr, hall⟩ | ⟨hr, k, c, hk, hf, ho, hb, ha⟩
    · left
      refine ⟨hr, ?_⟩
      intro i c hc
      cases i with
      | zero =>
        have := hzero c hc
        subst this
        exact ⟨ht, by simp⟩
      | succ j =>
        simp only [List.getElem?_cons_succ]
        exact hall j c (by simpa [registered] using hc)
    · right
      refine ⟨hr, k + 1, c, by simpa [registered] using hk, hf, by simpa using ho, ?_, ?_⟩
      · intro i ci hi hc
        cases i with
        | zero =>
          have := hzero ci hc
          subst this
          exact ⟨ht, by simp⟩
        | succ j =>
          simp only [List.getElem?_cons_succ]
          exact hb j ci (by omega) (by simpa [registered] using hc)
      · intro i hi
        cases i with
        | zero => omega
        | succ j =>
          simp only [List.getElem?_cons_succ]
          exact ha j (by omega)

theorem transact_environment_fanOut (be : Backend) (henv fType : Nat) :
    ∀ conns : List (Option ConnectionClass),
      FanOut be henv fType conns (transact_environment be henv fType conns).1
        (transact_environment be henv fType conns).2
  | [] => by
    refine ⟨rfl, fun _ _ => rfl, Or.inl ⟨rfl, ?_⟩⟩
    intro i c hc
    simp [registered] at hc
  | none :: rest => by
    have ih := transact_environment_fanOut be henv fType rest
    simp only [transact_environment]
    exact FanOut.cons_skip be henv fType none (by simp) rest _ _ ih
  | some conn :: rest => by
    have ih := transact_environment_fanOut be henv fType rest
    simp only [transact_environment]
    by_cases he : conn.henv = henv
    · rw [if_pos he]
      by_cases ht : (transact_connection be conn fType).1 ≠ SQL_SUCCESS
      · rw [if_pos ht]
        refine ⟨by simp, ?_, Or.inr ⟨rfl, 0, conn, ⟨by simp, he⟩, ht, by simp, ?_, ?_⟩⟩
        · intro i hi
          cases i with
          | zero => exact absurd ⟨by simp, he⟩ (hi conn)
          | succ j => simp
        · intro i ci hi
          omega
        · intro i hi
          cases i with
          | zero => omega
          | succ j => simp
      · rw [if_neg ht]
        exact FanOut.cons_success be henv fType conn he (not_not.mp ht) rest _ _ ih
    · rw [if_neg he]
      exact FanOut.cons_skip be henv fType (some conn)
        (by intro c hc; cases hc; exact he) rest _ _ ih

/-- On a connection in manual-commit mode with an open transaction,
`PGAPI_Transact` sends the command that `fType` names. -/
theorem transact_connection_sends (be : Backend) (c : ConnectionClass) (fType : Nat)
    (hf : fType = SQL_COMMIT ∨ fType = SQL_ROLLBACK)
    (hauto : c.autocommit = false) (htrans : c.in_trans = true) :
    ∃ tail, (transact_connection be c fType).2.requests =
      c.requests ++
        Request.CC_send_query (if fType = SQL_COMMIT then "COMMIT" else "ROLLBACK") :: tail := by
  rcases hf with hf | hf
  · subst hf
    cases hq : (be.CC_send_query c "COMMIT").1 with
    | none =>
      exact ⟨[Request.CC_on_abort],
        by simp [transact_connection, hauto, htrans, CC_on_abort, CC_send_query, hq]⟩
    | some res =>
      cases res with
      | nil =>
        exact ⟨[Request.CC_on_abort],
          by simp [transact_connection, hauto, htrans, CC_on_abort, CC_send_query, hq]⟩
      | cons r rest =>
        cases hok : r.command_maybe_successful
        · exact ⟨[Request.CC_on_abort],
            by simp [transact_connection, hauto, htrans, CC_on_abort, CC_send_query, hq, hok]⟩
        · exact ⟨[], by simp [transact_connection, hauto, htrans, CC_send_query, hq, hok]⟩
  · subst hf
    cases hq : (be.CC_send_query c "ROLLBACK").1 with
    | none =>
      exact ⟨[Request.CC_on_abort],
        by simp [transact_connection, hauto, htrans, CC_on_abort, CC_send_query, hq]⟩
    | some res =>
      cases res with
      | nil =>
        exact ⟨[Request.CC_on_abort],
          by simp [transact_connection, hauto, htrans, CC_on_abort, CC_send_query, hq]⟩
      | cons r rest =>
        cases hok : r.command_maybe_successful
        · exact ⟨[Request.CC_on_abort],
            by simp [transact_connection, hauto, htrans, CC_on_abort, CC_send_query, hq, hok]⟩
        · exact ⟨[], by simp [transact_connection, hauto, htrans, CC_send_query, hq, hok]⟩

/-- C11: `PGAPI_Transact` with a null connection handle and a non-null
environment `henv` returns, and what it returns and leaves in the registry is
this. The registry keeps its size, and a slot that holds no connection of
`henv` (an empty slot, or a connection of another environment) is exactly as
before. Either the call returns `SQL_SUCCESS`, every connection of `henv` gave
`SQL_SUCCESS` and its slot holds what the single-connection call left; or the
call returns `SQL_ERROR`, there is a first slot `k` whose connection of `henv`
did not give `SQL_SUCCESS`, that slot and the slots of the connections of
`henv` before it hold what the single-connection call left (they stay
processed, and they all gave `SQL_SUCCESS`), and every slot after `k` is as
before. The single-connection call, for a connection in manual-commit mode
inside a transaction, sends `COMMIT` or `ROLLBACK` as `fType` says. -/
theorem PGAPI_Transact_environment (be : Backend) (conns : List (Option ConnectionClass))
    (henv fType : Nat) (hhenv : henv ≠ SQL_NULL_HENV) :
    (∃ ret out, PGAPI_Transact be conns henv none fType = some (ret, out) ∧
      out.length = conns.length ∧
      (∀ i, (∀ c, ¬ registered conns henv i c) → out[i]? = conns[i]?) ∧
      ((ret = SQL_SUCCESS ∧
          ∀ i c, registered conns henv i c →
            (transact_connection be c fType).1 = SQL_SUCCESS ∧
            out[i]? = some (some (transact_connection be c fType).2)) ∨
       (ret = SQL_ERROR ∧
          ∃ k c, registered conns henv k c ∧
            (transact_connection be c fType).1 ≠ SQL_SUCCESS ∧
            out[k]? = some (some (transact_connection be c fType).2) ∧
            (∀ i ci, i < k → registered conns henv i ci →
              (transact_connection be ci fType).1 = SQL_SUCCESS ∧
              out[i]? = some (some (transact_connection be ci fType).2)) ∧
            (∀ i, k < i → out[i]? = conns[i]?)))) ∧
    (∀ c : ConnectionClass, (fType = SQL_COMMIT ∨ fType = SQL_ROLLBACK) →
      c.autocommit = false → c.in_trans = true →
      ∃ tail, (transact_connection be c fType).2.requests =
        c.requests ++
          Request.CC_send_query (if fType = SQL_COMMIT then "COMMIT" else "ROLLBACK") :: tail) := by
  refine ⟨⟨(transact_environment be henv fType conns).1,
    (transact_environment be henv fType conns).2, ?_,
    transact_environment_fanOut be henv fType conns⟩,
    fun c hf ha ht => transact_connection_sends be c fType hf ha ht⟩
  simp [PGAPI_Transact, hhenv]

/-- C11 at a concrete input, the spec's example: a rollback over environment 7
with three connections of which the second fails returns `SQL_ERROR`; the
first was rolled back and stays so, the failing one was aborted, the third one
and the connection of environment 8 are untouched. -/
theorem PGAPI_Transact_environment_witness :
    (7 : Nat) ≠ SQL_NULL_HENV ∧
    (∃ ret out, PGAPI_Transact transactBackend exampleRegistry 7 none SQL_ROLLBACK =
        some (ret, out) ∧
      out.length = exampleRegistry.length ∧
      (∀ i, (∀ c, ¬ registered exampleRegistry 7 i c) → out[i]? = exampleRegistry[i]?)) ∧
    PGAPI_Transact transactBackend exampleRegistry 7 none SQL_ROLLBACK =
      some (SQL_ERROR,
        [some (manualConn 8 1),
         some { manualConn 7 2 with
                in_trans := false, requests := [Request.CC_send_query "ROLLBACK"] },
         none,
         some { manualConn 7 0 with
                in_trans := false,
                requests := [Request.CC_send_query "ROLLBACK", Request.CC_on_abort] },
         some (manualConn 7 3)]) :=
  have h := PGAPI_Transact_environment transactBackend exampleRegistry 7 SQL_ROLLBACK
    (by decide)
  ⟨by decide,
   h.1.elim fun ret hr => hr.elim fun out ho => ⟨ret, out, ho.1, ho.2.1, ho.2.2.1⟩,
   rfl⟩

/-! ## Theorems: `PGAPI_PutData` on the large-object path -/

/-- The first `PGAPI_PutData` for a binary parameter bound to a large object:
the transaction is begun if none is open, the object is created and opened,
and the chunk is written through the handle. -/
theorem PGAPI_PutData_lo_first (be : Backend) (h : Handle) (p : ParameterInfoClass)
    (ip : ParameterImplClass) (pd : PutDataClass) (a : List Nat)
    (halloc : be.malloc 4 = true)
    (hbegin : ∀ c, (be.CC_begin c).1 = true)
    (hcreat : ∀ c, be.lo_creat c ≠ 0)
    (hopen : ∀ c oid, 0 ≤ be.lo_open c oid)
    (hcur : 0 ≤ h.estmt.current_exec_param)
    (hp : readAt h.estmt.apd.parameters h.estmt.current_exec_param = some p)
    (hip : readAt h.estmt.ipd.parameters h.estmt.current_exec_param = some ip)
    (hpd : readAt h.estmt.pdata h.estmt.current_exec_param = some pd)
    (hbin : p.CType = SQL_C_BINARY) (hlo : ip.PGType = h.conn.lobj_type)
    (hfirst : h.estmt.put_data = false) :
    PGAPI_PutData be h a (a.length : Int) = some (SQL_SUCCESS,
      h.store
        { begun be h.conn with
          requests := (begun be h.conn).requests ++
            [Request.lo_creat,
             Request.lo_open (lo_creat be (begun be h.conn)).1,
             Request.lo_write
               (lo_open be (lo_creat be (begun be h.conn)).2 (lo_creat be (begun be h.conn)).1).1
               a] }
        { h.estmt with
          put_data := true
          lobj_fd :=
            (lo_open be (lo_creat be (begun be h.conn)).2 (lo_creat be (begun be h.conn)).1).1
          pdata := h.estmt.pdata.set h.estmt.current_exec_param.toNat
            { pd with EXEC_used := some (a.length : Int),
                      lobj_oid := (lo_creat be (begun be h.conn)).1 } }) := by
  have hnot : ¬ h.estmt.current_exec_param < 0 := not_lt.mpr hcur
  have hnull : ¬ ((a.length : Int) = -1) := by omega
  have hdef : ¬ ((-2 : Int) = 99) := by decide
  have hchar : ¬ ((1 : Int) = -2) := by decide
  have hfd : ∀ c oid, ¬ be.lo_open c oid < 0 := fun c oid => not_lt.mpr (hopen c oid)
  unfold PGAPI_PutData
  cases ht : h.conn.in_trans <;>
    simp [hnot, hp, hip, hpd, hbin, hdef, hchar, put_length_binary, hlo, hfirst, halloc, hnull,
      begun, ht, hbegin, hcreat, hfd, lo_creat, lo_open, lo_write, CC_begin]

/-- A later `PGAPI_PutData` for a binary parameter bound to a large object
writes the chunk through the open handle and adds its length. -/
theorem PGAPI_PutData_lo_later (be : Backend) (h : Handle) (p : ParameterInfoClass)
    (ip : ParameterImplClass) (pd : PutDataClass) (used : Int) (b : List Nat)
    (hcur : 0 ≤ h.estmt.current_exec_param)
    (hp : readAt h.estmt.apd.parameters h.estmt.current_exec_param = some p)
    (hip : readAt h.estmt.ipd.parameters h.estmt.current_exec_param = some ip)
    (hpd : readAt h.estmt.pdata h.estmt.current_exec_param = some pd)
    (hused : pd.EXEC_used = some used)
    (hbin : p.CType = SQL_C_BINARY) (hlo : ip.PGType = h.conn.lobj_type)
    (hlater : h.estmt.put_data = true) :
    PGAPI_PutData be h b (b.length : Int) = some (SQL_SUCCESS,
      h.store
        { h.conn with
          requests := h.conn.requests ++ [Request.lo_write h.estmt.lobj_fd b] }
        { h.estmt with
          pdata := h.estmt.pdata.set h.estmt.current_exec_param.toNat
            { pd with EXEC_used := some (used + (b.length : Int)) } }) := by
  have hnot : ¬ h.estmt.current_exec_param < 0 := not_lt.mpr hcur
  have hdef : ¬ ((-2 : Int) = 99) := by decide
  have hchar : ¬ ((1 : Int) = -2) := by decide
  unfold PGAPI_PutData
  simp [hnot, hp, hip, hpd, hbin, hdef, hchar, put_length_binary, hlo, hlater, hused, lo_write]

/-- With no parameter pending and a large object open, `PGAPI_ParamData`
closes the object, commits in autocommit mode, and runs the row's execution. -/
theorem PGAPI_ParamData_closes_and_executes (be : Backend) (h : Handle) (prgbValue : Bool)
    (hcommit : ∀ c, (be.CC_commit c).1 = true)
    (hzero : h.estmt.data_at_exec = 0) (hfd : 0 ≤ h.estmt.lobj_fd) :
    (close_large_object be h h.estmt).1 = some { h.estmt with lobj_fd := -1 } ∧
    (∃ tail, (close_large_object be h h.estmt).2.requests =
      h.conn.requests ++ Request.lo_close h.estmt.lobj_fd :: tail) ∧
    PGAPI_ParamData be h prgbValue =
      match Exec_with_parameters_resolved be (close_large_object be h h.estmt).2
          { h.estmt with lobj_fd := -1 } with
      | none => none
      | some (retval, exec_end, conn, estmt) =>
        if exec_end then
          some { retval := be.dequeueNeedDataCallback retval (detach_delegate h conn estmt).stmt,
                 token := none,
                 handle := detach_delegate h conn estmt,
                 estmt := estmt }
        else resume_rows be h conn estmt prgbValue := by
  have hfd2 : h.estmt.lobj_fd ≥ 0 := hfd
  have hclose : (close_large_object be h h.estmt).1 = some { h.estmt with lobj_fd := -1 } := by
    unfold close_large_object
    simp only [hfd2, if_true]
    split
    · simp [hcommit, CC_commit]
    · rfl
  refine ⟨hclose, ?_, ?_⟩
  · unfold close_large_object
    simp only [hfd2, if_true]
    split
    · exact ⟨[Request.CC_commit], by simp [hcommit, CC_commit, lo_close]⟩
    · exact ⟨[], by simp [lo_close]⟩
  · unfold PGAPI_ParamData
    simp only [hzero]
    have h1 : ¬ ((0 : Int) < 0) := by decide
    have h2 : ¬ ((0 : Int) > (h.estmt.apd.parameters.length : Int)) := by omega
    rw [if_neg h1, if_neg h2]
    cases hc : close_large_object be h h.estmt with
    | mk o c =>
      rw [hc] at hclose
      simp only at hclose
      subst hclose
      simp [hzero]

theorem begun_requests (be : Backend) (conn : ConnectionClass) :
    (begun be conn).requests =
      conn.requests ++ (if conn.in_trans then [] else [Request.CC_begin]) := by
  unfold begun
  cases conn.in_trans <;> simp [CC_begin]

theorem begun_lobj_type (be : Backend) (conn : ConnectionClass) :
    (begun be conn).lobj_type = conn.lobj_type := by
  unfold begun
  cases conn.in_trans <;> simp [CC_begin]

/-- C12: on the large-object path with a binary C type (the current parameter
`p` has C type `SQL_C_BINARY`, its PG type is the connection's large-object
type), let the first `PGAPI_PutData` after the token (`put_data` FALSE) bring
chunk `a` and a later one chunk `b`, each with `cbValue` its length, and let
the collaborators succeed (`malloc`, `CC_begin`, `lo_creat`, `lo_open`,
`CC_commit`). Both calls return `SQL_SUCCESS`. The requests they make are, in
order: `CC_begin` if no transaction was open, one `lo_creat`, one `lo_open` of
the created object `oid`, `lo_write` of `a` and then `lo_write` of `b`, both
through the handle `fd` that `lo_open` gave, which is also `lobj_fd`. The
put-data entry holds `oid` and the accumulated length |a| + |b|. With no
parameter pending (`data_at_exec` = 0), the following `PGAPI_ParamData` closes
`fd` (its first request is `lo_close fd`), sets `lobj_fd` to -1 and runs
`Exec_with_parameters_resolved`. -/
theorem PGAPI_PutData_large_object (be : Backend) (h : Handle) (p : ParameterInfoClass)
    (ip : ParameterImplClass) (pd : PutDataClass) (a b : List Nat) (prgbValue : Bool)
    (halloc : be.malloc 4 = true)
    (hbegin : ∀ c, (be.CC_begin c).1 = true)
    (hcreat : ∀ c, be.lo_creat c ≠ 0)
    (hopen : ∀ c oid, 0 ≤ be.lo_open c oid)
    (hcommit : ∀ c, (be.CC_commit c).1 = true)
    (hcur : 0 ≤ h.estmt.current_exec_param)
    (hp : readAt h.estmt.apd.parameters h.estmt.current_exec_param = some p)
    (hip : readAt h.estmt.ipd.parameters h.estmt.current_exec_param = some ip)
    (hpd : readAt h.estmt.pdata h.estmt.current_exec_param = some pd)
    (hbin : p.CType = SQL_C_BINARY) (hlo : ip.PGType = h.conn.lobj_type)
    (hfirst : h.estmt.put_data = false) (hzero : h.estmt.data_at_exec = 0) :
    ∃ (oid fd : Int) (h1 h2 : Handle),
      oid ≠ 0 ∧ 0 ≤ fd ∧
      PGAPI_PutData be h a (a.length : Int) = some (SQL_SUCCESS, h1) ∧
      PGAPI_PutData be h1 b (b.length : Int) = some (SQL_SUCCESS, h2) ∧
      h2.conn.requests =
        h.conn.requests ++ (if h.conn.in_trans then [] else [Request.CC_begin]) ++
          [Request.lo_creat, Request.lo_open oid, Request.lo_write fd a,
           Request.lo_write fd b] ∧
      h2.estmt.lobj_fd = fd ∧
      readAt h2.estmt.pdata h.estmt.current_exec_param =
        some { pd with EXEC_used := some ((a.length : Int) + (b.length : Int)),
                       lobj_oid := oid } ∧
      (close_large_object be h2 h2.estmt).1 = some { h2.estmt with lobj_fd := -1 } ∧
      (∃ tail, (close_large_object be h2 h2.estmt).2.requests =
        h2.conn.requests ++ Request.lo_close fd :: tail) ∧
      PGAPI_ParamData be h2 prgbValue =
        match Exec_with_parameters_resolved be (close_large_object be h2 h2.estmt).2
            { h2.estmt with lobj_fd := -1 } with
        | none => none
        | some (retval, exec_end, conn, estmt) =>
          if exec_end then
            some { retval := be.dequeueNeedDataCallback retval
                     (detach_delegate h2 conn estmt).stmt,
                   token := none,
                   handle := detach_delegate h2 conn estmt,
                   estmt := estmt }
          else resume_rows be h2 conn estmt prgbValue := by
  have e1 := PGAPI_PutData_lo_first be h p ip pd a halloc hbegin hcreat hopen hcur hp hip hpd
    hbin hlo hfirst
  generalize hh1 : h.store
        { begun be h.conn with
          requests := (begun be h.conn).requests ++
            [Request.lo_creat,
             Request.lo_open (lo_creat be (begun be h.conn)).1,
             Request.lo_write
               (lo_open be (lo_creat be (begun be h.conn)).2 (lo_creat be (begun be h.conn)).1).1
               a] }
        { h.estmt with
          put_data := true
          lobj_fd :=
            (lo_open be (lo_creat be (begun be h.conn)).2 (lo_creat be (begun be h.conn)).1).1
          pdata := h.estmt.pdata.set h.estmt.current_exec_param.toNat
            { pd with EXEC_used := some (a.length : Int),
                      lobj_oid := (lo_creat be (begun be h.conn)).1 } } = h1 at e1
  have hest1 : h1.estmt = { h.estmt with
          put_data := true
          lobj_fd :=
            (lo_open be (lo_creat be (begun be h.conn)).2 (lo_creat be (begun be h.conn)).1).1
          pdata := h.estmt.pdata.set h.estmt.current_exec_param.toNat
            { pd with EXEC_used := some (a.length : Int),
                      lobj_oid := (lo_creat be (begun be h.conn)).1 } } := by
    rw [← hh1, Handle.estmt_store]
  have hconn1 : h1.conn = { begun be h.conn with
          requests := (begun be h.conn).requests ++
            [Request.lo_creat,
             Request.lo_open (lo_creat be (begun be h.conn)).1,
             Request.lo_write
               (lo_open be (lo_creat be (begun be h.conn)).2 (lo_creat be (begun be h.conn)).1).1
               a] } := by
    rw [← hh1, Handle.conn_store]
  have hcur1 : h1.estmt.current_exec_param = h.estmt.current_exec_param := by rw [hest1]
  have hpd1 : readAt h1.estmt.pdata h1.estmt.current_exec_param =
      some { pd with EXEC_used := some (a.length : Int),
                     lobj_oid := (lo_creat be (begun be h.conn)).1 } := by
    rw [hcur1, hest1]
    exact readAt_set_self _ _ _ _ hpd
  have e2 := PGAPI_PutData_lo_later be h1 p ip
    { pd with EXEC_used := some (a.length : Int),
              lobj_oid := (lo_creat be (begun be h.conn)).1 } (a.length : Int) b
    (by rw [hcur1]; exact hcur) (by rw [hcur1, hest1]; exact hp)
    (by rw [hcur1, hest1]; exact hip) hpd1 rfl hbin
    (by rw [hconn1]; simpa [begun_lobj_type] using hlo) (by rw [hest1])
  generalize hh2 : h1.store
        { h1.conn with
          requests := h1.conn.requests ++ [Request.lo_write h1.estmt.lobj_fd b] }
        { h1.estmt with
          pdata := h1.estmt.pdata.set h1.estmt.current_exec_param.toNat
            { EXEC_used := some ((a.length : Int) + (b.length : Int)),
              EXEC_buffer := pd.EXEC_buffer,
              lobj_oid := (lo_creat be (begun be h.conn)).1 } } = h2 at e2
  have hest2 : h2.estmt = { h1.estmt with
          pdata := h1.estmt.pdata.set h1.estmt.current_exec_param.toNat
            { EXEC_used := some ((a.length : Int) + (b.length : Int)),
              EXEC_buffer := pd.EXEC_buffer,
              lobj_oid := (lo_creat be (begun be h.conn)).1 } } := by
    rw [← hh2, Handle.estmt_store]
  have hconn2 : h2.conn = { h1.conn with
          requests := h1.conn.requests ++ [Request.lo_write h1.estmt.lobj_fd b] } := by
    rw [← hh2, Handle.conn_store]
  have hfd2 : h2.estmt.lobj_fd =
      (lo_open be (lo_creat be (begun be h.conn)).2 (lo_creat be (begun be h.conn)).1).1 := by
    rw [hest2, hest1]
  have hclose := PGAPI_ParamData_closes_and_executes be h2 prgbValue hcommit
    (by rw [hest2, hest1]; exact hzero) (by rw [hfd2]; exact hopen _ _)
  refine ⟨(lo_creat be (begun be h.conn)).1,
    (lo_open be (lo_creat be (begun be h.conn)).2 (lo_creat be (begun be h.conn)).1).1,
    h1, h2, hcreat _, hopen _ _, e1, e2, ?_, hfd2, ?_, hclose.1, ?_, hclose.2.2⟩
  · rw [hconn2, hconn1, hest1]
    simp [begun_requests]
  · rw [hest2, ← hcur1]
    exact readAt_set_self _ _ _ _ hpd1
  · rw [← hfd2]
    exact hclose.2.1

/-- C12 at a concrete input, the spec's example: chunks of 4 and 6 bytes for
the large-object parameter give one object holding the 10 bytes in order, and
the following `PGAPI_ParamData` closes it and executes the row. -/
theorem PGAPI_PutData_large_object_witness :
    (∃ (oid fd : Int) (h1 h2 : Handle),
      PGAPI_PutData okBackend lobjParamHandle [1, 2, 3, 4] 4 = some (SQL_SUCCESS, h1) ∧
      PGAPI_PutData okBackend h1 [5, 6, 7, 8, 9, 10] 6 = some (SQL_SUCCESS, h2) ∧
      h2.conn.requests =
        [Request.CC_begin, Request.lo_creat, Request.lo_open oid,
         Request.lo_write fd [1, 2, 3, 4], Request.lo_write fd [5, 6, 7, 8, 9, 10]] ∧
      readAt h2.estmt.pdata 0 =
        some { EXEC_used := some 10, EXEC_buffer := none, lobj_oid := oid }) ∧
    ((PGAPI_PutData okBackend lobjParamHandle [1, 2, 3, 4] 4).bind fun r1 =>
      (PGAPI_PutData okBackend r1.2 [5, 6, 7, 8, 9, 10] 6).bind fun r2 =>
        (PGAPI_ParamData okBackend r2.2 true).map fun r =>
          (r.retval, r.estmt.lobj_fd, r.handle.conn.requests)) =
      some (SQL_SUCCESS, -1,
        [Request.CC_begin, Request.lo_creat, Request.lo_open 1,
         Request.lo_write 3 [1, 2, 3, 4], Request.lo_write 3 [5, 6, 7, 8, 9, 10],
         Request.lo_close 3, Request.CC_commit,
         Request.SC_execute (some "INSERT INTO t VALUES (?)")]) :=
  have hw := PGAPI_PutData_large_object okBackend lobjParamHandle
    { buflen := 0, buffer := 4096, used := some [SQL_DATA_AT_EXEC], CType := SQL_C_BINARY,
      data_at_exec := true }
    { SQLType := -4, PGType := 26 } { EXEC_used := none, EXEC_buffer := none, lobj_oid := 0 }
    [1, 2, 3, 4] [5, 6, 7, 8, 9, 10] true rfl (fun _ => rfl)
    (fun _ => (by decide : (1 : Int) ≠ 0)) (fun _ _ => (by decide : (0 : Int) ≤ 3))
    (fun _ => rfl) (by decide) rfl rfl rfl rfl rfl rfl rfl
  ⟨hw.elim fun oid h1 => h1.elim fun fd h2 => h2.elim fun x1 h3 => h3.elim fun x2 h4 =>
      ⟨oid, fd, x1, x2, h4.2.2.1, h4.2.2.2.1, h4.2.2.2.2.1, h4.2.2.2.2.2.2.1⟩,
   rfl⟩

/-! ## Evaluations at two failing inputs -/

/-- C13 at a failing input. Parameter 0 is a binary parameter that is not a
large object; the first `PGAPI_PutData` stages the 4 bytes 1, 2, 3, 4; the
second one brings 6 bytes while `realloc` fails. It returns `SQL_ERROR` with
`STMT_NO_MEMORY_ERROR` and the buffer still holds the 4 bytes, but the
accumulated length `*EXEC_used` is 10, not 4: line 1125 adds `putlen` before
line 1130 asks for the memory. -/
theorem PGAPI_PutData_realloc_failure :
    ((PGAPI_PutData noReallocBackend binaryParamHandle [1, 2, 3, 4] 4).bind fun r1 =>
      (PGAPI_PutData noReallocBackend r1.2 [5, 6, 7, 8, 9, 10] 6).map fun r2 =>
        (r1.1, readAt r1.2.estmt.pdata 0, r2.1, r2.2.stmt.error_number,
          readAt r2.2.estmt.pdata 0)) =
      some (SQL_SUCCESS,
        some { EXEC_used := some 4, EXEC_buffer := some [1, 2, 3, 4, 0], lobj_oid := 0 },
        SQL_ERROR, some STMT_NO_MEMORY_ERROR,
        some { EXEC_used := some 10, EXEC_buffer := some [1, 2, 3, 4, 0], lobj_oid := 0 }) := by
  rfl

/-- C16 at a failing input. Row 0 of the two-row batch `twoRowStmt` is executed
with the declare-and-execute wrapper and the declare acknowledgment is not
successful: `Exec_with_parameters_resolved` yields `SQL_ERROR` but leaves
`*exec_end` FALSE and advances the row index to 1 (lines 311-316 set `retval`
only). `PGAPI_Execute` therefore goes on to row 1, executes it, and returns
its `SQL_SUCCESS`: two requests were sent and the statuses of the rows are
`SQL_PARAM_ERROR` and `SQL_PARAM_SUCCESS`. -/
theorem PGAPI_Execute_continues_after_failed_declare :
    (Exec_with_parameters_resolved failingDeclareBackend preparingConn
        { twoRowStmt with exec_current_row := 0 }).map
        (fun r => (r.1, r.2.1, r.2.2.2.exec_current_row)) =
      some (SQL_ERROR, false, 1) ∧
    (PGAPI_Execute failingDeclareBackend preparingConn twoRowStmt 0).map
        (fun r => (r.1, r.2.1.requests, r.2.2.exec_current_row, r.2.2.ipd.param_status_ptr,
          r.2.2.ipd.param_processed_ptr)) =
      some (SQL_SUCCESS,
        [Request.SC_execute (some "INSERT INTO t VALUES (?)"),
         Request.SC_execute (some "INSERT INTO t VALUES (?)")],
        -1, some [SQL_PARAM_ERROR, SQL_PARAM_SUCCESS], some 2) := by
  refine ⟨rfl, rfl⟩

/-! ## Theorems: `PGAPI_ExecDirect` -/

/-- C14, as stated, fails. On a fresh statement with the text "SELECT 1" both
paths return `SQL_SUCCESS`, but `PGAPI_ExecDirect` leaves the prepare flag
FALSE where `PGAPI_Prepare` followed by `PGAPI_Execute` leaves it TRUE. On a
connection that prepares on the server the difference reaches the server:
`PGAPI_ExecDirect` sends the text as it is, the other path sends the
declare-and-execute wrapper and leaves the statement prepared on the server. -/
theorem PGAPI_ExecDirect_differs_from_prepare_execute :
    ((PGAPI_ExecDirect okBackend idleConn freshStmt "SELECT 1" SQL_NTS 0).map
        (fun r => (r.1, r.2.2.statement, r.2.2.prepare)) =
      some (SQL_SUCCESS, some "SELECT 1", false) ∧
     (prepare_then_execute okBackend idleConn freshStmt "SELECT 1" SQL_NTS 0).map
        (fun r => (r.1, r.2.2.statement, r.2.2.prepare)) =
      some (SQL_SUCCESS, some "SELECT 1", true)) ∧
    ((PGAPI_ExecDirect wrappingBackend preparingConn freshStmt "SELECT 1" SQL_NTS 0).map
        (fun r => (r.1, r.2.1.requests, r.2.2.prepared, r.2.2.result.length)) =
      some (SQL_SUCCESS, [Request.SC_execute (some "SELECT 1")], false, 1) ∧
     (prepare_then_execute wrappingBackend preparingConn freshStmt "SELECT 1" SQL_NTS 0).map
        (fun r => (r.1, r.2.1.requests, r.2.2.prepared, r.2.2.result.length)) =
      some (SQL_SUCCESS, [Request.SC_execute (some "PREPARE;SELECT 1")], true, 1)) := by
  refine ⟨⟨rfl, rfl⟩, rfl, rfl⟩

theorem stored_copy_nonempty (be : Backend) (text : String) (cb : Int) (hne : text ≠ "") :
    stored_copy be text cb = be.make_string text cb := by
  simp [stored_copy, hne]

/-- `PGAPI_Prepare` sends nothing and keeps the read-only policy flag. -/
theorem PGAPI_Prepare_conn (be : Backend) (conn : ConnectionClass) (self : StatementClass)
    (sz : Option String) (cb : Int) :
    (PGAPI_Prepare be conn self sz cb).2.1.requests = conn.requests ∧
    (PGAPI_Prepare be conn self sz cb).2.1.onlyread = conn.onlyread := by
  unfold PGAPI_Prepare
  cases hs : self.status <;> cases sz <;> simp only [] <;>
    (repeat' split) <;> simp [SC_recycle_statement]

/-- The code `PGAPI_Prepare` returns for a statement in an allowed state and a
text whose copy `c` is made. -/
theorem PGAPI_Prepare_code (be : Backend) (conn : ConnectionClass)
    (self : StatementClass) (t : String) (cb : Int) (c : String)
    (hstatus : self.status = STMT_ALLOCATED ∨ self.status = STMT_READY ∨
      self.status = STMT_FINISHED ∨ self.status = STMT_PREMATURE)
    (hc : stored_copy be t cb = some c) :
    ((conn.onlyread = true ∧ be.STMT_UPDATE (be.statement_type c) = true) →
      (PGAPI_Prepare be conn self (some t) cb).1 = SQL_ERROR) ∧
    (¬ (conn.onlyread = true ∧ be.STMT_UPDATE (be.statement_type c) = true) →
      (PGAPI_Prepare be conn self (some t) cb).1 = SQL_SUCCESS) := by
  unfold PGAPI_Prepare
  rcases hstatus with hs | hs | hs | hs <;> simp only [hs, hc] <;>
    (split <;> simp_all [SC_set_prepared, SC_recycle_statement])

/-- The error `PGAPI_Prepare` records when it rejects an update on a read-only
connection. -/
theorem PGAPI_Prepare_readonly_error (be : Backend) (conn : ConnectionClass)
    (self : StatementClass) (t : String) (cb : Int) (c : String)
    (h : self.status ≠ STMT_EXECUTING) (hc : stored_copy be t cb = some c)
    (hro : conn.onlyread = true ∧ be.STMT_UPDATE (be.statement_type c) = true) :
    (PGAPI_Prepare be conn self (some t) cb).2.2.error_number = some STMT_EXEC_ERROR := by
  unfold PGAPI_Prepare
  cases hs : self.status <;> simp only [hc] <;>
    first
    | exact absurd hs h
    | simp [SC_set_error, SC_set_prepared, SC_recycle_statement, hro.1, hro.2]

/-- C14, amended: for a statement that is not Executing, a non-empty text whose
copy `copy` is made, and `SC_initialize_and_recycle` returning `SQL_SUCCESS`
(leaving `s0`), `PGAPI_ExecDirect` and `PGAPI_Prepare` followed by
`PGAPI_Execute` agree in this. If the connection is read-only and the text is
a write statement, both return `SQL_ERROR` with `STMT_EXEC_ERROR`, having
stored the text and its category and sent nothing. Otherwise both run
`PGAPI_Execute` on a statement that holds the text and its category, with
nothing sent before; `PGAPI_Prepare` has set the prepare flag and cleared the
prepared-on-server flag of its statement, which is Ready, while
`PGAPI_ExecDirect` has left the prepare flag as `SC_initialize_and_recycle`
left it and has turned a Premature status into Finished. -/
theorem PGAPI_ExecDirect_prepare_execute (be : Backend) (conn conn0 : ConnectionClass)
    (stmt s0 : StatementClass) (text copy : String) (cb : Int) (flag : Nat)
    (hst : stmt.status ≠ STMT_EXECUTING)
    (hinit : SC_initialize_and_recycle be conn stmt = (SQL_SUCCESS, conn0, s0))
    (hne : text ≠ "") (hcopy : be.make_string text cb = some copy) :
    (conn.onlyread = true ∧ be.STMT_UPDATE (be.statement_type copy) = true →
      (∃ sd, PGAPI_ExecDirect be conn stmt text cb flag = some (SQL_ERROR, conn0, sd) ∧
        sd.statement = some copy ∧ sd.statement_type = be.statement_type copy ∧
        sd.error_number = some STMT_EXEC_ERROR) ∧
      (∃ cp sp, prepare_then_execute be conn stmt text cb flag = some (SQL_ERROR, cp, sp) ∧
        sp.statement = some copy ∧ sp.statement_type = be.statement_type copy ∧
        sp.error_number = some STMT_EXEC_ERROR ∧ cp.requests = conn.requests) ∧
      conn0.requests = conn.requests) ∧
    (¬ (conn.onlyread = true ∧ be.STMT_UPDATE (be.statement_type copy) = true) →
      ∃ sd cp sp,
        PGAPI_ExecDirect be conn stmt text cb flag = PGAPI_Execute be conn0 sd flag ∧
        prepare_then_execute be conn stmt text cb flag = PGAPI_Execute be cp sp flag ∧
        sd.statement = some copy ∧ sp.statement = some copy ∧
        sd.statement_type = be.statement_type copy ∧
        sp.statement_type = be.statement_type copy ∧
        sd.prepare = s0.prepare ∧ sp.prepare = true ∧ sp.prepared = false ∧
        sd.status ≠ STMT_PREMATURE ∧ sp.status = STMT_READY ∧
        cp.requests = conn.requests ∧ conn0.requests = conn.requests) := by
  have hsc : stored_copy be text cb = some copy := by
    rw [stored_copy_nonempty be text cb hne, hcopy]
  have hstatus : stmt.status = STMT_ALLOCATED ∨ stmt.status = STMT_READY ∨
      stmt.status = STMT_FINISHED ∨ stmt.status = STMT_PREMATURE := by
    cases hs : stmt.status <;> simp_all
  have hconn0 : conn0 = { conn with in_trans := (be.SC_initialize_and_recycle conn stmt).2.2 } := by
    have := congrArg (fun r => r.2.1) hinit
    simpa [SC_initialize_and_recycle] using this.symm
  have hro0 : conn0.onlyread = conn.onlyread := by rw [hconn0]
  have hreq0 : conn0.requests = conn.requests := by rw [hconn0]
  have h1 : (SC_initialize_and_recycle be conn stmt).1 = SQL_SUCCESS := by rw [hinit]
  have h2 : (SC_initialize_and_recycle be conn stmt).2.1 = conn0 := by rw [hinit]
  have h3 : (SC_initialize_and_recycle be conn stmt).2.2 = s0 := by rw [hinit]
  have hstored := PGAPI_Prepare_stored be conn stmt text cb copy hst hsc
  have hpst := PGAPI_Prepare_status be conn stmt (some text) cb hst
  have hpc := PGAPI_Prepare_conn be conn stmt (some text) cb
  have hiff := PGAPI_Prepare_code be conn stmt text cb copy hstatus hsc
  have hdirect : PGAPI_ExecDirect be conn stmt text cb flag =
      if conn0.onlyread && be.STMT_UPDATE (be.statement_type copy) then
        some (SQL_ERROR, conn0, SC_set_error (direct_statement be s0 copy) STMT_EXEC_ERROR
          "Connection is readonly, only select statements are allowed.")
      else PGAPI_Execute be conn0 (direct_statement be s0 copy) flag := by
    unfold PGAPI_ExecDirect
    simp only [h1, h2, h3, hcopy, ne_eq, not_true_eq_false, if_false]
    rfl
  have hdst : (direct_statement be s0 copy).status ≠ STMT_PREMATURE := by
    unfold direct_statement
    simp only []
    split
    · simp
    · rename_i hn
      simpa using hn
  have hdf : (direct_statement be s0 copy).statement = some copy ∧
      (direct_statement be s0 copy).statement_type = be.statement_type copy ∧
      (direct_statement be s0 copy).prepare = s0.prepare := by
    unfold direct_statement
    refine ⟨?_, rfl, ?_⟩
    · dsimp only
      split <;> rfl
    · dsimp only
      split <;> rfl
  constructor
  · intro hro
    have hp1 : (PGAPI_Prepare be conn stmt (some text) cb).1 = SQL_ERROR := hiff.1 hro
    refine ⟨⟨SC_set_error (direct_statement be s0 copy) STMT_EXEC_ERROR
          "Connection is readonly, only select statements are allowed.", ?_, hdf.1, hdf.2.1,
        rfl⟩,
      ?_, hreq0⟩
    · rw [hdirect, hro0, hro.1, hro.2]
      rfl
    · refine ⟨(PGAPI_Prepare be conn stmt (some text) cb).2.1,
        (PGAPI_Prepare be conn stmt (some text) cb).2.2, ?_, hstored.1, hstored.2.2.2,
        PGAPI_Prepare_readonly_error be conn stmt text cb copy hst hsc hro, hpc.1⟩
      unfold prepare_then_execute
      simp only [hp1]
      rw [if_neg (by decide)]
      rw [← hp1]
  · intro hro
    have hp1 : (PGAPI_Prepare be conn stmt (some text) cb).1 = SQL_SUCCESS := hiff.2 hro
    have hcond : (conn0.onlyread && be.STMT_UPDATE (be.statement_type copy)) = false := by
      rw [hro0]
      cases ho : conn.onlyread
      · rfl
      · cases hu : be.STMT_UPDATE (be.statement_type copy)
        · rfl
        · exact absurd ⟨ho, hu⟩ hro
    refine ⟨direct_statement be s0 copy, (PGAPI_Prepare be conn stmt (some text) cb).2.1,
      (PGAPI_Prepare be conn stmt (some text) cb).2.2, ?_, ?_, hdf.1, hstored.1, hdf.2.1,
      hstored.2.2.2, hdf.2.2, hstored.2.1, hstored.2.2.1, hdst, hpst, hpc.1, hreq0⟩
    · rw [hdirect, hcond]
      rfl
    · unfold prepare_then_execute
      simp only [hp1, if_true]

/-- C14 (amended) at a concrete input: a delete on a read-only connection is
rejected on both paths with the text stored and nothing sent. -/
theorem PGAPI_ExecDirect_prepare_execute_witness :
    (∃ sd, PGAPI_ExecDirect okBackend readOnlyConn freshStmt "DELETE FROM t" SQL_NTS 0 =
        some (SQL_ERROR, readOnlyConn, sd) ∧
      sd.statement = some "DELETE FROM t" ∧ sd.error_number = some STMT_EXEC_ERROR) ∧
    (∃ cp sp, prepare_then_execute okBackend readOnlyConn freshStmt "DELETE FROM t" SQL_NTS 0 =
        some (SQL_ERROR, cp, sp) ∧
      sp.statement = some "DELETE FROM t" ∧ sp.error_number = some STMT_EXEC_ERROR ∧
      cp.requests = []) :=
  have h := (PGAPI_ExecDirect_prepare_execute okBackend readOnlyConn readOnlyConn freshStmt
    freshStmt "DELETE FROM t" "DELETE FROM t" SQL_NTS 0 (by decide) rfl (by decide) rfl).1
    ⟨rfl, rfl⟩
  ⟨h.1.elim fun sd hs => ⟨sd, hs.1, hs.2.1, hs.2.2.2⟩,
   h.2.1.elim fun cp hc => hc.elim fun sp hs => ⟨cp, sp, hs.1, hs.2.1, hs.2.2.2.1, hs.2.2.2.2⟩⟩

/-! ## Theorems: `PGAPI_NativeSql` -/

/-- C15: let `text` be the input string as `PGAPI_NativeSql` reads it (the
empty string for `cbSqlStrIn` = 0, else the copy `make_string` hands back),
`len` its length, and let `strncpy_null (dst, src, n)` store the first
min(|src|, n - 1) characters of `src` and a terminator for n >= 1. Then the
length stored through `pcbSqlStr` (when given) is `len`, truncated or not; an
output buffer of capacity `cbSqlStrMax` >= 1 receives the first
min(len, cbSqlStrMax - 1) characters of `text`; the result is
`SQL_SUCCESS_WITH_INFO` if and only if an output buffer is given and
`len >= cbSqlStrMax`, and `SQL_SUCCESS` otherwise. -/
theorem PGAPI_NativeSql_copies (be : Backend) (conn : ConnectionClass) (szSqlStrIn : String)
    (cbSqlStrIn : Int) (szSqlStr : Bool) (cbSqlStrMax : Int) (pcbSqlStr : Bool)
    (text : String)
    (hin : (if cbSqlStrIn = 0 then some "" else be.make_string szSqlStrIn cbSqlStrIn) =
      some text)
    (hcpy : ∀ (src : String) (n : Int), 1 ≤ n →
      (be.strncpy_null src n).data = src.data.take (min src.length (n - 1).toNat)) :
    (pcbSqlStr = true →
      (PGAPI_NativeSql be conn szSqlStrIn cbSqlStrIn szSqlStr cbSqlStrMax pcbSqlStr).pcbSqlStr =
        some (text.length : Int)) ∧
    (szSqlStr = true → 1 ≤ cbSqlStrMax →
      (PGAPI_NativeSql be conn szSqlStrIn cbSqlStrIn szSqlStr cbSqlStrMax pcbSqlStr).szSqlStr.map
          String.data =
        some (text.data.take (min text.length (cbSqlStrMax - 1).toNat))) ∧
    ((PGAPI_NativeSql be conn szSqlStrIn cbSqlStrIn szSqlStr cbSqlStrMax pcbSqlStr).retval =
        SQL_SUCCESS_WITH_INFO ↔
      (szSqlStr = true ∧ (text.length : Int) ≥ cbSqlStrMax)) ∧
    (¬ (szSqlStr = true ∧ (text.length : Int) ≥ cbSqlStrMax) →
      (PGAPI_NativeSql be conn szSqlStrIn cbSqlStrIn szSqlStr cbSqlStrMax pcbSqlStr).retval =
        SQL_SUCCESS) := by
  have heq : PGAPI_NativeSql be conn szSqlStrIn cbSqlStrIn szSqlStr cbSqlStrMax pcbSqlStr =
      { retval :=
          if (szSqlStr && decide ((text.length : Int) ≥ cbSqlStrMax)) then SQL_SUCCESS_WITH_INFO
          else SQL_SUCCESS,
        szSqlStr := if szSqlStr then some (be.strncpy_null text cbSqlStrMax) else none,
        pcbSqlStr := if pcbSqlStr then some (text.length : Int) else none,
        conn :=
          if (szSqlStr && decide ((text.length : Int) ≥ cbSqlStrMax)) then
            CC_set_error conn STMT_TRUNCATED "The buffer was too small for the NativeSQL."
          else conn } := by
    unfold PGAPI_NativeSql
    simp only [hin]
  rw [heq]
  refine ⟨?_, ?_, ?_, ?_⟩
  · intro hp
    simp [hp]
  · intro hb hmax
    simp [hb, hcpy text cbSqlStrMax hmax]
  · cases szSqlStr
    · simp
    · by_cases hl : (text.length : Int) ≥ cbSqlStrMax
      · simp [hl]
      · simp [hl]
  · intro hn
    cases szSqlStr
    · simp
    · have hl : ¬ (text.length : Int) ≥ cbSqlStrMax := fun h => hn ⟨rfl, h⟩
      simp [hl]

/-- C15 at a concrete input: "SELECT 1" (8 characters) into a buffer of
capacity 5 is cut to "SELE", reported with its full length 8 and
`SQL_SUCCESS_WITH_INFO`; with capacity 9 it fits and the result is
`SQL_SUCCESS`. -/
theorem PGAPI_NativeSql_copies_witness :
    ((PGAPI_NativeSql okBackend idleConn "SELECT 1" SQL_NTS true 5 true).pcbSqlStr = some 8 ∧
      (PGAPI_NativeSql okBackend idleConn "SELECT 1" SQL_NTS true 5 true).szSqlStr.map
        String.data = some "SELE".data ∧
      (PGAPI_NativeSql okBackend idleConn "SELECT 1" SQL_NTS true 5 true).retval =
        SQL_SUCCESS_WITH_INFO) ∧
    (PGAPI_NativeSql okBackend idleConn "SELECT 1" SQL_NTS true 9 true).retval = SQL_SUCCESS :=
  have hcpy : ∀ (src : String) (n : Int), 1 ≤ n →
      (okBackend.strncpy_null src n).data = src.data.take (min src.length (n - 1).toNat) :=
    fun src n _ => by
      show src.data.take (n - 1).toNat = src.data.take (min src.length (n - 1).toNat)
      rw [List.take_eq_take]
      have hlen : src.length = src.data.length := rfl
      omega
  have h5 := PGAPI_NativeSql_copies okBackend idleConn "SELECT 1" SQL_NTS true 5 true
    "SELECT 1" rfl hcpy
  have h9 := PGAPI_NativeSql_copies okBackend idleConn "SELECT 1" SQL_NTS true 9 true
    "SELECT 1" rfl hcpy
  ⟨⟨h5.1 rfl, h5.2.1 rfl (by decide), h5.2.2.1.mpr ⟨rfl, by decide⟩⟩,
   h9.2.2.2 (by decide)⟩

/-! ## Theorems: the row index stays within the row window -/

theorem SameWindow.same (a : StatementClass) : SameWindow a a := ⟨rfl, rfl⟩

theorem SameWindow.chain {a b c : StatementClass} (h1 : SameWindow a b) (h2 : SameWindow b c) :
    SameWindow a c := ⟨h2.1.trans h1.1, h2.2.trans h1.2⟩

theorem SameBatch.sameWindow {a b : StatementClass} (h : SameBatch a b) : SameWindow a b := by
  refine ⟨?_, h.end_row_of⟩
  unfold start_row_of
  rw [h.2.2.2.2.1]

/-- A change of the row index, the counters or the per-row arrays keeps the
window. -/
theorem SameWindow.of_fields {a b : StatementClass}
    (h1 : b.exec_start_row = a.exec_start_row) (h2 : b.exec_end_row = a.exec_end_row)
    (h3 : b.apd.paramset_size = a.apd.paramset_size) : SameWindow a b := by
  unfold SameWindow start_row_of end_row_of
  rw [h1, h2, h3]
  exact ⟨rfl, rfl⟩

/-- The row the skip loop stops at lies between the row it started from and
the last row. -/
theorem skip_step_range (op : List Int) (e cur r : Int) (next : Option Skip) (hce : cur ≤ e)
    (hnext : cur < e → next = some (Skip.row r) → cur ≤ r ∧ r ≤ e)
    (h : skip_step op e cur next = some (Skip.row r)) : cur ≤ r ∧ r ≤ e := by
  unfold skip_step at h
  cases hr : readAt op cur with
  | none => simp [hr] at h
  | some v =>
    simp only [hr] at h
    by_cases hv : v = SQL_PARAM_IGNORE
    · rw [if_pos hv] at h
      by_cases hge : cur ≥ e
      · rw [if_pos hge] at h
        simp at h
      · rw [if_neg hge] at h
        exact hnext (not_le.mp hge) h
    · rw [if_neg hv] at h
      simp only [Option.some.injEq, Skip.row.injEq] at h
      subst h
      exact ⟨le_refl _, hce⟩

theorem skip_ignored_range (op : List Int) (e : Int) :
    ∀ (fuel : Nat) (cur r : Int), cur ≤ e →
      skip_ignored op e fuel cur = some (Skip.row r) → cur ≤ r ∧ r ≤ e := by
  intro fuel
  induction fuel with
  | zero =>
    intro cur r hce h
    simp only [skip_ignored] at h
    exact skip_step_range op e cur r none hce (fun _ hn => Option.noConfusion hn) h
  | succ n ih =>
    intro cur r hce h
    simp only [skip_ignored] at h
    refine skip_step_range op e cur r _ hce (fun hlt hn => ?_) h
    have := ih (cur + 1) r (by omega) hn
    omega

theorem check_data_at_exec_window (stmt s : StatementClass) (b : Bool)
    (h : check_data_at_exec stmt = some (b, s)) :
    SameWindow stmt s ∧ s.exec_current_row = stmt.exec_current_row := by
  unfold check_data_at_exec at h
  split at h
  · simp only [] at h
    split at h
    · exact Option.noConfusion h
    · simp only [Option.some.injEq, Prod.mk.injEq] at h
      obtain ⟨-, h2⟩ := h
      subst h2
      exact ⟨SameWindow.of_fields rfl rfl rfl, rfl⟩
  · simp only [Option.some.injEq, Prod.mk.injEq] at h
    obtain ⟨-, h2⟩ := h
    subst h2
    exact ⟨SameWindow.same _, rfl⟩
/-- The row loop keeps the row index within the window: it returns with the
index on the row that needs data, or on -1. -/
theorem next_param_row_window (be : Backend) (s e : Int) :
    ∀ (fuel : Nat) (conn : ConnectionClass) (st : StatementClass) (rv : RETCODE)
      (c1 : ConnectionClass) (s1 : StatementClass),
      start_row_of st = s → end_row_of st = e →
      s ≤ st.exec_current_row → st.exec_current_row ≤ e →
      next_param_row be e fuel conn st = some (rv, c1, s1) →
      start_row_of s1 = s ∧ end_row_of s1 = e ∧
      (s1.exec_current_row = -1 ∨ (s ≤ s1.exec_current_row ∧ s1.exec_current_row ≤ e)) := by
  intro fuel
  induction fuel with
  | zero => intro conn st rv c1 s1 _ _ _ _ h; simp [next_param_row] at h
  | succ n ih =>
    intro conn st rv c1 s1 hs he hlo hhi h
    unfold next_param_row at h
    simp only [] at h
    split at h
    · exact Option.noConfusion h
    · simp only [Option.some.injEq, Prod.mk.injEq] at h
      obtain ⟨-, -, h3⟩ := h
      subst h3
      exact ⟨hs, he, Or.inl rfl⟩
    · rename_i r hsk
      have hr : st.exec_current_row ≤ r ∧ r ≤ e := by
        split at hsk
        · simp only [Option.some.injEq, Skip.row.injEq] at hsk
          subst hsk
          exact ⟨le_refl _, hhi⟩
        · exact skip_ignored_range _ e _ _ r hhi hsk
      split at h
      · exact Option.noConfusion h
      · rename_i s2 hset
        obtain ⟨f1, f2, -⟩ := set_row_status_frame _ _ _ hset
        have w2 : SameWindow st s2 :=
          (SameWindow.of_fields rfl rfl rfl : SameWindow st { st with exec_current_row := r }).chain
            f1.sameWindow
        have r2 : s2.exec_current_row = r := f2
        split at h
        · exact Option.noConfusion h
        · rename_i s3 hchk
          obtain ⟨w3, r3⟩ := check_data_at_exec_window _ _ _ hchk
          simp only [Option.some.injEq, Prod.mk.injEq] at h
          obtain ⟨-, -, h3⟩ := h
          subst h3
          have w := w2.chain w3
          refine ⟨w.1.trans hs, w.2.trans he, Or.inr ?_⟩
          rw [r3, r2]
          exact ⟨le_trans hlo hr.1, hr.2⟩
        · rename_i s3 hchk
          obtain ⟨w3, r3⟩ := check_data_at_exec_window _ _ _ hchk
          have w := w2.chain w3
          split at h
          · exact Option.noConfusion h
          · rename_i rv2 ee c2 s4 hex
            obtain ⟨g1, -, g3, g4, -⟩ := Exec_with_parameters_resolved_frame _ _ _ _ _ _ _ hex
            have w4 := w.chain g1.sameWindow
            split at h
            · rename_i hee
              have hee2 : ee = false := by simpa using hee
              obtain ⟨k1, k2⟩ := g4 hee2
              rw [r3, r2] at k1
              rw [r3, r2, w.2, he] at k2
              have := ih c2 s4 rv c1 s1 (w4.1.trans hs) (w4.2.trans he)
                (by rw [k1]; omega) (by rw [k1]; omega) h
              refine ⟨this.1, this.2.1, ?_⟩
              exact this.2.2
            · rename_i hee
              have hee2 : ee = true := by simpa using hee
              simp only [Option.some.injEq, Prod.mk.injEq] at h
              obtain ⟨-, -, h3⟩ := h
              subst h3
              exact ⟨w4.1.trans hs, w4.2.trans he, Or.inl (g3 hee2)⟩
theorem SC_recycle_statement_window (be : Backend) (conn : ConnectionClass)
    (stmt : StatementClass) :
    SameWindow stmt (SC_recycle_statement be conn stmt).2 ∧
    (SC_recycle_statement be conn stmt).2.exec_current_row = stmt.exec_current_row := by
  obtain ⟨h1, -, h3, h4, h5, -, -⟩ := SC_recycle_statement_frame be conn stmt
  exact ⟨SameWindow.of_fields h3 h4 (by rw [h1]), h5⟩

/-- `PGAPI_Execute` from the row window on: the row index it leaves is -1 or
within the window. -/
theorem execute_rows_window (be : Backend) (conn c1 : ConnectionClass)
    (stmt s1 : StatementClass) (recycle recycled : Bool) (rv : RETCODE)
    (hse : start_row_of stmt ≤ end_row_of stmt)
    (hrow : stmt.exec_current_row < 0 ∨ in_window stmt)
    (h : execute_rows be conn stmt recycle recycled = some (rv, c1, s1)) :
    SameWindow stmt s1 ∧ idle_or_in_window s1 := by
  unfold execute_rows at h
  simp only [] at h
  split at h
  · exact Option.noConfusion h
  · rename_i c2 s2 hinit
    -- the statement once the row index is set
    have key : SameWindow stmt s2 ∧ start_row_of stmt ≤ s2.exec_current_row ∧
        s2.exec_current_row ≤ end_row_of stmt := by
      by_cases hneg : stmt.exec_current_row < 0
      · simp only [hneg, if_true] at hinit
        split at hinit
        · exact Option.noConfusion hinit
        · rename_i ps hps
          split at hinit
          · have hw := SC_recycle_statement_window be conn
              { stmt with
                exec_current_row := if stmt.exec_start_row < 0 then 0 else stmt.exec_start_row,
                ipd := { param_processed_ptr := stmt.ipd.param_processed_ptr.map fun _ => (0 : Int),
                         param_status_ptr := ps, parameters := stmt.ipd.parameters } }
            simp only [Option.some.injEq] at hinit
            have h2 := congrArg Prod.snd hinit
            simp only at h2
            rw [← h2]
            refine ⟨(SameWindow.of_fields rfl rfl rfl).chain hw.1, ?_, ?_⟩
            · rw [hw.2]
              exact le_refl _
            · rw [hw.2]
              exact hse
          · simp only [Option.some.injEq, Prod.mk.injEq] at hinit
            obtain ⟨-, h2⟩ := hinit
            subst h2
            exact ⟨SameWindow.of_fields rfl rfl rfl, le_refl _, hse⟩
      · have hin : in_window stmt := hrow.resolve_left hneg
        simp only [hneg, if_false] at hinit
        by_cases hfirst : stmt.exec_current_row =
            (if stmt.exec_start_row < 0 then 0 else stmt.exec_start_row)
        · rw [if_pos hfirst] at hinit
          split at hinit
          · exact Option.noConfusion hinit
          · rename_i ps hps
            split at hinit
            · have hw := SC_recycle_statement_window be conn
                { stmt with
                  ipd := { param_processed_ptr :=
                             stmt.ipd.param_processed_ptr.map fun _ => (0 : Int),
                           param_status_ptr := ps, parameters := stmt.ipd.parameters } }
              simp only [Option.some.injEq] at hinit
              have h2 := congrArg Prod.snd hinit
              simp only at h2
              rw [← h2]
              refine ⟨(SameWindow.of_fields rfl rfl rfl).chain hw.1, ?_, ?_⟩
              · rw [hw.2]
                exact hin.1
              · rw [hw.2]
                exact hin.2
            · simp only [Option.some.injEq, Prod.mk.injEq] at hinit
              obtain ⟨-, h2⟩ := hinit
              subst h2
              exact ⟨SameWindow.of_fields rfl rfl rfl, hin.1, hin.2⟩
        · rw [if_neg hfirst] at hinit
          simp only [Option.some.injEq, Prod.mk.injEq] at hinit
          obtain ⟨-, h2⟩ := hinit
          subst h2
          exact ⟨SameWindow.same _, hin.1, hin.2⟩
    obtain ⟨w, klo, khi⟩ := key
    have hres := next_param_row_window be (start_row_of stmt) (end_row_of stmt) _ c2 s2 rv c1 s1
      w.1 w.2 klo khi h
    refine ⟨⟨hres.1, hres.2.1⟩, ?_⟩
    rcases hres.2.2 with hi | hi
    · exact Or.inl hi
    · right
      unfold in_window
      rw [hres.1, hres.2.1]
      exact hi
theorem idle_or_in_window.of_sameWindow {a b : StatementClass} (hw : SameWindow a b)
    (hr : b.exec_current_row = a.exec_current_row) (h : idle_or_in_window a) :
    idle_or_in_window b := by
  unfold idle_or_in_window in_window at *
  rw [hr, hw.1, hw.2]
  exact h

/-- `PGAPI_Execute` keeps the row window and leaves the row index on -1 or
within the window. -/
theorem PGAPI_Execute_window (be : Backend) (conn c1 : ConnectionClass)
    (stmt s1 : StatementClass) (flag : Nat) (rv : RETCODE)
    (hse : start_row_of stmt ≤ end_row_of stmt) (hrow : idle_or_in_window stmt)
    (h : PGAPI_Execute be conn stmt flag = some (rv, c1, s1)) :
    SameWindow stmt s1 ∧ idle_or_in_window s1 := by
  have hlt : ∀ s : StatementClass, idle_or_in_window s → s.exec_current_row < 0 ∨ in_window s := by
    intro s hs
    rcases hs with hs | hs
    · left
      rw [hs]
      decide
    · exact Or.inr hs
  have run : ∀ (c : ConnectionClass) (s : StatementClass) (r1 r2 : Bool),
      SameWindow stmt s → idle_or_in_window s →
      execute_rows be c s r1 r2 = some (rv, c1, s1) →
      SameWindow stmt s1 ∧ idle_or_in_window s1 := by
    intro c s r1 r2 hw hi hx
    have := execute_rows_window be c c1 s s1 r1 r2 rv (by rw [hw.1, hw.2]; exact hse) (hlt s hi) hx
    exact ⟨hw.chain this.1, this.2⟩
  unfold PGAPI_Execute at h
  simp only [] at h
  split at h
  · rename_i rv2 c2 s2 hearly
    simp only [Option.some.injEq, Prod.mk.injEq] at h
    obtain ⟨-, -, h3⟩ := h
    subst h3
    split at hearly
    · split at hearly
      · simp at hearly
      · split at hearly
        · simp only [Prod.mk.injEq, Option.some.injEq] at hearly
          obtain ⟨-, -, e3⟩ := hearly
          subst e3
          exact ⟨SameWindow.of_fields rfl rfl rfl,
            idle_or_in_window.of_sameWindow (SameWindow.of_fields rfl rfl rfl) rfl hrow⟩
        · simp only [Prod.mk.injEq, Option.some.injEq] at hearly
          obtain ⟨-, -, e3⟩ := hearly
          subst e3
          exact ⟨SameWindow.of_fields rfl rfl rfl,
            idle_or_in_window.of_sameWindow (SameWindow.of_fields rfl rfl rfl) rfl hrow⟩
    · simp at hearly
  · rename_i c2 s2 hearly
    have key : SameWindow stmt s2 ∧ idle_or_in_window s2 := by
      split at hearly
      · split at hearly
        · simp only [Prod.mk.injEq, true_and] at hearly
          obtain ⟨-, e3⟩ := hearly
          subst e3
          have hw := SC_recycle_statement_window be conn { stmt with exec_current_row := -1 }
          exact ⟨(SameWindow.of_fields rfl rfl rfl).chain hw.1, Or.inl hw.2⟩
        · split at hearly
          · simp at hearly
          · simp at hearly
      · simp only [Prod.mk.injEq, true_and] at hearly
        obtain ⟨-, e3⟩ := hearly
        subst e3
        exact ⟨SameWindow.same _, hrow⟩
    have keyc : SameWindow stmt (SC_clear_error s2) ∧ idle_or_in_window (SC_clear_error s2) :=
      ⟨key.1.chain (SameWindow.of_fields rfl rfl rfl),
        idle_or_in_window.of_sameWindow (SameWindow.of_fields rfl rfl rfl) rfl key.2⟩
    split at h
    · simp only [Option.some.injEq, Prod.mk.injEq] at h
      obtain ⟨-, -, h3⟩ := h
      subst h3
      exact ⟨keyc.1.chain (SameWindow.of_fields rfl rfl rfl),
        idle_or_in_window.of_sameWindow (SameWindow.of_fields rfl rfl rfl) rfl keyc.2⟩
    · split at h
      · exact run _ _ _ _ keyc.1 keyc.2 h
      · split at h
        · exact run _ (SC_set_Result (SC_clear_error s2) []) _ _
            (keyc.1.chain (SameWindow.of_fields rfl rfl rfl))
            (idle_or_in_window.of_sameWindow (SameWindow.of_fields rfl rfl rfl) rfl keyc.2) h
        · split at h
          · have hw := SC_recycle_statement_window be c2 (SC_clear_error s2)
            exact run _ (SC_recycle_statement be c2 (SC_clear_error s2)).2 _ _
              (keyc.1.chain hw.1) (idle_or_in_window.of_sameWindow hw.1 hw.2 keyc.2) h
          · split at h
            · simp only [Option.some.injEq, Prod.mk.injEq] at h
              obtain ⟨-, -, h3⟩ := h
              subst h3
              exact ⟨keyc.1.chain (SameWindow.of_fields rfl rfl rfl),
                idle_or_in_window.of_sameWindow (SameWindow.of_fields rfl rfl rfl) rfl keyc.2⟩
            · exact run _ _ _ _ keyc.1 keyc.2 h
theorem next_token_window (h : Handle) (conn : ConnectionClass) (estmt : StatementClass)
    (prgbValue : Bool) :
    SameWindow estmt (next_token h conn estmt prgbValue).estmt ∧
    (next_token h conn estmt prgbValue).estmt.exec_current_row = estmt.exec_current_row := by
  unfold next_token
  simp only []
  split
  · exact ⟨SameWindow.same _, rfl⟩
  · exact ⟨SameWindow.of_fields rfl rfl rfl, rfl⟩

theorem close_large_object_window (be : Backend) (h : Handle) (estmt e1 : StatementClass)
    (hc : (close_large_object be h estmt).1 = some e1) :
    SameWindow estmt e1 ∧ e1.exec_current_row = estmt.exec_current_row ∧
    e1.data_at_exec = estmt.data_at_exec := by
  unfold close_large_object at hc
  split at hc
  · simp only [] at hc
    split at hc
    · split at hc
      · exact Option.noConfusion hc
      · simp only [Option.some.injEq] at hc
        subst hc
        exact ⟨SameWindow.of_fields rfl rfl rfl, rfl, rfl⟩
    · simp only [Option.some.injEq] at hc
      subst hc
      exact ⟨SameWindow.of_fields rfl rfl rfl, rfl, rfl⟩
  · simp only [Option.some.injEq] at hc
    subst hc
    exact ⟨SameWindow.same _, rfl, rfl⟩

/-- `PGAPI_ParamData` on a statement whose row index is within the window, or
that is idle with a pending count other than 0, leaves the row index on -1 or
within the window. -/
theorem PGAPI_ParamData_window (be : Backend) (h : Handle) (prgbValue : Bool)
    (r : ParamDataResult)
    (hse : start_row_of h.estmt ≤ end_row_of h.estmt)
    (hrow : in_window h.estmt ∨ (h.estmt.exec_current_row = -1 ∧ h.estmt.data_at_exec ≠ 0))
    (hr : PGAPI_ParamData be h prgbValue = some r) :
    SameWindow h.estmt r.estmt ∧ idle_or_in_window r.estmt := by
  have hidle : idle_or_in_window h.estmt := by
    rcases hrow with hi | hi
    · exact Or.inr hi
    · exact Or.inl hi.1
  unfold PGAPI_ParamData at hr
  simp only [] at hr
  split at hr
  · simp only [Option.some.injEq] at hr
    subst hr
    exact ⟨SameWindow.same _, hidle⟩
  · split at hr
    · simp only [Option.some.injEq] at hr
      subst hr
      exact ⟨SameWindow.same _, hidle⟩
    · split at hr
      · simp only [Option.some.injEq] at hr
        subst hr
        exact ⟨SameWindow.same _, hidle⟩
      · rename_i e1 c1 hclose
        have hc1 : (close_large_object be h h.estmt).1 = some e1 := by rw [hclose]
        obtain ⟨w1, r1, d1⟩ := close_large_object_window be h h.estmt e1 hc1
        have hidle1 : idle_or_in_window e1 := idle_or_in_window.of_sameWindow w1 r1 hidle
        split at hr
        · rename_i hzero
          have hin : in_window h.estmt := by
            rcases hrow with hi | hi
            · exact hi
            · exact absurd (d1 ▸ hzero) hi.2
          split at hr
          · exact Option.noConfusion hr
          · rename_i rv ee c2 s2 hex
            obtain ⟨g1, -, g3, g4, -⟩ := Exec_with_parameters_resolved_frame _ _ _ _ _ _ _ hex
            have w2 : SameWindow h.estmt s2 := w1.chain g1.sameWindow
            split at hr
            · rename_i hee
              simp only [Option.some.injEq] at hr
              subst hr
              exact ⟨w2, Or.inl (g3 hee)⟩
            · rename_i hee
              have hee2 : ee = false := by simpa using hee
              obtain ⟨k1, k2⟩ := g4 hee2
              have hin2 : in_window s2 := by
                unfold in_window
                rw [w2.1, w2.2, k1, r1]
                rw [r1, w1.2] at k2
                exact ⟨by have := hin.1; omega, by omega⟩
              unfold resume_rows at hr
              split at hr
              · exact Option.noConfusion hr
              · rename_i rv3 c3 s3 hexe
                obtain ⟨w3, i3⟩ := PGAPI_Execute_window be c2 c3 s2 s3 0 rv3
                  (by rw [w2.1, w2.2]; exact hse) (Or.inr hin2) hexe
                split at hr
                · simp only [Option.some.injEq] at hr
                  subst hr
                  exact ⟨w2.chain w3, i3⟩
                · simp only [Option.some.injEq] at hr
                  subst hr
                  obtain ⟨w4, r4⟩ := next_token_window h c3 s3 prgbValue
                  exact ⟨(w2.chain w3).chain w4, idle_or_in_window.of_sameWindow w4 r4 i3⟩
        · simp only [Option.some.injEq] at hr
          subst hr
          obtain ⟨w4, r4⟩ := next_token_window h c1 e1 prgbValue
          exact ⟨w1.chain w4, idle_or_in_window.of_sameWindow w4 r4 hidle1⟩
/-- C17, as stated, fails. `windowStmt` has the row window [1, 2] and is idle
(row index -1), so it satisfies the claim's condition; executing it as
`PGAPI_ParamData` does when nothing is pending (`data_at_exec` = 0),
`Exec_with_parameters_resolved` leaves the row index on 0, which is neither -1
nor within [1, 2]. The state is reached through the entry points: the calls
of `window_run` complete the batch (row index -1, `data_at_exec` still 0),
and one more `PGAPI_ParamData` returns `SQL_NEED_DATA` with the row index 0. -/
theorem row_index_leaves_window :
    (start_row_of windowStmt = 1 ∧ end_row_of windowStmt = 2 ∧
      idle_or_in_window { windowStmt with data_at_exec := 0 }) ∧
    (Exec_with_parameters_resolved okBackend idleConn { windowStmt with data_at_exec := 0 }).map
        (fun r => (r.1, r.2.1, r.2.2.2.exec_current_row)) = some (SQL_SUCCESS, false, 0) ∧
    window_run =
      some [(SQL_NEED_DATA, 2), (SQL_NEED_DATA, 2), (SQL_SUCCESS, 2), (SQL_SUCCESS, -1),
            (SQL_NEED_DATA, 0)] := by
  refine ⟨⟨rfl, rfl, Or.inl rfl⟩, rfl, rfl⟩

/-- C17, amended: the row window of a statement is [`start_row_of`,
`end_row_of`], with 0 <= `start_row_of`. (1) `Exec_with_parameters_resolved`
on a statement whose row index is within the window leaves the window as it
is and the row index on -1 or within the window, at most one row further.
(2) `PGAPI_Execute` on a statement with a non-empty window whose row index is
-1 or within the window leaves it so. (3) `PGAPI_ParamData` leaves it so when
the row index is within the window, or is -1 while the pending count is not 0
(so that no row is executed). (4) The loop over the skip markers, started at a
row `cur` <= `end_row`, stops at a row between `cur` and `end_row`: the row
index is never incremented past `end_row`, and the rows whose marker and
status slot are accessed lie in [0, `end_row`]. -/
theorem row_index_invariant (be : Backend) :
    (∀ stmt : StatementClass, 0 ≤ start_row_of stmt) ∧
    (∀ (conn c : ConnectionClass) (stmt s : StatementClass) (rv : RETCODE) (ee : Bool),
      in_window stmt → Exec_with_parameters_resolved be conn stmt = some (rv, ee, c, s) →
      SameWindow stmt s ∧ idle_or_in_window s ∧
      s.exec_current_row ≤ stmt.exec_current_row + 1) ∧
    (∀ (conn c : ConnectionClass) (stmt s : StatementClass) (flag : Nat) (rv : RETCODE),
      start_row_of stmt ≤ end_row_of stmt → idle_or_in_window stmt →
      PGAPI_Execute be conn stmt flag = some (rv, c, s) →
      SameWindow stmt s ∧ idle_or_in_window s) ∧
    (∀ (h : Handle) (prgbValue : Bool) (r : ParamDataResult),
      start_row_of h.estmt ≤ end_row_of h.estmt →
      (in_window h.estmt ∨ (h.estmt.exec_current_row = -1 ∧ h.estmt.data_at_exec ≠ 0)) →
      PGAPI_ParamData be h prgbValue = some r →
      SameWindow h.estmt r.estmt ∧ idle_or_in_window r.estmt) ∧
    (∀ (op : List Int) (end_row : Int) (fuel : Nat) (cur r : Int), cur ≤ end_row →
      skip_ignored op end_row fuel cur = some (Skip.row r) → cur ≤ r ∧ r ≤ end_row) := by
  refine ⟨?_, ?_, ?_, ?_, ?_⟩
  · intro stmt
    unfold start_row_of
    split <;> omega
  · intro conn c stmt s rv ee hin hex
    obtain ⟨g1, -, g3, g4, -⟩ := Exec_with_parameters_resolved_frame _ _ _ _ _ _ _ hex
    have w := g1.sameWindow
    have h0 : 0 ≤ start_row_of stmt := by
      unfold start_row_of
      split <;> omega
    cases ee with
    | true =>
      have := g3 rfl
      refine ⟨w, Or.inl this, ?_⟩
      rw [this]
      have := hin.1
      omega
    | false =>
      obtain ⟨k1, k2⟩ := g4 rfl
      refine ⟨w, Or.inr ?_, by rw [k1]⟩
      unfold in_window
      rw [w.1, w.2, k1]
      exact ⟨by have := hin.1; omega, by omega⟩
  · intro conn c stmt s flag rv hse hrow hx
    exact PGAPI_Execute_window be conn c stmt s flag rv hse hrow hx
  · intro h prgbValue r hse hrow hr
    exact PGAPI_ParamData_window be h prgbValue r hse hrow hr
  · intro op end_row fuel cur r hce hsk
    exact skip_ignored_range op end_row fuel cur r hce hsk

/-- C17 (amended) at a concrete input: the batch over the rows 0..3 of
`batchStmt`, started from the idle row index, ends with the row index -1; and
the step of `windowStmt` from row 1 leaves the row index on row 2. -/
theorem row_index_invariant_witness :
    (∃ rv c s, PGAPI_Execute okBackend idleConn batchStmt 0 = some (rv, c, s) ∧
      SameWindow batchStmt s ∧ idle_or_in_window s) ∧
    (∃ rv ee c s, Exec_with_parameters_resolved okBackend idleConn
        { windowStmt with exec_current_row := 1 } = some (rv, ee, c, s) ∧
      idle_or_in_window s ∧ s.exec_current_row ≤ 1 + 1) :=
  have hb : ∃ r, PGAPI_Execute okBackend idleConn batchStmt 0 = some r := ⟨_, rfl⟩
  have hw : ∃ r, Exec_with_parameters_resolved okBackend idleConn
      { windowStmt with exec_current_row := 1 } = some r := ⟨_, rfl⟩
  ⟨hb.elim fun r hr =>
      ⟨r.1, r.2.1, r.2.2, hr,
        (row_index_invariant okBackend).2.2.1 idleConn r.2.1 batchStmt r.2.2 0 r.1
          (by decide) (Or.inl rfl) hr⟩,
   hw.elim fun r hr =>
      have h := (row_index_invariant okBackend).2.1 idleConn r.2.2.1
        { windowStmt with exec_current_row := 1 } r.2.2.2 r.1 r.2.1
        ⟨by decide, by decide⟩ hr
      ⟨r.1, r.2.1, r.2.2.1, r.2.2.2, hr, h.2.1, h.2.2⟩⟩

/-! ## Theorems: reconciliation after the declare-and-execute wrapper -/

/-- C20, as stated, fails for a keyset-driven cursor whose concurrency is not
read-only (cursor type 1, concurrency 2). The row is executed with the
wrapper and every link of the answer is successful, but lines 283-297 take
the keyset branch: the chain left is the second link with the field
descriptors of the declare acknowledgment (none), not the returned chain
without its first link, prepared-on-server stays FALSE, and the next row
would use the wrapper again. With a forward-only read-only cursor the same
input gives what the claim says. -/
theorem Exec_with_parameters_resolved_keyset_not_prepared :
    (Exec_with_parameters_resolved describingBackend preparingConn (preparedSelect 1 2)).map
        (fun r => (r.1, r.2.2.2.result, r.2.2.2.prepared,
          prepare_before_exec r.2.2.1 r.2.2.2)) =
      some (SQL_SUCCESS, [{ describedLink with fields := none, num_fields := 0 }], false,
        true) ∧
    (Exec_with_parameters_resolved describingBackend preparingConn (preparedSelect 0 1)).map
        (fun r => (r.1, r.2.2.2.result, r.2.2.2.prepared,
          prepare_before_exec r.2.2.1 r.2.2.2)) =
      some (SQL_SUCCESS, [describedLink], true, false) := by
  refine ⟨rfl, rfl⟩

theorem advance_row_result (s : StatementClass) :
    (advance_row s).2.result = s.result ∧ (advance_row s).2.prepared = s.prepared := by
  unfold advance_row
  dsimp only
  by_cases h : s.inaccurate_result = true ∨
      s.exec_current_row ≥ (if s.exec_end_row < 0 then s.apd.paramset_size - 1 else s.exec_end_row)
  · rw [if_pos h]
    exact ⟨rfl, rfl⟩
  · rw [if_neg h]
    exact ⟨rfl, rfl⟩

theorem report_result_result (conn : ConnectionClass) (res : List QResultClass)
    (s : StatementClass) (rv : RETCODE) :
    (report_result conn res s rv).2.result = s.result ∧
    (report_result conn res s rv).2.prepared = s.prepared := by
  unfold report_result
  cases res <;> exact ⟨rfl, rfl⟩

theorem cursor_changed_result (ct sc : Int) (s : StatementClass) (rv : RETCODE) :
    (cursor_changed ct sc s rv).2.result = s.result ∧
    (cursor_changed ct sc s rv).2.prepared = s.prepared := by
  unfold cursor_changed
  split <;> exact ⟨rfl, rfl⟩

theorem set_row_status_result (s s1 : StatementClass) (v : Int)
    (h : set_row_status s v = some s1) :
    s1.result = s.result ∧ s1.prepared = s.prepared := by
  unfold set_row_status at h
  split at h
  · simp only [Option.some.injEq] at h
    subst h
    exact ⟨rfl, rfl⟩
  · split at h
    · exact Option.noConfusion h
    · simp only [Option.some.injEq] at h
      subst h
      exact ⟨rfl, rfl⟩

/-- C20, amended: let the row be executed with the declare-and-execute wrapper
(the prepare flag is set, the statement is not prepared on the server nor
flagged inaccurate, the connection supports server-side prepare, and
`copy_statement_with_parameters` succeeded and marked the statement
prepare-before-exec), let `SC_execute` not return `SQL_ERROR` and deliver the
chain `r :: kres` with a successful first link `r`, and let the cursor not be
keyset-driven with a concurrency other than read-only. Then
`Exec_with_parameters_resolved` returns, the statement's result chain is
`kres` (the returned chain without its first link), prepared-on-server is
TRUE, and the test of lines 208-213 is FALSE from then on: later rows do not
use the wrapper again. (The per-row status array, if any, covers the row.) -/
theorem Exec_with_parameters_resolved_server_prepare (be : Backend) (conn : ConnectionClass)
    (stmt : StatementClass) (r : QResultClass) (kres : List QResultClass)
    (hlocal : prepare_before_exec conn stmt = true)
    (hcopy : (copy_statement_with_parameters be conn stmt true).1 = SQL_SUCCESS)
    (hflag : (copy_statement_with_parameters be conn stmt true).2.prepare_before_exec = true)
    (hacc : (copy_statement_with_parameters be conn stmt true).2.inaccurate_result = false)
    (hexec : (SC_execute be conn
      { (copy_statement_with_parameters be conn stmt true).2 with
        current_exec_param := -1 }).1 ≠ SQL_ERROR)
    (hres : (SC_execute be conn
      { (copy_statement_with_parameters be conn stmt true).2 with
        current_exec_param := -1 }).2.2.result = r :: kres)
    (hok : r.command_maybe_successful = true)
    (hcur : ¬ (SQL_CURSOR_KEYSET_DRIVEN = (SC_execute be conn
        { (copy_statement_with_parameters be conn stmt true).2 with
          current_exec_param := -1 }).2.2.cursor_type ∧
      SQL_CONCUR_READ_ONLY ≠ (SC_execute be conn
        { (copy_statement_with_parameters be conn stmt true).2 with
          current_exec_param := -1 }).2.2.scroll_concurrency))
    (hrow : 0 ≤ stmt.exec_current_row)
    (hstat : ∀ n, stmt.ipd.param_status_ptr.map List.length = some n →
      stmt.exec_current_row.toNat < n) :
    ∃ (rv : RETCODE) (ee : Bool) (c2 : ConnectionClass) (s2 : StatementClass),
      Exec_with_parameters_resolved be conn stmt = some (rv, ee, c2, s2) ∧
      s2.result = kres ∧ s2.prepared = true ∧ prepare_before_exec c2 s2 = false := by
  generalize hs1 : ({ (copy_statement_with_parameters be conn stmt true).2 with
        current_exec_param := -1 } : StatementClass) = s1 at hexec hres hcur
  have hs1flag : s1.prepare_before_exec = true := by rw [← hs1]; exact hflag
  have hs1acc : s1.inaccurate_result = false := by rw [← hs1]; exact hacc
  have hs1row : s1.exec_current_row = stmt.exec_current_row := by
    rw [← hs1]
    exact (copy_statement_with_parameters_frame be conn stmt true).2
  have hs1ipd : s1.ipd.param_status_ptr.map List.length =
      stmt.ipd.param_status_ptr.map List.length := by
    rw [← hs1]
    exact (copy_statement_with_parameters_frame be conn stmt true).1.2.2.2.1
  generalize he : SC_execute be conn s1 = e at hexec hres hcur
  obtain ⟨erv, ec, es⟩ := e
  have hes := SC_execute_frame be conn s1
  rw [he] at hes
  simp only at hes hexec hres hcur
  have hesflag : es.prepare_before_exec = true := by
    have : es = (SC_execute be conn s1).2.2 := by rw [he]
    rw [this]
    simpa [SC_execute] using hs1flag
  -- the reconciliation takes the prepare branch
  have hrec : reconcile_result es erv =
      some (kres, SC_set_prepared (SC_set_Result es kres) true, erv) := by
    unfold reconcile_result
    simp only []
    rw [if_neg hcur, if_pos hesflag, hres]
    simp [hok]
  -- the status of the row can be stored
  obtain ⟨s3, hset⟩ := set_row_status_defined (SC_set_prepared (SC_set_Result es kres) true)
    (row_status erv)
    (by
      show 0 ≤ es.exec_current_row
      rw [hes.2.1, hs1row]
      exact hrow)
    (by
      intro n hn
      have h1 : es.ipd.param_status_ptr.map List.length = some n := hn
      rw [hes.1.2.2.2.1, hs1ipd] at h1
      show es.exec_current_row.toNat < n
      rw [hes.2.1, hs1row]
      exact hstat n h1)
  have hs3 : s3.result = kres ∧ s3.prepared = true := by
    obtain ⟨k1, k2⟩ := set_row_status_result _ _ _ hset
    exact ⟨k1, k2⟩
  have hlast : ∀ (c : ConnectionClass) (ct sc : Int) (rv0 : RETCODE),
      (cursor_changed ct sc (report_result c kres (advance_row s3).2 rv0).2
          (report_result c kres (advance_row s3).2 rv0).1).2.result = kres ∧
      (cursor_changed ct sc (report_result c kres (advance_row s3).2 rv0).2
          (report_result c kres (advance_row s3).2 rv0).1).2.prepared = true := by
    intro c ct sc rv0
    obtain ⟨a1, a2⟩ := advance_row_result s3
    obtain ⟨b1, b2⟩ := report_result_result c kres (advance_row s3).2 rv0
    obtain ⟨c1, c2⟩ := cursor_changed_result ct sc
      (report_result c kres (advance_row s3).2 rv0).2
      (report_result c kres (advance_row s3).2 rv0).1
    exact ⟨by rw [c1, b1, a1, hs3.1], by rw [c2, b2, a2, hs3.2]⟩
  have hafter : after_execute conn stmt.cursor_type stmt.scroll_concurrency es erv =
      some ((cursor_changed stmt.cursor_type stmt.scroll_concurrency
              (report_result conn kres (advance_row s3).2 erv).2
              (report_result conn kres (advance_row s3).2 erv).1).1,
            (advance_row s3).1,
            (cursor_changed stmt.cursor_type stmt.scroll_concurrency
              (report_result conn kres (advance_row s3).2 erv).2
              (report_result conn kres (advance_row s3).2 erv).1).2) := by
    unfold after_execute
    simp only [hrec, hset]
  have hreal : real_execution be conn stmt.cursor_type stmt.scroll_concurrency s1 =
      some ((cursor_changed stmt.cursor_type stmt.scroll_concurrency
              (report_result conn kres (advance_row s3).2 erv).2
              (report_result conn kres (advance_row s3).2 erv).1).1,
            (advance_row s3).1, ec,
            (cursor_changed stmt.cursor_type stmt.scroll_concurrency
              (report_result conn kres (advance_row s3).2 erv).2
              (report_result conn kres (advance_row s3).2 erv).1).2) := by
    unfold real_execution
    simp only [he, hexec, if_false, hafter]
  have hl := hlast conn stmt.cursor_type stmt.scroll_concurrency erv
  generalize hfin : cursor_changed stmt.cursor_type stmt.scroll_concurrency
      (report_result conn kres (advance_row s3).2 erv).2
      (report_result conn kres (advance_row s3).2 erv).1 = fin at hreal hl
  refine ⟨fin.1, (advance_row s3).1, ec, fin.2, ?_, hl.1, hl.2, ?_⟩
  · subst hs1
    unfold Exec_with_parameters_resolved
    simp only [hlocal, hcopy, ne_eq, not_true_eq_false, if_false]
    rw [if_neg (by simp [hacc])]
    exact hreal
  · unfold prepare_before_exec
    rw [hl.2]
    simp

/-- C20 (amended) at a concrete input: a prepared select with a forward-only
read-only cursor, executed with the wrapper, keeps the described result only
and is prepared on the server. -/
theorem Exec_with_parameters_resolved_server_prepare_witness :
    ∃ (rv : RETCODE) (ee : Bool) (c2 : ConnectionClass) (s2 : StatementClass),
      Exec_with_parameters_resolved describingBackend preparingConn (preparedSelect 0 1) =
        some (rv, ee, c2, s2) ∧
      s2.result = [describedLink] ∧ s2.prepared = true ∧ prepare_before_exec c2 s2 = false :=
  Exec_with_parameters_resolved_server_prepare describingBackend preparingConn
    (preparedSelect 0 1) (ackLink "PREPARE" true) [describedLink] rfl rfl rfl rfl
    (by decide) rfl rfl (by decide) (by decide) (fun _ hn => Option.noConfusion hn)

/-! ## Theorems: the per-row status -/

theorem reconcile_result_ipd (stmt s : StatementClass) (retval rv : RETCODE)
    (res : List QResultClass) (h : reconcile_result stmt retval = some (res, s, rv)) :
    s.ipd = stmt.ipd := by
  unfold reconcile_result at h
  simp only [] at h
  split at h
  · split at h
    · exact Option.noConfusion h
    · simp only [Option.some.injEq, Prod.mk.injEq] at h
      obtain ⟨-, h2, -⟩ := h
      subst h2
      rfl
    · simp only [Option.some.injEq, Prod.mk.injEq] at h
      obtain ⟨-, h2, -⟩ := h
      subst h2
      rfl
  · split at h
    · split at h
      · split at h
        · simp only [Option.some.injEq, Prod.mk.injEq] at h
          obtain ⟨-, h2, -⟩ := h
          subst h2
          rfl
        · simp only [Option.some.injEq, Prod.mk.injEq] at h
          obtain ⟨-, h2, -⟩ := h
          subst h2
          rfl
      · simp only [Option.some.injEq, Prod.mk.injEq] at h
        obtain ⟨-, h2, -⟩ := h
        subst h2
        rfl
    · simp only [Option.some.injEq, Prod.mk.injEq] at h
      obtain ⟨-, h2, -⟩ := h
      subst h2
      rfl

theorem advance_row_ipd (s : StatementClass) :
    (advance_row s).2.ipd = s.ipd ∧ (advance_row s).2.cursor_type = s.cursor_type ∧
    (advance_row s).2.scroll_concurrency = s.scroll_concurrency := by
  unfold advance_row
  dsimp only
  by_cases h : s.inaccurate_result = true ∨
      s.exec_current_row ≥ (if s.exec_end_row < 0 then s.apd.paramset_size - 1 else s.exec_end_row)
  · rw [if_pos h]
    exact ⟨rfl, rfl, rfl⟩
  · rw [if_neg h]
    exact ⟨rfl, rfl, rfl⟩

theorem report_result_ipd (conn : ConnectionClass) (res : List QResultClass)
    (s : StatementClass) (rv : RETCODE) :
    (report_result conn res s rv).2.ipd = s.ipd ∧
    (report_result conn res s rv).2.cursor_type = s.cursor_type ∧
    (report_result conn res s rv).2.scroll_concurrency = s.scroll_concurrency ∧
    ((report_result conn res s rv).1 = rv ∨
      (rv = SQL_SUCCESS ∧ (report_result conn res s rv).1 = SQL_NO_DATA)) := by
  unfold report_result
  cases res with
  | nil => exact ⟨rfl, rfl, rfl, Or.inl rfl⟩
  | cons q rest =>
    refine ⟨rfl, rfl, rfl, ?_⟩
    simp only []
    unfold no_data_check
    cases q.command with
    | none => exact Or.inl rfl
    | some cmd =>
      simp only []
      split_ifs with h1 h2
      · exact Or.inr ⟨h1.1, rfl⟩
      · exact Or.inl rfl
      · exact Or.inl rfl

theorem cursor_changed_ipd (ct sc : Int) (s : StatementClass) (rv : RETCODE) :
    (cursor_changed ct sc s rv).2.ipd = s.ipd ∧
    (cursor_changed ct sc s rv).2.cursor_type = s.cursor_type ∧
    (cursor_changed ct sc s rv).2.scroll_concurrency = s.scroll_concurrency ∧
    ((cursor_changed ct sc s rv).1 = rv ∨
      (rv = SQL_SUCCESS ∧ (s.cursor_type ≠ ct ∨ s.scroll_concurrency ≠ sc) ∧
        (cursor_changed ct sc s rv).1 = SQL_SUCCESS_WITH_INFO)) := by
  unfold cursor_changed
  split
  · rename_i h
    exact ⟨rfl, rfl, rfl, Or.inr ⟨h.1, h.2, rfl⟩⟩
  · exact ⟨rfl, rfl, rfl, Or.inl rfl⟩

/-- The status array after `set_row_status`: the slot of the current row holds
the value, the other slots are as before. -/
theorem set_row_status_array (s s1 : StatementClass) (v : Int)
    (h : set_row_status s v = some s1) :
    s1.ipd.param_status_ptr =
      s.ipd.param_status_ptr.map (fun a => a.set s.exec_current_row.toNat v) ∧
    (∀ a, s.ipd.param_status_ptr = some a →
      0 ≤ s.exec_current_row ∧ s.exec_current_row.toNat < a.length) ∧
    s1.cursor_type = s.cursor_type ∧ s1.scroll_concurrency = s.scroll_concurrency := by
  unfold set_row_status at h
  split at h
  · rename_i hp
    simp only [Option.some.injEq] at h
    subst h
    exact ⟨by rw [hp]; rfl, fun a ha => by rw [hp] at ha; exact Option.noConfusion ha, rfl, rfl⟩
  · rename_i a hp
    split at h
    · exact Option.noConfusion h
    · rename_i a1 hw
      simp only [Option.some.injEq] at h
      subst h
      unfold writeAt at hw
      split at hw
      · rename_i hb
        simp only [Option.some.injEq] at hw
        subst hw
        refine ⟨by rw [hp]; rfl, fun a2 ha2 => ?_, rfl, rfl⟩
        rw [hp] at ha2
        simp only [Option.some.injEq] at ha2
        subst ha2
        exact hb
      · exact Option.noConfusion hw

/-- Lines 281-383: the slot of the row holds the status of the return code as
it stands at lines 320-337 (`rv1`: the code of `SC_execute`, or `SQL_ERROR`
when the declare failed); the code returned is `rv1`, or a success turned into
`SQL_NO_DATA`, or a success turned into `SQL_SUCCESS_WITH_INFO` because the
cursor options changed. -/
theorem after_execute_status (conn : ConnectionClass) (ct sc : Int) (es s : StatementClass)
    (erv rv : RETCODE) (ee : Bool)
    (h : after_execute conn ct sc es erv = some (rv, ee, s)) :
    ∃ rv1 : RETCODE, (rv1 = erv ∨ rv1 = SQL_ERROR) ∧
      s.ipd.param_status_ptr =
        es.ipd.param_status_ptr.map (fun a => a.set es.exec_current_row.toNat (row_status rv1)) ∧
      (∀ a, es.ipd.param_status_ptr = some a →
        0 ≤ es.exec_current_row ∧ es.exec_current_row.toNat < a.length) ∧
      (rv = rv1 ∨ (rv1 = SQL_SUCCESS ∧ rv = SQL_NO_DATA) ∨
        (rv1 = SQL_SUCCESS ∧ rv = SQL_SUCCESS_WITH_INFO ∧
          (s.cursor_type ≠ ct ∨ s.scroll_concurrency ≠ sc))) := by
  unfold after_execute at h
  cases hr : reconcile_result es erv with
  | none => simp [hr] at h
  | some r =>
    obtain ⟨res, s1, rv1⟩ := r
    simp only [hr] at h
    cases hs : set_row_status s1 (row_status rv1) with
    | none => simp [hs] at h
    | some s2 =>
      simp only [hs, Option.some.injEq, Prod.mk.injEq] at h
      obtain ⟨h1, -, h3⟩ := h
      obtain ⟨-, f2, -, -, f5⟩ := reconcile_result_frame _ _ _ _ _ hr
      have fipd := reconcile_result_ipd _ _ _ _ _ hr
      obtain ⟨g1, g2, g3, g4⟩ := set_row_status_array _ _ _ hs
      obtain ⟨a1, a2, a3⟩ := advance_row_ipd s2
      obtain ⟨r1, r2, r3, r4⟩ := report_result_ipd conn res (advance_row s2).2 rv1
      obtain ⟨c1, c2, c3, c4⟩ := cursor_changed_ipd ct sc
        (report_result conn res (advance_row s2).2 rv1).2
        (report_result conn res (advance_row s2).2 rv1).1
      subst h1 h3
      refine ⟨rv1, f5, ?_, ?_, ?_⟩
      · rw [c1, r1, a1, g1, fipd, f2]
      · intro a ha
        have := g2 a (by rw [fipd]; exact ha)
        rw [f2] at this
        exact this
      · rcases c4 with c4 | ⟨c4a, c4b, c4c⟩
        · rw [c4]
          rcases r4 with r4 | ⟨r4a, r4b⟩
          · exact Or.inl r4
          · exact Or.inr (Or.inl ⟨r4a, r4b⟩)
        · rw [c4c]
          rcases r4 with r4 | ⟨r4a, r4b⟩
          · rw [r4] at c4a
            refine Or.inr (Or.inr ⟨c4a, rfl, ?_⟩)
            rw [c2, c3]
            exact c4b
          · rw [r4b] at c4a
            exact absurd c4a (by decide)
/-- The real execution and the status array: when `SC_execute` returns
`SQL_ERROR` nothing is stored; otherwise the slot of the row holds the status
of the return code as it stands at lines 320-337. -/
theorem real_execution_status (be : Backend) (conn c : ConnectionClass) (ct sc : Int)
    (stmt s : StatementClass) (rv : RETCODE) (ee : Bool)
    (h : real_execution be conn ct sc stmt = some (rv, ee, c, s)) :
    ((SC_execute be conn stmt).1 = SQL_ERROR ∧ rv = SQL_ERROR ∧
      s.ipd.param_status_ptr = stmt.ipd.param_status_ptr) ∨
    ((SC_execute be conn stmt).1 ≠ SQL_ERROR ∧
      ∃ rv1 : RETCODE, (rv1 = (SC_execute be conn stmt).1 ∨ rv1 = SQL_ERROR) ∧
        s.ipd.param_status_ptr =
          stmt.ipd.param_status_ptr.map
            (fun a => a.set stmt.exec_current_row.toNat (row_status rv1)) ∧
        (∀ a, stmt.ipd.param_status_ptr = some a →
          0 ≤ stmt.exec_current_row ∧ stmt.exec_current_row.toNat < a.length) ∧
        (rv = rv1 ∨ (rv1 = SQL_SUCCESS ∧ rv = SQL_NO_DATA) ∨
          (rv1 = SQL_SUCCESS ∧ rv = SQL_SUCCESS_WITH_INFO ∧
            (s.cursor_type ≠ ct ∨ s.scroll_concurrency ≠ sc)))) := by
  unfold real_execution at h
  simp only [] at h
  split at h
  · rename_i herr
    simp only [Option.some.injEq, Prod.mk.injEq] at h
    obtain ⟨h1, -, -, h4⟩ := h
    subst h1 h4
    exact Or.inl ⟨herr, herr, rfl⟩
  · rename_i herr
    split at h
    · exact Option.noConfusion h
    · rename_i rv2 ee2 s2 ha
      simp only [Option.some.injEq, Prod.mk.injEq] at h
      obtain ⟨h1, -, -, h4⟩ := h
      subst h1 h4
      obtain ⟨rv1, k1, k2, k3, k4⟩ := after_execute_status _ _ _ _ _ _ _ _ ha
      exact Or.inr ⟨herr, rv1, k1, k2, k3, k4⟩

theorem row_status_cases (rv : RETCODE) :
    (row_status rv = SQL_PARAM_SUCCESS ↔ rv = SQL_SUCCESS) ∧
    (row_status rv = SQL_PARAM_SUCCESS_WITH_INFO ↔ rv = SQL_SUCCESS_WITH_INFO) ∧
    (row_status rv = SQL_PARAM_ERROR ↔ (rv ≠ SQL_SUCCESS ∧ rv ≠ SQL_SUCCESS_WITH_INFO)) := by
  unfold row_status
  by_cases h0 : rv = SQL_SUCCESS
  · subst h0
    simp
  · by_cases h1 : rv = SQL_SUCCESS_WITH_INFO
    · subst h1
      simp
    · simp [h0, h1]
/-- C18, as stated, fails. When the execution changes the cursor type (3 to
0), `PGAPI_Execute` reports `SQL_SUCCESS_WITH_INFO` with
`STMT_OPTION_VALUE_CHANGED`, but the status recorded for the row is
`SQL_PARAM_SUCCESS`: the slot is written at lines 320-337, the warning is
produced at lines 373-382. And when an update affects no row the outcome is
`SQL_NO_DATA`, not success, while the status recorded is `SQL_PARAM_SUCCESS`. -/
theorem row_status_differs_from_outcome :
    (PGAPI_Execute cursorChangingBackend idleConn (trackedStmt 3) 0).map
        (fun r => (r.1, r.2.2.ipd.param_status_ptr, r.2.2.error_number)) =
      some (SQL_SUCCESS_WITH_INFO, some [SQL_PARAM_SUCCESS], some STMT_OPTION_VALUE_CHANGED) ∧
    (PGAPI_Execute zeroRowsBackend idleConn (trackedStmt 0) 0).map
        (fun r => (r.1, r.2.2.ipd.param_status_ptr, r.2.2.error_number)) =
      some (SQL_NO_DATA, some [SQL_PARAM_SUCCESS], none) := by
  refine ⟨rfl, rfl⟩

/-- C18, amended: let per-row status tracking be enabled (the array is `a`),
the slot of the current row hold `SQL_PARAM_ERROR` as line 538 of
`PGAPI_Execute` left it, and let the row really be executed
(`copy_statement_with_parameters` succeeded, no dummy execution) with
`SC_execute` returning `SQL_SUCCESS`, `SQL_SUCCESS_WITH_INFO` or `SQL_ERROR`,
the cursor type and concurrency being afterwards what they were before. Then
`Exec_with_parameters_resolved` leaves every other slot as it was, reports
one of `SQL_SUCCESS`, `SQL_NO_DATA`, `SQL_SUCCESS_WITH_INFO`, `SQL_ERROR`, and
the slot of the row holds `SQL_PARAM_SUCCESS` exactly when the outcome is
`SQL_SUCCESS` or `SQL_NO_DATA`, `SQL_PARAM_SUCCESS_WITH_INFO` exactly when it
is `SQL_SUCCESS_WITH_INFO`, and `SQL_PARAM_ERROR` exactly when it is
`SQL_ERROR`. -/
theorem Exec_with_parameters_resolved_row_status (be : Backend) (conn c : ConnectionClass)
    (stmt s : StatementClass) (a : List Int) (rv : RETCODE) (ee : Bool)
    (hptr : stmt.ipd.param_status_ptr = some a)
    (hslot : readAt a stmt.exec_current_row = some SQL_PARAM_ERROR)
    (hcopy : (copy_statement_with_parameters be conn stmt (prepare_before_exec conn stmt)).1 =
      SQL_SUCCESS)
    (hreal : ((copy_statement_with_parameters be conn stmt
        (prepare_before_exec conn stmt)).2.inaccurate_result && conn.disallow_premature) = false)
    (hcodes : (SC_execute be conn
        { (copy_statement_with_parameters be conn stmt (prepare_before_exec conn stmt)).2 with
          current_exec_param := -1 }).1 = SQL_SUCCESS ∨
      (SC_execute be conn
        { (copy_statement_with_parameters be conn stmt (prepare_before_exec conn stmt)).2 with
          current_exec_param := -1 }).1 = SQL_SUCCESS_WITH_INFO ∨
      (SC_execute be conn
        { (copy_statement_with_parameters be conn stmt (prepare_before_exec conn stmt)).2 with
          current_exec_param := -1 }).1 = SQL_ERROR)
    (hex : Exec_with_parameters_resolved be conn stmt = some (rv, ee, c, s))
    (hsame : s.cursor_type = stmt.cursor_type ∧ s.scroll_concurrency = stmt.scroll_concurrency) :
    ∃ a1 : List Int, s.ipd.param_status_ptr = some a1 ∧ a1.length = a.length ∧
      (∀ j : Nat, j ≠ stmt.exec_current_row.toNat → a1[j]? = a[j]?) ∧
      (rv = SQL_SUCCESS ∨ rv = SQL_NO_DATA ∨ rv = SQL_SUCCESS_WITH_INFO ∨ rv = SQL_ERROR) ∧
      (a1[stmt.exec_current_row.toNat]? = some SQL_PARAM_SUCCESS ↔
        (rv = SQL_SUCCESS ∨ rv = SQL_NO_DATA)) ∧
      (a1[stmt.exec_current_row.toNat]? = some SQL_PARAM_SUCCESS_WITH_INFO ↔
        rv = SQL_SUCCESS_WITH_INFO) ∧
      (a1[stmt.exec_current_row.toNat]? = some SQL_PARAM_ERROR ↔ rv = SQL_ERROR) := by
  have hcf := copy_statement_with_parameters_frame be conn stmt (prepare_before_exec conn stmt)
  have hinit : a[stmt.exec_current_row.toNat]? = some SQL_PARAM_ERROR := by
    unfold readAt at hslot
    split at hslot
    · exact hslot
    · exact Option.noConfusion hslot
  unfold Exec_with_parameters_resolved at hex
  simp only [hcopy, ne_eq, not_true_eq_false, if_false] at hex
  rw [if_neg (by rw [show ({ (copy_statement_with_parameters be conn stmt
      (prepare_before_exec conn stmt)).2 with current_exec_param := -1 } :
      StatementClass).inaccurate_result = (copy_statement_with_parameters be conn stmt
      (prepare_before_exec conn stmt)).2.inaccurate_result from rfl, hreal]; decide)] at hex
  generalize hs1 : ({ (copy_statement_with_parameters be conn stmt
      (prepare_before_exec conn stmt)).2 with current_exec_param := -1 } : StatementClass) = s1
    at hex hcodes
  have hs1ptr : s1.ipd.param_status_ptr = some a := by
    rw [← hs1]
    exact hptr
  have hs1row : s1.exec_current_row = stmt.exec_current_row := by
    rw [← hs1]
    exact hcf.2
  rcases real_execution_status _ _ _ _ _ _ _ _ _ hex with ⟨e1, e2, e3⟩ | ⟨e1, rv1, k1, k2, k3, k4⟩
  · -- `SC_execute` returned `SQL_ERROR`: the slot set at line 538 stays
    refine ⟨a, by rw [e3, hs1ptr], rfl, fun _ _ => rfl, Or.inr (Or.inr (Or.inr e2)), ?_, ?_, ?_⟩
    · rw [hinit, e2]
      constructor
      · intro h
        exact absurd h (by decide)
      · intro h
        rcases h with h | h <;> exact absurd h (by decide)
    · rw [hinit, e2]
      constructor
      · intro h
        exact absurd h (by decide)
      · intro h
        exact absurd h (by decide)
    · rw [hinit, e2]
      exact ⟨fun _ => rfl, fun _ => rfl⟩
  · obtain ⟨r0, rlen⟩ := k3 a hs1ptr
    rw [hs1row] at r0 rlen k2
    rw [hs1ptr] at k2
    have hget : (a.set stmt.exec_current_row.toNat (row_status rv1))[stmt.exec_current_row.toNat]? =
        some (row_status rv1) := by
      simp [List.getElem?_set, rlen]
    -- the cursor options did not change
    have k4' : rv = rv1 ∨ (rv1 = SQL_SUCCESS ∧ rv = SQL_NO_DATA) := by
      rcases k4 with k4 | k4 | ⟨-, -, k4⟩
      · exact Or.inl k4
      · exact Or.inr k4
      · rcases k4 with k4 | k4
        · exact absurd hsame.1 k4
        · exact absurd hsame.2 k4
    have hrv1 : rv1 = SQL_SUCCESS ∨ rv1 = SQL_SUCCESS_WITH_INFO ∨ rv1 = SQL_ERROR := by
      rcases k1 with k1 | k1
      · rw [k1]
        exact hcodes
      · exact Or.inr (Or.inr k1)
    obtain ⟨c1, c2, c3⟩ := row_status_cases rv1
    refine ⟨a.set stmt.exec_current_row.toNat (row_status rv1), k2, by simp, ?_, ?_, ?_, ?_, ?_⟩
    · intro j hj
      simp [List.getElem?_set, Ne.symm hj]
    · rcases k4' with k | ⟨-, k⟩
      · rw [k]
        rcases hrv1 with h | h | h
        · exact Or.inl h
        · exact Or.inr (Or.inr (Or.inl h))
        · exact Or.inr (Or.inr (Or.inr h))
      · exact Or.inr (Or.inl k)
    · rw [hget]
      simp only [Option.some.injEq]
      rw [c1]
      constructor
      · intro h
        rcases k4' with k | ⟨-, k⟩
        · exact Or.inl (k.trans h)
        · exact Or.inr k
      · intro h
        rcases k4' with k | ⟨k, -⟩
        · rcases h with h | h
          · exact k ▸ h
          · rw [k] at h
            rcases hrv1 with h1 | h1 | h1
            · exact h1
            · rw [h1] at h
              exact absurd h (by decide)
            · rw [h1] at h
              exact absurd h (by decide)
        · exact k
    · rw [hget]
      simp only [Option.some.injEq]
      rw [c2]
      constructor
      · intro h
        rcases k4' with k | ⟨k, -⟩
        · exact k.trans h
        · rw [k] at h
          exact absurd h (by decide)
      · intro h
        rcases k4' with k | ⟨-, k⟩
        · exact k ▸ h
        · rw [k] at h
          exact absurd h (by decide)
    · rw [hget]
      simp only [Option.some.injEq]
      rw [c3]
      constructor
      · intro h
        rcases hrv1 with h1 | h1 | h1
        · exact absurd h1 h.1
        · exact absurd h1 h.2
        · rcases k4' with k | ⟨k, -⟩
          · exact k.trans h1
          · exact absurd k h.1
      · intro h
        rcases k4' with k | ⟨-, k⟩
        · rw [k] at h
          rw [h]
          exact ⟨by decide, by decide⟩
        · rw [k] at h
          exact absurd h (by decide)

/-- C18 (amended) at a concrete input: the row of `trackedStmt 0` is executed
with success and its slot, set to `SQL_PARAM_ERROR` before the execution,
holds `SQL_PARAM_SUCCESS` afterwards. -/
theorem Exec_with_parameters_resolved_row_status_witness :
    ∃ (rv : RETCODE) (ee : Bool) (c : ConnectionClass) (s : StatementClass) (a1 : List Int),
      Exec_with_parameters_resolved okBackend idleConn
        { trackedStmt 0 with
          exec_current_row := 0,
          ipd := { (trackedStmt 0).ipd with param_status_ptr := some [SQL_PARAM_ERROR] } } =
        some (rv, ee, c, s) ∧
      rv = SQL_SUCCESS ∧ s.ipd.param_status_ptr = some a1 ∧
      a1[0]? = some SQL_PARAM_SUCCESS :=
  have hx : ∃ r, Exec_with_parameters_resolved okBackend idleConn
      { trackedStmt 0 with
        exec_current_row := 0,
        ipd := { (trackedStmt 0).ipd with param_status_ptr := some [SQL_PARAM_ERROR] } } =
      some r ∧ r.1 = SQL_SUCCESS ∧ r.2.2.2.cursor_type = 0 ∧
      r.2.2.2.scroll_concurrency = SQL_CONCUR_READ_ONLY := ⟨_, rfl, rfl, rfl, rfl⟩
  hx.elim fun r hr =>
    have h := Exec_with_parameters_resolved_row_status okBackend idleConn r.2.2.1
      { trackedStmt 0 with
        exec_current_row := 0,
        ipd := { (trackedStmt 0).ipd with param_status_ptr := some [SQL_PARAM_ERROR] } }
      r.2.2.2 [SQL_PARAM_ERROR] r.1 r.2.1 rfl rfl rfl rfl (Or.inl rfl) hr.1
      ⟨hr.2.2.1, hr.2.2.2⟩
    h.elim fun a1 ha =>
      ⟨r.1, r.2.1, r.2.2.1, r.2.2.2, a1, hr.1, hr.2.1, ha.1,
        ha.2.2.2.2.1.mpr (Or.inl hr.2.1)⟩

/-! ## Theorems: the status slots of a batch -/

/-- `execute_rows` is `start_batch` followed by the row loop. -/
theorem execute_rows_start_batch (be : Backend) (conn : ConnectionClass) (stmt : StatementClass)
    (recycle recycled : Bool) :
    execute_rows be conn stmt recycle recycled =
      match start_batch be conn stmt recycle recycled with
      | none => none
      | some (c, s) =>
        next_param_row be (end_row_of stmt) ((end_row_of stmt - s.exec_current_row).toNat + 1) c s := by
  unfold execute_rows start_batch end_row_of
  rfl
theorem row_ignored_readAt (a : List Int) (j : Int) (h0 : 0 ≤ j) (v : Int)
    (h : readAt a j = some v) :
    row_ignored (some a) j.toNat = decide (v = SQL_PARAM_IGNORE) := by
  unfold readAt at h
  rw [if_pos h0] at h
  unfold row_ignored
  simp only [h]
  by_cases hv : v = SQL_PARAM_IGNORE
  · simp [hv]
  · simp [hv]

/-- The rows the skip loop passes are marked `SQL_PARAM_IGNORE`; the row it
stops at is not. -/
theorem skip_ignored_marks (a : List Int) (e : Int) :
    ∀ (fuel : Nat) (cur : Int), 0 ≤ cur → cur ≤ e →
      (skip_ignored a e fuel cur = some Skip.all_ignored →
        ∀ j : Nat, cur.toNat ≤ j → j ≤ e.toNat → row_ignored (some a) j = true) ∧
      (∀ r, skip_ignored a e fuel cur = some (Skip.row r) →
        row_ignored (some a) r.toNat = false ∧
        ∀ j : Nat, cur.toNat ≤ j → j < r.toNat → row_ignored (some a) j = true) := by
  intro fuel
  induction fuel with
  | zero =>
    intro cur h0 hce
    simp only [skip_ignored, skip_step]
    cases hr : readAt a cur with
    | none => simp
    | some v =>
      have hri := row_ignored_readAt a cur h0 v hr
      simp only []
      by_cases hv : v = SQL_PARAM_IGNORE
      · rw [if_pos hv]
        by_cases hge : cur ≥ e
        · rw [if_pos hge]
          refine ⟨fun _ j hj1 hj2 => ?_, fun r hr2 => by simp at hr2⟩
          have : j = cur.toNat := by omega
          rw [this, hri]
          simp [hv]
        · rw [if_neg hge]
          exact ⟨fun h => Option.noConfusion h, fun r h => Option.noConfusion h⟩
      · rw [if_neg hv]
        refine ⟨fun h => by simp at h, fun r h => ?_⟩
        simp only [Option.some.injEq, Skip.row.injEq] at h
        subst h
        refine ⟨by rw [hri]; simp [hv], fun j hj1 hj2 => by omega⟩
  | succ n ih =>
    intro cur h0 hce
    simp only [skip_ignored, skip_step]
    cases hr : readAt a cur with
    | none => simp
    | some v =>
      have hri := row_ignored_readAt a cur h0 v hr
      simp only []
      by_cases hv : v = SQL_PARAM_IGNORE
      · rw [if_pos hv]
        have hcur : row_ignored (some a) cur.toNat = true := by rw [hri]; simp [hv]
        by_cases hge : cur ≥ e
        · rw [if_pos hge]
          refine ⟨fun _ j hj1 hj2 => ?_, fun r hr2 => by simp at hr2⟩
          have : j = cur.toNat := by omega
          rw [this]
          exact hcur
        · rw [if_neg hge]
          obtain ⟨i1, i2⟩ := ih (cur + 1) (by omega) (by omega)
          have hnat : (cur + 1).toNat = cur.toNat + 1 := by omega
          refine ⟨fun h j hj1 hj2 => ?_, fun r h => ?_⟩
          · by_cases hj : j = cur.toNat
            · rw [hj]
              exact hcur
            · exact i1 h j (by omega) hj2
          · obtain ⟨k1, k2⟩ := i2 r h
            refine ⟨k1, fun j hj1 hj2 => ?_⟩
            by_cases hj : j = cur.toNat
            · rw [hj]
              exact hcur
            · exact k2 j (by omega) hj2
      · rw [if_neg hv]
        refine ⟨fun h => by simp at h, fun r h => ?_⟩
        simp only [Option.some.injEq, Skip.row.injEq] at h
        subst h
        refine ⟨by rw [hri]; simp [hv], fun j hj1 hj2 => by omega⟩

theorem check_data_at_exec_status (stmt s : StatementClass) (b : Bool)
    (h : check_data_at_exec stmt = some (b, s)) :
    s.ipd.param_status_ptr = stmt.ipd.param_status_ptr := by
  unfold check_data_at_exec at h
  split at h
  · simp only [] at h
    split at h
    · exact Option.noConfusion h
    · simp only [Option.some.injEq, Prod.mk.injEq] at h
      obtain ⟨-, h2⟩ := h
      subst h2
      rfl
  · simp only [Option.some.injEq, Prod.mk.injEq] at h
    obtain ⟨-, h2⟩ := h
    subst h2
    rfl

theorem dummy_execution_ipd (be : Backend) (conn c : ConnectionClass)
    (stmt s : StatementClass) (rv : RETCODE)
    (h : dummy_execution be conn stmt = some (rv, c, s)) : s.ipd = stmt.ipd := by
  unfold dummy_execution at h
  split at h
  · simp only [Option.some.injEq, Prod.mk.injEq] at h
    obtain ⟨-, -, h3⟩ := h
    subst h3
    rfl
  · split at h
    · exact Option.noConfusion h
    · simp only [] at h
      split at h
      · simp only [Option.some.injEq, Prod.mk.injEq] at h
        obtain ⟨-, -, h3⟩ := h
        subst h3
        rfl
      · split at h
        · simp only [Option.some.injEq, Prod.mk.injEq] at h
          obtain ⟨-, -, h3⟩ := h
          subst h3
          rfl
        · split at h
          · exact Option.noConfusion h
          · simp only [Option.some.injEq, Prod.mk.injEq] at h
            obtain ⟨-, -, h3⟩ := h
            subst h3
            rfl

/-- What `Exec_with_parameters_resolved` does to the status array: nothing, or
it stores the status of a return code in the slot of the current row. -/
theorem Exec_with_parameters_resolved_status (be : Backend) (conn c : ConnectionClass)
    (stmt s : StatementClass) (rv : RETCODE) (ee : Bool)
    (h : Exec_with_parameters_resolved be conn stmt = some (rv, ee, c, s)) :
    s.ipd.param_status_ptr = stmt.ipd.param_status_ptr ∨
    ∃ rv1 : RETCODE,
      s.ipd.param_status_ptr =
        stmt.ipd.param_status_ptr.map
          (fun a => a.set stmt.exec_current_row.toNat (row_status rv1)) := by
  have hcf := copy_statement_with_parameters_frame be conn stmt (prepare_before_exec conn stmt)
  unfold Exec_with_parameters_resolved at h
  simp only [] at h
  split at h
  · simp only [Option.some.injEq, Prod.mk.injEq] at h
    obtain ⟨-, -, -, h4⟩ := h
    subst h4
    exact Or.inl rfl
  · split at h
    · split at h
      · exact Option.noConfusion h
      · rename_i rv1 c1 s1 hd
        simp only [Option.some.injEq, Prod.mk.injEq] at h
        obtain ⟨-, -, -, h4⟩ := h
        subst h4
        left
        rw [dummy_execution_ipd _ _ _ _ _ _ hd]
        rfl
    · rcases real_execution_status _ _ _ _ _ _ _ _ _ h with ⟨-, -, e3⟩ | ⟨-, rv1, -, k2, -, -⟩
      · exact Or.inl e3
      · right
        refine ⟨rv1, ?_⟩
        rw [k2]
        have hrow : ({ (copy_statement_with_parameters be conn stmt
            (prepare_before_exec conn stmt)).2 with current_exec_param := -1 } :
            StatementClass).exec_current_row = stmt.exec_current_row := hcf.2
        rw [hrow]
        rfl

theorem row_status_ne_unused (rv : RETCODE) : row_status rv ≠ SQL_PARAM_UNUSED := by
  unfold row_status
  split
  · decide
  · split <;> decide
/-- The row loop and the status array, when every row's execution succeeds
and no row needs streamed data: the loop runs to the end of the window; the
slots of the rows it skipped are untouched and the slot of every row it
executed holds a status. -/
theorem next_param_row_slots (be : Backend) (hsucc : RowsSucceed be)
    (op : Option (List Int)) (s e : Int) (h0 : 0 ≤ s)
    (hop : ∀ a, op = some a → e.toNat < a.length) :
    ∀ (n fuel : Nat) (conn : ConnectionClass) (st : StatementClass) (cnt : Int)
      (arr : List Int),
      LoopInv st op s e → s ≤ st.exec_current_row → st.exec_current_row + n = e →
      n + 1 ≤ fuel → st.ipd.param_processed_ptr = some cnt →
      st.ipd.param_status_ptr = some arr →
      ∃ rv c1 s1 arr1, next_param_row be e fuel conn st = some (rv, c1, s1) ∧
        s1.ipd.param_status_ptr = some arr1 ∧
        SlotsAfter op st.exec_current_row.toNat e.toNat arr arr1 ∧
        s1.exec_current_row = -1 ∧
        (row_ignored op e.toNat = true → rv = SQL_SUCCESS) := by
  intro n
  induction n using Nat.strong_induction_on with
  | _ n ih =>
    intro fuel conn st cnt arr hinv hs hn hfuel hcnt harr
    obtain ⟨f, hf⟩ : ∃ f, fuel = f + 1 := ⟨fuel - 1, by omega⟩
    subst hf
    have hen : (e - st.exec_current_row).toNat = n := by omega
    have hcur0 : 0 ≤ st.exec_current_row := by omega
    -- the loop over ignored rows
    have hskip : (∃ rv c1 s1 arr1, next_param_row be e (f + 1) conn st = some (rv, c1, s1) ∧
          s1.ipd.param_status_ptr = some arr1 ∧
          SlotsAfter op st.exec_current_row.toNat e.toNat arr arr1 ∧
          s1.exec_current_row = -1 ∧
          (row_ignored op e.toNat = true → rv = SQL_SUCCESS)) ∨
        (∃ r1 : Int, st.exec_current_row ≤ r1 ∧ r1 ≤ e ∧
          (match st.apd.param_operation_ptr with
            | none => some (Skip.row st.exec_current_row)
            | some a => skip_ignored a e (e - st.exec_current_row).toNat st.exec_current_row) =
            some (Skip.row r1) ∧
          row_ignored op r1.toNat = false ∧
          (∀ j : Nat, st.exec_current_row.toNat ≤ j → j < r1.toNat →
            row_ignored op j = true)) := by
      cases hopc : op with
      | none =>
        right
        refine ⟨st.exec_current_row, le_refl _, by omega, ?_, rfl, fun j h1 h2 => by omega⟩
        rw [hinv.1, hopc]
      | some a =>
        obtain ⟨m1, m2⟩ := skip_ignored_marks a e n st.exec_current_row hcur0 (by omega)
        rcases skip_ignored_spec a e (hop a hopc) n st.exec_current_row n (by omega) hn
          (le_refl _) with h | h
        · left
          refine ⟨SQL_SUCCESS, conn, { st with exec_current_row := -1 }, arr, ?_, harr, ?_, rfl,
            fun _ => rfl⟩
          · unfold next_param_row
            simp only [hinv.1, hopc, hen, h.1]
          · refine ⟨rfl, fun _ _ => rfl, fun j hj1 hj2 hj3 => ?_⟩
            have := m1 h.1 j hj1 hj2
            rw [this] at hj3
            exact absurd hj3 (by decide)
        · right
          obtain ⟨r1, h1, h2, h3, h4, -⟩ := h
          refine ⟨r1, h1, h2, ?_, h4, (m2 r1 h3).2⟩
          rw [hinv.1, hopc, hen]
          exact h3
    rcases hskip with hdone | ⟨r1, hr1, hr1e, hsk, hlive, hmarks⟩
    · exact hdone
    · -- row r1 is executed
      have hinv1 : LoopInv { st with exec_current_row := r1 } op s e :=
        hinv.of_sameBatch (by simp [SameBatch])
      have hr0 : 0 ≤ r1 := by omega
      obtain ⟨st2, hset⟩ := set_row_status_defined { st with exec_current_row := r1 }
        SQL_PARAM_ERROR hr0 (fun k hk => by have := hinv1.2.2.2.1 k hk; simp only; omega)
      obtain ⟨g1, g2, -, -, -, -⟩ := set_row_status_frame _ _ _ hset
      obtain ⟨ga, gb, -, -⟩ := set_row_status_array _ _ _ hset
      have hrlen : r1.toNat < arr.length := (gb arr harr).2
      have harr2 : st2.ipd.param_status_ptr = some (arr.set r1.toNat SQL_PARAM_ERROR) := by
        rw [ga]
        show Option.map _ st.ipd.param_status_ptr = _
        rw [harr]
        rfl
      have hinv2 : LoopInv st2 op s e := hinv1.of_sameBatch g1
      have hrow2 : st2.exec_current_row = r1 := g2
      obtain ⟨st3, hchk, hinv3, hrow3, hcnt3⟩ := check_data_at_exec_none st2 op s e cnt hinv2
        (by rw [hrow2]; omega) (by rw [hrow2]; exact hr1e) h0
        (by rw [g1.2.1]; exact hcnt)
      have harr3 : st3.ipd.param_status_ptr = some (arr.set r1.toNat SQL_PARAM_ERROR) := by
        rw [check_data_at_exec_status _ _ _ hchk, harr2]
      obtain ⟨rv, ee, c4, st4, hex, hee⟩ := Exec_with_parameters_resolved_defined be hsucc conn
        st3 (by rw [hrow3, hrow2]; exact hr0)
        (fun k hk => by have := hinv3.2.2.2.1 k hk; rw [hrow3, hrow2]; omega)
      obtain ⟨x1, -, x3, x4, -⟩ := Exec_with_parameters_resolved_frame _ _ _ _ _ _ _ hex
      -- the slot of row r1 after the execution
      obtain ⟨v, hv, harr4⟩ : ∃ v, v ≠ SQL_PARAM_UNUSED ∧
          st4.ipd.param_status_ptr = some (arr.set r1.toNat v) := by
        rcases Exec_with_parameters_resolved_status _ _ _ _ _ _ _ hex with hw | ⟨rv1, hw⟩
        · exact ⟨SQL_PARAM_ERROR, by decide, by rw [hw, harr3]⟩
        · refine ⟨row_status rv1, row_status_ne_unused rv1, ?_⟩
          rw [hw, harr3, hrow3, hrow2]
          simp
      have hunf : next_param_row be e (f + 1) conn st =
          (if !ee then next_param_row be e f c4 st4 else some (rv, c4, st4)) := by
        rw [next_param_row]
        simp only [hsk, hset, hchk, hex]
      have hnot : ∀ j : Nat, (j < st.exec_current_row.toNat ∨ e.toNat < j ∨
          row_ignored op j = true) → j ≠ r1.toNat := by
        intro j hj hjr
        subst hjr
        rcases hj with hj | hj | hj
        · omega
        · omega
        · rw [hlive] at hj
          exact absurd hj (by decide)
      rw [hunf]
      cases ee with
      | true =>
        have hlast : r1 ≥ e := by
          have := hee.mp rfl
          rw [hrow3, hrow2, hinv3.2.1] at this
          exact this
        have hre : r1 = e := by omega
        refine ⟨rv, c4, st4, arr.set r1.toNat v, by simp, harr4, ?_, x3 rfl, fun hi => ?_⟩
        · refine ⟨by simp, fun j hj => ?_, fun j hj1 hj2 hj3 => ?_⟩
          · simp [List.getElem?_set, Ne.symm (hnot j hj)]
          · by_cases hjr : j = r1.toNat
            · subst hjr
              exact ⟨v, by simp [List.getElem?_set, hrlen], hv⟩
            · have := hmarks j hj1 (by omega)
              rw [this] at hj3
              exact absurd hj3 (by decide)
        · rw [← hre, hlive] at hi
          exact absurd hi (by decide)
      | false =>
        obtain ⟨y1, y2⟩ := x4 rfl
        rw [hrow3, hrow2] at y1
        rw [hrow3, hrow2, hinv3.2.1] at y2
        obtain ⟨m, hm⟩ : ∃ m, (e - r1).toNat = m + 1 := ⟨(e - r1).toNat - 1, by omega⟩
        obtain ⟨rv5, c5, s5, arr5, h5, h5a, h5s, h5r, h5v⟩ := ih m (by omega) f c4 st4 (cnt + 1)
          (arr.set r1.toNat v)
          (hinv3.of_sameBatch x1) (by rw [y1]; omega) (by rw [y1]; omega) (by omega)
          (by rw [x1.2.1]; exact hcnt3) harr4
        rw [y1] at h5s
        have hnat : (r1 + 1).toNat = r1.toNat + 1 := by omega
        rw [hnat] at h5s
        obtain ⟨q1, q2, q3⟩ := h5s
        refine ⟨rv5, c5, s5, arr5, by simpa using h5, h5a, ?_, h5r, h5v⟩
        refine ⟨by rw [q1]; simp, fun j hj => ?_, fun j hj1 hj2 hj3 => ?_⟩
        · have hjne := hnot j hj
          rw [q2 j (by rcases hj with hj | hj | hj
                       · left; omega
                       · right; left; exact hj
                       · right; right; exact hj)]
          simp [List.getElem?_set, Ne.symm hjne]
        · by_cases hjr : j = r1.toNat
          · subst hjr
            refine ⟨v, ?_, hv⟩
            rw [q2 r1.toNat (Or.inl (by omega))]
            simp [List.getElem?_set, hrlen]
          · by_cases hlt : j < r1.toNat
            · have := hmarks j hj1 hlt
              rw [this] at hj3
              exact absurd hj3 (by decide)
            · exact q3 j (by omega) hj2 hj3

theorem reset_param_status_covering (a : List Int) (e : Int) (h0 : 0 ≤ e)
    (hlen : e.toNat < a.length) :
    reset_param_status a e =
      some (List.replicate (e + 1).toNat SQL_PARAM_UNUSED ++ a.drop (e + 1).toNat) ∧
    (List.replicate (e + 1).toNat SQL_PARAM_UNUSED ++ a.drop (e + 1).toNat).length = a.length ∧
    (∀ j : Nat, j ≤ e.toNat →
      (List.replicate (e + 1).toNat SQL_PARAM_UNUSED ++ a.drop (e + 1).toNat)[j]? =
        some SQL_PARAM_UNUSED) ∧
    (∀ j : Nat, e.toNat < j →
      (List.replicate (e + 1).toNat SQL_PARAM_UNUSED ++ a.drop (e + 1).toNat)[j]? = a[j]?) := by
  have hneg : ¬ e < 0 := by omega
  have hle : (e + 1).toNat ≤ a.length := by omega
  refine ⟨by simp [reset_param_status, hneg, hle], by simp; omega, fun j hj => ?_, fun j hj => ?_⟩
  · rw [List.getElem?_append_left (by simp; omega)]
    rw [List.getElem?_replicate]
    rw [if_pos (by omega)]
  · rw [List.getElem?_append_right (by simp; omega)]
    simp only [List.length_replicate, List.getElem?_drop]
    congr 1
    omega

/-- The batch from the idle row index, when every row's execution succeeds and
no row needs streamed data: the status array is reset and then filled by the
row loop. -/
theorem execute_rows_slots (be : Backend) (hsucc : RowsSucceed be)
    (conn : ConnectionClass) (stmt : StatementClass) (recycle recycled : Bool)
    (op : Option (List Int)) (s e n0 : Int) (a : List Int) (h0 : 0 ≤ s) (hse : s ≤ e)
    (hop : ∀ a, op = some a → e.toNat < a.length)
    (hinv : LoopInv stmt op s e)
    (hstart : (if stmt.exec_start_row < 0 then 0 else stmt.exec_start_row) = s)
    (hidle : stmt.exec_current_row < 0)
    (hcnt : stmt.ipd.param_processed_ptr = some n0)
    (harr : stmt.ipd.param_status_ptr = some a) :
    ∃ rv c1 s1 a1, execute_rows be conn stmt recycle recycled = some (rv, c1, s1) ∧
      s1.ipd.param_status_ptr = some a1 ∧
      SlotsAfter op s.toNat e.toNat
        (List.replicate (e + 1).toNat SQL_PARAM_UNUSED ++ a.drop (e + 1).toNat) a1 ∧
      s1.exec_current_row = -1 ∧
      (row_ignored op e.toNat = true → rv = SQL_SUCCESS) := by
  obtain ⟨h1, h2, h3, h4, h5⟩ := hinv
  have hend : (if stmt.exec_end_row < 0 then stmt.apd.paramset_size - 1
      else stmt.exec_end_row) = e := h2
  have hlen : e.toNat < a.length := h4 a.length (by simp [harr])
  obtain ⟨q1, q2, -, -⟩ := reset_param_status_covering a e (by omega) hlen
  have hinv1 : LoopInv
      { stmt with
        exec_current_row := s
        ipd := { stmt.ipd with
          param_processed_ptr := some 0,
          param_status_ptr :=
            some (List.replicate (e + 1).toNat SQL_PARAM_UNUSED ++ a.drop (e + 1).toNat) } }
      op s e := by
    refine ⟨h1, h2, h3, ?_, h5⟩
    intro k hk
    simp only [Option.map_some', Option.some.injEq] at hk
    omega
  have hrun : ∀ (c : ConnectionClass) (st : StatementClass), LoopInv st op s e →
      st.exec_current_row = s → st.ipd.param_processed_ptr = some 0 →
      st.ipd.param_status_ptr =
        some (List.replicate (e + 1).toNat SQL_PARAM_UNUSED ++ a.drop (e + 1).toNat) →
      ∃ rv c1 s1 a1, next_param_row be e ((e - st.exec_current_row).toNat + 1) c st =
          some (rv, c1, s1) ∧
        s1.ipd.param_status_ptr = some a1 ∧
        SlotsAfter op s.toNat e.toNat
          (List.replicate (e + 1).toNat SQL_PARAM_UNUSED ++ a.drop (e + 1).toNat) a1 ∧
        s1.exec_current_row = -1 ∧
        (row_ignored op e.toNat = true → rv = SQL_SUCCESS) := by
    intro c st hi hr hc ha
    obtain ⟨rv, c1, s1, a1, hx, hy, hz, hw, hv⟩ := next_param_row_slots be hsucc op s e h0 hop
      (e - s).toNat ((e - st.exec_current_row).toNat + 1) c st 0 _ hi (by rw [hr])
      (by rw [hr]; omega) (by rw [hr]) hc ha
    rw [hr] at hz
    exact ⟨rv, c1, s1, a1, hx, hy, hz, hw, hv⟩
  unfold execute_rows
  simp only [hstart, hend, hidle, if_true, hcnt, Option.map_some', harr, q1]
  by_cases hrec : (recycle && !recycled) = true
  · simp only [hrec, if_true]
    exact hrun _ _ (hinv1.of_recycle be conn) (by simp [SC_recycle_statement])
      (by simp [SC_recycle_statement]) (by simp [SC_recycle_statement])
  · simp only [hrec, if_false]
    exact hrun _ _ hinv1 rfl rfl rfl

/-- From the idle row index, `start_batch` puts the index on the first row,
the processed counter on 0 and the slots 0..`e` on `SQL_PARAM_UNUSED`. -/
theorem start_batch_resets (be : Backend) (conn : ConnectionClass) (stmt : StatementClass)
    (recycle recycled : Bool) (s e n0 : Int) (a : List Int) (h0 : 0 ≤ e)
    (hstart : start_row_of stmt = s) (hend : end_row_of stmt = e)
    (hidle : stmt.exec_current_row < 0)
    (hcnt : stmt.ipd.param_processed_ptr = some n0)
    (harr : stmt.ipd.param_status_ptr = some a) (hlen : e.toNat < a.length) :
    ∃ c0 s0, start_batch be conn stmt recycle recycled = some (c0, s0) ∧
      s0.exec_current_row = s ∧ s0.ipd.param_processed_ptr = some 0 ∧
      s0.ipd.param_status_ptr =
        some (List.replicate (e + 1).toNat SQL_PARAM_UNUSED ++ a.drop (e + 1).toNat) := by
  obtain ⟨q1, -, -, -⟩ := reset_param_status_covering a e h0 hlen
  unfold start_row_of at hstart
  unfold end_row_of at hend
  unfold start_batch
  simp only [hstart, hend, hidle, if_true, hcnt, Option.map_some', harr, q1]
  by_cases hrec : (recycle && !recycled) = true
  · simp only [hrec, if_true]
    exact ⟨_, _, rfl, by simp [SC_recycle_statement], by simp [SC_recycle_statement],
      by simp [SC_recycle_statement]⟩
  · simp only [hrec, if_false]
    exact ⟨_, _, rfl, rfl, rfl, rfl⟩

/-- The status slots of a batch when every row's execution succeeds
(`RowsSucceed`) and no parameter needs streamed data on a row of the window:
`PGAPI_Execute` is the row loop of lines 520 on started in a state whose row
index is `s`, whose processed counter is 0 and whose slots 0..`e` all hold
`SQL_PARAM_UNUSED`; it returns, and in the array it leaves the slot of every
row of `0..e` that is below `s` or marked `SQL_PARAM_IGNORE` holds
`SQL_PARAM_UNUSED`, the slot of every other row of `[s, e]` holds another
value, the slots beyond `e` are as in `a`, the row index is -1, and the call
returns `SQL_SUCCESS` if from some row of the window on every row is marked
`SQL_PARAM_IGNORE`. -/
theorem PGAPI_Execute_slots_when_rows_succeed (be : Backend) (hsucc : RowsSucceed be)
    (conn : ConnectionClass) (stmt : StatementClass) (flag : Nat) (s e n0 : Int)
    (text : String) (a : List Int)
    (hs0 : 0 ≤ s) (hse : s ≤ e)
    (hstart : start_row_of stmt = s) (hend : end_row_of stmt = e)
    (hidle : stmt.exec_current_row < 0)
    (htext : stmt.statement = some text)
    (hstatus : stmt.status = STMT_READY ∨ stmt.status = STMT_FINISHED ∨
      (stmt.status = STMT_ALLOCATED ∧ stmt.prepare = false))
    (hpre : stmt.pre_executing = false)
    (hcnt : stmt.ipd.param_processed_ptr = some n0)
    (harr : stmt.ipd.param_status_ptr = some a) (hlen : e.toNat < a.length)
    (hop : ∀ o, stmt.apd.param_operation_ptr = some o → e.toNat < o.length)
    (hnodae : NoDataAtExec stmt.apd.parameters s e) :
    (∃ c0 s0, s0.exec_current_row = s ∧ s0.ipd.param_processed_ptr = some 0 ∧
      s0.ipd.param_status_ptr =
        some (List.replicate (e + 1).toNat SQL_PARAM_UNUSED ++ a.drop (e + 1).toNat) ∧
      PGAPI_Execute be conn stmt flag = next_param_row be e ((e - s).toNat + 1) c0 s0) ∧
    (∃ rv c1 s1 a1, PGAPI_Execute be conn stmt flag = some (rv, c1, s1) ∧
      s1.ipd.param_status_ptr = some a1 ∧ a1.length = a.length ∧
      s1.exec_current_row = -1 ∧
      (∀ j : Nat, j ≤ e.toNat →
        (j < s.toNat ∨ row_ignored stmt.apd.param_operation_ptr j = true) →
        a1[j]? = some SQL_PARAM_UNUSED) ∧
      (∀ j : Nat, s.toNat ≤ j → j ≤ e.toNat →
        row_ignored stmt.apd.param_operation_ptr j = false →
        ∃ v, a1[j]? = some v ∧ v ≠ SQL_PARAM_UNUSED) ∧
      (∀ j : Nat, e.toNat < j → a1[j]? = a[j]?) ∧
      (∀ k : Nat, s.toNat ≤ k → k ≤ e.toNat →
        (∀ j : Nat, k ≤ j → j ≤ e.toNat →
          row_ignored stmt.apd.param_operation_ptr j = true) →
        rv = SQL_SUCCESS)) := by
  have hinv : LoopInv stmt stmt.apd.param_operation_ptr s e := by
    refine ⟨rfl, hend, hpre, ?_, hnodae⟩
    intro k hk
    simp only [harr, Option.map_some', Option.some.injEq] at hk
    omega
  obtain ⟨-, q2, q3, q4⟩ := reset_param_status_covering a e (by omega) hlen
  have hrows : ∀ (c : ConnectionClass) (st : StatementClass) (r1 r2 : Bool),
      LoopInv st stmt.apd.param_operation_ptr s e →
      st.exec_start_row = stmt.exec_start_row → st.exec_current_row = stmt.exec_current_row →
      st.ipd = stmt.ipd →
      (∃ c0 s0, s0.exec_current_row = s ∧ s0.ipd.param_processed_ptr = some 0 ∧
        s0.ipd.param_status_ptr =
          some (List.replicate (e + 1).toNat SQL_PARAM_UNUSED ++ a.drop (e + 1).toNat) ∧
        execute_rows be c st r1 r2 = next_param_row be e ((e - s).toNat + 1) c0 s0) ∧
      (∃ rv c1 s1 a1, execute_rows be c st r1 r2 = some (rv, c1, s1) ∧
        s1.ipd.param_status_ptr = some a1 ∧ a1.length = a.length ∧
        s1.exec_current_row = -1 ∧
        (∀ j : Nat, j ≤ e.toNat →
          (j < s.toNat ∨ row_ignored stmt.apd.param_operation_ptr j = true) →
          a1[j]? = some SQL_PARAM_UNUSED) ∧
        (∀ j : Nat, s.toNat ≤ j → j ≤ e.toNat →
          row_ignored stmt.apd.param_operation_ptr j = false →
          ∃ v, a1[j]? = some v ∧ v ≠ SQL_PARAM_UNUSED) ∧
        (∀ j : Nat, e.toNat < j → a1[j]? = a[j]?) ∧
        (∀ k : Nat, s.toNat ≤ k → k ≤ e.toNat →
          (∀ j : Nat, k ≤ j → j ≤ e.toNat →
            row_ignored stmt.apd.param_operation_ptr j = true) →
          rv = SQL_SUCCESS)) := by
    intro c st r1 r2 hi hst hcur hipd
    have hstart1 : start_row_of st = s := by
      unfold start_row_of at hstart ⊢
      rw [hst]
      exact hstart
    constructor
    · obtain ⟨c0, s0, hb, hr, hc, hs⟩ := start_batch_resets be c st r1 r2 s e n0 a (by omega)
        hstart1 hi.2.1 (by rw [hcur]; exact hidle) (by rw [hipd]; exact hcnt)
        (by rw [hipd]; exact harr) hlen
      refine ⟨c0, s0, hr, hc, hs, ?_⟩
      rw [execute_rows_start_batch, hb]
      simp only [hi.2.1, hr]
    · obtain ⟨rv, c1, s1, a1, hx, hy, ⟨z1, z2, z3⟩, hw, hv⟩ :=
        execute_rows_slots be hsucc c st r1 r2 _ s e n0 a hs0 hse hop hi hstart1
          (by rw [hcur]; exact hidle) (by rw [hipd]; exact hcnt) (by rw [hipd]; exact harr)
      refine ⟨rv, c1, s1, a1, hx, hy, by rw [z1, q2], hw, ?_, z3, ?_, ?_⟩
      · intro j hj hor
        rw [z2 j (by rcases hor with h | h; exact Or.inl h; exact Or.inr (Or.inr h))]
        exact q3 j hj
      · intro j hj
        rw [z2 j (Or.inr (Or.inl hj))]
        exact q4 j hj
      · intro k _ hk hall
        exact hv (hall e.toNat hk (Nat.le_refl _))
  have hearly : (stmt.prepare && decide (stmt.status = STMT_PREMATURE)) = false := by
    rcases hstatus with h | h | h <;> simp [h]
  have hrow : ¬ stmt.exec_current_row > 0 := by omega
  by_cases hprep : stmt.prepared = true
  · have heq : PGAPI_Execute be conn stmt flag =
        execute_rows be conn (SC_set_Result (SC_clear_error stmt) []) false false := by
      unfold PGAPI_Execute
      simp only [hearly]
      simp [SC_clear_error, htext, hrow, hprep]
    rw [heq]
    exact hrows _ _ _ _ (hinv.of_sameBatch (by simp [SameBatch, SC_set_Result, SC_clear_error]))
      rfl rfl rfl
  · by_cases hfin : stmt.status = STMT_FINISHED
    · have heq : PGAPI_Execute be conn stmt flag =
          execute_rows be (SC_recycle_statement be conn (SC_clear_error stmt)).1
            (SC_recycle_statement be conn (SC_clear_error stmt)).2 true true := by
        unfold PGAPI_Execute
        simp only [hearly]
        simp [SC_clear_error, htext, hrow, hprep, hfin]
      rw [heq]
      exact hrows _ _ _ _
        ((hinv.of_sameBatch (b := SC_clear_error stmt)
          (by simp [SameBatch, SC_clear_error])).of_recycle be conn)
        (by simp [SC_recycle_statement, SC_clear_error])
        (by simp [SC_recycle_statement, SC_clear_error])
        (by simp [SC_recycle_statement, SC_clear_error])
    · have hok : ¬ ((stmt.prepare = true ∧ stmt.status ≠ STMT_READY) ∨
          (stmt.status ≠ STMT_ALLOCATED ∧ stmt.status ≠ STMT_READY)) := by
        rcases hstatus with h | h | h
        · simp [h]
        · exact absurd h hfin
        · simp [h.1, h.2]
      have heq : PGAPI_Execute be conn stmt flag =
          execute_rows be conn (SC_clear_error stmt) true false := by
        unfold PGAPI_Execute
        simp only [hearly]
        simp [SC_clear_error, htext, hrow, hprep, hfin, hok]
      rw [heq]
      exact hrows _ _ _ _ (hinv.of_sameBatch (by simp [SameBatch, SC_clear_error])) rfl rfl rfl

/-! ## Theorems: the result of a keyset-driven cursor -/

/-- The value of `Exec_with_parameters_resolved` on the path of the real
execution: the copy succeeded, no dummy execution is asked for, `SC_execute`
did not return `SQL_ERROR`, the reconciliation gave `(res, s2, rv2)` and the
status of the row was stored, giving `s3`. -/
theorem Exec_with_parameters_resolved_real_path (be : Backend) (conn : ConnectionClass)
    (stmt s2 s3 : StatementClass) (res : List QResultClass) (rv2 : RETCODE)
    (hcopy : (copy_statement_with_parameters be conn stmt (prepare_before_exec conn stmt)).1 =
      SQL_SUCCESS)
    (hreal : ((copy_statement_with_parameters be conn stmt
        (prepare_before_exec conn stmt)).2.inaccurate_result && conn.disallow_premature) = false)
    (hexec : (SC_execute be conn
        { (copy_statement_with_parameters be conn stmt (prepare_before_exec conn stmt)).2 with
          current_exec_param := -1 }).1 ≠ SQL_ERROR)
    (hrec : reconcile_result
        (SC_execute be conn
          { (copy_statement_with_parameters be conn stmt (prepare_before_exec conn stmt)).2 with
            current_exec_param := -1 }).2.2
        (SC_execute be conn
          { (copy_statement_with_parameters be conn stmt (prepare_before_exec conn stmt)).2 with
            current_exec_param := -1 }).1 = some (res, s2, rv2))
    (hset : set_row_status s2 (row_status rv2) = some s3) :
    Exec_with_parameters_resolved be conn stmt =
      some ((cursor_changed stmt.cursor_type stmt.scroll_concurrency
              (report_result conn res (advance_row s3).2 rv2).2
              (report_result conn res (advance_row s3).2 rv2).1).1,
            (advance_row s3).1,
            (SC_execute be conn
              { (copy_statement_with_parameters be conn stmt
                  (prepare_before_exec conn stmt)).2 with current_exec_param := -1 }).2.1,
            (cursor_changed stmt.cursor_type stmt.scroll_concurrency
              (report_result conn res (advance_row s3).2 rv2).2
              (report_result conn res (advance_row s3).2 rv2).1).2) := by
  unfold Exec_with_parameters_resolved
  simp only [hcopy, ne_eq, not_true_eq_false, if_false]
  rw [if_neg (by
    rw [show ({ (copy_statement_with_parameters be conn stmt
      (prepare_before_exec conn stmt)).2 with current_exec_param := -1 } :
      StatementClass).inaccurate_result = (copy_statement_with_parameters be conn stmt
      (prepare_before_exec conn stmt)).2.inaccurate_result from rfl, hreal]
    decide)]
  unfold real_execution
  simp only [hexec, if_false]
  unfold after_execute
  simp only [hrec, hset]

/-- C21, as stated, fails. On a keyset-driven cursor with a concurrency other
than read-only, the answer `primaryLink` (two columns) followed by
`keysetLink` (three columns) leaves one link: the second one, `keysetLink`,
carrying the field descriptors and the field count of the first one. It is
the first link that is discarded and its descriptors that are kept; the
merge the claim describes (the first link carrying the descriptors of the
second) is another chain. -/
theorem keyset_merge_keeps_second_link :
    (Exec_with_parameters_resolved keysetBackend idleConn keysetSelect).map
        (fun r => (r.1, r.2.2.2.result)) =
      some (SQL_SUCCESS,
        [{ fields := some ["id", "name"], num_fields := 2, command := some "FETCH",
           recent_processed_row_count := 20, command_maybe_successful := true }]) ∧
    ([{ keysetLink with fields := primaryLink.fields, num_fields := primaryLink.num_fields }] ≠
      [{ primaryLink with fields := keysetLink.fields, num_fields := keysetLink.num_fields }]) := by
  refine ⟨rfl, by decide⟩

/-- C21, amended: let the row really be executed (the copy succeeded, no dummy
execution, `SC_execute` did not return `SQL_ERROR`), the cursor be
keyset-driven with a concurrency other than read-only afterwards, and the
chain `SC_execute` attached be `r :: k :: rest`, the primary result `r`
followed by the key-set result `k`. Then `Exec_with_parameters_resolved`
returns and the chain of the statement is `k` with the field descriptors and
the field count of `r`, followed by `rest`: the descriptors of the first link
replace those of the second, the first link is the one discarded, and when
the answer had just the two links a single link is left. (The per-row status
array, if any, covers the row.) -/
theorem Exec_with_parameters_resolved_keyset_merge (be : Backend) (conn : ConnectionClass)
    (stmt : StatementClass) (r k : QResultClass) (rest : List QResultClass)
    (hcopy : (copy_statement_with_parameters be conn stmt (prepare_before_exec conn stmt)).1 =
      SQL_SUCCESS)
    (hreal : ((copy_statement_with_parameters be conn stmt
        (prepare_before_exec conn stmt)).2.inaccurate_result && conn.disallow_premature) = false)
    (hexec : (SC_execute be conn
        { (copy_statement_with_parameters be conn stmt (prepare_before_exec conn stmt)).2 with
          current_exec_param := -1 }).1 ≠ SQL_ERROR)
    (hres : (SC_execute be conn
        { (copy_statement_with_parameters be conn stmt (prepare_before_exec conn stmt)).2 with
          current_exec_param := -1 }).2.2.result = r :: k :: rest)
    (hcur : SQL_CURSOR_KEYSET_DRIVEN = (SC_execute be conn
        { (copy_statement_with_parameters be conn stmt (prepare_before_exec conn stmt)).2 with
          current_exec_param := -1 }).2.2.cursor_type ∧
      SQL_CONCUR_READ_ONLY ≠ (SC_execute be conn
        { (copy_statement_with_parameters be conn stmt (prepare_before_exec conn stmt)).2 with
          current_exec_param := -1 }).2.2.scroll_concurrency)
    (hrow : 0 ≤ stmt.exec_current_row)
    (hstat : ∀ n, stmt.ipd.param_status_ptr.map List.length = some n →
      stmt.exec_current_row.toNat < n) :
    ∃ (rv : RETCODE) (ee : Bool) (c2 : ConnectionClass) (s2 : StatementClass),
      Exec_with_parameters_resolved be conn stmt = some (rv, ee, c2, s2) ∧
      s2.result = { k with fields := r.fields, num_fields := r.num_fields } :: rest ∧
      (rest = [] →
        s2.result = [{ k with fields := r.fields, num_fields := r.num_fields }]) := by
  have hf := copy_statement_with_parameters_frame be conn stmt (prepare_before_exec conn stmt)
  generalize hs1 : ({ (copy_statement_with_parameters be conn stmt
      (prepare_before_exec conn stmt)).2 with current_exec_param := -1 } : StatementClass) = s1
    at hexec hres hcur
  have hs1row : s1.exec_current_row = stmt.exec_current_row := by
    rw [← hs1]
    exact hf.2
  have hs1ipd : s1.ipd.param_status_ptr.map List.length =
      stmt.ipd.param_status_ptr.map List.length := by
    rw [← hs1]
    exact hf.1.2.2.2.1
  have hes := SC_execute_frame be conn s1
  -- the reconciliation takes the keyset branch
  have hrec : reconcile_result (SC_execute be conn s1).2.2 (SC_execute be conn s1).1 =
      some ({ k with fields := r.fields, num_fields := r.num_fields } :: rest,
        SC_set_Result (SC_execute be conn s1).2.2
          ({ k with fields := r.fields, num_fields := r.num_fields } :: rest),
        (SC_execute be conn s1).1) := by
    unfold reconcile_result
    simp only []
    rw [if_pos hcur, hres]
  obtain ⟨s3, hset⟩ := set_row_status_defined
    (SC_set_Result (SC_execute be conn s1).2.2
      ({ k with fields := r.fields, num_fields := r.num_fields } :: rest))
    (row_status (SC_execute be conn s1).1)
    (by
      show 0 ≤ (SC_execute be conn s1).2.2.exec_current_row
      rw [hes.2.1, hs1row]
      exact hrow)
    (by
      intro n hn
      have h1 : (SC_execute be conn s1).2.2.ipd.param_status_ptr.map List.length = some n := hn
      rw [hes.1.2.2.2.1, hs1ipd] at h1
      show (SC_execute be conn s1).2.2.exec_current_row.toNat < n
      rw [hes.2.1, hs1row]
      exact hstat n h1)
  have hs3 : s3.result = { k with fields := r.fields, num_fields := r.num_fields } :: rest :=
    (set_row_status_result _ _ _ hset).1
  subst hs1
  have hpath := Exec_with_parameters_resolved_real_path be conn stmt _ s3 _ _ hcopy hreal hexec
    hrec hset
  refine ⟨_, _, _, _, hpath, ?_, ?_⟩
  · rw [(cursor_changed_result _ _ _ _).1, (report_result_result _ _ _ _).1,
      (advance_row_result s3).1, hs3]
  · intro hrest
    rw [(cursor_changed_result _ _ _ _).1, (report_result_result _ _ _ _).1,
      (advance_row_result s3).1, hs3, hrest]

/-- C21 (amended) at a concrete input: the answer `primaryLink`, `keysetLink`
leaves `keysetLink` with the descriptors and the field count of
`primaryLink`. -/
theorem Exec_with_parameters_resolved_keyset_merge_witness :
    ∃ (rv : RETCODE) (ee : Bool) (c2 : ConnectionClass) (s2 : StatementClass),
      Exec_with_parameters_resolved keysetBackend idleConn keysetSelect = some (rv, ee, c2, s2) ∧
      s2.result =
        { keysetLink with fields := primaryLink.fields,
                          num_fields := primaryLink.num_fields } :: [] ∧
      (([] : List QResultClass) = [] →
        s2.result = [{ keysetLink with fields := primaryLink.fields,
                                       num_fields := primaryLink.num_fields }]) :=
  Exec_with_parameters_resolved_keyset_merge keysetBackend idleConn keysetSelect primaryLink
    keysetLink [] rfl rfl (by decide) rfl ⟨rfl, by decide⟩ (by decide)
    (fun _ hn => Option.noConfusion hn)

/-! ## Theorems: the zero-rows check -/

theorem advance_row_cursor (s : StatementClass) :
    (advance_row s).2.cursor_type = s.cursor_type ∧
    (advance_row s).2.scroll_concurrency = s.scroll_concurrency := by
  unfold advance_row
  dsimp only
  by_cases h : s.inaccurate_result = true ∨
      s.exec_current_row ≥ (if s.exec_end_row < 0 then s.apd.paramset_size - 1 else s.exec_end_row)
  · rw [if_pos h]
    exact ⟨rfl, rfl⟩
  · rw [if_neg h]
    exact ⟨rfl, rfl⟩

theorem report_result_cursor (conn : ConnectionClass) (res : List QResultClass)
    (s : StatementClass) (rv : RETCODE) :
    (report_result conn res s rv).2.cursor_type = s.cursor_type ∧
    (report_result conn res s rv).2.scroll_concurrency = s.scroll_concurrency := by
  unfold report_result
  cases res <;> exact ⟨rfl, rfl⟩

/-- On the path of the dummy execution `Exec_with_parameters_resolved` is
`dummy_execution` on `probe_statement`, with `*exec_end = TRUE`. -/
theorem Exec_with_parameters_resolved_probe (be : Backend) (conn : ConnectionClass)
    (stmt : StatementClass)
    (hcopy : (copy_statement_with_parameters be conn stmt (prepare_before_exec conn stmt)).1 =
      SQL_SUCCESS)
    (hprobe : ((copy_statement_with_parameters be conn stmt
        (prepare_before_exec conn stmt)).2.inaccurate_result && conn.disallow_premature) = true) :
    Exec_with_parameters_resolved be conn stmt =
      (dummy_execution be conn (probe_statement be conn stmt)).map
        (fun r => (r.1, true, r.2.1, r.2.2)) := by
  unfold Exec_with_parameters_resolved probe_statement
  simp only [hcopy, ne_eq, not_true_eq_false, if_false]
  rw [if_pos (by
    rw [show ({ (copy_statement_with_parameters be conn stmt
      (prepare_before_exec conn stmt)).2 with current_exec_param := -1 } :
      StatementClass).inaccurate_result = (copy_statement_with_parameters be conn stmt
      (prepare_before_exec conn stmt)).2.inaccurate_result from rfl, hprobe])]
  cases dummy_execution be conn
    { { (copy_statement_with_parameters be conn stmt (prepare_before_exec conn stmt)).2 with
        current_exec_param := -1 } with exec_current_row := -1 } with
  | none => rfl
  | some r => rfl

/-- The dummy execution of a statement that is not pre-executable. -/
theorem dummy_execution_not_pre_executable (be : Backend) (conn : ConnectionClass)
    (stmt : StatementClass) (hpre : be.SC_is_pre_executable stmt = false) :
    dummy_execution be conn stmt = some (SQL_SUCCESS, conn, stmt) := by
  unfold dummy_execution
  simp [hpre]

/-- The dummy execution when the transaction it needs cannot be begun. -/
theorem dummy_execution_begin_fails (be : Backend) (conn : ConnectionClass)
    (stmt : StatementClass) (t : String)
    (hpre : be.SC_is_pre_executable stmt = true) (htext : stmt.stmt_with_params = some t)
    (hb : probe_begins conn t = true) (hfail : (CC_begin be conn).1 = false) :
    dummy_execution be conn stmt =
      some (SQL_ERROR, (CC_begin be conn).2,
        SC_set_error stmt STMT_EXEC_ERROR "Handle prepare error") := by
  unfold probe_begins at hb
  simp only [Bool.and_eq_true, Bool.not_eq_true', ] at hb
  unfold dummy_execution
  simp [hpre, htext, hb.1, hb.2, hfail]

/-- The dummy execution when the transaction is there or was begun: the text
is sent on `probe_conn`. -/
theorem dummy_execution_sends (be : Backend) (conn : ConnectionClass)
    (stmt : StatementClass) (t : String)
    (hpre : be.SC_is_pre_executable stmt = true) (htext : stmt.stmt_with_params = some t)
    (hbegun : probe_begins conn t = true → (CC_begin be conn).1 = true) :
    dummy_execution be conn stmt =
      match (CC_send_query be (probe_conn be conn t) t).1 with
      | none =>
        some (SQL_ERROR, (CC_abort be (CC_send_query be (probe_conn be conn t) t).2).2,
          SC_set_error stmt STMT_EXEC_ERROR "Handle prepare error")
      | some res =>
        match res.dropWhile (fun r => r.num_fields = 0) with
        | [] => none
        | cur :: more =>
          some (SQL_SUCCESS,
            (if (CC_send_query be (probe_conn be conn t) t).2.autocommit then
              (if probe_begins conn t then
                (CC_commit be (CC_send_query be (probe_conn be conn t) t).2).2
               else (CC_send_query be (probe_conn be conn t) t).2)
             else (CC_send_query be (probe_conn be conn t) t).2),
            { SC_set_Result stmt res with curres := cur :: more, status := STMT_FINISHED }) := by
  unfold dummy_execution
  simp only [hpre, htext, Bool.not_true, Bool.false_eq_true, if_false]
  by_cases hb : begins_with_BEGIN t = true
  · have hpb : probe_begins conn t = false := by simp [probe_begins, hb]
    have hpc : probe_conn be conn t = conn := by simp [probe_conn, hpb]
    simp only [hb, if_true, hpb, hpc, Bool.false_eq_true, if_false]
    cases hq : (CC_send_query be conn t).1 with
    | none => rfl
    | some res =>
      simp only []
      cases hw : res.dropWhile (fun r => r.num_fields = 0) with
      | nil => rfl
      | cons cur more => rfl
  · by_cases hin : conn.in_trans = true
    · have hpb : probe_begins conn t = false := by simp [probe_begins, hin]
      have hpc : probe_conn be conn t = conn := by simp [probe_conn, hpb]
      simp only [hb, hin, if_false, hpb, hpc, Bool.not_true, Bool.false_eq_true]
      cases hq : (CC_send_query be conn t).1 with
      | none => rfl
      | some res =>
        simp only []
        cases hw : res.dropWhile (fun r => r.num_fields = 0) with
        | nil => rfl
        | cons cur more => rfl
    · have hpb : probe_begins conn t = true := by simp [probe_begins, hb, hin]
      have hpc : probe_conn be conn t = (CC_begin be conn).2 := by simp [probe_conn, hpb]
      have hok := hbegun hpb
      simp only [hb, hin, if_false, hpb, hpc, hok, Bool.not_false, if_true, Bool.false_eq_true,
        Bool.not_true]
      cases hq : (CC_send_query be (CC_begin be conn).2 t).1 with
      | none => rfl
      | some res =>
        simp only []
        cases hw : res.dropWhile (fun r => r.num_fields = 0) with
        | nil => rfl
        | cons cur more => rfl

theorem probe_begins_iff (conn : ConnectionClass) (t : String) :
    probe_begins conn t = true ↔ (conn.in_trans = false ∧ begins_with_BEGIN t = false) := by
  unfold probe_begins
  cases begins_with_BEGIN t <;> cases conn.in_trans <;> simp

theorem probe_conn_requests (be : Backend) (conn : ConnectionClass) (t : String) :
    (probe_conn be conn t).requests =
      conn.requests ++ (if probe_begins conn t then [Request.CC_begin] else []) := by
  unfold probe_conn
  by_cases hb : probe_begins conn t = true
  · simp [hb, CC_begin]
  · simp [hb]

/-- What the dummy execution of a pre-executable statement with the text `t`
asks of the connection, whatever it returns: at most one statement is sent,
and a transaction is begun exactly when `probe_begins` says so. -/
theorem dummy_execution_requests (be : Backend) (conn c : ConnectionClass)
    (stmt s : StatementClass) (t : String) (rv : RETCODE)
    (hpre : be.SC_is_pre_executable stmt = true) (htext : stmt.stmt_with_params = some t)
    (h : dummy_execution be conn stmt = some (rv, c, s)) :
    ∃ extra, c.requests = conn.requests ++ extra ∧ (extra.filter is_send).length ≤ 1 ∧
      (Request.CC_begin ∈ extra ↔ probe_begins conn t = true) := by
  by_cases hbegun : probe_begins conn t = true → (CC_begin be conn).1 = true
  · rw [dummy_execution_sends be conn stmt t hpre htext hbegun] at h
    have hq : (CC_send_query be (probe_conn be conn t) t).2.requests =
        (probe_conn be conn t).requests ++ [Request.CC_send_query t] := rfl
    have hp := probe_conn_requests be conn t
    cases hs : (CC_send_query be (probe_conn be conn t) t).1 with
    | none =>
      rw [hs] at h
      simp only [Option.some.injEq, Prod.mk.injEq] at h
      obtain ⟨-, hc, -⟩ := h
      subst hc
      refine ⟨(if probe_begins conn t then [Request.CC_begin] else []) ++
        [Request.CC_send_query t, Request.CC_abort], ?_, ?_, ?_⟩
      · show (CC_send_query be (probe_conn be conn t) t).2.requests ++ [Request.CC_abort] = _
        rw [hq, hp]
        simp
      · by_cases hb : probe_begins conn t = true <;> simp [hb, is_send]
      · by_cases hb : probe_begins conn t = true <;> simp [hb]
    | some res =>
      rw [hs] at h
      simp only [] at h
      cases hw : res.dropWhile (fun r => r.num_fields = 0) with
      | nil =>
        rw [hw] at h
        exact Option.noConfusion h
      | cons cur more =>
        rw [hw] at h
        simp only [Option.some.injEq, Prod.mk.injEq] at h
        obtain ⟨-, hc, -⟩ := h
        subst hc
        refine ⟨(if probe_begins conn t then [Request.CC_begin] else []) ++
          [Request.CC_send_query t] ++
          (if (CC_send_query be (probe_conn be conn t) t).2.autocommit = true ∧
              probe_begins conn t = true then [Request.CC_commit] else []), ?_, ?_, ?_⟩
        · by_cases ha : (CC_send_query be (probe_conn be conn t) t).2.autocommit = true
          · by_cases hb : probe_begins conn t = true
            · simp only [ha, hb, if_true, and_self]
              show (CC_send_query be (probe_conn be conn t) t).2.requests ++
                [Request.CC_commit] = _
              rw [hq, hp]
              simp [hb]
            · simp only [ha, hb, if_true, if_false, and_false, Bool.false_eq_true]
              rw [hq, hp]
              simp [hb]
          · simp only [ha, if_false, false_and, Bool.false_eq_true]
            rw [hq, hp]
            simp
        · by_cases ha : (CC_send_query be (probe_conn be conn t) t).2.autocommit = true <;>
            by_cases hb : probe_begins conn t = true <;> simp [ha, hb, is_send]
        · by_cases ha : (CC_send_query be (probe_conn be conn t) t).2.autocommit = true <;>
            by_cases hb : probe_begins conn t = true <;> simp [ha, hb]
  · have hb : probe_begins conn t = true := by
      by_contra hn
      exact hbegun (fun h1 => absurd h1 hn)
    have hfail : (CC_begin be conn).1 = false := by
      cases hx : (CC_begin be conn).1 with
      | false => rfl
      | true => exact absurd (fun _ => hx) hbegun
    rw [dummy_execution_begin_fails be conn stmt t hpre htext hb hfail] at h
    simp only [Option.some.injEq, Prod.mk.injEq] at h
    obtain ⟨-, hc, -⟩ := h
    subst hc
    exact ⟨[Request.CC_begin], rfl, by simp [is_send], by simp [hb]⟩

/-- The walk `for (curres = res; !curres->num_fields; curres = curres->next)`
on a chain that holds a link with a field count other than 0: it stops at the
first such link. -/
theorem walk_to_fields (res : List QResultClass) (h : ∃ r ∈ res, r.num_fields ≠ 0) :
    ∃ pre cur more, res = pre ++ cur :: more ∧ (∀ p ∈ pre, p.num_fields = 0) ∧
      cur.num_fields ≠ 0 ∧ res.dropWhile (fun r => r.num_fields = 0) = cur :: more := by
  induction res with
  | nil =>
    obtain ⟨r, hr, -⟩ := h
    exact absurd hr (List.not_mem_nil r)
  | cons x xs ih =>
    by_cases hx : x.num_fields = 0
    · have hxs : ∃ r ∈ xs, r.num_fields ≠ 0 := by
        obtain ⟨r, hr, hn⟩ := h
        rcases List.mem_cons.mp hr with h1 | h1
        · subst h1
          exact absurd hx hn
        · exact ⟨r, h1, hn⟩
      obtain ⟨pre, cur, more, e1, e2, e3, e4⟩ := ih hxs
      refine ⟨x :: pre, cur, more, by rw [e1]; rfl, ?_, e3, ?_⟩
      · intro p hp
        rcases List.mem_cons.mp hp with h1 | h1
        · subst h1
          exact hx
        · exact e2 p h1
      · rw [List.dropWhile_cons_of_pos (by simpa using hx)]
        exact e4
    · exact ⟨[], x, xs, rfl, fun p hp => absurd hp (List.not_mem_nil p), hx,
        List.dropWhile_cons_of_neg (by simpa using hx)⟩

/-- C23, as stated, fails. The statement is in inaccurate-result mode, the
connection disallows premature execution and is not in a transaction, and the
text does not start with `BEGIN;`, but the statement is not pre-executable:
lines 239-240 return `SQL_SUCCESS` at once. No transaction is begun, nothing
is sent, and the status stays Ready. -/
theorem metadata_probe_skipped_when_not_pre_executable :
    probingConn.in_trans = false ∧ begins_with_BEGIN "UPDATE t SET a = 1" = false ∧
    ((copy_statement_with_parameters notPreExecutableBackend probingConn
        (probedSelect "UPDATE t SET a = 1")
        (prepare_before_exec probingConn (probedSelect "UPDATE t SET a = 1"))).2.inaccurate_result
      && probingConn.disallow_premature) = true ∧
    (Exec_with_parameters_resolved notPreExecutableBackend probingConn
        (probedSelect "UPDATE t SET a = 1")).map
        (fun r => (r.1, r.2.1, r.2.2.1.requests, r.2.2.2.status, r.2.2.2.exec_current_row)) =
      some (SQL_SUCCESS, true, [], STMT_READY, -1) := by
  refine ⟨rfl, rfl, rfl, rfl⟩

/-- C23, amended: let the copy succeed and the dummy execution be asked for (the
statement is in inaccurate-result mode, the connection disallows premature
execution). Whatever `Exec_with_parameters_resolved` returns, `*exec_end` is
TRUE, the row index is -1 and at most one statement was sent on the
connection. If moreover the statement is pre-executable and its text is `t`:
a transaction begin is among the requests made exactly when the connection is
not in a transaction and `t` does not start with `BEGIN;`; when that begin
fails the function returns `SQL_ERROR` having sent nothing else; when the
send (on `probe_conn`) answers with a chain `res` that holds a link with
columns, the function returns `SQL_SUCCESS`, the result of the statement is
`res` and its status is Finished; when the send fails, `CC_abort` is called
after it, the function returns `SQL_ERROR` with `STMT_EXEC_ERROR`, and the
status of the statement is what it was. -/
theorem Exec_with_parameters_resolved_metadata_probe (be : Backend) (conn : ConnectionClass)
    (stmt : StatementClass)
    (hcopy : (copy_statement_with_parameters be conn stmt (prepare_before_exec conn stmt)).1 =
      SQL_SUCCESS)
    (hprobe : ((copy_statement_with_parameters be conn stmt
        (prepare_before_exec conn stmt)).2.inaccurate_result && conn.disallow_premature) = true) :
    (∀ rv ee c s, Exec_with_parameters_resolved be conn stmt = some (rv, ee, c, s) →
      ee = true ∧ s.exec_current_row = -1 ∧
      ∃ extra, c.requests = conn.requests ++ extra ∧ (extra.filter is_send).length ≤ 1) ∧
    (∀ t : String, (probe_statement be conn stmt).stmt_with_params = some t →
      be.SC_is_pre_executable (probe_statement be conn stmt) = true →
      (∀ rv ee c s, Exec_with_parameters_resolved be conn stmt = some (rv, ee, c, s) →
        ∃ extra, c.requests = conn.requests ++ extra ∧
          (Request.CC_begin ∈ extra ↔
            (conn.in_trans = false ∧ begins_with_BEGIN t = false))) ∧
      (probe_begins conn t = true → (CC_begin be conn).1 = false →
        ∃ c s, Exec_with_parameters_resolved be conn stmt = some (SQL_ERROR, true, c, s) ∧
          c.requests = conn.requests ++ [Request.CC_begin] ∧ s.status = stmt.status) ∧
      ((probe_begins conn t = true → (CC_begin be conn).1 = true) →
        ∀ res, (CC_send_query be (probe_conn be conn t) t).1 = some res →
          (∃ r ∈ res, r.num_fields ≠ 0) →
          ∃ c s, Exec_with_parameters_resolved be conn stmt = some (SQL_SUCCESS, true, c, s) ∧
            s.result = res ∧ s.status = STMT_FINISHED ∧ s.exec_current_row = -1) ∧
      ((probe_begins conn t = true → (CC_begin be conn).1 = true) →
        (CC_send_query be (probe_conn be conn t) t).1 = none →
        ∃ c s, Exec_with_parameters_resolved be conn stmt = some (SQL_ERROR, true, c, s) ∧
          c = (CC_abort be (CC_send_query be (probe_conn be conn t) t).2).2 ∧
          c.requests = (probe_conn be conn t).requests ++
            [Request.CC_send_query t, Request.CC_abort] ∧
          s.status = stmt.status ∧ s.error_number = some STMT_EXEC_ERROR)) := by
  have heq := Exec_with_parameters_resolved_probe be conn stmt hcopy hprobe
  have hrowp : (probe_statement be conn stmt).exec_current_row = -1 := rfl
  have hstatp : (probe_statement be conn stmt).status = stmt.status := rfl
  refine ⟨?_, ?_⟩
  · intro rv ee c s h
    rw [heq] at h
    cases hd : dummy_execution be conn (probe_statement be conn stmt) with
    | none =>
      rw [hd] at h
      exact Option.noConfusion h
    | some r =>
      obtain ⟨rv0, c0, s0⟩ := r
      rw [hd] at h
      simp only [Option.map_some', Option.some.injEq, Prod.mk.injEq] at h
      obtain ⟨-, h2, h3, h4⟩ := h
      subst h2 h3 h4
      obtain ⟨-, f2, -, -⟩ := dummy_execution_frame be conn c0 _ s0 rv0 hd
      refine ⟨rfl, by rw [f2, hrowp], ?_⟩
      by_cases hpre : be.SC_is_pre_executable (probe_statement be conn stmt) = true
      · cases htext : (probe_statement be conn stmt).stmt_with_params with
        | none =>
          unfold dummy_execution at hd
          simp [hpre, htext] at hd
        | some t =>
          obtain ⟨extra, e1, e2, -⟩ := dummy_execution_requests be conn c0 _ s0 t rv0 hpre
            htext hd
          exact ⟨extra, e1, e2⟩
      · rw [dummy_execution_not_pre_executable be conn _ (by simpa using hpre)] at hd
        simp only [Option.some.injEq, Prod.mk.injEq] at hd
        obtain ⟨-, hc, -⟩ := hd
        subst hc
        exact ⟨[], by simp, by simp⟩
  · intro t htext hpre
    refine ⟨?_, ?_, ?_, ?_⟩
    · intro rv ee c s h
      rw [heq] at h
      cases hd : dummy_execution be conn (probe_statement be conn stmt) with
      | none =>
        rw [hd] at h
        exact Option.noConfusion h
      | some r =>
        obtain ⟨rv0, c0, s0⟩ := r
        rw [hd] at h
        simp only [Option.map_some', Option.some.injEq, Prod.mk.injEq] at h
        obtain ⟨-, -, h3, -⟩ := h
        subst h3
        obtain ⟨extra, e1, -, e3⟩ := dummy_execution_requests be conn c0 _ s0 t rv0 hpre
          htext hd
        exact ⟨extra, e1, by rw [e3, probe_begins_iff]⟩
    · intro hb hfail
      rw [heq, dummy_execution_begin_fails be conn _ t hpre htext hb hfail]
      exact ⟨_, _, rfl, rfl, rfl⟩
    · intro hbegun res hres hfield
      obtain ⟨pre, cur, more, -, -, -, hw⟩ := walk_to_fields res hfield
      rw [heq, dummy_execution_sends be conn _ t hpre htext hbegun, hres]
      simp only [hw]
      exact ⟨_, _, rfl, rfl, rfl, rfl⟩
    · intro hbegun hres
      rw [heq, dummy_execution_sends be conn _ t hpre htext hbegun, hres]
      exact ⟨_, _, rfl, rfl, by simp [CC_abort, CC_send_query], rfl, rfl⟩

/-- C23 at concrete inputs: a select over the rows 0..3 on an idle autocommit
connection. The probe begins a transaction, sends the text once, commits and
leaves the statement Finished with the described result; when the text starts
with `BEGIN;` no transaction is begun; when the send fails the transaction is
aborted, the call returns `SQL_ERROR` and the statement stays Ready. -/
theorem Exec_with_parameters_resolved_metadata_probe_witness :
    (∃ c s, Exec_with_parameters_resolved probingBackend probingConn
        (probedSelect "SELECT a FROM t") = some (SQL_SUCCESS, true, c, s) ∧
      s.result = [describedLink] ∧ s.status = STMT_FINISHED ∧ s.exec_current_row = -1) ∧
    (PGAPI_Execute probingBackend probingConn (probedSelect "SELECT a FROM t") 0).map
        (fun r => (r.1, r.2.1.requests, r.2.2.status, r.2.2.exec_current_row)) =
      some (SQL_SUCCESS,
        [Request.CC_begin, Request.CC_send_query "SELECT a FROM t", Request.CC_commit],
        STMT_FINISHED, -1) ∧
    (PGAPI_Execute probingBackend probingConn (probedSelect "BEGIN;SELECT a FROM t") 0).map
        (fun r => (r.1, r.2.1.requests, r.2.2.status, r.2.2.exec_current_row)) =
      some (SQL_SUCCESS, [Request.CC_send_query "BEGIN;SELECT a FROM t"], STMT_FINISHED, -1) ∧
    (PGAPI_Execute probingBackend probingConn (probedSelect "SELECT a FROM missing") 0).map
        (fun r => (r.1, r.2.1.requests, r.2.2.status, r.2.2.exec_current_row)) =
      some (SQL_ERROR,
        [Request.CC_begin, Request.CC_send_query "SELECT a FROM missing", Request.CC_abort],
        STMT_READY, -1) :=
  ⟨((Exec_with_parameters_resolved_metadata_probe probingBackend probingConn
      (probedSelect "SELECT a FROM t") rfl rfl).2 "SELECT a FROM t" rfl rfl).2.2.1
      (fun _ => rfl) [describedLink] rfl ⟨describedLink, by simp, by decide⟩,
    rfl, rfl, rfl⟩

/-! ## Theorems: the current result of the dummy execution -/

/-- C26 at the failing input. The send answers with the chain of one link
`ackLink "SELECT" true`, whose field count is 0: a non-empty chain. The walk
`for (curres = res; !curres->num_fields; curres = curres->next)` passes this
link, no link is left (`dropWhile` gives the empty list, the null pointer that
follows the last link), and the loop test reads `num_fields` through it: the
behaviour is undefined, `Exec_with_parameters_resolved` has no value. -/
theorem metadata_probe_walks_past_chain :
    (CC_send_query fieldlessBackend
        (probe_conn fieldlessBackend probingConn "SELECT a FROM t") "SELECT a FROM t").1 =
      some [ackLink "SELECT" true] ∧
    [ackLink "SELECT" true] ≠ [] ∧
    [ackLink "SELECT" true].dropWhile (fun r => r.num_fields = 0) = [] ∧
    Exec_with_parameters_resolved fieldlessBackend probingConn
      (probedSelect "SELECT a FROM t") = none ∧
    PGAPI_Execute fieldlessBackend probingConn (probedSelect "SELECT a FROM t") 0 = none := by
  refine ⟨rfl, by decide, rfl, rfl, rfl⟩

/-- The current result the dummy execution leaves. In the dummy execution of a
pre-executable statement with the text `t`, let the transaction be there or be begun and the send answer
with the chain `res`. If `res` holds a link with a field count other than 0,
`Exec_with_parameters_resolved` returns `SQL_SUCCESS` and the current result
of the statement is the part of `res` that starts at the first such link:
`res = pre ++ cur :: more`, every link of `pre` has the field count 0, `cur`
has not, and `SC_set_Curres` was given `cur`; the walk stopped within the
chain. If every link of `res` has the field count 0, the walk leaves the
chain and the function has no value. -/
theorem Exec_with_parameters_resolved_probe_curres (be : Backend) (conn : ConnectionClass)
    (stmt : StatementClass) (t : String) (res : List QResultClass)
    (hcopy : (copy_statement_with_parameters be conn stmt (prepare_before_exec conn stmt)).1 =
      SQL_SUCCESS)
    (hprobe : ((copy_statement_with_parameters be conn stmt
        (prepare_before_exec conn stmt)).2.inaccurate_result && conn.disallow_premature) = true)
    (hpre : be.SC_is_pre_executable (probe_statement be conn stmt) = true)
    (htext : (probe_statement be conn stmt).stmt_with_params = some t)
    (hbegun : probe_begins conn t = true → (CC_begin be conn).1 = true)
    (hres : (CC_send_query be (probe_conn be conn t) t).1 = some res) :
    ((∃ r ∈ res, r.num_fields ≠ 0) →
      ∃ c s pre cur more,
        Exec_with_parameters_resolved be conn stmt = some (SQL_SUCCESS, true, c, s) ∧
        res = pre ++ cur :: more ∧ (∀ p ∈ pre, p.num_fields = 0) ∧ cur.num_fields ≠ 0 ∧
        s.curres = cur :: more ∧ s.result = res) ∧
    ((∀ r ∈ res, r.num_fields = 0) → Exec_with_parameters_resolved be conn stmt = none) := by
  have heq := Exec_with_parameters_resolved_probe be conn stmt hcopy hprobe
  constructor
  · intro hfield
    obtain ⟨pre, cur, more, e1, e2, e3, hw⟩ := walk_to_fields res hfield
    rw [heq, dummy_execution_sends be conn _ t hpre htext hbegun, hres]
    simp only [hw]
    exact ⟨_, _, pre, cur, more, rfl, e1, e2, e3, rfl, rfl⟩
  · intro hall
    have hw : res.dropWhile (fun r => r.num_fields = 0) = [] := by
      rw [List.dropWhile_eq_nil_iff]
      intro r hr
      simpa using hall r hr
    rw [heq, dummy_execution_sends be conn _ t hpre htext hbegun, hres]
    simp only [hw]
    rfl

/-- The current result at a concrete input: the text starts with `BEGIN;`, the
answer is the begin acknowledgment followed by the described result, and the
current result is the described one. -/
theorem Exec_with_parameters_resolved_probe_curres_witness :
    ∃ c s pre cur more,
      Exec_with_parameters_resolved probingBackend probingConn
        (probedSelect "BEGIN;SELECT a FROM t") = some (SQL_SUCCESS, true, c, s) ∧
      [ackLink "BEGIN" true, describedLink] = pre ++ cur :: more ∧
      (∀ p ∈ pre, p.num_fields = 0) ∧ cur.num_fields ≠ 0 ∧
      s.curres = cur :: more ∧ s.result = [ackLink "BEGIN" true, describedLink] :=
  (Exec_with_parameters_resolved_probe_curres probingBackend probingConn
    (probedSelect "BEGIN;SELECT a FROM t") "BEGIN;SELECT a FROM t"
    [ackLink "BEGIN" true, describedLink] rfl rfl rfl rfl
    (fun h => absurd h (by decide)) rfl).1 ⟨describedLink, by simp, by decide⟩

/-! ## Theorems: `PGAPI_Transact` on one connection -/

/-- `PGAPI_Transact` on a connection, for `SQL_COMMIT` and `SQL_ROLLBACK`. -/
theorem transact_connection_eq (be : Backend) (conn : ConnectionClass) (fType : Nat)
    (hf : fType = SQL_COMMIT ∨ fType = SQL_ROLLBACK) :
    transact_connection be conn fType =
      if conn.autocommit = false ∧ conn.in_trans = true then
        (if transact_fails (be.CC_send_query conn (transact_text fType)).1 then
          (SQL_ERROR, CC_on_abort be (CC_send_query be conn (transact_text fType)).2)
         else (SQL_SUCCESS, (CC_send_query be conn (transact_text fType)).2))
      else (SQL_SUCCESS, conn) := by
  have htext : (if fType = SQL_COMMIT then some "COMMIT"
      else if fType = SQL_ROLLBACK then some "ROLLBACK" else none) =
      some (transact_text fType) := by
    unfold transact_text
    rcases hf with hf | hf <;> subst hf <;> rfl
  unfold transact_connection
  simp only [htext]
  by_cases hm : conn.autocommit = false ∧ conn.in_trans = true
  · rw [if_pos hm, if_pos (by simp [hm.1, hm.2])]
    have hq : (CC_send_query be conn (transact_text fType)).1 =
        (be.CC_send_query conn (transact_text fType)).1 := rfl
    cases ha : (be.CC_send_query conn (transact_text fType)).1 with
    | none =>
      rw [hq, ha]
      rfl
    | some res =>
      cases res with
      | nil =>
        rw [hq, ha]
        rfl
      | cons r rest =>
        rw [hq, ha]
        cases hok : r.command_maybe_successful <;> simp [transact_fails, hok]
  · rw [if_neg hm, if_neg]
    intro h
    apply hm
    cases h1 : conn.autocommit <;> cases h2 : conn.in_trans <;> simp_all

/-- C25: for a connection `conn` (slot `i` of the registry) and `fType` one of
`SQL_COMMIT`, `SQL_ROLLBACK`, `PGAPI_Transact` returns, and: the requests it
makes on the connection include the send of `COMMIT` resp. `ROLLBACK` if and
only if the connection is in manual-commit mode and in a transaction, and no
other text is sent; if the connection is in autocommit mode or not in a
transaction, the connection is left as it was (nothing sent, transaction status
unchanged) and the call returns `SQL_SUCCESS`; otherwise, if the send fails or
the command is unsuccessful, the call returns `SQL_ERROR` after
`CC_on_abort (conn, NO_TRANS)`, and if the command is successful it returns
`SQL_SUCCESS`. -/
theorem PGAPI_Transact_connection (be : Backend) (conns : List (Option ConnectionClass))
    (henv i fType : Nat) (conn : ConnectionClass)
    (hslot : conns[i]? = some (some conn))
    (hf : fType = SQL_COMMIT ∨ fType = SQL_ROLLBACK) :
    ∃ rv c1, PGAPI_Transact be conns henv (some i) fType = some (rv, conns.set i (some c1)) ∧
      (∃ extra, c1.requests = conn.requests ++ extra ∧
        (Request.CC_send_query (transact_text fType) ∈ extra ↔
          (conn.autocommit = false ∧ conn.in_trans = true)) ∧
        (∀ q, Request.CC_send_query q ∈ extra → q = transact_text fType)) ∧
      (¬ (conn.autocommit = false ∧ conn.in_trans = true) → c1 = conn ∧ rv = SQL_SUCCESS) ∧
      ((conn.autocommit = false ∧ conn.in_trans = true) →
        (transact_fails (be.CC_send_query conn (transact_text fType)).1 = true →
          rv = SQL_ERROR ∧
          c1 = CC_on_abort be (CC_send_query be conn (transact_text fType)).2 ∧
          c1.requests = conn.requests ++
            [Request.CC_send_query (transact_text fType), Request.CC_on_abort]) ∧
        (transact_fails (be.CC_send_query conn (transact_text fType)).1 = false →
          rv = SQL_SUCCESS ∧ c1 = (CC_send_query be conn (transact_text fType)).2)) := by
  have heq := transact_connection_eq be conn fType hf
  have hT : PGAPI_Transact be conns henv (some i) fType =
      some ((transact_connection be conn fType).1,
        conns.set i (some (transact_connection be conn fType).2)) := by
    unfold PGAPI_Transact
    simp only [hslot]
  refine ⟨(transact_connection be conn fType).1, (transact_connection be conn fType).2, hT,
    ?_, ?_, ?_⟩
  · by_cases hm : conn.autocommit = false ∧ conn.in_trans = true
    · rw [heq, if_pos hm]
      by_cases hfail : transact_fails (be.CC_send_query conn (transact_text fType)).1 = true
      · rw [if_pos hfail]
        refine ⟨[Request.CC_send_query (transact_text fType), Request.CC_on_abort], ?_, ?_, ?_⟩
        · simp [CC_on_abort, CC_send_query]
        · simp [hm]
        · intro q hq
          simpa using hq
      · rw [if_neg hfail]
        refine ⟨[Request.CC_send_query (transact_text fType)], ?_, ?_, ?_⟩
        · simp [CC_send_query]
        · simp [hm]
        · intro q hq
          simpa using hq
    · rw [heq, if_neg hm]
      exact ⟨[], by simp, by simp [hm], by simp⟩
  · intro hm
    rw [heq, if_neg hm]
    exact ⟨rfl, rfl⟩
  · intro hm
    rw [heq, if_pos hm]
    constructor
    · intro hfail
      rw [if_pos hfail]
      exact ⟨rfl, rfl, by simp [CC_on_abort, CC_send_query]⟩
    · intro hok
      rw [if_neg (by simp [hok])]
      exact ⟨rfl, rfl⟩

/-- C25 at concrete inputs: a rollback that cannot be sent on a connection in
manual-commit mode with an open transaction gives `SQL_ERROR` after
`CC_on_abort`; a commit that succeeds gives `SQL_SUCCESS`; an unsuccessful
command gives `SQL_ERROR`; on a connection in autocommit mode nothing is sent. -/
theorem PGAPI_Transact_connection_witness :
    (∃ rv c1, PGAPI_Transact transactBackend exampleRegistry 7 (some 3) SQL_ROLLBACK =
        some (rv, exampleRegistry.set 3 (some c1)) ∧
      rv = SQL_ERROR ∧
      c1.requests = (manualConn 7 0).requests ++
        [Request.CC_send_query (transact_text SQL_ROLLBACK), Request.CC_on_abort]) ∧
    (PGAPI_Transact transactBackend exampleRegistry 7 (some 3) SQL_ROLLBACK).map
        (fun r => (r.1, r.2[3]?.map (Option.map fun c => (c.requests, c.in_trans)))) =
      some (SQL_ERROR,
        some (some ([Request.CC_send_query "ROLLBACK", Request.CC_on_abort], false))) ∧
    (PGAPI_Transact transactBackend exampleRegistry 7 (some 1) SQL_COMMIT).map
        (fun r => (r.1, r.2[1]?.map (Option.map fun c => (c.requests, c.in_trans)))) =
      some (SQL_SUCCESS, some (some ([Request.CC_send_query "COMMIT"], false))) ∧
    (PGAPI_Transact refusingBackend exampleRegistry 7 (some 1) SQL_COMMIT).map
        (fun r => (r.1, r.2[1]?.map (Option.map fun c => (c.requests, c.in_trans)))) =
      some (SQL_ERROR,
        some (some ([Request.CC_send_query "COMMIT", Request.CC_on_abort], false))) ∧
    PGAPI_Transact okBackend [some idleConn] 0 (some 0) SQL_COMMIT =
      some (SQL_SUCCESS, [some idleConn]) :=
  ⟨(PGAPI_Transact_connection transactBackend exampleRegistry 7 3 SQL_ROLLBACK (manualConn 7 0)
      rfl (Or.inr rfl)).elim fun rv hrv => hrv.elim fun c1 h =>
        ⟨rv, c1, h.1, ((h.2.2.2 ⟨rfl, rfl⟩).1 rfl).1, ((h.2.2.2 ⟨rfl, rfl⟩).1 rfl).2.2⟩,
    rfl, rfl, rfl, rfl⟩

/-! ## The open large object when the in-line commit fails -/

/-- When `PGAPI_ParamData` has passed its sequence checks with an open large
object and the in-line commit after the close fails, it returns `SQL_ERROR`
having asked for the close and the commit only; the statement, `lobj_fd`
included, is as it was. -/
theorem PGAPI_ParamData_failed_commit (be : Backend) (h : Handle) (prgbValue : Bool)
    (h1 : ¬ h.estmt.data_at_exec < 0)
    (h2 : ¬ h.estmt.data_at_exec > (h.estmt.apd.parameters.length : Int))
    (hfd : h.estmt.lobj_fd ≥ 0)
    (hdf : h.conn.use_declarefetch = false) (hauto : h.conn.autocommit = true)
    (hfail : (CC_commit be (lo_close be h.conn h.estmt.lobj_fd).2).1 = false) :
    ∃ r, PGAPI_ParamData be h prgbValue = some r ∧ r.retval = SQL_ERROR ∧ r.token = none ∧
      r.estmt = h.estmt ∧ r.handle.estmt.lobj_fd = h.estmt.lobj_fd ∧
      r.handle.conn.requests =
        h.conn.requests ++ [Request.lo_close h.estmt.lobj_fd, Request.CC_commit] := by
  have hclose : close_large_object be h h.estmt =
      (none, (CC_commit be (lo_close be h.conn h.estmt.lobj_fd).2).2) := by
    unfold close_large_object
    rw [if_pos hfd]
    have ha : (lo_close be h.conn h.estmt.lobj_fd).2.autocommit = true := hauto
    simp only [hdf, ha, Bool.not_false, Bool.and_self, if_true, hfail]
  unfold PGAPI_ParamData
  simp only [h1, h2, if_false, hclose]
  refine ⟨_, rfl, rfl, rfl, rfl, ?_, ?_⟩
  · cases hd : h.execute_delegate <;> simp [Handle.set_error, Handle.estmt, hd, SC_set_error]
  · simp [Handle.set_error, CC_commit, lo_close]

/-- Evaluation of the failed in-line commit. A large object is opened by
`PGAPI_PutData` (descriptor 3). `PGAPI_ParamData` then passes its sequence
checks and closes descriptor 3, the in-line commit fails, and the call returns
`SQL_ERROR` without a token and without executing the row; `lobj_fd` is still
3. A second `PGAPI_ParamData` asks for the close of descriptor 3 again, and a
`PGAPI_PutData` writes to it. When the commit succeeds, `lobj_fd` is -1 and
the row is executed. -/
theorem PGAPI_ParamData_failed_commit_keeps_lobj_fd :
    (lobjWritten failingCommitBackend).map
        (fun h => (h.estmt.lobj_fd, h.estmt.data_at_exec, h.conn.requests)) =
      some (3, 0, [Request.CC_begin, Request.lo_creat, Request.lo_open 1,
        Request.lo_write 3 [1, 2, 3]]) ∧
    ((lobjWritten failingCommitBackend).bind fun h =>
        PGAPI_ParamData failingCommitBackend h true).map
        (fun r => (r.retval, r.token, r.handle.estmt.lobj_fd, r.handle.conn.requests)) =
      some (SQL_ERROR, none, 3,
        [Request.CC_begin, Request.lo_creat, Request.lo_open 1, Request.lo_write 3 [1, 2, 3],
         Request.lo_close 3, Request.CC_commit]) ∧
    ((lobjWritten failingCommitBackend).bind fun h =>
        (PGAPI_ParamData failingCommitBackend h true).bind fun p =>
          PGAPI_ParamData failingCommitBackend p.handle true).map
        (fun r => (r.retval, r.handle.estmt.lobj_fd, r.handle.conn.requests)) =
      some (SQL_ERROR, 3,
        [Request.CC_begin, Request.lo_creat, Request.lo_open 1, Request.lo_write 3 [1, 2, 3],
         Request.lo_close 3, Request.CC_commit, Request.lo_close 3, Request.CC_commit]) ∧
    ((lobjWritten failingCommitBackend).bind fun h =>
        (PGAPI_ParamData failingCommitBackend h true).bind fun p =>
          PGAPI_PutData failingCommitBackend p.handle [4] 1).map
        (fun r => (r.1, r.2.estmt.lobj_fd, r.2.conn.requests)) =
      some (SQL_SUCCESS, 3,
        [Request.CC_begin, Request.lo_creat, Request.lo_open 1, Request.lo_write 3 [1, 2, 3],
         Request.lo_close 3, Request.CC_commit, Request.lo_write 3 [4]]) ∧
    ((lobjWritten failingCommitBackend).bind fun h =>
        PGAPI_ParamData okBackend h true).map
        (fun r => (r.retval, r.handle.estmt.lobj_fd, r.handle.conn.requests)) =
      some (SQL_SUCCESS, -1,
        [Request.CC_begin, Request.lo_creat, Request.lo_open 1, Request.lo_write 3 [1, 2, 3],
         Request.lo_close 3, Request.CC_commit,
         Request.SC_execute (some "INSERT INTO t VALUES (?)")]) := by
  refine ⟨rfl, rfl, rfl, rfl, rfl⟩

/-! ## Theorems: closing the large object in `PGAPI_ParamData` -/

/-- Lines 866-882 in terms of `inline_commit_fails`, `closed_conn` and
`closed_stmt`. -/
theorem close_large_object_eq (be : Backend) (h : Handle) :
    close_large_object be h h.estmt =
      if inline_commit_fails be h = true then (none, closed_conn be h)
      else (some (closed_stmt h.estmt), closed_conn be h) := by
  unfold close_large_object inline_commit_fails closed_conn closed_stmt
  by_cases hfd : h.estmt.lobj_fd ≥ 0
  · simp only [hfd, if_true, decide_True, Bool.true_and]
    cases hg : (!h.conn.use_declarefetch && (lo_close be h.conn h.estmt.lobj_fd).2.autocommit)
    · simp
    · cases hc : (CC_commit be (lo_close be h.conn h.estmt.lobj_fd).2).1 <;> simp [hc]
  · simp [hfd]

/-- The requests lines 866-882 make: none without an open large object, else
the close and, if it is made, the in-line commit. -/
theorem closed_conn_requests (be : Backend) (h : Handle) :
    ∃ tail : List Request, (closed_conn be h).requests = h.conn.requests ++ tail ∧
      (∀ x ∈ tail, x = Request.lo_close h.estmt.lobj_fd ∨ x = Request.CC_commit) ∧
      (h.estmt.lobj_fd ≥ 0 → ∃ rest, tail = Request.lo_close h.estmt.lobj_fd :: rest) ∧
      (inline_commit_fails be h = true →
        tail = [Request.lo_close h.estmt.lobj_fd, Request.CC_commit]) := by
  unfold closed_conn inline_commit_fails
  by_cases hfd : h.estmt.lobj_fd ≥ 0
  · simp only [hfd, if_true, decide_True, Bool.true_and]
    cases hg : (!h.conn.use_declarefetch && (lo_close be h.conn h.estmt.lobj_fd).2.autocommit)
    · refine ⟨[Request.lo_close h.estmt.lobj_fd], by simp [lo_close], by simp,
        fun _ => ⟨[], rfl⟩, by simp⟩
    · refine ⟨[Request.lo_close h.estmt.lobj_fd, Request.CC_commit],
        by simp [lo_close, CC_commit], by simp, fun _ => ⟨_, rfl⟩, fun _ => rfl⟩
  · refine ⟨[], by simp [hfd], by simp, fun hc => absurd hc hfd, by simp [hfd]⟩

theorem closed_stmt_lobj_fd (st : StatementClass) : (closed_stmt st).lobj_fd < 0 := by
  unfold closed_stmt
  split
  · show (-1 : Int) < 0
    decide
  · omega

theorem closed_stmt_open (st : StatementClass) (hfd : st.lobj_fd ≥ 0) :
    closed_stmt st = { st with lobj_fd := -1 } := by
  unfold closed_stmt
  rw [if_pos hfd]

/-- `PGAPI_ParamData` past its sequence checks when the in-line commit does
not fail: with the large object closed, it runs the row if nothing is pending
and hands out the next token otherwise. -/
theorem PGAPI_ParamData_after_close (be : Backend) (h : Handle) (prgbValue : Bool)
    (h1 : ¬ h.estmt.data_at_exec < 0)
    (h2 : ¬ h.estmt.data_at_exec > (h.estmt.apd.parameters.length : Int))
    (hc : inline_commit_fails be h = false) :
    PGAPI_ParamData be h prgbValue =
      if h.estmt.data_at_exec = 0 then
        match Exec_with_parameters_resolved be (closed_conn be h) (closed_stmt h.estmt) with
        | none => none
        | some (retval, exec_end, conn, estmt) =>
          if exec_end then
            some { retval := be.dequeueNeedDataCallback retval
                     (detach_delegate h conn estmt).stmt,
                   token := none,
                   handle := detach_delegate h conn estmt, estmt := estmt }
          else resume_rows be h conn estmt prgbValue
      else some (next_token h (closed_conn be h) (closed_stmt h.estmt) prgbValue) := by
  have hd : (closed_stmt h.estmt).data_at_exec = h.estmt.data_at_exec := by
    unfold closed_stmt
    split <;> rfl
  unfold PGAPI_ParamData
  simp only [h1, h2, if_false, close_large_object_eq, hc, Bool.false_eq_true, hd]

/-- `PGAPI_ParamData` past its sequence checks when the in-line commit fails:
`SQL_ERROR`, no token, and the statement the call works on is not changed. -/
theorem PGAPI_ParamData_commit_fails (be : Backend) (h : Handle) (prgbValue : Bool)
    (h1 : ¬ h.estmt.data_at_exec < 0)
    (h2 : ¬ h.estmt.data_at_exec > (h.estmt.apd.parameters.length : Int))
    (hc : inline_commit_fails be h = true) :
    PGAPI_ParamData be h prgbValue =
      some { retval := SQL_ERROR, token := none,
             handle := { h with conn := closed_conn be h }.set_error STMT_EXEC_ERROR
               "Could not commit (in-line) a transaction",
             estmt := h.estmt } := by
  unfold PGAPI_ParamData
  simp only [h1, h2, if_false, close_large_object_eq, hc, if_true]

/-! ## Theorems: the token order with `PGAPI_PutData` calls in between -/

theorem SameStream.stream_same (a : StatementClass) : SameStream a a := ⟨rfl, rfl, rfl, rfl⟩

theorem SameStream.stream_chain {a b c : StatementClass} (h1 : SameStream a b) (h2 : SameStream b c) :
    SameStream a c :=
  ⟨h2.1.trans h1.1, h2.2.1.trans h1.2.1, h2.2.2.1.trans h1.2.2.1, h2.2.2.2.trans h1.2.2.2⟩

theorem Streaming.of_sameStream {stmt1 a b : StatementClass} {m : Nat}
    (h : Streaming stmt1 m a) (hab : SameStream a b) : Streaming stmt1 m b :=
  ⟨hab.1.trans h.1, hab.2.1.trans h.2.1, hab.2.2.1.trans h.2.2.1, hab.2.2.2.trans h.2.2.2⟩

theorem Handle.set_error_sameStream (h : Handle) (number : StmtError) (message : String) :
    SameStream h.estmt (h.set_error number message).estmt := by
  cases hd : h.execute_delegate <;>
    simp [SameStream, Handle.set_error, Handle.estmt, hd, SC_set_error]

theorem sameStream_of_some {h h0 h1 : Handle} {x rv : RETCODE}
    (hp : some (x, h0) = some (rv, h1)) (hs : SameStream h.estmt h0.estmt) :
    SameStream h.estmt h1.estmt := by
  simp only [Option.some.injEq, Prod.mk.injEq] at hp
  obtain ⟨-, hp⟩ := hp
  subst hp
  exact hs

theorem sameStream_store (h : Handle) (c : ConnectionClass) (e : StatementClass)
    (hs : SameStream h.estmt e) : SameStream h.estmt (h.store c e).estmt := by
  rw [Handle.estmt_store]
  exact hs

theorem sameStream_store_error (h : Handle) (c : ConnectionClass) (e : StatementClass)
    (number : StmtError) (message : String)
    (hs : SameStream h.estmt e) :
    SameStream h.estmt ((h.store c e).set_error number message).estmt := by
  refine SameStream.stream_chain ?_ (Handle.set_error_sameStream _ _ _)
  rw [Handle.estmt_store]
  exact hs

/-- `PGAPI_PutData` changes neither the bindings, nor the row, nor the current
parameter, nor the pending count. -/
theorem PGAPI_PutData_sameStream (be : Backend) (h h1 : Handle) (rgbValue : List Nat)
    (cbValue : Int) (rv : RETCODE)
    (hp : PGAPI_PutData be h rgbValue cbValue = some (rv, h1)) :
    SameStream h.estmt h1.estmt := by
  unfold PGAPI_PutData at hp
  simp only [] at hp
  by_cases hcur : h.estmt.current_exec_param < 0
  · rw [if_pos hcur] at hp
    exact sameStream_of_some hp (Handle.set_error_sameStream _ _ _)
  · rw [if_neg hcur] at hp
    cases ha : readAt h.estmt.apd.parameters h.estmt.current_exec_param with
    | none => rw [ha] at hp; exact Option.noConfusion hp
    | some p =>
      cases hb : readAt h.estmt.ipd.parameters h.estmt.current_exec_param with
      | none => rw [ha, hb] at hp; exact Option.noConfusion hp
      | some ip =>
        cases hc : readAt h.estmt.pdata h.estmt.current_exec_param with
        | none => rw [ha, hb, hc] at hp; exact Option.noConfusion hp
        | some pd =>
          rw [ha, hb, hc] at hp
          simp only [] at hp
          generalize (if p.CType = SQL_C_DEFAULT then
            be.sqltype_to_default_ctype h.conn ip.SQLType else p.CType) = ctype at hp
          generalize put_length be ctype rgbValue cbValue = putlen0 at hp
          generalize (decide (ip.PGType = h.conn.lobj_type ∧ SQL_C_CHAR = ctype) &&
            be.malloc (putlen0.tdiv 2 + 1)) = decoded at hp
          generalize (if decoded = true then be.pg_hex2bin rgbValue putlen0 else rgbValue) =
            putbuf at hp
          generalize (if decoded = true then putlen0.tdiv 2 else putlen0) = putlen at hp
          generalize (if (!h.conn.in_trans) = true then CC_begin be h.conn else (true, h.conn)) =
            b at hp
          repeat' (first
            | exact Option.noConfusion hp
            | exact sameStream_of_some hp (SameStream.stream_same _)
            | exact sameStream_of_some hp (sameStream_store _ _ _ ⟨rfl, rfl, rfl, rfl⟩)
            | exact sameStream_of_some hp (sameStream_store_error _ _ _ _ _ ⟨rfl, rfl, rfl, rfl⟩)
            | split at hp)

theorem put_calls_sameStream (be : Backend) :
    ∀ (puts : List (List Nat × Int)) (h h1 : Handle),
      put_calls be h puts = some h1 → SameStream h.estmt h1.estmt := by
  intro puts
  induction puts with
  | nil =>
    intro h h1 hp
    simp only [put_calls, Option.some.injEq] at hp
    subst hp
    exact SameStream.stream_same _
  | cons p rest ih =>
    intro h h1 hp
    simp only [put_calls] at hp
    split at hp
    · exact Option.noConfusion hp
    · rename_i r hr
      exact (PGAPI_PutData_sameStream be h r.2 p.1 p.2 r.1 (by rw [hr])).stream_chain (ih _ _ hp)

theorem streaming_state_data_at_exec (stmt1 : StatementClass) (m : Nat) :
    (streaming_state stmt1 m).data_at_exec = stmt1.data_at_exec - (m : Int) := by
  cases m with
  | zero => simp [streaming_state]
  | succ n => rfl

theorem streaming_state_scan (stmt1 : StatementClass) (m : Nat)
    (hfresh : stmt1.current_exec_param < 0) :
    (if (streaming_state stmt1 m).current_exec_param ≥ 0 then
        (streaming_state stmt1 m).current_exec_param + 1 else 0).toNat =
      scan_start stmt1.apd.parameters m := by
  cases m with
  | zero => simp [streaming_state, scan_start, not_le.mpr hfresh]
  | succ n =>
    simp only [streaming_state, scan_start]
    rw [if_pos (by omega)]
    omega

theorem closed_stmt_sameStream (st : StatementClass) : SameStream st (closed_stmt st) := by
  unfold closed_stmt
  split
  · exact ⟨rfl, rfl, rfl, rfl⟩
  · exact SameStream.stream_same _

/-- One token, in any state of the streaming: with `m` of the flagged
parameters done and more pending, `PGAPI_ParamData` closes the large object
that may be open and, unless the in-line commit fails, hands out the next
flagged parameter. -/
theorem PGAPI_ParamData_token (be : Backend) (h : Handle) (stmt1 : StatementClass)
    (prgbValue : Bool) (m : Nat)
    (hk : stmt1.data_at_exec = ((flagged stmt1.apd.parameters).length : Int))
    (hfresh : stmt1.current_exec_param < 0)
    (hm : m < (flagged stmt1.apd.parameters).length)
    (hst : Streaming stmt1 m h.estmt) (hc : inline_commit_fails be h = false) :
    ∃ token : Option Int,
      PGAPI_ParamData be h prgbValue =
        some { retval := SQL_NEED_DATA, token := token,
               handle := h.store (closed_conn be h)
                 { closed_stmt h.estmt with
                   data_at_exec := h.estmt.data_at_exec - 1,
                   current_exec_param :=
                     ((((flagged stmt1.apd.parameters)[m]?).getD 0 : Nat) : Int),
                   put_data := false },
               estmt :=
                 { closed_stmt h.estmt with
                   data_at_exec := h.estmt.data_at_exec - 1,
                   current_exec_param :=
                     ((((flagged stmt1.apd.parameters)[m]?).getD 0 : Nat) : Int),
                   put_data := false } } := by
  obtain ⟨s1, s2, s3, s4⟩ := hst
  have hlen : (flagged stmt1.apd.parameters).length ≤ stmt1.apd.parameters.length :=
    flagged_from_length_le stmt1.apd.parameters 0
  have hd := streaming_state_data_at_exec stmt1 m
  have h1 : ¬ h.estmt.data_at_exec < 0 := by rw [s4, hd, hk]; omega
  have h2 : ¬ h.estmt.data_at_exec > (h.estmt.apd.parameters.length : Int) := by
    rw [s4, hd, hk, s1]; omega
  have h3 : ¬ h.estmt.data_at_exec = 0 := by rw [s4, hd, hk]; omega
  rw [PGAPI_ParamData_after_close be h prgbValue h1 h2 hc, if_neg h3]
  have hnext := next_data_at_exec_flagged stmt1.apd.parameters m hm
  have hscan := streaming_state_scan stmt1 m hfresh
  obtain ⟨c1, -, c3, c4⟩ := closed_stmt_sameStream h.estmt
  rw [← s3, ← c3] at hscan
  unfold next_token
  simp only [c1, s1, hscan, hnext, c4]
  exact ⟨_, rfl⟩

/-- The call made with nothing pending runs the row on the statement with the
large object closed. -/
theorem PGAPI_ParamData_streamed_executes (be : Backend) (h : Handle) (stmt1 : StatementClass)
    (prgbValue : Bool)
    (hk : stmt1.data_at_exec = ((flagged stmt1.apd.parameters).length : Int))
    (hst : Streaming stmt1 (flagged stmt1.apd.parameters).length h.estmt)
    (hc : inline_commit_fails be h = false) :
    h.estmt.data_at_exec = 0 ∧
    PGAPI_ParamData be h prgbValue =
      match Exec_with_parameters_resolved be (closed_conn be h) (closed_stmt h.estmt) with
      | none => none
      | some (retval, exec_end, conn, estmt) =>
        if exec_end then
          some { retval := be.dequeueNeedDataCallback retval
                   (detach_delegate h conn estmt).stmt,
                 token := none,
                 handle := detach_delegate h conn estmt, estmt := estmt }
        else resume_rows be h conn estmt prgbValue := by
  obtain ⟨s1, s2, s3, s4⟩ := hst
  have hd := streaming_state_data_at_exec stmt1 (flagged stmt1.apd.parameters).length
  have hz : h.estmt.data_at_exec = 0 := by rw [s4, hd, hk]; omega
  refine ⟨hz, ?_⟩
  rw [PGAPI_ParamData_after_close be h prgbValue (by omega) (by rw [hz]; omega) hc, if_pos hz]

theorem Streaming.token {stmt1 st : StatementClass} {m : Nat} (hst : Streaming stmt1 m st) :
    Streaming stmt1 (m + 1)
      { closed_stmt st with
        data_at_exec := st.data_at_exec - 1,
        current_exec_param := ((((flagged stmt1.apd.parameters)[m]?).getD 0 : Nat) : Int),
        put_data := false } := by
  obtain ⟨s1, s2, -, s4⟩ := hst
  obtain ⟨c1, c2, -, -⟩ := closed_stmt_sameStream st
  refine ⟨c1.trans s1, c2.trans s2, rfl, ?_⟩
  have hd := streaming_state_data_at_exec stmt1 m
  have hd1 := streaming_state_data_at_exec stmt1 (m + 1)
  show st.data_at_exec - 1 = (streaming_state stmt1 (m + 1)).data_at_exec
  rw [hd1, s4, hd]
  push_cast
  omega

/-- The token calls of a row with `PGAPI_PutData` calls between them: started
with `m` tokens handed out, every call whose in-line commit does not fail
returns `SQL_NEED_DATA` for the next flagged parameter. -/
theorem token_calls_streaming (be : Backend) (stmt1 : StatementClass) (prgbValue : Bool)
    (hk : stmt1.data_at_exec = ((flagged stmt1.apd.parameters).length : Int))
    (hfresh : stmt1.current_exec_param < 0) :
    ∀ (data : List (List (List Nat × Int))) (m : Nat) (h hf : Handle)
      (rs : List (Bool × ParamDataResult)),
      Streaming stmt1 m h.estmt → m + data.length ≤ (flagged stmt1.apd.parameters).length →
      token_calls be prgbValue h data = some (rs, hf) → (∀ x ∈ rs, x.1 = false) →
      rs.length = data.length ∧
      (∀ (i : Nat) (x : Bool × ParamDataResult), rs[i]? = some x →
        x.2.retval = SQL_NEED_DATA ∧
        x.2.estmt.current_exec_param =
          ((((flagged stmt1.apd.parameters)[m + i]?).getD 0 : Nat) : Int) ∧
        x.2.estmt.data_at_exec = stmt1.data_at_exec - ((m + i + 1 : Nat) : Int)) ∧
      Streaming stmt1 (m + data.length) hf.estmt := by
  intro data
  induction data with
  | nil =>
    intro m h hf rs hst _ ht _
    simp only [token_calls, Option.some.injEq, Prod.mk.injEq] at ht
    obtain ⟨ht1, ht2⟩ := ht
    subst ht1 ht2
    exact ⟨rfl, fun i x hx => by simp at hx, hst⟩
  | cons puts rest ih =>
    intro m h hf rs hst hlen ht hall
    simp only [List.length_cons] at hlen
    simp only [token_calls] at ht
    split at ht
    · exact Option.noConfusion ht
    · rename_i r hr
      split at ht
      · exact Option.noConfusion ht
      · rename_i h1 hput
        split at ht
        · exact Option.noConfusion ht
        · rename_i x hx
          simp only [Option.some.injEq, Prod.mk.injEq] at ht
          obtain ⟨ht1, ht2⟩ := ht
          subst ht1 ht2
          have hflag : inline_commit_fails be h = false :=
            hall (inline_commit_fails be h, r) (List.mem_cons_self _ _)
          obtain ⟨token, htok⟩ := PGAPI_ParamData_token be h stmt1 prgbValue m hk hfresh
            (by omega) hst hflag
          rw [hr] at htok
          simp only [Option.some.injEq] at htok
          have hst1 : Streaming stmt1 (m + 1) r.handle.estmt := by
            rw [htok]
            simp only [Handle.estmt_store]
            exact hst.token
          have hst2 : Streaming stmt1 (m + 1) h1.estmt :=
            hst1.of_sameStream (put_calls_sameStream be puts r.handle h1 hput)
          obtain ⟨i1, i2, i3⟩ := ih (m + 1) h1 x.2 x.1 hst2 (by omega) (by rw [hx])
            (fun y hy => hall y (List.mem_cons_of_mem _ hy))
          refine ⟨by simp [i1], fun i y hy => ?_, ?_⟩
          · cases i with
            | zero =>
              simp only [List.getElem?_cons_zero, Option.some.injEq] at hy
              subst hy
              refine ⟨by rw [htok], by rw [htok]; rfl, ?_⟩
              rw [htok]
              show h.estmt.data_at_exec - 1 = _
              rw [hst.2.2.2, streaming_state_data_at_exec]
              push_cast
              omega
            | succ j =>
              simp only [List.getElem?_cons_succ] at hy
              obtain ⟨j1, j2, j3⟩ := i2 j y hy
              have hidx : m + 1 + j = m + (j + 1) := by omega
              rw [hidx] at j2 j3
              exact ⟨j1, j2, j3⟩
          · have hidx : m + 1 + rest.length = m + (rest.length + 1) := by omega
            rw [hidx] at i3
            exact i3

/-- C2, amended: let `PGAPI_Execute` return `SQL_NEED_DATA` (neither
`copy_statement_with_parameters` nor `SC_execute` reporting that code itself)
and leave a statement `stmt1` with no current parameter
(`current_exec_param < 0`). Then the number k of parameters flagged for the
row is at least 1, at most `allocated`, and equal to `data_at_exec`; their
indices are strictly ascending. `Streaming stmt1 m` describes the statement
after `m` tokens, whatever was supplied in between: a `PGAPI_PutData` that
returns keeps it. For every m < k, a `PGAPI_ParamData` called in such a state
on any handle, whose in-line commit after the close of a large object does not
fail, returns `SQL_NEED_DATA`, makes the (m+1)-th smallest flagged index the
current parameter, lowers `data_at_exec` by one, sets `lobj_fd` to -1 if a
large object was open, clears `put_data`, changes nothing else in the
statement, and asks the connection for nothing but that close and commit; the
state it leaves is `Streaming stmt1 (m + 1)`. So do the first calls of
`token_calls`, any run of at most k `PGAPI_ParamData` calls from `stmt1` with
`PGAPI_PutData` calls after each, when none of their in-line commits fails.
The call made in the state `Streaming stmt1 k`, with `data_at_exec` 0, is the
one that runs `Exec_with_parameters_resolved`. A call whose in-line commit
fails returns `SQL_ERROR` without a token and leaves the streaming where it
was. -/
theorem PGAPI_ParamData_token_order (be : Backend) (conn conn1 : ConnectionClass)
    (stmt stmt1 : StatementClass) (flag : Nat)
    (hcopy : ∀ c0 s0 b, (be.copy_statement_with_parameters c0 s0 b).retval ≠ SQL_NEED_DATA)
    (hsc : ∀ c0 s0, (be.SC_execute c0 s0).retval ≠ SQL_NEED_DATA)
    (hexec : PGAPI_Execute be conn stmt flag = some (SQL_NEED_DATA, conn1, stmt1))
    (hfresh : stmt1.current_exec_param < 0) :
    1 ≤ (flagged stmt1.apd.parameters).length ∧
    (flagged stmt1.apd.parameters).length ≤ stmt1.apd.parameters.length ∧
    stmt1.data_at_exec = ((flagged stmt1.apd.parameters).length : Int) ∧
    (flagged stmt1.apd.parameters).Pairwise (· < ·) ∧
    (∀ (m : Nat) (h h1 : Handle) (rgbValue : List Nat) (cbValue : Int) (rv : RETCODE),
      Streaming stmt1 m h.estmt → PGAPI_PutData be h rgbValue cbValue = some (rv, h1) →
      Streaming stmt1 m h1.estmt) ∧
    (∀ (m : Nat) (h : Handle) (prgbValue : Bool), m < (flagged stmt1.apd.parameters).length →
      Streaming stmt1 m h.estmt → inline_commit_fails be h = false →
      ∃ r, PGAPI_ParamData be h prgbValue = some r ∧ r.retval = SQL_NEED_DATA ∧
        r.estmt.current_exec_param =
          ((((flagged stmt1.apd.parameters)[m]?).getD 0 : Nat) : Int) ∧
        r.estmt.data_at_exec = stmt1.data_at_exec - ((m + 1 : Nat) : Int) ∧
        r.estmt =
          { closed_stmt h.estmt with
            data_at_exec := h.estmt.data_at_exec - 1,
            current_exec_param := ((((flagged stmt1.apd.parameters)[m]?).getD 0 : Nat) : Int),
            put_data := false } ∧
        r.handle = h.store (closed_conn be h) r.estmt ∧
        Streaming stmt1 (m + 1) r.handle.estmt) ∧
    (∀ h : Handle, ∃ tail : List Request,
      (closed_conn be h).requests = h.conn.requests ++ tail ∧
      ∀ x ∈ tail, x = Request.lo_close h.estmt.lobj_fd ∨ x = Request.CC_commit) ∧
    (∀ (prgbValue : Bool) (data : List (List (List Nat × Int))) (h hf : Handle)
        (rs : List (Bool × ParamDataResult)),
      h.estmt = stmt1 → data.length ≤ (flagged stmt1.apd.parameters).length →
      token_calls be prgbValue h data = some (rs, hf) → (∀ x ∈ rs, x.1 = false) →
      rs.length = data.length ∧
      (∀ (i : Nat) (x : Bool × ParamDataResult), rs[i]? = some x →
        x.2.retval = SQL_NEED_DATA ∧
        x.2.estmt.current_exec_param =
          ((((flagged stmt1.apd.parameters)[i]?).getD 0 : Nat) : Int) ∧
        x.2.estmt.data_at_exec = stmt1.data_at_exec - ((i + 1 : Nat) : Int)) ∧
      Streaming stmt1 data.length hf.estmt) ∧
    (∀ (h : Handle) (prgbValue : Bool),
      Streaming stmt1 (flagged stmt1.apd.parameters).length h.estmt →
      inline_commit_fails be h = false →
      h.estmt.data_at_exec = 0 ∧
      PGAPI_ParamData be h prgbValue =
        match Exec_with_parameters_resolved be (closed_conn be h) (closed_stmt h.estmt) with
        | none => none
        | some (retval, exec_end, conn2, estmt) =>
          if exec_end then
            some { retval := be.dequeueNeedDataCallback retval
                     (detach_delegate h conn2 estmt).stmt,
                   token := none,
                   handle := detach_delegate h conn2 estmt, estmt := estmt }
          else resume_rows be h conn2 estmt prgbValue) ∧
    (∀ (m : Nat) (h : Handle) (prgbValue : Bool), m ≤ (flagged stmt1.apd.parameters).length →
      Streaming stmt1 m h.estmt → inline_commit_fails be h = true →
      ∃ r, PGAPI_ParamData be h prgbValue = some r ∧ r.retval = SQL_ERROR ∧ r.token = none ∧
        r.estmt = h.estmt ∧ Streaming stmt1 m r.handle.estmt) := by
  obtain ⟨hk, hk1⟩ := PGAPI_Execute_need_data be hcopy hsc conn conn1 stmt stmt1 flag hexec
  have hlen : (flagged stmt1.apd.parameters).length ≤ stmt1.apd.parameters.length :=
    flagged_from_length_le _ 0
  refine ⟨hk1, hlen, hk, flagged_from_ascending _ 0, ?_, ?_, ?_, ?_, ?_, ?_⟩
  · intro m h h1 rgbValue cbValue rv hst hp
    exact hst.of_sameStream (PGAPI_PutData_sameStream be h h1 rgbValue cbValue rv hp)
  · intro m h prgbValue hm hst hc
    obtain ⟨token, htok⟩ := PGAPI_ParamData_token be h stmt1 prgbValue m hk hfresh hm hst hc
    refine ⟨_, htok, rfl, rfl, ?_, rfl, rfl, ?_⟩
    · show h.estmt.data_at_exec - 1 = _
      rw [hst.2.2.2, streaming_state_data_at_exec]
      push_cast
      omega
    · simp only [Handle.estmt_store]
      exact hst.token
  · intro h
    obtain ⟨tail, t1, t2, -, -⟩ := closed_conn_requests be h
    exact ⟨tail, t1, t2⟩
  · intro prgbValue data h hf rs hh hd ht hall
    have hst : Streaming stmt1 0 h.estmt := by
      rw [hh]
      exact ⟨rfl, rfl, rfl, rfl⟩
    obtain ⟨r1, r2, r3⟩ := token_calls_streaming be stmt1 prgbValue hk hfresh data 0 h hf rs hst
      (by omega) ht hall
    refine ⟨r1, fun i x hx => ?_, ?_⟩
    · have := r2 i x hx
      simpa using this
    · simpa using r3
  · intro h prgbValue hst hc
    exact PGAPI_ParamData_streamed_executes be h stmt1 prgbValue hk hst hc
  · intro m h prgbValue hm hst hc
    have hd := streaming_state_data_at_exec stmt1 m
    have h1 : ¬ h.estmt.data_at_exec < 0 := by rw [hst.2.2.2, hd, hk]; omega
    have h2 : ¬ h.estmt.data_at_exec > (h.estmt.apd.parameters.length : Int) := by
      rw [hst.2.2.2, hd, hk, hst.1]; omega
    refine ⟨_, PGAPI_ParamData_commit_fails be h prgbValue h1 h2 hc, rfl, rfl, rfl, ?_⟩
    exact hst.of_sameStream
      (Handle.set_error_sameStream { h with conn := closed_conn be h } _ _)

/-- C2 (amended) at concrete inputs. On `oneStreamedStmt` one parameter is
flagged, index 1: the first `PGAPI_ParamData` hands it out and leaves the
state `Streaming` 1. On `lobjStreamStmt` the parameter is streamed into a large
object: `PGAPI_Execute`, `PGAPI_ParamData`, `PGAPI_PutData` and
`PGAPI_ParamData` return `SQL_NEED_DATA`, `SQL_NEED_DATA`, `SQL_SUCCESS` and
`SQL_SUCCESS`; the second `PGAPI_ParamData` closes the large object, commits
and runs the row. -/
theorem PGAPI_ParamData_token_order_witness :
    (flagged oneStreamedStmt_suspended.apd.parameters = [1] ∧
    ∃ r, PGAPI_ParamData okBackend (idleHandle oneStreamedStmt_suspended) true = some r ∧
      r.retval = SQL_NEED_DATA ∧
      r.estmt.current_exec_param =
        ((((flagged oneStreamedStmt_suspended.apd.parameters)[0]?).getD 0 : Nat) : Int) ∧
      r.estmt.data_at_exec = oneStreamedStmt_suspended.data_at_exec - ((0 + 1 : Nat) : Int) ∧
      r.estmt =
        { closed_stmt (idleHandle oneStreamedStmt_suspended).estmt with
          data_at_exec := (idleHandle oneStreamedStmt_suspended).estmt.data_at_exec - 1,
          current_exec_param :=
            ((((flagged oneStreamedStmt_suspended.apd.parameters)[0]?).getD 0 : Nat) : Int),
          put_data := false } ∧
      r.handle = (idleHandle oneStreamedStmt_suspended).store
        (closed_conn okBackend (idleHandle oneStreamedStmt_suspended)) r.estmt ∧
      Streaming oneStreamedStmt_suspended (0 + 1) r.handle.estmt) ∧
    (token_calls okBackend true (idleHandle oneStreamedStmt_suspended)
        [[([1, 2], 2), ([3, 4], 2)]]).map
        (fun x => (x.1.map fun y => (y.1, y.2.retval, y.2.token, y.2.estmt.current_exec_param),
          x.2.estmt.data_at_exec,
          x.2.estmt.pdata.map fun d => d.EXEC_buffer)) =
      some ([(false, SQL_NEED_DATA, some 8192, 1)], 0, [none, some [1, 2, 3, 4, 0]]) ∧
    lobj_protocol okBackend =
      some ([SQL_NEED_DATA, SQL_NEED_DATA, SQL_SUCCESS, SQL_SUCCESS],
        [Request.CC_begin, Request.lo_creat, Request.lo_open 1, Request.lo_write 3 [1, 2, 3],
         Request.lo_close 3, Request.CC_commit,
         Request.SC_execute (some "INSERT INTO t VALUES (?)")], -1) :=
  ⟨⟨rfl, (PGAPI_ParamData_token_order okBackend idleConn idleConn oneStreamedStmt
      oneStreamedStmt_suspended 0
      (fun _ _ _ => (by decide : (0 : Int) ≠ 99)) (fun _ _ => (by decide : (0 : Int) ≠ 99))
      rfl (by decide)).2.2.2.2.2.1 0 (idleHandle oneStreamedStmt_suspended) true (by decide)
      ⟨rfl, rfl, rfl, rfl⟩ rfl⟩, rfl, rfl⟩

/-! ## Theorems: the status slots of a batch, whatever the rows do -/

theorem RowInv.rows_of_sameBatch {a b : StatementClass} {op : Option (List Int)} {e : Int}
    {pre : Bool} (h : RowInv a op e pre) (hab : SameBatch a b) : RowInv b op e pre := by
  obtain ⟨h1, h2, h3, h4⟩ := h
  refine ⟨?_, ?_, ?_, ?_⟩
  · rw [hab.1]; exact h1
  · rw [hab.end_row_of]; exact h2
  · rw [hab.2.2.2.2.2.2.1]; exact h3
  · rw [hab.2.2.2.1]; exact h4

theorem RowInv.rows_of_recycle {st : StatementClass} {op : Option (List Int)} {e : Int}
    {pre : Bool} (h : RowInv st op e pre) (be : Backend) (conn : ConnectionClass) :
    RowInv (SC_recycle_statement be conn st).2 op e pre := by
  obtain ⟨f1, f2, -, f4, -, f6, -⟩ := SC_recycle_statement_frame be conn st
  obtain ⟨h1, h2, h3, h4⟩ := h
  refine ⟨by rw [f1]; exact h1, ?_, by rw [f6]; exact h3, by rw [f2]; exact h4⟩
  unfold end_row_of at *
  rw [f4, f1]
  exact h2

/-- The check for data-at-execution parameters counts the row unless the
statement is pre-executing, keeps the row index and the status array, and asks
for data only with a positive pending count. -/
theorem check_data_at_exec_row (st s1 : StatementClass) (b : Bool) (op : Option (List Int))
    (e cnt : Int) (pre : Bool) (po : Option Int) (hinv : RowInv st op e pre)
    (hcnt : st.ipd.param_processed_ptr = po.map fun _ => cnt)
    (h : check_data_at_exec st = some (b, s1)) :
    RowInv s1 op e pre ∧ s1.exec_current_row = st.exec_current_row ∧
    s1.ipd.param_processed_ptr = (po.map fun _ => cnt + (if pre = true then 0 else 1)) ∧
    s1.ipd.param_status_ptr = st.ipd.param_status_ptr ∧
    (b = true → 0 < s1.data_at_exec) := by
  obtain ⟨h1, h2, h3, h4⟩ := hinv
  unfold check_data_at_exec at h
  cases pre with
  | false =>
    simp only [h3, Bool.not_false, if_true] at h
    split at h
    · exact Option.noConfusion h
    · simp only [Option.some.injEq, Prod.mk.injEq] at h
      obtain ⟨hb, hs⟩ := h
      subst hs
      refine ⟨⟨h1, ?_, rfl, h4⟩, rfl, ?_, rfl, fun hb1 => ?_⟩
      · simpa [end_row_of] using h2
      · cases po <;> simp [hcnt]
      · rw [hb1] at hb
        simpa using hb
  | true =>
    simp only [h3, Bool.not_true, Bool.false_eq_true, if_false, Option.some.injEq,
      Prod.mk.injEq] at h
    obtain ⟨hb, hs⟩ := h
    subst hs
    refine ⟨⟨h1, h2, h3, h4⟩, rfl, ?_, rfl, fun hb1 => ?_⟩
    · simpa using hcnt
    · rw [hb1] at hb
      exact absurd hb (by decide)

theorem live_rows_ignored (op : Option (List Int)) :
    ∀ (n r : Nat), (∀ j, r ≤ j → j < r + n → row_ignored op j = true) →
      live_rows op n r = 0 := by
  intro n
  induction n with
  | zero => intro r _; rfl
  | succ m ih =>
    intro r h
    rw [live_rows_succ, h r (le_refl _) (by omega), ih (r + 1) (fun j h1 h2 => h j (by omega) (by omega))]
    rfl

theorem live_rows_append (op : Option (List Int)) :
    ∀ (n m r : Nat), live_rows op (n + m) r = live_rows op n r + live_rows op m (r + n) := by
  intro n
  induction n with
  | zero => intro m r; simp [live_rows]
  | succ k ih =>
    intro m r
    have h1 : k + 1 + m = (k + m) + 1 := by omega
    rw [h1, live_rows_succ, live_rows_succ, ih m (r + 1)]
    have h2 : r + 1 + k = r + (k + 1) := by omega
    rw [h2]
    omega

/-- Rows counted from `r` up to `k` when the rows before `r1` are ignored and
row `r1` is not. -/
theorem live_rows_from_first (op : Option (List Int)) (r r1 k : Nat) (h1 : r ≤ r1) (h2 : r1 ≤ k)
    (hmarks : ∀ j, r ≤ j → j < r1 → row_ignored op j = true)
    (hlive : row_ignored op r1 = false) :
    live_rows op (k + 1 - r) r = 1 + live_rows op (k - r1) (r1 + 1) := by
  have e1 : k + 1 - r = (r1 - r) + ((k - r1) + 1) := by omega
  rw [e1, live_rows_append, live_rows_ignored op (r1 - r) r (fun j a b => hmarks j a (by omega))]
  have e2 : r + (r1 - r) = r1 := by omega
  rw [e2, live_rows_succ, hlive]
  simp

/-- The row loop on rows that are all marked `SQL_PARAM_IGNORE`: it returns
`SQL_SUCCESS` with the row index -1 and does nothing else. -/
theorem next_param_row_all_ignored (be : Backend) (a : List Int) (e : Int) (fuel : Nat)
    (conn : ConnectionClass) (st : StatementClass)
    (hop : st.apd.param_operation_ptr = some a) (h0 : 0 ≤ st.exec_current_row)
    (hle : st.exec_current_row ≤ e) (hlen : e.toNat < a.length)
    (hall : ∀ j : Nat, st.exec_current_row.toNat ≤ j → j ≤ e.toNat →
      row_ignored (some a) j = true) :
    next_param_row be e (fuel + 1) conn st =
      some (SQL_SUCCESS, conn, { st with exec_current_row := -1 }) := by
  rcases skip_ignored_spec a e hlen (e - st.exec_current_row).toNat st.exec_current_row
    (e - st.exec_current_row).toNat h0 (by omega) (le_refl _) with h | h
  · unfold next_param_row
    simp only [hop, h.1]
  · obtain ⟨r1, h1, h2, -, h4, -⟩ := h
    have := hall r1.toNat (by omega) (by omega)
    rw [this] at h4
    exact absurd h4 (by decide)

/-- The row loop and the status array, whatever the rows do. Whenever the loop
returns, it stopped at a row `k` of the window: the slots of the rows it
skipped and of the rows after `k` are untouched, the slot of every row up to
`k` that is not marked `SQL_PARAM_IGNORE` holds a status, and the processed
counter, unless the statement is pre-executing, has grown by the number of
those rows. It stopped on an ignored row
only at the end of the window, returning `SQL_SUCCESS`; the row index is -1
unless the loop returned at line 595 to ask for the data of row `k`. -/
theorem next_param_row_slots_any (be : Backend) (op : Option (List Int)) (e : Int)
    (pre : Bool) (po : Option Int)
    (hop : ∀ a, op = some a → e.toNat < a.length) :
    ∀ (fuel : Nat) (conn c1 : ConnectionClass) (st s1 : StatementClass) (cnt : Int)
      (arr : List Int) (rv : RETCODE),
      RowInv st op e pre → 0 ≤ st.exec_current_row → st.exec_current_row ≤ e →
      st.ipd.param_processed_ptr = (po.map fun _ => cnt) →
      st.ipd.param_status_ptr = some arr →
      next_param_row be e fuel conn st = some (rv, c1, s1) →
      ∃ (arr1 : List Int) (k : Nat), st.exec_current_row.toNat ≤ k ∧ k ≤ e.toNat ∧
        s1.ipd.param_status_ptr = some arr1 ∧
        SlotsAfter op st.exec_current_row.toNat k arr arr1 ∧
        s1.ipd.param_processed_ptr =
          (po.map fun _ => cnt + (if pre = true then 0 else
            ((live_rows op (k + 1 - st.exec_current_row.toNat)
              st.exec_current_row.toNat : Nat) : Int))) ∧
        (row_ignored op k = true → rv = SQL_SUCCESS ∧ k = e.toNat) ∧
        (s1.exec_current_row = -1 ∨
          (rv = SQL_NEED_DATA ∧ s1.exec_current_row = (k : Int) ∧ 0 < s1.data_at_exec)) := by
  intro fuel
  induction fuel with
  | zero =>
    intro conn c1 st s1 cnt arr rv _ _ _ _ _ h
    simp [next_param_row] at h
  | succ f ih =>
    intro conn c1 st s1 cnt arr rv hinv hcur0 hcure hcnt harr hrun
    have hn : st.exec_current_row + (((e - st.exec_current_row).toNat : Nat) : Int) = e := by
      omega
    -- the loop over ignored rows
    have hskip : ((match st.apd.param_operation_ptr with
            | none => some (Skip.row st.exec_current_row)
            | some a => skip_ignored a e (e - st.exec_current_row).toNat st.exec_current_row) =
            some Skip.all_ignored ∧
          (∀ j : Nat, st.exec_current_row.toNat ≤ j → j ≤ e.toNat → row_ignored op j = true)) ∨
        (∃ r1 : Int, st.exec_current_row ≤ r1 ∧ r1 ≤ e ∧
          (match st.apd.param_operation_ptr with
            | none => some (Skip.row st.exec_current_row)
            | some a => skip_ignored a e (e - st.exec_current_row).toNat st.exec_current_row) =
            some (Skip.row r1) ∧
          row_ignored op r1.toNat = false ∧
          (∀ j : Nat, st.exec_current_row.toNat ≤ j → j < r1.toNat →
            row_ignored op j = true)) := by
      cases hopc : op with
      | none =>
        right
        refine ⟨st.exec_current_row, le_refl _, hcure, ?_, rfl, fun j h1 h2 => by omega⟩
        rw [hinv.1, hopc]
      | some a =>
        obtain ⟨m1, m2⟩ := skip_ignored_marks a e (e - st.exec_current_row).toNat
          st.exec_current_row hcur0 hcure
        rcases skip_ignored_spec a e (hop a hopc) (e - st.exec_current_row).toNat
          st.exec_current_row (e - st.exec_current_row).toNat hcur0 hn (le_refl _) with h | h
        · left
          refine ⟨?_, m1 h.1⟩
          rw [hinv.1, hopc]
          exact h.1
        · right
          obtain ⟨r1, h1, h2, h3, h4, -⟩ := h
          refine ⟨r1, h1, h2, ?_, h4, (m2 r1 h3).2⟩
          rw [hinv.1, hopc]
          exact h3
    rcases hskip with ⟨hsk, hall⟩ | ⟨r1, hr1, hr1e, hsk, hlive, hmarks⟩
    · -- every row left is ignored
      have hunf : next_param_row be e (f + 1) conn st =
          some (SQL_SUCCESS, conn, { st with exec_current_row := -1 }) := by
        rw [next_param_row]
        simp only [hsk]
      rw [hunf] at hrun
      simp only [Option.some.injEq, Prod.mk.injEq] at hrun
      obtain ⟨e1, -, e3⟩ := hrun
      subst e1 e3
      refine ⟨arr, e.toNat, by omega, le_refl _, harr,
        ⟨rfl, fun _ _ => rfl, fun j hj1 hj2 hj3 => ?_⟩, ?_, fun _ => ⟨rfl, rfl⟩, Or.inl rfl⟩
      · rw [hall j hj1 hj2] at hj3
        exact absurd hj3 (by decide)
      · rw [live_rows_ignored op _ _ (fun j a b => hall j a (by omega))]
        cases pre <;> simpa using hcnt
    · -- row r1 is reached
      have hr0 : 0 ≤ r1 := by omega
      have hinv1 : RowInv { st with exec_current_row := r1 } op e pre :=
        hinv.rows_of_sameBatch (by simp [SameBatch])
      have hnot : ∀ j : Nat, (j < st.exec_current_row.toNat ∨ r1.toNat < j ∨
          row_ignored op j = true) → j ≠ r1.toNat := by
        intro j hj hjr
        subst hjr
        rcases hj with hj | hj | hj
        · omega
        · omega
        · rw [hlive] at hj
          exact absurd hj (by decide)
      have hlr : ∀ k : Nat, r1.toNat ≤ k →
          live_rows op (k + 1 - st.exec_current_row.toNat) st.exec_current_row.toNat =
            1 + live_rows op (k - r1.toNat) (r1.toNat + 1) :=
        fun k hk => live_rows_from_first op _ _ k (by omega) hk hmarks hlive
      cases hset : set_row_status { st with exec_current_row := r1 } SQL_PARAM_ERROR with
      | none =>
        have hunf : next_param_row be e (f + 1) conn st = none := by
          rw [next_param_row]
          simp only [hsk, hset]
        rw [hunf] at hrun
        exact Option.noConfusion hrun
      | some st2 =>
        obtain ⟨g1, g2, -, -, -, -⟩ := set_row_status_frame _ _ _ hset
        obtain ⟨ga, gb, -, -⟩ := set_row_status_array _ _ _ hset
        have hrlen : r1.toNat < arr.length := (gb arr harr).2
        have harr2 : st2.ipd.param_status_ptr = some (arr.set r1.toNat SQL_PARAM_ERROR) := by
          rw [ga]
          show Option.map _ st.ipd.param_status_ptr = _
          rw [harr]
          rfl
        have hinv2 : RowInv st2 op e pre := hinv1.rows_of_sameBatch g1
        have hrow2 : st2.exec_current_row = r1 := g2
        have hcnt2 : st2.ipd.param_processed_ptr = (po.map fun _ => cnt) := by
          rw [g1.2.1]
          exact hcnt
        cases hchk : check_data_at_exec st2 with
        | none =>
          have hunf : next_param_row be e (f + 1) conn st = none := by
            rw [next_param_row]
            simp only [hsk, hset, hchk]
          rw [hunf] at hrun
          exact Option.noConfusion hrun
        | some p =>
          obtain ⟨b, st3⟩ := p
          obtain ⟨hinv3, hrow3, hcnt3, hst3, hpos⟩ :=
            check_data_at_exec_row st2 st3 b op e cnt pre po hinv2 hcnt2 hchk
          have harr3 : st3.ipd.param_status_ptr = some (arr.set r1.toNat SQL_PARAM_ERROR) := by
            rw [hst3, harr2]
          cases b with
          | true =>
            have hunf : next_param_row be e (f + 1) conn st =
                some (SQL_NEED_DATA, conn, st3) := by
              rw [next_param_row]
              simp only [hsk, hset, hchk]
            rw [hunf] at hrun
            simp only [Option.some.injEq, Prod.mk.injEq] at hrun
            obtain ⟨e1, -, e3⟩ := hrun
            subst e1 e3
            refine ⟨arr.set r1.toNat SQL_PARAM_ERROR, r1.toNat, by omega, by omega, harr3,
              ⟨by simp, fun j hj => ?_, fun j hj1 hj2 hj3 => ?_⟩, ?_, fun hi => ?_,
              Or.inr ⟨rfl, ?_, hpos rfl⟩⟩
            · simp [List.getElem?_set, Ne.symm (hnot j hj)]
            · by_cases hjr : j = r1.toNat
              · subst hjr
                exact ⟨SQL_PARAM_ERROR, by simp [List.getElem?_set, hrlen], by decide⟩
              · have := hmarks j hj1 (by omega)
                rw [this] at hj3
                exact absurd hj3 (by decide)
            · rw [hcnt3, hlr r1.toNat (le_refl _)]
              cases pre <;> simp [live_rows]
            · rw [hlive] at hi
              exact absurd hi (by decide)
            · rw [hrow3, hrow2]
              omega
          | false =>
            cases hex : Exec_with_parameters_resolved be conn st3 with
            | none =>
              have hunf : next_param_row be e (f + 1) conn st = none := by
                rw [next_param_row]
                simp only [hsk, hset, hchk, hex]
              rw [hunf] at hrun
              exact Option.noConfusion hrun
            | some q =>
              obtain ⟨rv0, ee, c4, st4⟩ := q
              obtain ⟨x1, -, x3, x4, -⟩ := Exec_with_parameters_resolved_frame _ _ _ _ _ _ _ hex
              -- the slot of row r1 after the execution
              obtain ⟨v, hv, harr4⟩ : ∃ v, v ≠ SQL_PARAM_UNUSED ∧
                  st4.ipd.param_status_ptr = some (arr.set r1.toNat v) := by
                rcases Exec_with_parameters_resolved_status _ _ _ _ _ _ _ hex with hw | ⟨rv1, hw⟩
                · exact ⟨SQL_PARAM_ERROR, by decide, by rw [hw, harr3]⟩
                · refine ⟨row_status rv1, row_status_ne_unused rv1, ?_⟩
                  rw [hw, harr3, hrow3, hrow2]
                  simp
              have hcnt4 : st4.ipd.param_processed_ptr =
                  (po.map fun _ => cnt + (if pre = true then 0 else 1)) := by
                rw [x1.2.1]
                exact hcnt3
              have hunf : next_param_row be e (f + 1) conn st =
                  (if !ee then next_param_row be e f c4 st4 else some (rv0, c4, st4)) := by
                rw [next_param_row]
                simp only [hsk, hset, hchk, hex]
              rw [hunf] at hrun
              cases ee with
              | true =>
                simp only [Bool.not_true, Bool.false_eq_true, if_false, Option.some.injEq,
                  Prod.mk.injEq] at hrun
                obtain ⟨e1, -, e3⟩ := hrun
                subst e1 e3
                refine ⟨arr.set r1.toNat v, r1.toNat, by omega, by omega, harr4,
                  ⟨by simp, fun j hj => ?_, fun j hj1 hj2 hj3 => ?_⟩, ?_, fun hi => ?_,
                  Or.inl (x3 rfl)⟩
                · simp [List.getElem?_set, Ne.symm (hnot j hj)]
                · by_cases hjr : j = r1.toNat
                  · subst hjr
                    exact ⟨v, by simp [List.getElem?_set, hrlen], hv⟩
                  · have := hmarks j hj1 (by omega)
                    rw [this] at hj3
                    exact absurd hj3 (by decide)
                · rw [hcnt4, hlr r1.toNat (le_refl _)]
                  cases pre <;> simp [live_rows]
                · rw [hlive] at hi
                  exact absurd hi (by decide)
              | false =>
                simp only [Bool.not_false, if_true] at hrun
                obtain ⟨y1, y2⟩ := x4 rfl
                rw [hrow3, hrow2] at y1
                rw [hrow3, hrow2, hinv3.2.1] at y2
                obtain ⟨arr5, k5, k1, k2, h5a, h5s, h5c, h5i, h5r⟩ := ih c4 c1 st4 s1
                  (cnt + (if pre = true then 0 else 1)) (arr.set r1.toNat v) rv (hinv3.rows_of_sameBatch x1) (by rw [y1]; omega)
                  (by rw [y1]; omega) hcnt4 harr4 hrun
                rw [y1] at k1 h5s h5c
                have hnat : (r1 + 1).toNat = r1.toNat + 1 := by omega
                rw [hnat] at k1 h5s h5c
                have hsub : k5 + 1 - (r1.toNat + 1) = k5 - r1.toNat := by omega
                rw [hsub] at h5c
                obtain ⟨q1, q2, q3⟩ := h5s
                refine ⟨arr5, k5, by omega, k2, h5a, ⟨by rw [q1]; simp, fun j hj => ?_,
                  fun j hj1 hj2 hj3 => ?_⟩, ?_, h5i, h5r⟩
                · have hjne : j ≠ r1.toNat :=
                    hnot j (by rcases hj with hj | hj | hj
                               · left; exact hj
                               · right; left; omega
                               · right; right; exact hj)
                  rw [q2 j (by rcases hj with hj | hj | hj
                               · left; omega
                               · right; left; exact hj
                               · right; right; exact hj)]
                  simp [List.getElem?_set, Ne.symm hjne]
                · by_cases hjr : j = r1.toNat
                  · subst hjr
                    refine ⟨v, ?_, hv⟩
                    rw [q2 r1.toNat (Or.inl (by omega))]
                    simp [List.getElem?_set, hrlen]
                  · by_cases hlt : j < r1.toNat
                    · have := hmarks j hj1 hlt
                      rw [this] at hj3
                      exact absurd hj3 (by decide)
                    · exact q3 j (by omega) hj2 hj3
                · rw [h5c, hlr k5 (by omega)]
                  cases pre
                  · cases po
                    · rfl
                    · simp only [Option.map_some', Bool.false_eq_true, if_false]
                      congr 1
                      push_cast
                      ring
                  · cases po <;> simp

/-! ## Theorems: the batch returns -/

theorem scan_data_at_exec_covered (row : Int) :
    ∀ (ps : List ParameterInfoClass) (d : Int),
      (∀ p ∈ ps, ∃ f, data_at_exec_flag row p = some f) →
      ∃ ps1 d1, scan_data_at_exec row ps d = some (ps1, d1) ∧
        ps1.map (fun p => p.used) = ps.map (fun p => p.used) := by
  intro ps
  induction ps with
  | nil => intro d _; exact ⟨[], d, rfl, rfl⟩
  | cons p t ih =>
    intro d h
    obtain ⟨f, hf⟩ := h p (List.mem_cons_self _ _)
    obtain ⟨ps1, d1, h1, h2⟩ := ih (if f then (if d < 0 then 1 else d + 1) else d)
      (fun q hq => h q (List.mem_cons_of_mem _ hq))
    refine ⟨{ p with data_at_exec := f } :: ps1, d1, ?_, ?_⟩
    · simp only [scan_data_at_exec, hf, h1]
    · simp only [List.map_cons, h2]

theorem UsedCover.of_used {ps ps1 : List ParameterInfoClass} {s e : Int}
    (h : UsedCover ps s e) (hu : ps1.map (fun p => p.used) = ps.map (fun p => p.used)) :
    UsedCover ps1 s e := by
  intro p1 hp1 r hs he
  have hm : p1.used ∈ ps1.map (fun p => p.used) := List.mem_map_of_mem _ hp1
  rw [hu, List.mem_map] at hm
  obtain ⟨p, hp, hpu⟩ := hm
  obtain ⟨f, hf⟩ := h p hp r hs he
  refine ⟨f, ?_⟩
  unfold data_at_exec_flag at hf ⊢
  rw [← hpu]
  exact hf

/-- The check for data-at-execution parameters is defined on a row that the
length/indicator arrays cover. -/
theorem check_data_at_exec_defined (st : StatementClass) (s e : Int)
    (hcov : UsedCover st.apd.parameters s e) (hs : s ≤ st.exec_current_row)
    (he : st.exec_current_row ≤ e) (h0 : 0 ≤ s) :
    ∃ b st1, check_data_at_exec st = some (b, st1) ∧ UsedCover st1.apd.parameters s e := by
  unfold check_data_at_exec
  by_cases hpre : (!st.pre_executing) = true
  · have hrow : ¬ st.exec_current_row < 0 := by omega
    obtain ⟨ps1, d1, h1, h2⟩ := scan_data_at_exec_covered st.exec_current_row
      st.apd.parameters (-1) (fun p hp => hcov p hp _ hs he)
    simp only [hpre, if_true, hrow, if_false, h1]
    exact ⟨_, _, rfl, hcov.of_used h2⟩
  · simp only [hpre, if_false]
    exact ⟨_, _, rfl, hcov⟩

/-- Under `RowsDefined`, the execution of a row whose status slot exists
returns. -/
theorem Exec_with_parameters_resolved_returns (be : Backend) (hdef : RowsDefined be)
    (conn : ConnectionClass) (stmt : StatementClass)
    (hrow : 0 ≤ stmt.exec_current_row)
    (hstat : ∀ n, stmt.ipd.param_status_ptr.map List.length = some n →
      stmt.exec_current_row.toNat < n) :
    ∃ rv ee c s, Exec_with_parameters_resolved be conn stmt = some (rv, ee, c, s) := by
  obtain ⟨f1, f2⟩ := copy_statement_with_parameters_frame be conn stmt
    (prepare_before_exec conn stmt)
  have hsame : SameBatch stmt { (copy_statement_with_parameters be conn stmt
      (prepare_before_exec conn stmt)).2 with current_exec_param := -1 } :=
    f1.trans (by simp [SameBatch])
  have h2 : (copy_statement_with_parameters be conn stmt
      (prepare_before_exec conn stmt)).2.inaccurate_result = false := by
    simpa [copy_statement_with_parameters] using
      hdef.1 conn stmt (prepare_before_exec conn stmt)
  have hcond : ¬ (({ (copy_statement_with_parameters be conn stmt
      (prepare_before_exec conn stmt)).2 with
      current_exec_param := -1 } : StatementClass).inaccurate_result &&
      conn.disallow_premature) = true := by
    simp [h2]
  unfold Exec_with_parameters_resolved
  simp only []
  by_cases h1 : (copy_statement_with_parameters be conn stmt
      (prepare_before_exec conn stmt)).1 ≠ SQL_SUCCESS
  · rw [if_pos h1]
    exact ⟨_, _, _, _, rfl⟩
  · rw [if_neg h1, if_neg hcond]
    unfold real_execution
    simp only []
    split
    · exact ⟨_, _, _, _, rfl⟩
    · obtain ⟨e1, e2, -, -⟩ := SC_execute_frame be conn
        { (copy_statement_with_parameters be conn stmt
          (prepare_before_exec conn stmt)).2 with current_exec_param := -1 }
      obtain ⟨⟨rv, ee, s1⟩, ha⟩ := after_execute_defined conn stmt.cursor_type
        stmt.scroll_concurrency
        (SC_execute be conn { (copy_statement_with_parameters be conn stmt
          (prepare_before_exec conn stmt)).2 with current_exec_param := -1 }).2.2
        (SC_execute be conn { (copy_statement_with_parameters be conn stmt
          (prepare_before_exec conn stmt)).2 with current_exec_param := -1 }).1
        (by simpa [SC_execute] using hdef.2 conn _)
        (by rw [e2]; simpa [f2] using hrow)
        (by
          rw [e2, e1.2.2.2.1]
          intro n hn
          have := hstat n (by rw [← hsame.2.2.2.1]; exact hn)
          simpa [f2] using this)
      rw [ha]
      exact ⟨_, _, _, _, rfl⟩

/-- Under `RowsDefined`, on rows that the arrays cover, the row loop returns,
whether the rows succeed, fail or ask for data. -/
theorem next_param_row_returns (be : Backend) (hdef : RowsDefined be)
    (op : Option (List Int)) (s e : Int) (pre : Bool) (h0 : 0 ≤ s)
    (hop : ∀ a, op = some a → e.toNat < a.length) :
    ∀ (n fuel : Nat) (conn : ConnectionClass) (st : StatementClass),
      RowInv st op e pre → UsedCover st.apd.parameters s e →
      s ≤ st.exec_current_row → st.exec_current_row + n = e → n + 1 ≤ fuel →
      ∃ rv c1 s1, next_param_row be e fuel conn st = some (rv, c1, s1) := by
  intro n
  induction n using Nat.strong_induction_on with
  | _ n ih =>
    intro fuel conn st hinv hcov hs hn hfuel
    obtain ⟨f, hf⟩ : ∃ f, fuel = f + 1 := ⟨fuel - 1, by omega⟩
    subst hf
    have hen : (e - st.exec_current_row).toNat = n := by omega
    have hcur0 : 0 ≤ st.exec_current_row := by omega
    have hskip : ((match st.apd.param_operation_ptr with
            | none => some (Skip.row st.exec_current_row)
            | some a => skip_ignored a e (e - st.exec_current_row).toNat st.exec_current_row) =
            some Skip.all_ignored) ∨
        (∃ r1 : Int, st.exec_current_row ≤ r1 ∧ r1 ≤ e ∧
          (match st.apd.param_operation_ptr with
            | none => some (Skip.row st.exec_current_row)
            | some a => skip_ignored a e (e - st.exec_current_row).toNat st.exec_current_row) =
            some (Skip.row r1)) := by
      cases hopc : op with
      | none =>
        right
        refine ⟨st.exec_current_row, le_refl _, by omega, ?_⟩
        rw [hinv.1, hopc]
      | some a =>
        rcases skip_ignored_spec a e (hop a hopc) n st.exec_current_row n hcur0 hn
          (le_refl _) with h | h
        · left
          rw [hinv.1, hopc, hen]
          exact h.1
        · right
          obtain ⟨r1, h1, h2, h3, -, -⟩ := h
          refine ⟨r1, h1, h2, ?_⟩
          rw [hinv.1, hopc, hen]
          exact h3
    rcases hskip with hsk | ⟨r1, hr1, hr1e, hsk⟩
    · refine ⟨SQL_SUCCESS, conn, { st with exec_current_row := -1 }, ?_⟩
      rw [next_param_row]
      simp only [hsk]
    · have hr0 : 0 ≤ r1 := by omega
      have hinv1 : RowInv { st with exec_current_row := r1 } op e pre :=
        hinv.rows_of_sameBatch (by simp [SameBatch])
      obtain ⟨st2, hset⟩ := set_row_status_defined { st with exec_current_row := r1 }
        SQL_PARAM_ERROR hr0 (fun k hk => by have := hinv1.2.2.2 k hk; simp only; omega)
      obtain ⟨g1, g2, -, -, -, -⟩ := set_row_status_frame _ _ _ hset
      have hinv2 : RowInv st2 op e pre := hinv1.rows_of_sameBatch g1
      have hrow2 : st2.exec_current_row = r1 := g2
      have hcov2 : UsedCover st2.apd.parameters s e := by
        rw [g1.1]
        exact hcov
      obtain ⟨b, st3, hchk, hcov3⟩ := check_data_at_exec_defined st2 s e hcov2
        (by rw [hrow2]; omega) (by rw [hrow2]; exact hr1e) h0
      obtain ⟨hinv3, hrow3, -, -, -⟩ := check_data_at_exec_row st2 st3 b op e
        (st2.ipd.param_processed_ptr.getD 0) pre st2.ipd.param_processed_ptr hinv2
        (by cases st2.ipd.param_processed_ptr <;> rfl) hchk
      cases b with
      | true =>
        refine ⟨SQL_NEED_DATA, conn, st3, ?_⟩
        rw [next_param_row]
        simp only [hsk, hset, hchk]
      | false =>
        obtain ⟨rv, ee, c4, st4, hex⟩ := Exec_with_parameters_resolved_returns be hdef conn
          st3 (by rw [hrow3, hrow2]; exact hr0)
          (fun k hk => by have := hinv3.2.2.2 k hk; rw [hrow3, hrow2]; omega)
        obtain ⟨x1, -, -, x4, -⟩ := Exec_with_parameters_resolved_frame _ _ _ _ _ _ _ hex
        have hunf : next_param_row be e (f + 1) conn st =
            (if !ee then next_param_row be e f c4 st4 else some (rv, c4, st4)) := by
          rw [next_param_row]
          simp only [hsk, hset, hchk, hex]
        rw [hunf]
        cases ee with
        | true => exact ⟨rv, c4, st4, by simp⟩
        | false =>
          obtain ⟨y1, y2⟩ := x4 rfl
          rw [hrow3, hrow2] at y1
          rw [hrow3, hrow2, hinv3.2.1] at y2
          obtain ⟨m, hm⟩ : ∃ m, (e - r1).toNat = m + 1 := ⟨(e - r1).toNat - 1, by omega⟩
          obtain ⟨rv5, c5, s5, h5⟩ := ih m (by omega) f c4 st4
            (hinv3.rows_of_sameBatch x1) (by rw [x1.1]; exact hcov3) (by rw [y1]; omega)
            (by rw [y1]; omega) (by omega)
          exact ⟨rv5, c5, s5, by simpa using h5⟩

/-- From the idle row index, `start_batch` puts the index on the first row,
the processed counter on 0 and the slots 0..`e` on `SQL_PARAM_UNUSED`, and
keeps what the row loop relies on. -/
theorem start_batch_resets_inv (be : Backend) (conn : ConnectionClass) (stmt : StatementClass)
    (recycle recycled : Bool) (op : Option (List Int)) (s e : Int) (pre : Bool)
    (a : List Int)
    (h0 : 0 ≤ e) (hinv : RowInv stmt op e pre)
    (hstart : start_row_of stmt = s)
    (hidle : stmt.exec_current_row < 0)
    (harr : stmt.ipd.param_status_ptr = some a) (hlen : e.toNat < a.length) :
    ∃ c0 s0, start_batch be conn stmt recycle recycled = some (c0, s0) ∧
      s0.exec_current_row = s ∧
      s0.ipd.param_processed_ptr = (stmt.ipd.param_processed_ptr.map fun _ => (0 : Int)) ∧
      s0.ipd.param_status_ptr =
        some (List.replicate (e + 1).toNat SQL_PARAM_UNUSED ++ a.drop (e + 1).toNat) ∧
      RowInv s0 op e pre ∧ s0.apd = stmt.apd := by
  obtain ⟨q1, q2, -, -⟩ := reset_param_status_covering a e h0 hlen
  obtain ⟨h1, h2, h3, h4⟩ := hinv
  have hend : (if stmt.exec_end_row < 0 then stmt.apd.paramset_size - 1
      else stmt.exec_end_row) = e := h2
  have hinv1 : RowInv
      { stmt with
        exec_current_row := s
        ipd := { stmt.ipd with
          param_processed_ptr := stmt.ipd.param_processed_ptr.map fun _ => (0 : Int),
          param_status_ptr :=
            some (List.replicate (e + 1).toNat SQL_PARAM_UNUSED ++ a.drop (e + 1).toNat) } }
      op e pre := by
    refine ⟨h1, h2, h3, ?_⟩
    intro k hk
    simp only [Option.map_some', Option.some.injEq] at hk
    omega
  unfold start_row_of at hstart
  unfold start_batch
  simp only [hstart, hend, hidle, if_true, Option.map_some', harr, q1]
  by_cases hrec : (recycle && !recycled) = true
  · simp only [hrec, if_true]
    exact ⟨_, _, rfl, by simp [SC_recycle_statement], by simp [SC_recycle_statement],
      by simp [SC_recycle_statement], hinv1.rows_of_recycle be conn,
      by simp [SC_recycle_statement]⟩
  · simp only [hrec, if_false]
    exact ⟨_, _, rfl, rfl, rfl, rfl, hinv1, rfl⟩

/-- A batch accepted for execution from the idle row index: `PGAPI_Execute` is
the row loop started on the first row of the window with the processed
counter 0 and the slots 0..`e` reset. -/
theorem PGAPI_Execute_batch_start (be : Backend)
    (conn : ConnectionClass) (stmt : StatementClass) (flag : Nat) (s e : Int)
    (text : String) (a : List Int)
    (hs0 : 0 ≤ s) (hse : s ≤ e)
    (hstart : start_row_of stmt = s) (hend : end_row_of stmt = e)
    (hidle : stmt.exec_current_row < 0)
    (htext : stmt.statement = some text)
    (hstatus : stmt.status = STMT_READY ∨ stmt.status = STMT_FINISHED ∨
      (stmt.status = STMT_ALLOCATED ∧ stmt.prepare = false))
    (harr : stmt.ipd.param_status_ptr = some a) (hlen : e.toNat < a.length) :
    ∃ c0 s0, s0.exec_current_row = s ∧
      s0.ipd.param_processed_ptr = (stmt.ipd.param_processed_ptr.map fun _ => (0 : Int)) ∧
      s0.ipd.param_status_ptr =
        some (List.replicate (e + 1).toNat SQL_PARAM_UNUSED ++ a.drop (e + 1).toNat) ∧
      RowInv s0 stmt.apd.param_operation_ptr e stmt.pre_executing ∧ s0.apd = stmt.apd ∧
      PGAPI_Execute be conn stmt flag = next_param_row be e ((e - s).toNat + 1) c0 s0 := by
  have hinv : RowInv stmt stmt.apd.param_operation_ptr e stmt.pre_executing := by
    refine ⟨rfl, hend, rfl, ?_⟩
    intro k hk
    simp only [harr, Option.map_some', Option.some.injEq] at hk
    omega
  have hrows : ∀ (c : ConnectionClass) (st : StatementClass) (r1 r2 : Bool),
      RowInv st stmt.apd.param_operation_ptr e stmt.pre_executing →
      st.exec_start_row = stmt.exec_start_row → st.exec_current_row = stmt.exec_current_row →
      st.ipd = stmt.ipd → st.apd = stmt.apd →
      ∃ c0 s0, s0.exec_current_row = s ∧
        s0.ipd.param_processed_ptr = (stmt.ipd.param_processed_ptr.map fun _ => (0 : Int)) ∧
        s0.ipd.param_status_ptr =
          some (List.replicate (e + 1).toNat SQL_PARAM_UNUSED ++ a.drop (e + 1).toNat) ∧
        RowInv s0 stmt.apd.param_operation_ptr e stmt.pre_executing ∧ s0.apd = stmt.apd ∧
        execute_rows be c st r1 r2 = next_param_row be e ((e - s).toNat + 1) c0 s0 := by
    intro c st r1 r2 hi hst hcur hipd hapd
    have hstart1 : start_row_of st = s := by
      unfold start_row_of at hstart ⊢
      rw [hst]
      exact hstart
    obtain ⟨c0, s0, hb, hr, hc, hs, hri, ha⟩ := start_batch_resets_inv be c st r1 r2 _ s e _ a
      (by omega) hi hstart1 (by rw [hcur]; exact hidle)
      (by rw [hipd]; exact harr) hlen
    rw [hipd] at hc
    refine ⟨c0, s0, hr, hc, hs, hri, ha.trans hapd, ?_⟩
    rw [execute_rows_start_batch, hb]
    simp only [hi.2.1, hr]
  have hearly : (stmt.prepare && decide (stmt.status = STMT_PREMATURE)) = false := by
    rcases hstatus with h | h | h <;> simp [h]
  have hrow : ¬ stmt.exec_current_row > 0 := by omega
  by_cases hprep : stmt.prepared = true
  · have heq : PGAPI_Execute be conn stmt flag =
        execute_rows be conn (SC_set_Result (SC_clear_error stmt) []) false false := by
      unfold PGAPI_Execute
      simp only [hearly]
      simp [SC_clear_error, htext, hrow, hprep]
    rw [heq]
    exact hrows _ _ _ _ (hinv.rows_of_sameBatch (by simp [SameBatch, SC_set_Result, SC_clear_error]))
      rfl rfl rfl rfl
  · by_cases hfin : stmt.status = STMT_FINISHED
    · have heq : PGAPI_Execute be conn stmt flag =
          execute_rows be (SC_recycle_statement be conn (SC_clear_error stmt)).1
            (SC_recycle_statement be conn (SC_clear_error stmt)).2 true true := by
        unfold PGAPI_Execute
        simp only [hearly]
        simp [SC_clear_error, htext, hrow, hprep, hfin]
      rw [heq]
      exact hrows _ _ _ _
        ((hinv.rows_of_sameBatch (b := SC_clear_error stmt)
          (by simp [SameBatch, SC_clear_error])).rows_of_recycle be conn)
        (by simp [SC_recycle_statement, SC_clear_error])
        (by simp [SC_recycle_statement, SC_clear_error])
        (by simp [SC_recycle_statement, SC_clear_error])
        (by simp [SC_recycle_statement, SC_clear_error])
    · have hok : ¬ ((stmt.prepare = true ∧ stmt.status ≠ STMT_READY) ∨
          (stmt.status ≠ STMT_ALLOCATED ∧ stmt.status ≠ STMT_READY)) := by
        rcases hstatus with h | h | h
        · simp [h]
        · exact absurd h hfin
        · simp [h.1, h.2]
      have heq : PGAPI_Execute be conn stmt flag =
          execute_rows be conn (SC_clear_error stmt) true false := by
        unfold PGAPI_Execute
        simp only [hearly]
        simp [SC_clear_error, htext, hrow, hprep, hfin, hok]
      rw [heq]
      exact hrows _ _ _ _ (hinv.rows_of_sameBatch (by simp [SameBatch, SC_clear_error])) rfl rfl rfl
        rfl

theorem failingRowBackend_rows_defined : RowsDefined failingRowBackend :=
  ⟨fun _ _ _ => rfl, fun _ _ _ => List.cons_ne_nil _ _⟩

theorem batchStmt_used_cover : UsedCover batchStmt.apd.parameters 0 3 :=
  fun p hp r h0 h3 => ⟨false, batchStmt_no_data_at_exec p hp r h0 h3⟩

/-- C19: with a status array `a` (per-row status tracking enabled), for every
row window `[s, e]` with `0 <= s <= e` that the arrays cover, when the
statement is idle and accepted for execution, and for every backend.
(1) `PGAPI_Execute` is the row loop of lines 520 on started in a state whose
row index is `s`, whose processed counter (if the application gave one) is 0
and whose slots 0..`e` all hold `SQL_PARAM_UNUSED` (the slots beyond `e` are
those of `a`). (2) Whenever the call returns, the loop stopped at a row `k` of
the window, and in the array it leaves the slot of every row of `0..e` that is
below `s` or marked `SQL_PARAM_IGNORE` holds `SQL_PARAM_UNUSED`, the slot of
every other row of `[s, k]`, the rows that were executed and that the
processed counter counts (unless the statement is pre-executing), holds
another value, also when the execution of a row failed; the slots of the rows
after `k`, which were not reached, hold `SQL_PARAM_UNUSED`, the slots beyond
`e` are as in `a`; the loop stopped on an ignored row only at the end of the
window, returning `SQL_SUCCESS`; and the row index is -1 unless the call
returned at line 595 to ask for the data of row `k`. (3) The row loop entered
on a row from which on every row is marked `SQL_PARAM_IGNORE` returns
`SQL_SUCCESS` with the row index -1 and changes nothing else. (4) If every
row of the window is so marked, the call returns `SQL_SUCCESS` with the row
index -1 and all slots 0..`e` unused. (5) The call returns whenever every
row's execution is defined (`RowsDefined`: no dummy execution, no missing
result of a keyset-driven cursor) and the length/indicator arrays cover the
window, whether the rows succeed, fail or ask for data. (6) If every row's
execution succeeds (`RowsSucceed`), no parameter needs streamed data and the
statement is not pre-executing, the call returns having run to the end of the
window. -/
theorem PGAPI_Execute_status_slots (be : Backend)
    (conn : ConnectionClass) (stmt : StatementClass) (flag : Nat) (s e : Int)
    (text : String) (a : List Int)
    (hs0 : 0 ≤ s) (hse : s ≤ e)
    (hstart : start_row_of stmt = s) (hend : end_row_of stmt = e)
    (hidle : stmt.exec_current_row < 0)
    (htext : stmt.statement = some text)
    (hstatus : stmt.status = STMT_READY ∨ stmt.status = STMT_FINISHED ∨
      (stmt.status = STMT_ALLOCATED ∧ stmt.prepare = false))
    (harr : stmt.ipd.param_status_ptr = some a) (hlen : e.toNat < a.length)
    (hop : ∀ o, stmt.apd.param_operation_ptr = some o → e.toNat < o.length) :
    (∃ c0 s0, s0.exec_current_row = s ∧
      s0.ipd.param_processed_ptr = (stmt.ipd.param_processed_ptr.map fun _ => (0 : Int)) ∧
      s0.ipd.param_status_ptr =
        some (List.replicate (e + 1).toNat SQL_PARAM_UNUSED ++ a.drop (e + 1).toNat) ∧
      PGAPI_Execute be conn stmt flag = next_param_row be e ((e - s).toNat + 1) c0 s0) ∧
    (∀ rv c1 s1, PGAPI_Execute be conn stmt flag = some (rv, c1, s1) →
      ∃ (a1 : List Int) (k : Nat), s.toNat ≤ k ∧ k ≤ e.toNat ∧
        s1.ipd.param_status_ptr = some a1 ∧ a1.length = a.length ∧
        s1.ipd.param_processed_ptr =
          (stmt.ipd.param_processed_ptr.map fun _ =>
            if stmt.pre_executing = true then (0 : Int)
            else ((live_rows stmt.apd.param_operation_ptr (k + 1 - s.toNat) s.toNat : Nat) :
              Int)) ∧
        (∀ j : Nat, j ≤ e.toNat →
          (j < s.toNat ∨ row_ignored stmt.apd.param_operation_ptr j = true) →
          a1[j]? = some SQL_PARAM_UNUSED) ∧
        (∀ j : Nat, s.toNat ≤ j → j ≤ k →
          row_ignored stmt.apd.param_operation_ptr j = false →
          ∃ v, a1[j]? = some v ∧ v ≠ SQL_PARAM_UNUSED) ∧
        (∀ j : Nat, k < j → j ≤ e.toNat → a1[j]? = some SQL_PARAM_UNUSED) ∧
        (∀ j : Nat, e.toNat < j → a1[j]? = a[j]?) ∧
        (row_ignored stmt.apd.param_operation_ptr k = true →
          rv = SQL_SUCCESS ∧ k = e.toNat) ∧
        (s1.exec_current_row = -1 ∨
          (rv = SQL_NEED_DATA ∧ s1.exec_current_row = (k : Int) ∧ 0 < s1.data_at_exec))) ∧
    (∀ (fuel : Nat) (c : ConnectionClass) (st : StatementClass) (o : List Int),
      st.apd.param_operation_ptr = some o → 0 ≤ st.exec_current_row →
      st.exec_current_row ≤ e → e.toNat < o.length →
      (∀ j : Nat, st.exec_current_row.toNat ≤ j → j ≤ e.toNat →
        row_ignored (some o) j = true) →
      next_param_row be e (fuel + 1) c st =
        some (SQL_SUCCESS, c, { st with exec_current_row := -1 })) ∧
    ((∀ j : Nat, s.toNat ≤ j → j ≤ e.toNat →
        row_ignored stmt.apd.param_operation_ptr j = true) →
      ∃ c1 s1, PGAPI_Execute be conn stmt flag = some (SQL_SUCCESS, c1, s1) ∧
        s1.exec_current_row = -1 ∧
        s1.ipd.param_status_ptr =
          some (List.replicate (e + 1).toNat SQL_PARAM_UNUSED ++ a.drop (e + 1).toNat)) ∧
    (RowsDefined be → UsedCover stmt.apd.parameters s e →
      ∃ rv c1 s1, PGAPI_Execute be conn stmt flag = some (rv, c1, s1)) ∧
    (RowsSucceed be → NoDataAtExec stmt.apd.parameters s e → stmt.pre_executing = false →
      ∀ n0 : Int, stmt.ipd.param_processed_ptr = some n0 →
      ∃ rv c1 s1 a1, PGAPI_Execute be conn stmt flag = some (rv, c1, s1) ∧
        s1.ipd.param_status_ptr = some a1 ∧ a1.length = a.length ∧
        s1.exec_current_row = -1 ∧
        (∀ j : Nat, j ≤ e.toNat →
          (j < s.toNat ∨ row_ignored stmt.apd.param_operation_ptr j = true) →
          a1[j]? = some SQL_PARAM_UNUSED) ∧
        (∀ j : Nat, s.toNat ≤ j → j ≤ e.toNat →
          row_ignored stmt.apd.param_operation_ptr j = false →
          ∃ v, a1[j]? = some v ∧ v ≠ SQL_PARAM_UNUSED) ∧
        (∀ j : Nat, e.toNat < j → a1[j]? = a[j]?) ∧
        (∀ k : Nat, s.toNat ≤ k → k ≤ e.toNat →
          (∀ j : Nat, k ≤ j → j ≤ e.toNat →
            row_ignored stmt.apd.param_operation_ptr j = true) →
          rv = SQL_SUCCESS)) := by
  obtain ⟨c0, s0, b1, b2, b3, b4, b6, b5⟩ := PGAPI_Execute_batch_start be conn stmt flag s e
    text a hs0 hse hstart hend hidle htext hstatus harr hlen
  obtain ⟨-, q2, q3, q4⟩ := reset_param_status_covering a e (by omega) hlen
  refine ⟨⟨c0, s0, b1, b2, b3, b5⟩, ?_, ?_, ?_, ?_, ?_⟩
  · intro rv c1 s1 hrun
    rw [b5] at hrun
    obtain ⟨a1, k, k1, k2, z1, ⟨z2, z3, z4⟩, z5, z6, z7⟩ :=
      next_param_row_slots_any be stmt.apd.param_operation_ptr e stmt.pre_executing
        stmt.ipd.param_processed_ptr hop _ c0 c1 s0 s1 0 _ rv b4
        (by rw [b1]; exact hs0) (by rw [b1]; exact hse) b2 b3 hrun
    rw [b1] at k1 z3 z4 z5
    refine ⟨a1, k, k1, k2, z1, by rw [z2, q2], by simpa using z5, ?_, z4, ?_, ?_, z6, z7⟩
    · intro j hj hor
      rw [z3 j (by rcases hor with h | h; exact Or.inl h; exact Or.inr (Or.inr h))]
      exact q3 j hj
    · intro j hj1 hj2
      rw [z3 j (Or.inr (Or.inl hj1))]
      exact q3 j hj2
    · intro j hj
      rw [z3 j (Or.inr (Or.inl (by omega)))]
      exact q4 j hj
  · intro fuel c st o ho h0 hle hl hall
    exact next_param_row_all_ignored be o e fuel c st ho h0 hle hl hall
  · intro hall
    cases hopc : stmt.apd.param_operation_ptr with
    | none =>
      have := hall s.toNat (le_refl _) (by omega)
      rw [hopc] at this
      exact absurd this (by simp [row_ignored])
    | some o =>
      have hrun := next_param_row_all_ignored be o e (e - s).toNat c0 s0
        (by rw [b4.1, hopc]) (by rw [b1]; exact hs0) (by rw [b1]; exact hse) (hop o hopc)
        (fun j h1 h2 => by
          rw [b1] at h1
          have := hall j h1 h2
          rw [hopc] at this
          exact this)
      rw [b5, hrun]
      exact ⟨_, _, rfl, rfl, b3⟩
  · intro hdef hcov
    rw [b5]
    exact next_param_row_returns be hdef stmt.apd.param_operation_ptr s e stmt.pre_executing
      hs0 hop (e - s).toNat _ c0 s0 b4 (by rw [b6]; exact hcov) (by rw [b1])
      (by rw [b1]; omega) (le_refl _)
  · intro hsucc hnodae hpre n0 hcnt
    exact (PGAPI_Execute_slots_when_rows_succeed be hsucc conn stmt flag s e n0 text a hs0 hse
      hstart hend hidle htext hstatus hpre hcnt harr hlen hop hnodae).2

/-- C19 at a concrete input: of the rows 0..3 of `batchStmt` the rows 1 and 3
are marked `SQL_PARAM_IGNORE`. When the execution of row 0 fails, the call
returns `SQL_ERROR` with the slots 5, 7, 7, 7: row 0 holds `SQL_PARAM_ERROR`,
the ignored rows and row 2, which was not reached, hold `SQL_PARAM_UNUSED`.
When every execution succeeds, the slots of the rows 1 and 3 end as
`SQL_PARAM_UNUSED` (7), those of the rows 0 and 2 as `SQL_PARAM_SUCCESS` (0),
and the call returns `SQL_SUCCESS` with the row index -1. -/
theorem PGAPI_Execute_status_slots_witness :
    (∀ rv c1 s1, PGAPI_Execute failingRowBackend idleConn batchStmt 0 = some (rv, c1, s1) →
      ∃ (a1 : List Int) (k : Nat), (0 : Int).toNat ≤ k ∧ k ≤ (3 : Int).toNat ∧
        s1.ipd.param_status_ptr = some a1 ∧ a1.length = [(0 : Int), 0, 0, 0].length ∧
        s1.ipd.param_processed_ptr =
          (batchStmt.ipd.param_processed_ptr.map fun _ =>
            if batchStmt.pre_executing = true then (0 : Int)
            else ((live_rows batchStmt.apd.param_operation_ptr (k + 1 - (0 : Int).toNat)
              (0 : Int).toNat : Nat) : Int)) ∧
        (∀ j : Nat, j ≤ (3 : Int).toNat →
          (j < (0 : Int).toNat ∨ row_ignored batchStmt.apd.param_operation_ptr j = true) →
          a1[j]? = some SQL_PARAM_UNUSED) ∧
        (∀ j : Nat, (0 : Int).toNat ≤ j → j ≤ k →
          row_ignored batchStmt.apd.param_operation_ptr j = false →
          ∃ v, a1[j]? = some v ∧ v ≠ SQL_PARAM_UNUSED) ∧
        (∀ j : Nat, k < j → j ≤ (3 : Int).toNat → a1[j]? = some SQL_PARAM_UNUSED) ∧
        (∀ j : Nat, (3 : Int).toNat < j → a1[j]? = [(0 : Int), 0, 0, 0][j]?) ∧
        (row_ignored batchStmt.apd.param_operation_ptr k = true →
          rv = SQL_SUCCESS ∧ k = (3 : Int).toNat) ∧
        (s1.exec_current_row = -1 ∨
          (rv = SQL_NEED_DATA ∧ s1.exec_current_row = (k : Int) ∧ 0 < s1.data_at_exec))) ∧
    (∃ rv c1 s1, PGAPI_Execute failingRowBackend idleConn batchStmt 0 = some (rv, c1, s1)) ∧
    (∃ rv c1 s1 a1, PGAPI_Execute okBackend idleConn batchStmt 0 = some (rv, c1, s1) ∧
      s1.ipd.param_status_ptr = some a1 ∧ a1.length = [(0 : Int), 0, 0, 0].length ∧
      s1.exec_current_row = -1 ∧
      (∀ j : Nat, j ≤ (3 : Int).toNat →
        (j < (0 : Int).toNat ∨ row_ignored batchStmt.apd.param_operation_ptr j = true) →
        a1[j]? = some SQL_PARAM_UNUSED) ∧
      (∀ j : Nat, (0 : Int).toNat ≤ j → j ≤ (3 : Int).toNat →
        row_ignored batchStmt.apd.param_operation_ptr j = false →
        ∃ v, a1[j]? = some v ∧ v ≠ SQL_PARAM_UNUSED) ∧
      (∀ j : Nat, (3 : Int).toNat < j → a1[j]? = [(0 : Int), 0, 0, 0][j]?) ∧
      (∀ k : Nat, (0 : Int).toNat ≤ k → k ≤ (3 : Int).toNat →
        (∀ j : Nat, k ≤ j → j ≤ (3 : Int).toNat →
          row_ignored batchStmt.apd.param_operation_ptr j = true) →
        rv = SQL_SUCCESS)) ∧
    (PGAPI_Execute failingRowBackend idleConn batchStmt 0).map
      (fun r => (r.1, r.2.2.ipd.param_status_ptr, r.2.2.exec_current_row,
        r.2.2.ipd.param_processed_ptr)) =
      some (SQL_ERROR, some [SQL_PARAM_ERROR, SQL_PARAM_UNUSED, SQL_PARAM_UNUSED,
        SQL_PARAM_UNUSED], -1, some 1) ∧
    (PGAPI_Execute okBackend idleConn batchStmt 0).map
      (fun r => (r.1, r.2.2.ipd.param_status_ptr, r.2.2.exec_current_row,
        r.2.2.ipd.param_processed_ptr)) =
      some (SQL_SUCCESS, some [SQL_PARAM_SUCCESS, SQL_PARAM_UNUSED, SQL_PARAM_SUCCESS,
        SQL_PARAM_UNUSED], -1, some 2) :=
  ⟨(PGAPI_Execute_status_slots failingRowBackend idleConn batchStmt 0 0 3
      "INSERT INTO t VALUES (?)" [0, 0, 0, 0] (by decide) (by decide) rfl rfl (by decide) rfl
      (Or.inl rfl) rfl (by decide)
      (fun o ho => by
        have : o = [SQL_PARAM_PROCEED, SQL_PARAM_IGNORE, SQL_PARAM_PROCEED,
            SQL_PARAM_IGNORE] := by
          simpa [batchStmt] using ho.symm
        subst this
        decide)).2.1,
    (PGAPI_Execute_status_slots failingRowBackend idleConn batchStmt 0 0 3
      "INSERT INTO t VALUES (?)" [0, 0, 0, 0] (by decide) (by decide) rfl rfl (by decide) rfl
      (Or.inl rfl) rfl (by decide)
      (fun o ho => by
        have : o = [SQL_PARAM_PROCEED, SQL_PARAM_IGNORE, SQL_PARAM_PROCEED,
            SQL_PARAM_IGNORE] := by
          simpa [batchStmt] using ho.symm
        subst this
        decide)).2.2.2.2.1 failingRowBackend_rows_defined batchStmt_used_cover,
    (PGAPI_Execute_status_slots okBackend idleConn batchStmt 0 0 3
      "INSERT INTO t VALUES (?)" [0, 0, 0, 0] (by decide) (by decide) rfl rfl (by decide) rfl
      (Or.inl rfl) rfl (by decide)
      (fun o ho => by
        have : o = [SQL_PARAM_PROCEED, SQL_PARAM_IGNORE, SQL_PARAM_PROCEED,
            SQL_PARAM_IGNORE] := by
          simpa [batchStmt] using ho.symm
        subst this
        decide)).2.2.2.2.2 okBackend_rows_succeed batchStmt_no_data_at_exec rfl 9 rfl,
    rfl, rfl⟩

/-! ## Theorems: the large object and the rows that follow -/

theorem check_data_at_exec_lobj_fd (stmt s : StatementClass) (b : Bool)
    (h : check_data_at_exec stmt = some (b, s)) : s.lobj_fd = stmt.lobj_fd := by
  unfold check_data_at_exec at h
  split at h
  · simp only [] at h
    split at h
    · exact Option.noConfusion h
    · simp only [Option.some.injEq, Prod.mk.injEq] at h
      obtain ⟨-, h2⟩ := h
      subst h2
      rfl
  · simp only [Option.some.injEq, Prod.mk.injEq] at h
    obtain ⟨-, h2⟩ := h
    subst h2
    rfl

/-- The row loop does not touch `lobj_fd`. -/
theorem next_param_row_lobj_fd (be : Backend) (e : Int) :
    ∀ (fuel : Nat) (conn : ConnectionClass) (st : StatementClass) (rv : RETCODE)
      (c1 : ConnectionClass) (s1 : StatementClass),
      next_param_row be e fuel conn st = some (rv, c1, s1) → s1.lobj_fd = st.lobj_fd := by
  intro fuel
  induction fuel with
  | zero => intro conn st rv c1 s1 h; simp [next_param_row] at h
  | succ n ih =>
    intro conn st rv c1 s1 h
    unfold next_param_row at h
    simp only [] at h
    split at h
    · exact Option.noConfusion h
    · simp only [Option.some.injEq, Prod.mk.injEq] at h
      obtain ⟨-, -, h3⟩ := h
      subst h3
      rfl
    · split at h
      · exact Option.noConfusion h
      · rename_i s2 hset
        obtain ⟨f1, -⟩ := set_row_status_frame _ _ _ hset
        have l2 : s2.lobj_fd = st.lobj_fd := f1.2.2.2.2.2.2.2.2.2.2.1
        split at h
        · exact Option.noConfusion h
        · rename_i s3 hchk
          simp only [Option.some.injEq, Prod.mk.injEq] at h
          obtain ⟨-, -, h3⟩ := h
          subst h3
          rw [check_data_at_exec_lobj_fd _ _ _ hchk, l2]
        · rename_i s3 hchk
          have l3 : s3.lobj_fd = st.lobj_fd := by
            rw [check_data_at_exec_lobj_fd _ _ _ hchk, l2]
          split at h
          · exact Option.noConfusion h
          · rename_i rv2 ee c2 s4 hex
            obtain ⟨g1, -⟩ := Exec_with_parameters_resolved_frame _ _ _ _ _ _ _ hex
            have l4 : s4.lobj_fd = st.lobj_fd := by
              rw [g1.2.2.2.2.2.2.2.2.2.2.1, l3]
            split at h
            · rw [ih _ _ _ _ _ h, l4]
            · simp only [Option.some.injEq, Prod.mk.injEq] at h
              obtain ⟨-, -, h3⟩ := h
              subst h3
              exact l4

theorem execute_rows_lobj_fd (be : Backend) (conn c1 : ConnectionClass)
    (stmt s1 : StatementClass) (recycled : Bool) (rv : RETCODE)
    (h : execute_rows be conn stmt false recycled = some (rv, c1, s1)) :
    s1.lobj_fd = stmt.lobj_fd := by
  unfold execute_rows at h
  simp only [] at h
  split at h
  · exact Option.noConfusion h
  · rename_i c2 s2 hinit
    have key : s2.lobj_fd = stmt.lobj_fd := by
      simp only [Bool.false_and, Bool.false_eq_true, if_false] at hinit
      repeat' (first
        | exact Option.noConfusion hinit
        | (simp only [Option.some.injEq, Prod.mk.injEq] at hinit
           obtain ⟨-, h2⟩ := hinit
           subst h2
           rfl)
        | split at hinit)
    rw [next_param_row_lobj_fd be _ _ _ _ _ _ _ h, key]

/-- `PGAPI_Execute` entered on a row after the first, as `PGAPI_ParamData`
enters it for the rows that follow, does not touch `lobj_fd`, unless it
recycles a statement left premature with an inaccurate result. -/
theorem PGAPI_Execute_lobj_fd (be : Backend) (conn c1 : ConnectionClass)
    (stmt s1 : StatementClass) (flag : Nat) (rv : RETCODE)
    (hrow : 0 < stmt.exec_current_row)
    (hnr : ¬ (stmt.prepare = true ∧ stmt.status = STMT_PREMATURE ∧
      stmt.inaccurate_result = true))
    (h : PGAPI_Execute be conn stmt flag = some (rv, c1, s1)) :
    s1.lobj_fd = stmt.lobj_fd := by
  unfold PGAPI_Execute at h
  simp only [] at h
  split at h
  · rename_i rv2 c2 s2 hearly
    simp only [Option.some.injEq, Prod.mk.injEq] at h
    obtain ⟨-, -, h3⟩ := h
    subst h3
    split at hearly
    · split at hearly
      · simp at hearly
      · split at hearly
        · simp only [Prod.mk.injEq, Option.some.injEq] at hearly
          obtain ⟨-, -, e3⟩ := hearly
          subst e3
          rfl
        · simp only [Prod.mk.injEq, Option.some.injEq] at hearly
          obtain ⟨-, -, e3⟩ := hearly
          subst e3
          rfl
    · simp at hearly
  · rename_i c2 s2 hearly
    have key : s2 = stmt := by
      split at hearly
      · rename_i hp
        split at hearly
        · rename_i hi
          simp only [Bool.and_eq_true, decide_eq_true_eq] at hp
          exact absurd ⟨hp.1, hp.2, hi⟩ hnr
        · split at hearly
          · simp at hearly
          · simp at hearly
      · simp only [Prod.mk.injEq, true_and] at hearly
        exact hearly.2.symm
    subst key
    split at h
    · simp only [Option.some.injEq, Prod.mk.injEq] at h
      obtain ⟨-, -, h3⟩ := h
      subst h3
      rfl
    · split at h
      · exact execute_rows_lobj_fd be _ _ (SC_clear_error s2) _ _ _ h
      · rename_i hneg
        exact absurd hrow hneg

theorem next_token_lobj_fd (h : Handle) (conn : ConnectionClass) (estmt : StatementClass)
    (prgbValue : Bool) :
    (next_token h conn estmt prgbValue).estmt.lobj_fd = estmt.lobj_fd := by
  unfold next_token
  simp only []
  split <;> rfl

/-- C24: whenever `PGAPI_ParamData` passes its sequence checks with an open
large object (`lobj_fd >= 0`), the first request it makes is the close of that
descriptor, followed at most by the in-line commit. If that commit does not
fail, the statement the call goes on with has `lobj_fd = -1`: with parameters
pending the call is `next_token` on that statement and the statement it hands
back has `lobj_fd = -1`; with nothing pending the call runs
`Exec_with_parameters_resolved` on that statement, every statement the
execution leaves has `lobj_fd = -1`, and so has the statement of a call that
reports the batch done, and that of a call that goes on with the rows that
follow (unless `PGAPI_Execute` recycles there a statement left premature with
an inaccurate result). If the in-line commit fails, the call returns
`SQL_ERROR` having requested the close and the commit only: no token is handed
out, no row is executed or reported complete, and the statement is as it
was. -/
theorem PGAPI_ParamData_closes_large_object (be : Backend) (h : Handle) (prgbValue : Bool)
    (h1 : ¬ h.estmt.data_at_exec < 0)
    (h2 : ¬ h.estmt.data_at_exec > (h.estmt.apd.parameters.length : Int))
    (hfd : h.estmt.lobj_fd ≥ 0) :
    ((closed_conn be h).requests = h.conn.requests ++ [Request.lo_close h.estmt.lobj_fd] ∨
      (closed_conn be h).requests =
        h.conn.requests ++ [Request.lo_close h.estmt.lobj_fd, Request.CC_commit]) ∧
    (inline_commit_fails be h = false →
      (h.estmt.data_at_exec ≠ 0 →
        PGAPI_ParamData be h prgbValue =
          some (next_token h (closed_conn be h) { h.estmt with lobj_fd := -1 } prgbValue) ∧
        ∃ r, PGAPI_ParamData be h prgbValue = some r ∧ r.retval = SQL_NEED_DATA ∧
          r.estmt.lobj_fd = -1 ∧ r.handle.estmt.lobj_fd = -1 ∧
          r.handle.conn = closed_conn be h) ∧
      (h.estmt.data_at_exec = 0 →
        PGAPI_ParamData be h prgbValue =
          (match Exec_with_parameters_resolved be (closed_conn be h)
              { h.estmt with lobj_fd := -1 } with
          | none => none
          | some (retval, exec_end, conn, estmt) =>
            if exec_end then
              some { retval := be.dequeueNeedDataCallback retval
                       (detach_delegate h conn estmt).stmt,
                     token := none,
                     handle := detach_delegate h conn estmt, estmt := estmt }
            else resume_rows be h conn estmt prgbValue) ∧
        (∀ retval exec_end conn estmt,
          Exec_with_parameters_resolved be (closed_conn be h) { h.estmt with lobj_fd := -1 } =
            some (retval, exec_end, conn, estmt) →
          estmt.lobj_fd = -1 ∧
          (exec_end = true →
            ∃ r, PGAPI_ParamData be h prgbValue = some r ∧ r.token = none ∧
              r.estmt = estmt ∧ r.estmt.lobj_fd = -1) ∧
          (exec_end = false → 0 ≤ h.estmt.exec_current_row →
            ¬ (estmt.prepare = true ∧ estmt.status = STMT_PREMATURE ∧
              estmt.inaccurate_result = true) →
            ∀ r, PGAPI_ParamData be h prgbValue = some r → r.estmt.lobj_fd = -1)))) ∧
    (inline_commit_fails be h = true →
      ∃ r, PGAPI_ParamData be h prgbValue = some r ∧ r.retval = SQL_ERROR ∧ r.token = none ∧
        r.estmt = h.estmt ∧ r.handle.estmt.lobj_fd = h.estmt.lobj_fd ∧
        r.handle.conn.requests =
          h.conn.requests ++ [Request.lo_close h.estmt.lobj_fd, Request.CC_commit]) := by
  have hcs := closed_stmt_open h.estmt hfd
  refine ⟨?_, fun hc => ⟨fun hne => ?_, fun hz => ?_⟩, fun hc => ?_⟩
  · unfold closed_conn
    rw [if_pos hfd]
    cases hg : (!h.conn.use_declarefetch && (lo_close be h.conn h.estmt.lobj_fd).2.autocommit)
    · left
      simp [lo_close]
    · right
      simp [lo_close, CC_commit]
  · have heq := PGAPI_ParamData_after_close be h prgbValue h1 h2 hc
    rw [if_neg hne, hcs] at heq
    refine ⟨heq, _, heq, ?_, ?_, ?_, ?_⟩
    · unfold next_token
      simp only []
      split <;> rfl
    · unfold next_token
      simp only []
      split <;> rfl
    · unfold next_token
      simp only []
      split
      · simp only [Handle.estmt_store]
      · simp only [Handle.estmt_store]
    · unfold next_token
      simp only []
      split
      · simp only [Handle.conn_store]
      · simp only [Handle.conn_store]
  · have heq := PGAPI_ParamData_after_close be h prgbValue h1 h2 hc
    rw [if_pos hz, hcs] at heq
    refine ⟨heq, fun retval exec_end conn estmt hex => ?_⟩
    have hfr := (Exec_with_parameters_resolved_frame _ _ _ _ _ _ _ hex).1
    have hl : estmt.lobj_fd = -1 := hfr.2.2.2.2.2.2.2.2.2.2.1
    refine ⟨hl, fun hee => ?_, fun hee h0 hnr r hr => ?_⟩
    · subst hee
      rw [hex] at heq
      exact ⟨_, heq, rfl, rfl, hl⟩
    · subst hee
      rw [heq, hex] at hr
      simp only [Bool.false_eq_true, if_false] at hr
      obtain ⟨-, -, -, x4, -⟩ := Exec_with_parameters_resolved_frame _ _ _ _ _ _ _ hex
      obtain ⟨y1, -⟩ := x4 rfl
      have hrow : 0 < estmt.exec_current_row := by
        rw [y1]
        show 0 < h.estmt.exec_current_row + 1
        omega
      unfold resume_rows at hr
      split at hr
      · exact Option.noConfusion hr
      · rename_i rv3 c3 s3 hexe
        have l3 : s3.lobj_fd = -1 := by
          rw [PGAPI_Execute_lobj_fd be _ _ _ _ 0 _ hrow hnr hexe, hl]
        split at hr
        · simp only [Option.some.injEq] at hr
          subst hr
          exact l3
        · simp only [Option.some.injEq] at hr
          subst hr
          rw [next_token_lobj_fd, l3]
  · have heq := PGAPI_ParamData_commit_fails be h prgbValue h1 h2 hc
    refine ⟨_, heq, rfl, rfl, rfl, ?_, ?_⟩
    · cases hd : h.execute_delegate <;> simp [Handle.set_error, Handle.estmt, hd, SC_set_error]
    · obtain ⟨tail, t1, -, -, t4⟩ := closed_conn_requests be h
      rw [t4 hc] at t1
      simpa [Handle.set_error] using t1

/-- C24 at a concrete input: the handle `lobjOpenHandle` has descriptor 3 open
and nothing pending. With a commit that succeeds the call closes the
descriptor, commits, runs the row with `lobj_fd = -1` and reports the batch
done; with a commit that fails it returns `SQL_ERROR` after the close and the
commit, executing nothing. -/
theorem PGAPI_ParamData_closes_large_object_witness :
    lobjOpenHandle.estmt.lobj_fd = 3 ∧ lobjOpenHandle.estmt.data_at_exec = 0 ∧
    (closed_conn okBackend lobjOpenHandle).requests =
      lobjOpenHandle.conn.requests ++ [Request.lo_close 3, Request.CC_commit] ∧
    (∀ retval exec_end conn estmt,
      Exec_with_parameters_resolved okBackend (closed_conn okBackend lobjOpenHandle)
          { lobjOpenHandle.estmt with lobj_fd := -1 } = some (retval, exec_end, conn, estmt) →
      estmt.lobj_fd = -1 ∧
      (exec_end = true →
        ∃ r, PGAPI_ParamData okBackend lobjOpenHandle true = some r ∧ r.token = none ∧
          r.estmt = estmt ∧ r.estmt.lobj_fd = -1) ∧
      (exec_end = false → 0 ≤ lobjOpenHandle.estmt.exec_current_row →
        ¬ (estmt.prepare = true ∧ estmt.status = STMT_PREMATURE ∧
          estmt.inaccurate_result = true) →
        ∀ r, PGAPI_ParamData okBackend lobjOpenHandle true = some r → r.estmt.lobj_fd = -1)) ∧
    (PGAPI_ParamData okBackend lobjOpenHandle true).map
        (fun r => (r.retval, r.token, r.estmt.lobj_fd, r.handle.conn.requests)) =
      some (SQL_SUCCESS, none, -1,
        [Request.CC_begin, Request.lo_creat, Request.lo_open 1, Request.lo_write 3 [1, 2, 3],
         Request.lo_close 3, Request.CC_commit,
         Request.SC_execute (some "INSERT INTO t VALUES (?)")]) ∧
    (∃ r, PGAPI_ParamData failingCommitBackend lobjOpenHandle true = some r ∧
      r.retval = SQL_ERROR ∧ r.token = none ∧ r.estmt = lobjOpenHandle.estmt ∧
      r.handle.estmt.lobj_fd = lobjOpenHandle.estmt.lobj_fd ∧
      r.handle.conn.requests =
        lobjOpenHandle.conn.requests ++ [Request.lo_close lobjOpenHandle.estmt.lobj_fd,
          Request.CC_commit]) :=
  ⟨rfl, rfl, rfl,
    ((PGAPI_ParamData_closes_large_object okBackend lobjOpenHandle true (by decide) (by decide)
      (by decide)).2.1 rfl).2 rfl |>.2,
    rfl,
    (PGAPI_ParamData_closes_large_object failingCommitBackend lobjOpenHandle true (by decide)
      (by decide) (by decide)).2.2 rfl⟩

end Psqlodbc
